import Mathlib

/-!
# RINEX decoder (`src/src/rinex.cpp`): shallow embedding and verified properties

C `double` values are modelled as rationals, C `int` values as `Int`, arrays as
total maps from `Nat`, and a text line as a `List Char`.  Functions and constants
of `rtklib.h` / `rtkcmn.c`, which are not part of `rinex.cpp`, are collected in
the structure `Ext` and every definition is parametric in it.
-/

namespace Rinex

/-! ## External collaborators and basic text helpers -/

/-- Time value `gtime_t` of `rtklib.h`: integer seconds and a fraction. -/
structure gtime_t where
  time : Int
  sec : ℚ

/-- Constants and functions that `rinex.cpp` takes from `rtklib.h` and
`rtkcmn.c`; they are outside `rinex.cpp` and are left as parameters here. -/
structure Ext where
  /-- Number of carrier frequencies, `NFREQ` -/
  NFREQ : Nat
  /-- Number of extended observation slots, `NEXOBS` -/
  NEXOBS : Nat
  /-- Maximum number of observations in an epoch, `MAXOBS` -/
  MAXOBS : Nat
  /-- Number of satellites, `MAXSAT` -/
  MAXSAT : Nat
  SYS_GPS : Nat
  SYS_SBS : Nat
  SYS_GLO : Nat
  SYS_GAL : Nat
  SYS_QZS : Nat
  SYS_CMP : Nat
  SYS_IRN : Nat
  /-- Empty system mask, `SYS_NONE` -/
  SYS_NONE : Nat
  /-- Mask of every system, `SYS_ALL` -/
  SYS_ALL : Nat
  TSYS_UTC : Int
  TSYS_CMP : Int
  /-- Function `str2num(s,i,n)`: number read from the `n` columns of `s` starting at `i` -/
  str2num : List Char → Nat → Nat → ℚ
  /-- Function `str2time(s,i,n,&t)`: `some t` when it returns 0, `none` when it fails -/
  str2time : List Char → Nat → Nat → Option gtime_t
  /-- Function `satid2no(id)`: satellite number of an identifier, 0 on error -/
  satid2no : List Char → Int
  /-- Function `satsys(sat,NULL)`: system code of a satellite number -/
  satsys : Nat → Nat
  /-- Function `obs2code(obs,&freq)`: code number and frequency of a two-letter code -/
  obs2code : List Char → Nat × Int
  /-- Function `code2obs(code,NULL)`: the two-letter string of a code number -/
  code2obs : Nat → List Char
  /-- Function `getcodepri(sys,code,opt)`: priority of a code, 0 when unsupported -/
  getcodepri : Nat → Nat → List Char → Int
  /-- Call `sscanf(p,"-?L%2s=%lf",str,&shift)` for the system letter `?`: the two
  scanned items when both are read (the call returns 2) -/
  scanShift : Char → List Char → Option (List Char × ℚ)
  /-- Function `norm(a,n)` applied to the listed `n` components -/
  norm : List ℚ → ℚ
  /-- Function `screent(time,ts,te,tint)` -/
  screent : gtime_t → gtime_t → gtime_t → ℚ → Bool
  utc2gpst : gtime_t → gtime_t
  bdt2gpst : gtime_t → gtime_t
  /-- Function `satid2sys(id)`: system code of a satellite identifier -/
  satid2sys : List Char → Nat
  /-- Function `satno(sys,prn)`: satellite number, 0 on error -/
  satno : Nat → Int → Int
  /-- Function `gpst2time(week,sec)` -/
  gpst2time : Int → ℚ → gtime_t
  /-- Function `time2gpst(t,&week)`: the returned seconds of week and the week -/
  time2gpst : gtime_t → ℚ × Int
  /-- Function `bdt2time(week,sec)` -/
  bdt2time : Int → ℚ → gtime_t
  /-- Function `time2bdt(t,&week)`: the returned seconds of week and the week -/
  time2bdt : gtime_t → ℚ × Int
  /-- Function `timediff(t1,t2)`: `t1 - t2` in seconds -/
  timediff : gtime_t → gtime_t → ℚ
  /-- Function `timeadd(t,sec)` -/
  timeadd : gtime_t → ℚ → gtime_t
  /-- Half-cycle bit of the loss-of-lock flag, `LLI_HALFC` -/
  LLI_HALFC : Nat
  /-- Tracking bit of the loss-of-lock flag, `LLI_BOCTRK` -/
  LLI_BOCTRK : Nat
  /-- Maximum receiver number, `MAXRCV` -/
  MAXRCV : Int
  /-- First SBAS prn number, `MINPRNSBS` -/
  MINPRNSBS : Int
  /-- Output `prn` of `satsys(sat,&prn)` -/
  satprn : Nat → Int
  /-- Function `time2epoch(t,ep)`: component `ep[k]` of the calendar time -/
  time2epoch : gtime_t → Nat → ℚ
  /-- Number of observation types of a system, `MAXOBSTYPE` -/
  MAXOBSTYPE : Nat
  /-- Largest GLONASS slot number, `MAXPRNGLO` -/
  MAXPRNGLO : Nat
  /-- Call `sscanf(p,"R%2d %2d",&prn,&fcn)`: the two numbers when both are read
  (the call returns 2) -/
  scanSlot : List Char → Option (Int × Int)

/-- C conversion `(int)x` of a `double`: truncation toward zero. -/
def toInt (x : ℚ) : Int := Int.tdiv x.num x.den

/-- C conversion `(unsigned char)n` of an `int`. -/
def toUChar (n : Int) : Nat := (n % 256).toNat

/-- Test `!strncmp(buff,tag,strlen(tag))`: `buff` starts with `tag`. -/
def startsWith (buff tag : List Char) : Bool := tag.isPrefixOf buff

/-- Test `strstr(s,pat)!=NULL`: `pat` occurs in `s`. -/
def strstr : List Char → List Char → Bool
  | [], pat => pat.isEmpty
  | c :: cs, pat => pat.isPrefixOf (c :: cs) || strstr cs pat

/-- Pointer `buff+60`, the label part of a header line. -/
def labelOf (buff : List Char) : List Char := buff.drop 60

/-- Loop `for (i=0,j=j0;i<cnt;i++,j+=w) a[off+i]=str2num(buff,j,w);`. -/
def readCols (E : Ext) (buff : List Char) (j0 w cnt off : Nat) (a : Nat → ℚ) : Nat → ℚ :=
  fun i => if off ≤ i ∧ i < off + cnt then E.str2num buff (j0 + w * (i - off)) w else a i

/-! ## Navigation header (`rinex.cpp` lines 509-676) -/

/-- Function `AZ2hour(az)`: letter A..Z or a..z to hour 0..25, else -1. -/
def AZ2hour (az : Char) : Int :=
  if az.toNat ≥ 65 ∧ az.toNat ≤ 90 then (az.toNat : Int) - 65
  else if az.toNat ≥ 97 ∧ az.toNat ≤ 122 then (az.toNat : Int) - 97
  else -1

/-- One BeiDou ionosphere record (`bdsk8[]` / `bdssh9[]` element). -/
structure bdsion_t where
  hour : Int
  sat : Int
  ion : Nat → ℚ

/-- Part of `nav_t` written by `decode_navh`. -/
structure nav_t where
  ion_gps : Nat → ℚ
  ion_gal : Nat → ℚ
  ion_qzs : Nat → ℚ
  ion_irn : Nat → ℚ
  utc_gps : Nat → ℚ
  utc_glo : Nat → ℚ
  utc_gal : Nat → ℚ
  utc_qzs : Nat → ℚ
  utc_cmp : Nat → ℚ
  utc_irn : Nat → ℚ
  leaps : Int
  /-- Field `ion_bdsk9->bds_ion.bdsk8` -/
  bdsk8 : Nat → bdsion_t
  /-- Field `ion_bdsk9->bds_ion.nk8` -/
  nk8 : Nat
  /-- Field `ion_bdsk9->bds_ion.bdssh9` -/
  bdssh9 : Nat → bdsion_t
  /-- Field `ion_bdsk9->bds_ion.nsh9` -/
  nsh9 : Nat

/-- The four assignments of a `TIME SYSTEM CORR` line. -/
def readUtc4 (E : Ext) (buff : List Char) (u : Nat → ℚ) : Nat → ℚ :=
  Function.update (Function.update (Function.update (Function.update u
    0 (E.str2num buff 5 17)) 1 (E.str2num buff 22 16)) 2 (E.str2num buff 38 7))
    3 (E.str2num buff 45 5)

/-- Branch `IONOSPHERIC CORR` of `decode_navh`. -/
def decode_navh_ion (E : Ext) (buff : List Char) (nav : nav_t) : nav_t :=
  if startsWith buff "GPSA".toList then
    { nav with ion_gps := readCols E buff 5 12 4 0 nav.ion_gps }
  else if startsWith buff "GPSB".toList then
    { nav with ion_gps := readCols E buff 5 12 4 4 nav.ion_gps }
  else if startsWith buff "GAL".toList then
    { nav with ion_gal := readCols E buff 5 12 4 0 nav.ion_gal }
  else if startsWith buff "QZSA".toList then
    { nav with ion_qzs := readCols E buff 5 12 4 0 nav.ion_qzs }
  else if startsWith buff "QZSB".toList then
    { nav with ion_qzs := readCols E buff 5 12 4 4 nav.ion_qzs }
  else if startsWith buff "BDSA".toList then
    let hour := AZ2hour (buff.getD 54 (Char.ofNat 0))
    let sat := toInt (E.str2num buff 57 2)
    let nk8 := nav.nk8
    let ionvalue := readCols E buff 5 12 4 0 (fun _ => 0)
    let r := nav.bdsk8 nk8
    let r1 : bdsion_t :=
      { hour := hour, sat := sat,
        ion := fun i => if i < 4 then ionvalue i else if i < 8 then 0 else r.ion i }
    { nav with bdsk8 := Function.update nav.bdsk8 nk8 r1 }
  else if startsWith buff "BDSB".toList then
    let hour := AZ2hour (buff.getD 54 (Char.ofNat 0))
    let sat := toInt (E.str2num buff 57 2)
    let nk8 := nav.nk8
    let ionvalue := readCols E buff 5 12 4 0 (fun _ => 0)
    let r := nav.bdsk8 nk8
    if r.hour = hour ∧ r.sat = sat then
      let r1 : bdsion_t :=
        { r with ion := fun i => if 4 ≤ i ∧ i < 8 then ionvalue (i - 4) else r.ion i }
      let nav1 := { nav with bdsk8 := Function.update nav.bdsk8 nk8 r1 }
      if E.norm [r1.ion 0, r1.ion 1, r1.ion 2, r1.ion 3] ≠ 0 ∧
         E.norm [r1.ion 4, r1.ion 5, r1.ion 6, r1.ion 7] ≠ 0 then
        { nav1 with nk8 := nav1.nk8 + 1 }
      else nav1
    else nav
  else if startsWith buff "BDS1".toList then
    let hour := AZ2hour (buff.getD 54 (Char.ofNat 0))
    let sat := toInt (E.str2num buff 57 2)
    let ionvalue := readCols E buff 5 12 3 0 (fun _ => 0)
    let nsh9 := nav.nsh9
    let r := nav.bdssh9 nsh9
    let r1 : bdsion_t :=
      { hour := hour, sat := sat,
        ion := fun i => if i < 3 then ionvalue i else if i < 9 then 0 else r.ion i }
    { nav with bdssh9 := Function.update nav.bdssh9 nsh9 r1 }
  else if startsWith buff "BDS2".toList then
    let hour := AZ2hour (buff.getD 54 (Char.ofNat 0))
    let sat := toInt (E.str2num buff 57 2)
    let nsh9 := nav.nsh9
    let ionvalue := readCols E buff 5 12 3 0 (fun _ => 0)
    let r := nav.bdssh9 nsh9
    if r.hour = hour ∧ r.sat = sat then
      let r1 : bdsion_t :=
        { r with ion := fun i => if 3 ≤ i ∧ i < 6 then ionvalue (i - 3) else r.ion i }
      { nav with bdssh9 := Function.update nav.bdssh9 nsh9 r1 }
    else nav
  else if startsWith buff "BDS3".toList then
    let hour := AZ2hour (buff.getD 54 (Char.ofNat 0))
    let sat := toInt (E.str2num buff 57 2)
    let nsh9 := nav.nsh9
    let ionvalue := readCols E buff 5 12 3 0 (fun _ => 0)
    let r := nav.bdssh9 nsh9
    if r.hour = hour ∧ r.sat = sat then
      let r1 : bdsion_t :=
        { r with ion := fun i => if 6 ≤ i ∧ i < 9 then ionvalue (i - 6) else r.ion i }
      let nav1 := { nav with bdssh9 := Function.update nav.bdssh9 nsh9 r1 }
      if E.norm [r1.ion 0, r1.ion 1, r1.ion 2] ≠ 0 ∧
         E.norm [r1.ion 3, r1.ion 4, r1.ion 5] ≠ 0 ∧
         E.norm [r1.ion 6, r1.ion 7, r1.ion 8] ≠ 0 then
        { nav1 with nsh9 := nav1.nsh9 + 1 }
      else nav1
    else nav
  else if startsWith buff "IRNA".toList then
    { nav with ion_irn := readCols E buff 5 12 4 0 nav.ion_irn }
  else if startsWith buff "IRNB".toList then
    { nav with ion_irn := readCols E buff 5 12 4 4 nav.ion_irn }
  else nav

/-- Branch `TIME SYSTEM CORR` of `decode_navh`. -/
def decode_navh_utc (E : Ext) (buff : List Char) (nav : nav_t) : nav_t :=
  if startsWith buff "GPUT".toList then
    { nav with utc_gps := readUtc4 E buff nav.utc_gps }
  else if startsWith buff "GLUT".toList then
    { nav with utc_glo := Function.update (Function.update nav.utc_glo
        0 (E.str2num buff 5 17)) 1 (E.str2num buff 22 16) }
  else if startsWith buff "GAUT".toList then
    { nav with utc_gal := readUtc4 E buff nav.utc_gal }
  else if startsWith buff "QZUT".toList then
    { nav with utc_qzs := readUtc4 E buff nav.utc_qzs }
  else if startsWith buff "BDUT".toList then
    { nav with utc_cmp := readUtc4 E buff nav.utc_cmp }
  else if startsWith buff "SBUT".toList then
    { nav with utc_cmp := readUtc4 E buff nav.utc_cmp }
  else if startsWith buff "IRUT".toList then
    { nav with utc_irn := readUtc4 E buff nav.utc_irn }
  else nav

/-- Function `decode_navh(buff,nav)` for a non-null `nav`. -/
def decode_navh (E : Ext) (buff : List Char) (nav : nav_t) : nav_t :=
  let label := labelOf buff
  if strstr label "ION ALPHA".toList then
    { nav with ion_gps := readCols E buff 2 12 4 0 nav.ion_gps }
  else if strstr label "ION BETA".toList then
    { nav with ion_gps := readCols E buff 2 12 4 4 nav.ion_gps }
  else if strstr label "DELTA-UTC: A0,A1,T,W".toList then
    { nav with utc_gps :=
        readCols E buff (3 + 19 * 2) 9 2 2 (readCols E buff 3 19 2 0 nav.utc_gps) }
  else if strstr label "IONOSPHERIC CORR".toList then decode_navh_ion E buff nav
  else if strstr label "TIME SYSTEM CORR".toList then decode_navh_utc E buff nav
  else if strstr label "LEAP SECONDS".toList then
    { nav with leaps := toInt (E.str2num buff 0 6) }
  else nav

/-- Line of the `IONOSPHERIC CORR` block that starts with `tag` and carries none
of the labels that `decode_navh` tests before that block. -/
def ionCorrLine (buff tag : List Char) : Prop :=
  strstr (labelOf buff) "ION ALPHA".toList = false ∧
  strstr (labelOf buff) "ION BETA".toList = false ∧
  strstr (labelOf buff) "DELTA-UTC: A0,A1,T,W".toList = false ∧
  strstr (labelOf buff) "IONOSPHERIC CORR".toList = true ∧
  startsWith buff tag = true

/-! ## Accuracy tables (`rinex.cpp` lines 118-125) -/

/-- Table `ura_eph[]` of `rinex.cpp`: URA thresholds (ref [3] 20.3.3.3.1.1). -/
def ura_eph : List ℚ :=
  [2.4, 3.4, 4.85, 6.85, 9.65, 13.65, 24.0, 48.0, 96.0, 192.0, 384.0, 768.0, 1536.0,
   3072.0, 6144.0, 0.0]

/-- Table `ura_nominal[]` of `rinex.cpp`: URA nominal values. -/
def ura_nominal : List ℚ :=
  [2.0, 2.8, 4.0, 5.7, 8.0, 11.3, 16.0, 32.0, 64.0, 128.0, 256.0, 512.0, 1024.0,
   2048.0, 4096.0, 8192.0]

/-- Function `uravalue(sys,sva)`: URA index to URA nominal value (m). -/
def uravalue (E : Ext) (sys : Nat) (sva : Int) : ℚ :=
  if sys = E.SYS_GAL then
    if sva ≤ 49 then sva * 0.01
    else if sva ≤ 74 then 0.5 + (sva - 50) * 0.02
    else if sva ≤ 99 then 1.0 + (sva - 75) * 0.04
    else if sva ≤ 125 then 2.0 + (sva - 100) * 0.16
    else -1.0
  else
    if 0 ≤ sva ∧ sva < 15 then ura_nominal.getD sva.toNat 0 else 8192.0

/-- Loop of `uraindex`: `for (i=0;i<15;i++) if (ura_eph[i]>=value) break;`,
started at `i` with `fuel` iterations left to try. -/
def uraindexLoop (value : ℚ) : Nat → Nat → Nat
  | 0, i => i
  | fuel + 1, i =>
    if i < 15 then
      if ura_eph.getD i 0 ≥ value then i else uraindexLoop value fuel (i + 1)
    else i

/-- Function `uraindex(value)`: URA value (m) to URA index. -/
def uraindex (value : ℚ) : Int := (uraindexLoop value 15 0 : Nat)

/-! ## Signal index (`rinex.cpp` lines 126-134, 1003-1112) -/

/-- Signal index type `sigind_t`. -/
structure sigind_t where
  /-- Number of index entries. -/
  n : Nat
  /-- Signal frequency (1:L1,2:L2,...). -/
  frq : Nat → Int
  /-- Signal index in obs data (-1:no). -/
  pos : Nat → Int
  /-- Signal priority (15-0), an `unsigned char`. -/
  pri : Nat → Nat
  /-- Type (0:C,1:L,2:D,3:S). -/
  type : Nat → Nat
  /-- Obs code (CODE_L??), an `unsigned char`. -/
  code : Nat → Nat
  /-- Phase shift (cycle). -/
  shift : Nat → ℚ

/-- Expression `(p=strchr(obscodes,c))?(int)(p-obscodes):0` with `obscodes="CLDS"`. -/
def obstype (c : Char) : Nat :=
  if c = 'C' then 0 else if c = 'L' then 1 else if c = 'D' then 2 else if c = 'S' then 3 else 0

/-- Frequency renumbering of `set_index` for BeiDou and Galileo. -/
def remapFrq (E : Ext) (sys : Nat) (f : Int) : Int :=
  if sys = E.SYS_CMP then
    if f = 2 then 1
    else if f = 5 then 2
    else if f = 4 then 3
    else if f = 1 then 4
    else if f = 3 then 5
    else if f = 6 then 6
    else f
  else if sys = E.SYS_GAL then
    if f = 5 then 2 else f
  else f

/-- Body of the first loop of `set_index` for label `t` stored at index `i`. -/
def set_index_entry (E : Ext) (sys : Nat) (opt : List Char) (t : List Char) (i : Nat)
    (ind : sigind_t) : sigind_t :=
  let cf := E.obs2code t.tail
  { ind with
    code := Function.update ind.code i cf.1
    frq := Function.update ind.frq i (remapFrq E sys cf.2)
    type := Function.update ind.type i (obstype (t.headD (Char.ofNat 0)))
    pri := Function.update ind.pri i (toUChar (E.getcodepri sys cf.1 opt))
    pos := Function.update ind.pos i (-1) }

/-- First loop of `set_index`: `for (i=n=0;*tobs[i];i++,n++)`, from index `i` on;
returns the filled index and the count `n`. -/
def set_index_scan (E : Ext) (sys : Nat) (opt : List Char) :
    List (List Char) → Nat → sigind_t → sigind_t × Nat
  | [], i, ind => (ind, i)
  | t :: ts, i, ind =>
    if t = [] then (ind, i)
    else set_index_scan E sys opt ts (i + 1) (set_index_entry E sys opt t i ind)

/-- System letter of the phase-shift option format chosen by the `switch (sys)`. -/
def shiftLetter (E : Ext) (sys : Nat) : Option Char :=
  if sys = E.SYS_GPS then some 'G'
  else if sys = E.SYS_GLO then some 'R'
  else if sys = E.SYS_GAL then some 'E'
  else if sys = E.SYS_QZS then some 'J'
  else if sys = E.SYS_SBS then some 'S'
  else if sys = E.SYS_CMP then some 'C'
  else if sys = E.SYS_IRN then some 'I'
  else none

/-- Phase-shift loop `for (p=opt;p&&(p=strchr(p,'-'));p++)` of `set_index` over
the rest `p` of the option string. -/
def set_index_shift (E : Ext) (sys n : Nat) (code : Nat → Nat) :
    List Char → (Nat → ℚ) → (Nat → ℚ)
  | [], sh => sh
  | c :: cs, sh =>
    let sh1 : Nat → ℚ :=
      if c = '-' then
        match (shiftLetter E sys).bind (fun l => E.scanShift l (c :: cs)) with
        | some (str, v) => fun i => if i < n ∧ E.code2obs (code i) = str then v else sh i
        | none => sh
      else sh
    set_index_shift E sys n code cs sh1

/-- Inner loop of `set_index` for slot `i`: the index `k` of the first code of
frequency `i+1` with the highest nonzero priority, -1 when there is none. -/
def bestCode (ind : sigind_t) (n i : Nat) : Int :=
  (List.range n).foldl
    (fun k j =>
      if ind.frq j = (i : Int) + 1 ∧ ind.pri j ≠ 0 ∧ (k < 0 ∨ ind.pri j > ind.pri k.toNat)
      then (j : Int) else k)
    (-1)

/-- Loop `for (j=0;j<n;j++) if (ind->code[j]==ind->code[k]) ind->pos[j]=v;`. -/
def assignPos (ind : sigind_t) (n k : Nat) (v : Int) : sigind_t :=
  { ind with pos := fun j => if j < n ∧ ind.code j = ind.code k then v else ind.pos j }

/-- Loop "assign index for highest priority code" of `set_index`. -/
def set_index_primary (E : Ext) (n : Nat) (ind : sigind_t) : sigind_t :=
  (List.range E.NFREQ).foldl
    (fun ind i =>
      let k := bestCode ind n i
      if k < 0 then ind else assignPos ind n k.toNat (i : Int))
    ind

/-- Loop `for (j=0;j<n;j++) if (ind->code[j]&&ind->pri[j]&&ind->pos[j]<0) break;`
started at `j`: the final value of `j`. -/
def firstUnassigned (ind : sigind_t) : Nat → Nat → Nat
  | 0, j => j
  | fuel + 1, j =>
    if ind.code j ≠ 0 ∧ ind.pri j ≠ 0 ∧ ind.pos j < 0 then j
    else firstUnassigned ind fuel (j + 1)

/-- Loop "assign index of extended obs data" of `set_index`, from `i` on with
`fuel = NEXOBS - i` iterations left. -/
def set_index_ext (E : Ext) (n : Nat) : Nat → Nat → sigind_t → sigind_t
  | 0, _, ind => ind
  | fuel + 1, i, ind =>
    let j := firstUnassigned ind n 0
    if j ≥ n then ind
    else set_index_ext E n fuel (i + 1) (assignPos ind n j ((E.NFREQ : Int) + i))

/-- Function `set_index(ver,sys,opt,tobs,ind)`; `tobs` is the list of labels up
to the empty one, `ind` the structure that is filled in. -/
def set_index (E : Ext) (_ver : ℚ) (sys : Nat) (opt : List Char)
    (tobs : List (List Char)) (ind : sigind_t) : sigind_t :=
  let s := set_index_scan E sys opt tobs 0 ind
  let n := s.2
  let ind1 := { s.1 with shift := set_index_shift E sys n s.1.code opt s.1.shift }
  let ind2 := set_index_primary E n ind1
  let ind3 := set_index_ext E n E.NEXOBS 0 ind2
  { ind3 with n := n }

/-- Entry `j` of an index is eligible for slot `i`: its frequency is `i+1` and
its priority is nonzero (the test of the inner loop of `set_index`). -/
def eligible (ind : sigind_t) (i j : Nat) : Prop :=
  ind.frq j = (i : Int) + 1 ∧ ind.pri j ≠ 0

/-- Stored priority of every entry below `n` is `getcodepri` of its stored
code, kept as an `unsigned char`. -/
def PriByCode (E : Ext) (sys : Nat) (opt : List Char) (ind : sigind_t) (n : Nat) : Prop :=
  ∀ j, j < n → ind.pri j = toUChar (E.getcodepri sys (ind.code j) opt)

/-- Stored code and frequency of every entry below `n` come from one call of
`obs2code`, the frequency renumbered for the system. -/
def FromObs2code (E : Ext) (sys : Nat) (ind : sigind_t) (n : Nat) : Prop :=
  ∀ j, j < n → ∃ lab, ind.code j = (E.obs2code lab).1 ∧
    ind.frq j = remapFrq E sys (E.obs2code lab).2

/-- Entries below `n` with priority zero have no storage position. -/
def ZeroUnassigned (ind : sigind_t) (n : Nat) : Prop :=
  ∀ j, j < n → ind.pri j = 0 → ind.pos j = -1

/-- Entries below `n` that share a code share a storage position. -/
def SameCodeSamePos (ind : sigind_t) (n : Nat) : Prop :=
  ∀ i j, i < n → j < n → ind.code i = ind.code j → ind.pos i = ind.pos j

/-- Entries below `n` that share a code share a frequency. -/
def CodeFrq (ind : sigind_t) (n : Nat) : Prop :=
  ∀ i j, i < n → j < n → ind.code i = ind.code j → ind.frq i = ind.frq j

/-- Sample observation-type table: three L1 pseudorange codes, one L1 phase, one
L2 pseudorange and an unsupported code. -/
def tobsSample : List (List Char) :=
  ["C1C".toList, "C1P".toList, "C1W".toList, "L1C".toList, "C2W".toList, "C1X".toList]

/-- Zero-initialised `sigind_t`, as declared in `readrnxobs`. -/
def sigind0 : sigind_t where
  n := 0
  frq := fun _ => 0
  pos := fun _ => 0
  pri := fun _ => 0
  type := fun _ => 0
  code := fun _ => 0
  shift := fun _ => 0

/-! ## Observation epochs and records (`rinex.cpp` lines 784-967) -/

/-- Observation data record `obsd_t` of `rtklib.h`. -/
structure obsd_t where
  time : gtime_t
  /-- Satellite number, an `unsigned char`. -/
  sat : Nat
  /-- Receiver number, an `unsigned char`. -/
  rcv : Nat
  SNR : Nat → Nat
  LLI : Nat → Nat
  code : Nat → Nat
  L : Nat → ℚ
  P : Nat → ℚ
  D : Nat → ℚ

/-- Result of `decode_obsepoch`: return value, stream and line buffer after the
call, and the output parameters `time`, `flag`, `sats`. -/
structure epoch_t where
  ret : Int
  fp : List (List Char)
  buff : List Char
  time : gtime_t
  flag : Int
  sats : Nat → Int

/-- Satellite-list loop of `decode_obsepoch` for ver.2:
`for (i=0,j=32;i<n;i++,j+=3)`, with `fuel = n - i` iterations left. -/
def decode_obsepoch_sats (E : Ext) :
    Nat → Nat → Nat → List Char → List (List Char) → (Nat → Int) →
    List Char × List (List Char) × (Nat → Int)
  | 0, _, _, buff, fp, sats => (buff, fp, sats)
  | fuel + 1, i, j, buff, fp, sats =>
    if j ≥ 68 then
      match fp with
      | [] => (buff, fp, sats)
      | line :: rest =>
        decode_obsepoch_sats E fuel (i + 1) (32 + 3) line rest
          (if i < E.MAXOBS then Function.update sats i (E.satid2no ((line.drop 32).take 3))
           else sats)
    else
      decode_obsepoch_sats E fuel (i + 1) (j + 3) buff fp
        (if i < E.MAXOBS then Function.update sats i (E.satid2no ((buff.drop j).take 3))
         else sats)

/-- Function `decode_obsepoch(fp,buff,ver,time,flag,sats)`. -/
def decode_obsepoch (E : Ext) (fp : List (List Char)) (buff : List Char) (ver : ℚ)
    (time : gtime_t) (flag : Int) (sats : Nat → Int) : epoch_t :=
  if ver ≤ 2.99 then
    let n := toInt (E.str2num buff 29 3)
    if n ≤ 0 then { ret := 0, fp := fp, buff := buff, time := time, flag := flag, sats := sats }
    else
      let flag1 := toInt (E.str2num buff 28 1)
      if 3 ≤ flag1 ∧ flag1 ≤ 5 then
        { ret := n, fp := fp, buff := buff, time := time, flag := flag1, sats := sats }
      else
        match E.str2time buff 0 26 with
        | none =>
          { ret := 0, fp := fp, buff := buff, time := time, flag := flag1, sats := sats }
        | some t =>
          let r := decode_obsepoch_sats E n.toNat 0 32 buff fp sats
          { ret := n, fp := r.2.1, buff := r.1, time := t, flag := flag1, sats := r.2.2 }
  else
    let n := toInt (E.str2num buff 32 3)
    if n ≤ 0 then { ret := 0, fp := fp, buff := buff, time := time, flag := flag, sats := sats }
    else
      let flag1 := toInt (E.str2num buff 31 1)
      if 3 ≤ flag1 ∧ flag1 ≤ 5 then
        { ret := n, fp := fp, buff := buff, time := time, flag := flag1, sats := sats }
      else if buff.head? ≠ some '>' then
        { ret := 0, fp := fp, buff := buff, time := time, flag := flag1, sats := sats }
      else
        match E.str2time buff 1 28 with
        | none =>
          { ret := 0, fp := fp, buff := buff, time := time, flag := flag1, sats := sats }
        | some t =>
          { ret := n, fp := fp, buff := buff, time := t, flag := flag1, sats := sats }

/-- State of the field-reading loop of `decode_obsdata`. -/
structure fields_t where
  buff : List Char
  fp : List (List Char)
  val : Nat → ℚ
  lli : Nat → Nat

/-- Field-reading loop of `decode_obsdata`: `for (i=0,j=...;i<ind->n;i++,j+=16)`,
with `fuel = ind->n - i` iterations left. -/
def decode_obsdata_read (E : Ext) (ver : ℚ) (ind : sigind_t) (stat : Bool) :
    Nat → Nat → Nat → fields_t → fields_t
  | 0, _, _, s => s
  | fuel + 1, i, j, s =>
    if ver ≤ 2.99 ∧ j ≥ 80 then
      match s.fp with
      | [] => s
      | line :: rest =>
        decode_obsdata_read E ver ind stat fuel (i + 1) (0 + 16)
          (if stat then
            { buff := line, fp := rest,
              val := Function.update s.val i (E.str2num line 0 14 + ind.shift i),
              lli := Function.update s.lli i
                (toUChar (toInt (E.str2num line (0 + 14 + 1) 1)) &&& 3) }
           else { s with buff := line, fp := rest })
    else
      decode_obsdata_read E ver ind stat fuel (i + 1) (j + 16)
        (if stat then
          { s with
            val := Function.update s.val i (E.str2num s.buff j 14 + ind.shift i),
            lli := Function.update s.lli i
              (toUChar (toInt (E.str2num s.buff (j + 14 + 1) 1)) &&& 3) }
         else s)

/-- Index chosen by the `switch (satsys(obs->sat,NULL))` of `decode_obsdata`. -/
def selectIndex (E : Ext) (index : Nat → sigind_t) (sys : Nat) : sigind_t :=
  if sys = E.SYS_GLO then index 1
  else if sys = E.SYS_GAL then index 2
  else if sys = E.SYS_QZS then index 3
  else if sys = E.SYS_SBS then index 4
  else if sys = E.SYS_CMP then index 5
  else index 0

/-- Initial position `p[i]=ver<=2.11?ind->frq[i]-1:ind->pos[i]`. -/
def obsPos (ver : ℚ) (ind : sigind_t) : Nat → Int :=
  fun i => if ver ≤ 2.11 then ind.frq i - 1 else ind.pos i

/-- Indices `k[]` (for `s = 0`) or `l[]` (for `s = 1`) collected by the position
loop: the pseudorange entries whose position is `s`, in table order. -/
def slotCodes (ind : sigind_t) (p : Nat → Int) (s : Int) : List Nat :=
  (List.range ind.n).filter (fun i => ind.type i = 0 ∧ p i = s)

/-- Selection among the first two codes `k0`, `k1` of one slot (ver <= 2.11):
`slot` is the frequency slot, `ext` the position given to the loser. -/
def resolvePair (ind : sigind_t) (val : Nat → ℚ) (k0 k1 : Nat) (slot ext : Int)
    (p : Nat → Int) : Nat → Int :=
  if val k0 = 0 ∧ val k1 = 0 then Function.update (Function.update p k0 (-1)) k1 (-1)
  else if val k0 ≠ 0 ∧ val k1 = 0 then Function.update (Function.update p k0 slot) k1 (-1)
  else if val k0 = 0 ∧ val k1 ≠ 0 then Function.update (Function.update p k0 (-1)) k1 slot
  else if ind.pri k1 > ind.pri k0 then Function.update (Function.update p k1 slot) k0 ext
  else Function.update (Function.update p k0 slot) k1 ext

/-- Block `if (n>=2) ...` or `if (m>=2) ...` of `decode_obsdata` for the collected
indices `ks`. -/
def resolveSlot (ind : sigind_t) (val : Nat → ℚ) (ks : List Nat) (slot ext : Int)
    (p : Nat → Int) : Nat → Int :=
  match ks with
  | k0 :: k1 :: _ => resolvePair ind val k0 k1 slot ext p
  | _ => p

/-- Final positions `p[]` of `decode_obsdata` before the data are saved. -/
def obsAssign (E : Ext) (ver : ℚ) (ind : sigind_t) (val : Nat → ℚ) : Nat → Int :=
  let p := obsPos ver ind
  if ver ≤ 2.11 then
    let p1 := resolveSlot ind val (slotCodes ind p 0) 0
      (if E.NEXOBS < 1 then -1 else (E.NFREQ : Int)) p
    resolveSlot ind val (slotCodes ind p 1) 1
      (if E.NEXOBS < 2 then -1 else (E.NFREQ : Int) + 1) p1
  else p

/-- Body of the loop "save obs data" of `decode_obsdata` for entry `i`; the
conversion `(float)` of the Doppler value is not modelled. -/
def saveObs (ind : sigind_t) (p : Nat → Int) (val : Nat → ℚ) (lli : Nat → Nat)
    (obs : obsd_t) (i : Nat) : obsd_t :=
  if p i < 0 ∨ val i = 0 then obs
  else if ind.type i = 0 then
    { obs with P := Function.update obs.P (p i).toNat (val i),
               code := Function.update obs.code (p i).toNat (ind.code i) }
  else if ind.type i = 1 then
    { obs with L := Function.update obs.L (p i).toNat (val i),
               LLI := Function.update obs.LLI (p i).toNat (lli i) }
  else if ind.type i = 2 then
    { obs with D := Function.update obs.D (p i).toNat (val i) }
  else if ind.type i = 3 then
    { obs with SNR := Function.update obs.SNR (p i).toNat (toUChar (toInt (val i * 4.0 + 0.5))) }
  else obs

/-- Loop `for (i=0;i<NFREQ+NEXOBS;i++)` that clears the record of `decode_obsdata`. -/
def clearObs (E : Ext) (obs : obsd_t) : obsd_t :=
  { obs with
    P := fun i => if i < E.NFREQ + E.NEXOBS then 0 else obs.P i
    L := fun i => if i < E.NFREQ + E.NEXOBS then 0 else obs.L i
    D := fun i => if i < E.NFREQ + E.NEXOBS then 0 else obs.D i
    SNR := fun i => if i < E.NFREQ + E.NEXOBS then 0 else obs.SNR i
    LLI := fun i => if i < E.NFREQ + E.NEXOBS then 0 else obs.LLI i
    code := fun i => if i < E.NFREQ + E.NEXOBS then 0 else obs.code i }

/-- Satellite number set at the head of `decode_obsdata` (read from the line for
ver.3). -/
def obsSat (E : Ext) (buff : List Char) (ver : ℚ) (obs : obsd_t) : Nat :=
  if ver > 2.99 then toUChar (E.satid2no (buff.take 3)) else obs.sat

/-- Variable `stat` of `decode_obsdata`: the satellite is valid and its system
is in the mask. -/
def obsStat (E : Ext) (mask sat : Nat) : Bool :=
  if sat = 0 then false
  else if E.satsys sat &&& mask = 0 then false
  else true

/-- Fields read by `decode_obsdata` from the line and its continuation lines. -/
def obsFields (E : Ext) (fp : List (List Char)) (buff : List Char) (ver : ℚ) (mask : Nat)
    (index : Nat → sigind_t) (obs : obsd_t) : fields_t :=
  let sat := obsSat E buff ver obs
  let ind := selectIndex E index (E.satsys sat)
  decode_obsdata_read E ver ind (obsStat E mask sat) ind.n 0 (if ver ≤ 2.99 then 0 else 3)
    { buff := buff, fp := fp, val := fun _ => 0, lli := fun _ => 0 }

/-- Result of `decode_obsdata`: return value, record, line buffer and stream. -/
structure obsdata_t where
  ret : Int
  obs : obsd_t
  buff : List Char
  fp : List (List Char)

/-- Function `decode_obsdata(fp,buff,ver,mask,index,obs)`. -/
def decode_obsdata (E : Ext) (fp : List (List Char)) (buff : List Char) (ver : ℚ)
    (mask : Nat) (index : Nat → sigind_t) (obs : obsd_t) : obsdata_t :=
  let sat := obsSat E buff ver obs
  let obs1 := { obs with sat := sat }
  let ind := selectIndex E index (E.satsys sat)
  let rd := obsFields E fp buff ver mask index obs
  if obsStat E mask sat = false then { ret := 0, obs := obs1, buff := rd.buff, fp := rd.fp }
  else
    let p := obsAssign E ver ind rd.val
    { ret := 1,
      obs := (List.range ind.n).foldl (saveObs ind p rd.val rd.lli) (clearObs E obs1),
      buff := rd.buff, fp := rd.fp }

/-- Outcome of the two-code selection for the pseudorange entries `k0`, `k1` of
slot `x` in the record `r` built with the final positions `p`, `ext` being the
position of the loser (-1 when there is no extended slot for it):
both values zero, nothing is stored in the slot; one value nonzero, it is stored
in the slot and the other entry has no position; both nonzero, the entry of
strictly higher priority (`k0` on a tie) is stored in the slot and the other
entry gets position `ext`, where its value is stored when `ext` is a position
and no other pseudorange entry with a nonzero value is placed there. -/
def PairStored (ind : sigind_t) (val : Nat → ℚ) (r : obsd_t) (p : Nat → Int)
    (k0 k1 x : Nat) (ext : Int) : Prop :=
  (val k0 = 0 → val k1 = 0 →
    r.P x = 0 ∧ r.code x = 0 ∧ p k0 = -1 ∧ p k1 = -1) ∧
  (val k0 ≠ 0 → val k1 = 0 →
    r.P x = val k0 ∧ r.code x = ind.code k0 ∧ p k0 = (x : Int) ∧ p k1 = -1) ∧
  (val k0 = 0 → val k1 ≠ 0 →
    r.P x = val k1 ∧ r.code x = ind.code k1 ∧ p k1 = (x : Int) ∧ p k0 = -1) ∧
  (val k0 ≠ 0 → val k1 ≠ 0 → ind.pri k1 > ind.pri k0 →
    r.P x = val k1 ∧ r.code x = ind.code k1 ∧ p k1 = (x : Int) ∧ p k0 = ext ∧
    (0 ≤ ext →
      (∀ i, i < ind.n → i ≠ k0 → i ≠ k1 → ind.type i = 0 → p i = ext → val i = 0) →
      r.P ext.toNat = val k0 ∧ r.code ext.toNat = ind.code k0)) ∧
  (val k0 ≠ 0 → val k1 ≠ 0 → ¬ ind.pri k1 > ind.pri k0 →
    r.P x = val k0 ∧ r.code x = ind.code k0 ∧ p k0 = (x : Int) ∧ p k1 = ext ∧
    (0 ≤ ext →
      (∀ i, i < ind.n → i ≠ k0 → i ≠ k1 → ind.type i = 0 → p i = ext → val i = 0) →
      r.P ext.toNat = val k1 ∧ r.code ext.toNat = ind.code k1))

/-- Modelled from the spec: the constant `LLI_SLIP` of `rtklib.h` is the slip
bit of the loss-of-lock flag, the bit that `saveslips` and `restslips` test
with `&1`. -/
def LLI_SLIP : Nat := 1

/-- Function `saveslips(slips,data)`. -/
def saveslips (E : Ext) (slips : Int → Nat → Nat) (data : obsd_t) : Int → Nat → Nat :=
  fun s i =>
    if s = (data.sat : Int) - 1 ∧ i < E.NFREQ ∧ data.LLI i &&& 1 ≠ 0
    then slips s i ||| LLI_SLIP else slips s i

/-- Function `restslips(slips,data)`: the new table and the new record. -/
def restslips (E : Ext) (slips : Int → Nat → Nat) (data : obsd_t) :
    (Int → Nat → Nat) × obsd_t :=
  (fun s i => if s = (data.sat : Int) - 1 ∧ i < E.NFREQ then 0 else slips s i,
   { data with
     LLI := fun i =>
       if i < E.NFREQ ∧ slips ((data.sat : Int) - 1) i &&& 1 ≠ 0
       then data.LLI i ||| LLI_SLIP else data.LLI i })

/-! ## Observation body (`rinex.cpp` lines 1171-1293) -/

/-- Effect of `decode_obsh(fp,buff,ver,tsys,tobs,NULL,sta)` on what `readrnxobsb`
passes to it: given the version, the line, the rest of the stream and the header
data (`tsys`, `tobs`, `sta`), the number of further lines it reads from the
stream and the new header data. -/
abbrev ObshFn (H : Type) := ℚ → List Char → List (List Char) → H → Nat × H

/-- State of `readrnxobsb` when it returns. -/
structure obsb_t (H : Type) where
  /-- Return value: number of records, -1 at the end of the stream. -/
  ret : Int
  fp : List (List Char)
  flag : Int
  data : Nat → obsd_t
  hdr : H

/-- Loop `while (fgets(buff,MAXRNXLEN,fp))` of `readrnxobsb`; `fuel` bounds the
number of lines still to be read. -/
def readrnxobsb_loop {H : Type} (E : Ext) (obsh : ObshFn H) (ver : ℚ) (mask : Nat)
    (index : Nat → sigind_t) :
    Nat → List (List Char) → Nat → Nat → Int → (Nat → Int) → gtime_t → Int →
    (Nat → obsd_t) → H → obsb_t H
  | 0, fp, _, _, _, _, _, flag, data, hdr =>
    { ret := -1, fp := fp, flag := flag, data := data, hdr := hdr }
  | fuel + 1, fp, i, n, nsat, sats, time, flag, data, hdr =>
    match fp with
    | [] => { ret := -1, fp := [], flag := flag, data := data, hdr := hdr }
    | buff :: rest =>
      if i = 0 then
        let e := decode_obsepoch E rest buff ver time flag sats
        if e.ret ≤ 0 then
          readrnxobsb_loop E obsh ver mask index fuel e.fp 0 n e.ret e.sats e.time e.flag
            data hdr
        else if (1 : Int) > e.ret then
          { ret := n, fp := e.fp, flag := e.flag, data := data, hdr := hdr }
        else
          readrnxobsb_loop E obsh ver mask index fuel e.fp 1 n e.ret e.sats e.time e.flag
            data hdr
      else if flag ≤ 2 ∨ flag = 6 then
        let d := decode_obsdata E rest buff ver mask index
          { data n with time := time, sat := toUChar (sats (i - 1)) }
        let data1 := Function.update data n d.obs
        let n1 := if d.ret ≠ 0 ∧ n < E.MAXOBS then n + 1 else n
        if ((i : Int) + 1) > nsat then
          { ret := n1, fp := d.fp, flag := flag, data := data1, hdr := hdr }
        else
          readrnxobsb_loop E obsh ver mask index fuel d.fp (i + 1) n1 nsat sats time flag
            data1 hdr
      else if flag = 3 ∨ flag = 4 then
        let h := obsh ver buff rest hdr
        if ((i : Int) + 1) > nsat then
          { ret := n, fp := rest.drop h.1, flag := flag, data := data, hdr := h.2 }
        else
          readrnxobsb_loop E obsh ver mask index fuel (rest.drop h.1) (i + 1) n nsat sats
            time flag data h.2
      else
        if ((i : Int) + 1) > nsat then
          { ret := n, fp := rest, flag := flag, data := data, hdr := hdr }
        else
          readrnxobsb_loop E obsh ver mask index fuel rest (i + 1) n nsat sats time flag
            data hdr

/-- Function `set_sysmask(opt)` applied to the option string is taken as the
argument `mask`; `readrnxobsb(fp,opt,ver,tsys,tobs,flag,data,sta,index)` starts
its loop with `i=0,n=0,nsat=0`, `sats[]={0}` and `time={0}`. -/
def readrnxobsb {H : Type} (E : Ext) (obsh : ObshFn H) (fp : List (List Char)) (mask : Nat)
    (ver : ℚ) (hdr : H) (flag : Int) (data : Nat → obsd_t) (index : Nat → sigind_t) :
    obsb_t H :=
  readrnxobsb_loop E obsh ver mask index (fp.length + 1) fp 0 0 0 (fun _ => 0)
    { time := 0, sec := 0 } flag data hdr

/-- Time conversions applied to a record by `readrnxobs`: `utc2gpst` when the
time system is `TSYS_UTC`, then `bdt2gpst` when it is `TSYS_CMP`. -/
def obsTime (E : Ext) (tsys : Int) (t : gtime_t) : gtime_t :=
  let t1 := if tsys = E.TSYS_UTC then E.utc2gpst t else t
  if tsys = E.TSYS_CMP then E.bdt2gpst t1 else t1

/-- First inner loop of the body of `readrnxobs`: time-system conversion and
`saveslips` for the records of `data` from index `i` on, `fuel` of them. -/
def readrnxobs_save (E : Ext) (tsys : Int) :
    Nat → Nat → (Nat → obsd_t) → (Int → Nat → Nat) → (Nat → obsd_t) × (Int → Nat → Nat)
  | 0, _, data, slips => (data, slips)
  | fuel + 1, i, data, slips =>
    let d := { data i with time := obsTime E tsys (data i).time }
    readrnxobs_save E tsys fuel (i + 1) (Function.update data i d) (saveslips E slips d)

/-- Record handed to `addobsdata` by the second inner loop of `readrnxobs`:
the record after `restslips`, with the receiver number set. -/
def storeRecord (E : Ext) (rcv : Int) (slips : Int → Nat → Nat) (d : obsd_t) : obsd_t :=
  { (restslips E slips d).2 with rcv := toUChar rcv }

/-! ## System mask (`rinex.cpp` lines 985-1005) -/

/-- Call `strstr(s,pat)`: the part of `s` that starts at the first occurrence of
`pat`, `none` for `NULL`. -/
def strstrPtr : List Char → List Char → Option (List Char)
  | [], pat => if pat.isEmpty then some [] else none
  | c :: cs, pat => if pat.isPrefixOf (c :: cs) then some (c :: cs) else strstrPtr cs pat

/-- Statement `switch (*p)` of `set_sysmask`: the mask after the character `c`. -/
def set_sysmask_case (E : Ext) (c : Char) (mask : Nat) : Nat :=
  if c = 'G' then mask ||| E.SYS_GPS
  else if c = 'R' then mask ||| E.SYS_GLO
  else if c = 'E' then mask ||| E.SYS_GAL
  else if c = 'J' then mask ||| E.SYS_QZS
  else if c = 'C' then mask ||| E.SYS_CMP
  else if c = 'I' then mask ||| E.SYS_IRN
  else if c = 'S' then mask ||| E.SYS_SBS
  else mask

/-- Loop `for (p+=5;*p&&*p!=' ';p++)` of `set_sysmask` on the characters from `p`. -/
def set_sysmask_loop (E : Ext) : List Char → Nat → Nat
  | [], mask => mask
  | c :: p, mask => if c = ' ' then mask else set_sysmask_loop E p (set_sysmask_case E c mask)

/-- Function `set_sysmask(opt)`. -/
def set_sysmask (E : Ext) (opt : List Char) : Nat :=
  match strstrPtr opt "-SYS=".toList with
  | none => E.SYS_ALL
  | some p => set_sysmask_loop E (p.drop 5) E.SYS_NONE

/-- System bit named by a letter of the `-SYS=` option (G, R, E, J, C, I, S), 0 for
any other character. -/
def sysLetterBit (E : Ext) (c : Char) : Nat :=
  if c = 'G' then E.SYS_GPS
  else if c = 'R' then E.SYS_GLO
  else if c = 'E' then E.SYS_GAL
  else if c = 'J' then E.SYS_QZS
  else if c = 'C' then E.SYS_CMP
  else if c = 'I' then E.SYS_IRN
  else if c = 'S' then E.SYS_SBS
  else 0

/-! ## Ephemeris decoders (`rinex.cpp` lines 147-173, 1301-1803) -/

/-- Function `adjweek(t,t0)`: adjust time considering week handover. -/
def adjweek (E : Ext) (t t0 : gtime_t) : gtime_t :=
  let tt := E.timediff t t0
  if tt < -302400 then E.timeadd t 604800
  else if tt > 302400 then E.timeadd t (-604800)
  else t

/-- Function `adjweek2(&week,toes)`: the returned seconds of week and the new week. -/
def adjweek2 (E : Ext) (week : Int) (toes : ℚ) : ℚ × Int :=
  E.time2bdt (E.bdt2time week toes)

/-- Function `adjday(t,t0)`: adjust time considering day handover. -/
def adjday (E : Ext) (t t0 : gtime_t) : gtime_t :=
  let tt := E.timediff t t0
  if tt < -43200 then E.timeadd t 86400
  else if tt > 43200 then E.timeadd t (-86400)
  else t

/-- C library function `fmod(x,y)`. -/
def fmod (x y : ℚ) : ℚ := x - y * (toInt (x / y) : ℚ)

/-- Broadcast ephemeris `eph_t` of `rtklib.h`, with the members that `rinex.cpp`
writes; `sisai` and `isc` keep the assigned values as they are. -/
structure eph_t where
  sat : Int
  iode : Int
  iodc : Int
  sva : Int
  svh : Int
  week : Int
  code : Int
  flag : Int
  intg_flag : Int
  toe : gtime_t
  toc : gtime_t
  ttr : gtime_t
  A : ℚ
  e : ℚ
  i0 : ℚ
  OMG0 : ℚ
  omg : ℚ
  M0 : ℚ
  deln : ℚ
  OMGd : ℚ
  idot : ℚ
  crc : ℚ
  crs : ℚ
  cuc : ℚ
  cus : ℚ
  cic : ℚ
  cis : ℚ
  toes : ℚ
  fit : ℚ
  f0 : ℚ
  f1 : ℚ
  f2 : ℚ
  tgd : Nat → ℚ
  Adot : ℚ
  ndot : ℚ
  sisai : Nat → ℚ
  isc : Nat → ℚ

/-- Time value with every member zero. -/
def gtime0 : gtime_t := { time := 0, sec := 0 }

/-- Initialiser `eph_t eph0={0}`. -/
def eph0 : eph_t where
  sat := 0
  iode := 0
  iodc := 0
  sva := 0
  svh := 0
  week := 0
  code := 0
  flag := 0
  intg_flag := 0
  toe := gtime0
  toc := gtime0
  ttr := gtime0
  A := 0
  e := 0
  i0 := 0
  OMG0 := 0
  omg := 0
  M0 := 0
  deln := 0
  OMGd := 0
  idot := 0
  crc := 0
  crs := 0
  cuc := 0
  cus := 0
  cic := 0
  cis := 0
  toes := 0
  fit := 0
  f0 := 0
  f1 := 0
  f2 := 0
  tgd := fun _ => 0
  Adot := 0
  ndot := 0
  sisai := fun _ => 0
  isc := fun _ => 0

/-- Assignments common to `decode_eph`, `decode_eph_BDS_CNV` and
`decode_eph_GPS_CNV`: clock terms and Keplerian elements. -/
def eph_kepler (data : Nat → ℚ) (eph : eph_t) : eph_t :=
  { eph with
    f0 := data 0, f1 := data 1, f2 := data 2,
    A := data 10 * data 10, e := data 8, i0 := data 15, OMG0 := data 13,
    omg := data 17, M0 := data 6, deln := data 5, OMGd := data 18,
    idot := data 19, crc := data 16, crs := data 4, cuc := data 7,
    cus := data 9, cic := data 12, cis := data 14 }

/-- Branch `sys==SYS_GPS||sys==SYS_QZS` of `decode_eph`. -/
def decode_eph_gps (E : Ext) (sys : Nat) (toc : gtime_t) (data : Nat → ℚ) (eph : eph_t) :
    eph_t :=
  let week := toInt (data 21)
  { eph with
    iode := toInt (data 3), iodc := toInt (data 26), toes := data 11, week := week,
    toe := adjweek E (E.gpst2time week (data 11)) toc,
    ttr := adjweek E (E.gpst2time week (data 27)) toc,
    code := 0, svh := toInt (data 24), sva := uraindex (data 23), flag := toInt (data 22),
    tgd := Function.update (Function.update (Function.update eph.tgd 0 (data 25))
      1 (data 25)) 2 0,
    fit := if sys = E.SYS_GPS then data 28 else if data 28 = 0 then 1 else 2 }

/-- Branch `sys==SYS_GAL` of `decode_eph`. -/
def decode_eph_gal (E : Ext) (toc : gtime_t) (data : Nat → ℚ) (eph : eph_t) : eph_t :=
  let week0 := toInt (data 21)
  let week := if week0 < 2000 then week0 + 1024 else week0
  { eph with
    iode := toInt (data 3), toes := data 11, week := week,
    toe := adjweek E (E.gpst2time week (data 11)) toc,
    ttr := adjweek E (E.gpst2time week (data 27)) toc,
    code := toInt (data 20), svh := toInt (data 24), sva := uraindex (data 23),
    tgd := Function.update (Function.update (Function.update eph.tgd 2 (data 25))
      1 (data 26)) 0 (data 26) }

/-- Branch `sys==SYS_CMP` of `decode_eph`. -/
def decode_eph_cmp (E : Ext) (data : Nat → ℚ) (eph : eph_t) : eph_t :=
  let code : Int :=
    if toInt (data 20) = 1 then 1 else if toInt (data 20) = 2 then 2
    else if toInt (data 20) = 4 then 3 else 0
  let toc := E.bdt2gpst eph.toc
  let aw := adjweek2 E (toInt (data 21)) (data 11)
  let toes := aw.1
  let week := aw.2
  { eph with
    flag := 0, code := code,
    tgd := Function.update (Function.update eph.tgd 0 (data 25)) 1 (data 26),
    toc := toc, iode := toInt (data 3), iodc := toInt (data 28), toes := toes, week := week,
    toe := adjweek E (E.bdt2gpst (E.bdt2time week toes)) toc,
    ttr := adjweek E (E.bdt2gpst (E.bdt2time week (data 27))) toc,
    svh := toInt (data 24), sva := uraindex (data 23) }

/-- Branch `sys==SYS_IRN` of `decode_eph`. -/
def decode_eph_irn (E : Ext) (toc : gtime_t) (data : Nat → ℚ) (eph : eph_t) : eph_t :=
  let week := toInt (data 21)
  { eph with
    iode := toInt (data 3), toes := data 11, week := week,
    toe := adjweek E (E.gpst2time week (data 11)) toc,
    ttr := adjweek E (E.gpst2time week (data 27)) toc,
    svh := toInt (data 24), sva := uraindex (data 23),
    tgd := Function.update eph.tgd 0 (data 25) }

/-- Function `decode_eph(ver,sat,toc,data,eph)`: the return value and `*eph`. -/
def decode_eph (E : Ext) (sat : Int) (toc : gtime_t) (data : Nat → ℚ) (eph : eph_t) :
    Int × eph_t :=
  let sys := E.satsys sat.toNat
  if sys &&& (E.SYS_GPS ||| E.SYS_GAL ||| E.SYS_QZS ||| E.SYS_CMP ||| E.SYS_IRN) = 0 then
    (0, eph)
  else
    let e1 := eph_kepler data { eph0 with sat := sat, toc := toc }
    let e2 :=
      if sys = E.SYS_GPS ∨ sys = E.SYS_QZS then decode_eph_gps E sys toc data e1
      else if sys = E.SYS_GAL then decode_eph_gal E toc data e1
      else if sys = E.SYS_CMP then decode_eph_cmp E data e1
      else if sys = E.SYS_IRN then decode_eph_irn E toc data e1
      else e1
    (1, e2)
/-- Function `decode_eph_BDS_CNV(ver,sat,toc,data,eph,mesgType)`: the return
value and `*eph`. -/
def decode_eph_BDS_CNV (E : Ext) (sat : Int) (toc : gtime_t) (data : Nat → ℚ) (eph : eph_t)
    (mesgType : Int) : Int × eph_t :=
  let sys := E.satsys sat.toNat
  if sys &&& E.SYS_CMP = 0 then (0, eph)
  else
    let week0 := (E.time2bdt toc).2
    let code : Int :=
      if mesgType = 1 then 1 else if mesgType = 2 then 2 else if mesgType = 3 then 3 else 0
    let e1 := eph_kepler data { eph0 with sat := sat, toc := toc, week := week0, code := code }
    let e2 := { e1 with Adot := data 3, ndot := data 20 }
    let e3 :=
      if code = 1 ∨ code = 2 then
        { e2 with tgd := Function.update (Function.update e2.tgd 3 (data 29)) 4 (data 30) }
      else if code = 3 then { e2 with tgd := Function.update e2.tgd 5 (data 30) }
      else e2
    let e4 :=
      { e3 with
        flag := toInt (data 21),
        sisai := Function.update (Function.update (Function.update (Function.update e3.sisai
          0 (data 23)) 1 (data 24)) 2 (data 25)) 3 (data 26) }
    let e5 :=
      if mesgType = 1 ∨ mesgType = 2 then
        { e4 with
          isc := if mesgType = 1 then Function.update e4.isc 3 (data 27)
                 else Function.update e4.isc 4 (data 28),
          sva := toInt (data 31), svh := toInt (data 32), intg_flag := toInt (data 33),
          iodc := toInt (data 34), iode := toInt (data 38),
          ttr := E.bdt2gpst (E.bdt2time week0 (data 35)) }
      else if mesgType = 3 then
        { e4 with
          sva := toInt (data 27), svh := toInt (data 28), intg_flag := toInt (data 29),
          ttr := E.bdt2gpst (E.bdt2time week0 (data 31)) }
      else e4
    let toc1 := E.bdt2gpst toc
    let aw := adjweek2 E week0 (data 11)
    (1, { e5 with
          toc := toc1, toes := aw.1, week := aw.2,
          toe := adjweek E (E.bdt2gpst (E.bdt2time aw.2 aw.1)) toc1,
          ttr := adjweek E e5.ttr toc1 })

/-- Function `decode_eph_GPS_CNV(ver,sat,toc,data,eph,mesgType)`: the return
value and `*eph`. -/
def decode_eph_GPS_CNV (E : Ext) (sat : Int) (toc : gtime_t) (data : Nat → ℚ) (eph : eph_t)
    (mesgType : Int) : Int × eph_t :=
  let sys := E.satsys sat.toNat
  if sys &&& E.SYS_GPS = 0 then (0, eph)
  else
    let week := (E.time2gpst toc).2
    let code : Int := if mesgType = 1 then 1 else if mesgType = 2 then 2 else 0
    let e1 := eph_kepler data { eph0 with sat := sat, toc := toc, week := week, code := code }
    let e2 :=
      { e1 with
        Adot := data 3, ndot := data 20, tgd := Function.update e1.tgd 0 (data 25),
        flag := 0,
        sisai := Function.update (Function.update (Function.update (Function.update e1.sisai
          0 (data 21)) 1 (data 22)) 2 (data 26)) 3 (data 23),
        isc := Function.update (Function.update (Function.update (Function.update e1.isc
          0 (data 27)) 3 (data 28)) 4 (data 29)) 5 (data 30),
        svh := toInt (data 24) }
    let e3 :=
      if mesgType = 1 then { e2 with ttr := adjweek E (E.gpst2time week (data 31)) toc }
      else
        { e2 with
          isc := Function.update (Function.update e2.isc 1 (data 31)) 2 (data 32),
          ttr := adjweek E (E.gpst2time week (data 35)) toc }
    (1, { e3 with toe := e3.toc, ttr := adjweek E e3.ttr e3.toc })

/-- Ionosphere record `ion_t`. -/
structure ion_t where
  sys : Int
  toc : gtime_t
  ion : Nat → ℚ

/-- Initialiser `ion_t ion0={0}`. -/
def ion0 : ion_t := { sys := 0, toc := gtime0, ion := fun _ => 0 }

/-- Function `decode_ion_gal(ver,sat,toc,data,ion)`: the return value and `*ion`;
the system is written before `*ion=ion0` and is cleared by it. -/
def decode_ion_gal (E : Ext) (sat : Int) (toc : gtime_t) (data : Nat → ℚ) (ion : ion_t) :
    Int × ion_t :=
  if E.satsys sat.toNat ≠ E.SYS_GAL then (0, ion)
  else (1, { ion0 with toc := toc, ion := fun i => if i < 3 then data i else ion0.ion i })

/-- Function `decode_ion_k8(ver,sat,toc,data,ion)`: the return value and `*ion`. -/
def decode_ion_k8 (E : Ext) (sat : Int) (toc : gtime_t) (data : Nat → ℚ) (ion : ion_t) :
    Int × ion_t :=
  if E.satsys sat.toNat ≠ E.SYS_GPS ∧ E.satsys sat.toNat ≠ E.SYS_CMP then (0, ion)
  else
    (1, { sys := E.satsys sat.toNat, toc := toc,
          ion := fun i => if i < 8 then data i else ion0.ion i })

/-- Function `decode_ion_bdgim(ver,sat,toc,data,ion)`: the return value and `*ion`. -/
def decode_ion_bdgim (E : Ext) (sat : Int) (toc : gtime_t) (data : Nat → ℚ) (ion : ion_t) :
    Int × ion_t :=
  if E.satsys sat.toNat ≠ E.SYS_CMP then (0, ion)
  else
    (1, { sys := E.satsys sat.toNat, toc := toc,
          ion := fun i => if i < 9 then data i else ion0.ion i })

/-- GLONASS ephemeris `geph_t`, with the members that `rinex.cpp` writes. -/
structure geph_t where
  sat : Int
  iode : Int
  frq : Int
  svh : Int
  age : Int
  status : Int
  urai : Int
  hflag : Int
  toe : gtime_t
  tof : gtime_t
  pos : Nat → ℚ
  vel : Nat → ℚ
  acc : Nat → ℚ
  taun : ℚ
  gamn : ℚ
  tgd : ℚ

/-- Initialiser `geph_t geph0={0}`. -/
def geph0 : geph_t where
  sat := 0
  iode := 0
  frq := 0
  svh := 0
  age := 0
  status := 0
  urai := 0
  hflag := 0
  toe := gtime0
  tof := gtime0
  pos := fun _ => 0
  vel := fun _ => 0
  acc := fun _ => 0
  taun := 0
  gamn := 0
  tgd := 0

/-- Three components `data[k]*1E3`, `data[k+4]*1E3`, `data[k+8]*1E3`. -/
def vec3 (data : Nat → ℚ) (k : Nat) : Nat → ℚ :=
  fun i => if i < 3 then data (k + 4 * i) * 1000 else 0

/-- Part shared by `decode_geph` and `decode_geph4`: everything up to
`geph->age`, the frequency number before the adjustment of values above 128. -/
def decode_geph_core (E : Ext) (ver : ℚ) (sat : Int) (toc : gtime_t) (data : Nat → ℚ) :
    geph_t :=
  let tw := E.time2gpst toc
  let tow := tw.1
  let week := tw.2
  let toc1 := E.gpst2time week ((⌊(tow + 450) / 900⌋ : ℚ) * 900)
  let dow : Int := toInt (⌊tow / 86400⌋ : ℚ)
  let tod := if ver ≤ 2.99 then data 2 else fmod (data 2) 86400
  let tof := adjday E (E.gpst2time week (tod + dow * 86400)) toc1
  { geph0 with
    sat := sat,
    toe := E.utc2gpst toc1,
    tof := E.utc2gpst tof,
    iode := toInt (fmod (tow + 10800) 86400 / 900 + 1 / 2),
    taun := -data 0,
    gamn := data 1,
    pos := vec3 data 3, vel := vec3 data 4, acc := vec3 data 5,
    svh := toInt (data 6), frq := toInt (data 10), age := toInt (data 14) }

/-- Statement `if (geph->frq>128) geph->frq-=256;`. -/
def geph_frq (g : geph_t) : geph_t := if g.frq > 128 then { g with frq := g.frq - 256 } else g

/-- Function `decode_geph(ver,sat,toc,data,geph)`: the return value and `*geph`. -/
def decode_geph (E : Ext) (ver : ℚ) (sat : Int) (toc : gtime_t) (data : Nat → ℚ)
    (geph : geph_t) : Int × geph_t :=
  if E.satsys sat.toNat ≠ E.SYS_GLO then (0, geph)
  else (1, geph_frq (decode_geph_core E ver sat toc data))

/-- Function `decode_geph4(ver,sat,toc,data,geph)`: the return value and `*geph`. -/
def decode_geph4 (E : Ext) (ver : ℚ) (sat : Int) (toc : gtime_t) (data : Nat → ℚ)
    (geph : geph_t) : Int × geph_t :=
  if E.satsys sat.toNat ≠ E.SYS_GLO then (0, geph)
  else
    let g := decode_geph_core E ver sat toc data
    (1, geph_frq { g with
      status := toInt (data 15), tgd := data 16, urai := toInt (data 17),
      hflag := toInt (data 18) })

/-- SBAS ephemeris `seph_t`, with the members that `rinex.cpp` writes. -/
structure seph_t where
  sat : Int
  t0 : gtime_t
  tof : gtime_t
  pos : Nat → ℚ
  vel : Nat → ℚ
  acc : Nat → ℚ
  svh : Int
  sva : Int
  af0 : ℚ
  af1 : ℚ

/-- Initialiser `seph_t seph0={0}`. -/
def seph0 : seph_t where
  sat := 0
  t0 := gtime0
  tof := gtime0
  pos := fun _ => 0
  vel := fun _ => 0
  acc := fun _ => 0
  svh := 0
  sva := 0
  af0 := 0
  af1 := 0

/-- Function `decode_seph(ver,sat,toc,data,seph)`: the return value and `*seph`. -/
def decode_seph (E : Ext) (sat : Int) (toc : gtime_t) (data : Nat → ℚ) (seph : seph_t) :
    Int × seph_t :=
  if E.satsys sat.toNat ≠ E.SYS_SBS then (0, seph)
  else
    let week := (E.time2gpst toc).2
    (1, { seph0 with
          sat := sat, t0 := toc,
          tof := adjweek E (E.gpst2time week (data 2)) toc,
          af0 := data 0, af1 := data 1,
          pos := vec3 data 3, vel := vec3 data 4, acc := vec3 data 5,
          svh := toInt (data 6), sva := uraindex (data 10) })
/-! ## Navigation body (`rinex.cpp` lines 1805-1995) -/

/-- C library predicate `isspace(c)`, the white space that `%s` of `sscanf` skips. -/
def isSpaceC (c : Char) : Bool := c.toNat = 32 ∨ (9 ≤ c.toNat ∧ c.toNat ≤ 13)

/-- One conversion `%s` of `sscanf`: the word read and the input left. -/
def scanWord (s : List Char) : List Char × List Char :=
  let s1 := s.dropWhile isSpaceC
  (s1.takeWhile (fun c => !isSpaceC c), s1.dropWhile (fun c => !isSpaceC c))

/-- Call `sscanf(buff,">%s%s%s",recType,id,megType)`: the three strings after
the call, a string that is not converted keeping its value. -/
def scanRec (buff recType id megType : List Char) : List Char × List Char × List Char :=
  match buff with
  | '>' :: r =>
    let w1 := scanWord r
    if w1.1 = [] then (recType, id, megType)
    else
      let w2 := scanWord w1.2
      if w2.1 = [] then (w1.1, id, megType)
      else
        let w3 := scanWord w2.2
        if w3.1 = [] then (w1.1, w2.1, megType) else (w1.1, w2.1, w3.1)
  | _ => (recType, id, megType)

/-- Local variables of `readrnxnavb` that live across the lines of a record. -/
structure navb_t where
  i : Nat
  sat : Int
  sp : Nat
  sys : Nat
  recType : List Char
  megType : List Char
  toc : gtime_t
  data : Nat → ℚ

/-- What a call of `readrnxnavb` leaves: the return value, `*type`, the records
behind the pointers `eph`, `geph`, `seph`, `ion`, and the stream. -/
structure navret_t where
  ret : Int
  type : Int
  eph : eph_t
  geph : geph_t
  seph : seph_t
  ion : ion_t
  fp : List (List Char)

/-- Satellite, system and line offset decoded from the first line of a record
for `ver < 4` (block `if (i==0)` of `readrnxnavb`, branches `ver>=3.0` and `else`). -/
def readrnxnavb_sat (E : Ext) (buff : List Char) (ver : ℚ) (sys : Nat) : Int × Nat × Nat :=
  if ver ≥ 3 then
    let id := buff.take 3
    (E.satid2no id, E.satid2sys id, 4)
  else
    let prn := toInt (E.str2num buff 0 2)
    if sys = E.SYS_SBS then (E.satno E.SYS_SBS (prn + 100), sys, 3)
    else if sys = E.SYS_GLO then (E.satno E.SYS_GLO prn, sys, 3)
    else if 93 ≤ prn ∧ prn ≤ 97 then (E.satno E.SYS_QZS (prn + 100), sys, 3)
    else (E.satno E.SYS_GPS prn, sys, 3)

/-- Fields `data[0..2]` read from the first line of a record; `d0` is the content
of the local array `data` before, which the function does not initialise. -/
def readrnxnavb_first (E : Ext) (buff recType : List Char) (sp : Nat) (d0 : Nat → ℚ) :
    Nat → ℚ :=
  fun k =>
    if k < 3 then
      if strstr recType "STO".toList then 0 else E.str2num (buff.drop (sp + 19 + 19 * k)) 0 19
    else d0 k

/-- Loop `for (j=0,p=buff+sp;j<4;j++,p+=19) data[i++]=str2num(p,0,19);`. -/
def readrnxnavb_cont (E : Ext) (buff : List Char) (st : navb_t) : navb_t :=
  { st with
    i := st.i + 4,
    data := fun k =>
      if st.i ≤ k ∧ k < st.i + 4 then E.str2num (buff.drop (st.sp + 19 * (k - st.i))) 0 19
      else st.data k }

/-- Return `decode_X(...)` of an ephemeris branch of `readrnxnavb`, after the
mask test and the assignment `*type=0`. -/
def navb_eph (mask : Nat) (st : navb_t) (out : navret_t) (r : Int × eph_t) : navret_t :=
  if mask &&& st.sys = 0 then { out with ret := 0 }
  else { out with ret := r.1, type := 0, eph := r.2 }

/-- Return of a GLONASS branch of `readrnxnavb` (`*type=1`). -/
def navb_geph (mask : Nat) (st : navb_t) (out : navret_t) (r : Int × geph_t) : navret_t :=
  if mask &&& st.sys = 0 then { out with ret := 0 }
  else { out with ret := r.1, type := 1, geph := r.2 }

/-- Return of an ionosphere branch of `readrnxnavb` (`*type=ty`). -/
def navb_ion (mask : Nat) (st : navb_t) (out : navret_t) (ty : Int) (r : Int × ion_t) :
    navret_t :=
  if mask &&& st.sys = 0 then { out with ret := 0 }
  else { out with ret := r.1, type := ty, ion := r.2 }

/-- The chain of tests that follows the four fields of a continuation line in
`readrnxnavb`: `some` result when the function returns, `none` when the loop
goes on. -/
def readrnxnavb_dispatch (E : Ext) (ver : ℚ) (mask : Nat) (st : navb_t) (out : navret_t) :
    Option navret_t :=
  let rec_ (s : String) : Bool := strstr st.recType s.toList
  let meg (s : String) : Bool := strstr st.megType s.toList
  let i := st.i
  let sys := st.sys
  if rec_ "STO" ∧ i ≥ 4 then some { out with ret := 0, type := 3 }
  else if rec_ "EOP" ∧ i ≥ 11 then some { out with ret := 0, type := 4 }
  else if rec_ "ION" ∧ meg "IFNV" ∧ i ≥ 4 then
    some (navb_ion mask st out 5 (decode_ion_gal E st.sat st.toc st.data out.ion))
  else if rec_ "ION" ∧ sys = E.SYS_CMP ∧ meg "CNVX" ∧ i ≥ 9 then
    some (navb_ion mask st out 7 (decode_ion_bdgim E st.sat st.toc st.data out.ion))
  else if rec_ "ION" ∧ i ≥ 8 then
    some (navb_ion mask st out 6 (decode_ion_k8 E st.sat st.toc st.data out.ion))
  else if sys = E.SYS_SBS ∧ i ≥ 15 then
    some (if mask &&& sys = 0 then { out with ret := 0 }
      else
        let r := decode_seph E st.sat st.toc st.data out.seph
        { out with ret := r.1, type := 2, seph := r.2 })
  else if sys = E.SYS_GLO ∧ ¬ meg "FDMA" ∧ i ≥ 15 then
    some (navb_geph mask st out (decode_geph E ver st.sat st.toc st.data out.geph))
  else if sys = E.SYS_GLO ∧ meg "FDMA" ∧ i ≥ 19 then
    some (navb_geph mask st out (decode_geph4 E ver st.sat st.toc st.data out.geph))
  else if sys = E.SYS_GPS ∧ ¬ meg "CN" ∧ i ≥ 31 then
    some (navb_eph mask st out (decode_eph E st.sat st.toc st.data out.eph))
  else if sys = E.SYS_GPS ∧ meg "CNAV" ∧ i ≥ 33 then
    some (navb_eph mask st out (decode_eph_GPS_CNV E st.sat st.toc st.data out.eph 1))
  else if sys = E.SYS_GPS ∧ meg "CNV2" ∧ i ≥ 35 then
    some (navb_eph mask st out (decode_eph_GPS_CNV E st.sat st.toc st.data out.eph 2))
  else if sys = E.SYS_GAL ∧ i ≥ 31 then
    some (navb_eph mask st out (decode_eph E st.sat st.toc st.data out.eph))
  else if sys = E.SYS_CMP ∧ ¬ meg "CNV" ∧ i ≥ 31 then
    some (navb_eph mask st out (decode_eph E st.sat st.toc st.data out.eph))
  else if sys = E.SYS_CMP ∧ meg "CNV1" ∧ i ≥ 37 then
    some (navb_eph mask st out (decode_eph_BDS_CNV E st.sat st.toc st.data out.eph 1))
  else if sys = E.SYS_CMP ∧ meg "CNV2" ∧ i ≥ 37 then
    some (navb_eph mask st out (decode_eph_BDS_CNV E st.sat st.toc st.data out.eph 2))
  else if sys = E.SYS_CMP ∧ meg "CNV3" ∧ i ≥ 34 then
    some (navb_eph mask st out (decode_eph_BDS_CNV E st.sat st.toc st.data out.eph 3))
  else if sys = E.SYS_QZS ∧ ver ≥ 3 ∧ ver < 4 ∧ i ≥ 31 then some { out with ret := 0 }
  else if sys = E.SYS_QZS ∧ meg "LNAV" ∧ i ≥ 31 then some { out with ret := 0 }
  else if sys = E.SYS_QZS ∧ meg "CNAV" ∧ i ≥ 34 then some { out with ret := 0 }
  else if sys = E.SYS_QZS ∧ meg "CNV2" ∧ i ≥ 37 then some { out with ret := 0 }
  else if sys = E.SYS_IRN ∧ ver ≥ 3 ∧ ver < 4 ∧ i ≥ 31 then some { out with ret := 0 }
  else if sys = E.SYS_IRN ∧ meg "LNAV" ∧ i ≥ 31 then some { out with ret := 0 }
  else none

/-- Iterations of `while (fgets(buff,MAXRNXLEN,fp))` of `readrnxnavb` with
`i != 0`: one continuation line per step, `return -1` at the end of the stream. -/
def readrnxnavb_loop (E : Ext) (ver : ℚ) (mask : Nat) :
    List (List Char) → navb_t → navret_t → navret_t
  | [], _, out => { out with ret := -1, fp := [] }
  | buff :: fp, st, out =>
    let st1 := readrnxnavb_cont E buff st
    match readrnxnavb_dispatch E ver mask st1 { out with fp := fp } with
    | some r => r
    | none => readrnxnavb_loop E ver mask fp st1 out

/-- First iteration of the loop of `readrnxnavb` (`i == 0`) on the line `buff`
for `ver < 4`, or on the line that follows the `>` line for `ver >= 4`, then the
remaining iterations. -/
def readrnxnavb_head (E : Ext) (ver : ℚ) (mask : Nat) (buff : List Char)
    (fp : List (List Char)) (sat : Int) (sys sp : Nat) (recType megType : List Char)
    (d0 : Nat → ℚ) (out : navret_t) : navret_t :=
  match E.str2time (buff.drop sp) 0 19 with
  | none => { out with ret := 0, fp := fp }
  | some toc =>
    readrnxnavb_loop E ver mask fp
      { i := 3, sat := sat, sp := sp, sys := sys, recType := recType, megType := megType,
        toc := toc, data := readrnxnavb_first E buff recType sp d0 } out

/-- Function `readrnxnavb(fp,opt,ver,sys,type,eph,geph,seph,ion)`; `out` holds
the values behind the output pointers before the call and `d0` the content of
the uninitialised local array `data`. -/
def readrnxnavb (E : Ext) (fp : List (List Char)) (opt : List Char) (ver : ℚ) (sys : Nat)
    (d0 : Nat → ℚ) (out : navret_t) : navret_t :=
  let mask := set_sysmask E opt
  match fp with
  | [] => { out with ret := -1, fp := [] }
  | buff :: fp1 =>
    if ver ≥ 4 then
      let w := scanRec buff [] [] []
      match fp1 with
      | [] => { out with ret := -1, fp := [] }
      | buff2 :: fp2 =>
        readrnxnavb_head E ver mask buff2 fp2 (E.satid2no w.2.1) (E.satid2sys w.2.1) 4
          w.1 w.2.2 d0 out
    else
      let s := readrnxnavb_sat E buff ver sys
      readrnxnavb_head E ver mask buff fp1 s.1 s.2.1 s.2.2 [] [] d0 out

/-- The record type of a navigation record names none of the kinds `STO`,
`EOP`, `ION` that `readrnxnavb` tests first (always so for `ver < 4`, where
the record type is empty). -/
def plainRec (recType : List Char) : Prop :=
  strstr recType "STO".toList = false ∧ strstr recType "EOP".toList = false ∧
  strstr recType "ION".toList = false

/-- The seven system codes of `rtklib.h` are different from each other. -/
def SysDistinct (E : Ext) : Prop :=
  [E.SYS_GPS, E.SYS_SBS, E.SYS_GLO, E.SYS_GAL, E.SYS_QZS, E.SYS_CMP, E.SYS_IRN].Nodup

/-- State of `readrnxnavb` after the continuation lines `ls` have been read in
the state `st`. -/
def navb_read (E : Ext) (ls : List (List Char)) (st : navb_t) : navb_t :=
  ls.foldl (fun s l => readrnxnavb_cont E l s) st

/-! ## Precise clock store (`rinex.cpp` lines 2360-2400) -/

/-- Precise clock entry `pclk_t` of `rtklib.h`: `clk k` is `clk[k][0]` and
`std k` is `std[k][0]`. -/
structure pclk_t where
  time : gtime_t
  index : Int
  clk : Nat → ℚ
  std : Nat → ℚ

/-- Members `pclk`, `nc`, `ncmax` of `nav_t`, the precise clock store. -/
structure pclkstore_t where
  pclk : Nat → pclk_t
  nc : Int
  ncmax : Int

/-- Function `cmppclk(p1,p2)`: compare precise clock entries by time, then by
index. -/
def cmppclk (E : Ext) (q1 q2 : pclk_t) : Int :=
  let tt := E.timediff q1.time q2.time
  if tt < -1e-9 then -1 else if tt > 1e-9 then 1 else q1.index - q2.index

/-- C library call `qsort(pclk,nc,sizeof(pclk_t),cmppclk)`, taken as an insertion
sort of the first `nc` entries with respect to `cmppclk`. -/
def qsort_pclk (E : Ext) (pclk : Nat → pclk_t) (nc : Nat) : Nat → pclk_t :=
  let l := ((List.range nc).map pclk).insertionSort (fun a b => cmppclk E a b ≤ 0)
  fun i => l.getD i (pclk i)

/-- Loop `for (k=0;k<MAXSAT;k++)` of `combpclk`: entry `pi` after the values of
`pj` that are not 0.0 have been copied into it. -/
def combpclk_merge (E : Ext) (pi pj : pclk_t) : pclk_t :=
  { pi with
    clk := fun k => if k < E.MAXSAT ∧ pj.clk k ≠ 0 then pj.clk k else pi.clk k,
    std := fun k => if k < E.MAXSAT ∧ pj.clk k ≠ 0 then pj.std k else pi.std k }

/-- Body of the loop `for (i=0,j=1;j<nav->nc;j++)` of `combpclk` on the pair
`(i, pclk)`. -/
def combpclk_step (E : Ext) (s : Nat × (Nat → pclk_t)) (j : Nat) : Nat × (Nat → pclk_t) :=
  let i := s.1
  let p := s.2
  if |E.timediff (p i).time (p j).time| < 1e-9 then
    (i, Function.update p i (combpclk_merge E (p i) (p j)))
  else if i + 1 < j then (i + 1, Function.update p (i + 1) (p j))
  else (i + 1, p)

/-- Entry with every member zero. -/
def pclk0 : pclk_t := { time := gtime0, index := 0, clk := fun _ => 0, std := fun _ => 0 }

/-- Function `combpclk(nav)` on the precise clock store; `reallocOk` tells
whether the final `realloc` succeeds. -/
def combpclk (E : Ext) (reallocOk : Bool) (nav : pclkstore_t) : pclkstore_t :=
  if nav.nc ≤ 0 then nav
  else
    let sorted := qsort_pclk E nav.pclk nav.nc.toNat
    let s := (List.range' 1 (nav.nc.toNat - 1)).foldl (combpclk_step E) (0, sorted)
    if reallocOk then { pclk := s.2, nc := (s.1 : Int) + 1, ncmax := (s.1 : Int) + 1 }
    else { pclk := fun _ => pclk0, nc := 0, ncmax := 0 }

/-! ## Navigation field formatter (`rinex.cpp` lines 2928-2933) -/

/-- Rounding of `printf("%.0f",x)`: to the nearest integer, a tie going to the
even one. -/
def roundEven (x : ℚ) : Int :=
  let f := ⌊x⌋
  let r := x - f
  if r < 1 / 2 then f else if r > 1 / 2 then f + 1 else if f % 2 = 0 then f else f + 1

/-- Decimal digits of a natural number, as `printf` writes them. -/
def decDigits (n : Nat) : List Char :=
  if n = 0 then ['0'] else (Nat.digits 10 n).reverse.map (fun d => Char.ofNat (48 + d))

/-- Padding with leading zeros to the width `w` (flag `0` of `printf`). -/
def zeroPad (w : Nat) (s : List Char) : List Char := List.replicate (w - s.length) '0' ++ s

/-- Conversion `%012.0f` of `printf` for a value that is not negative. -/
def fmtMantissa (x : ℚ) : List Char := zeroPad 12 (decDigits (roundEven x).toNat)

/-- Conversion `%+03.0f` of `printf` for a value without fraction. -/
def fmtExponent (e : Int) : List Char :=
  (if e < 0 then '-' else '+') :: zeroPad 2 (decDigits e.natAbs)

/-- Function `outnavf(fp,value)`: the characters written to `fp`; the value
`floor(log10(x))` is the integer logarithm `Int.log 10 x`. -/
def outnavf (value : ℚ) : List Char :=
  let e : Int := if |value| < 1e-99 then 0 else Int.log 10 |value| + 1
  [' '] ++ (if value < 0 then ['-'] else [' ']) ++ ['.'] ++
    fmtMantissa (|value| / (10 : ℚ) ^ (e - 12)) ++ ['E'] ++ fmtExponent e

/-! ## Observation field writer (`rinex.cpp` lines 2764-2778) -/

/-- Conversion `%14.3f` of `printf`: three decimals, right-justified in 14
columns. -/
def fmtObs (x : ℚ) : List Char :=
  let n := (roundEven (|x| * 1000)).toNat
  let s := (if x < 0 then ['-'] else []) ++ decDigits (n / 1000) ++ ['.'] ++
    zeroPad 3 (decDigits (n % 1000))
  List.replicate (14 - s.length) ' ' ++ s

/-- Function `outrnxobsf(fp,obs,lli)`: the characters written to `fp`. -/
def outrnxobsf (E : Ext) (obs : ℚ) (lli : Int) : List Char :=
  (if obs = 0 ∨ obs ≤ -1e9 ∨ obs ≥ 1e9 then "              ".toList else fmtObs obs) ++
  (if lli < 0 ∨ lli.toNat &&& (LLI_SLIP ||| E.LLI_HALFC ||| E.LLI_BOCTRK) = 0 then "  ".toList
   else decDigits (lli.toNat &&& (LLI_SLIP ||| E.LLI_HALFC ||| E.LLI_BOCTRK)) ++ [' '])

/-! ## Signal indexes of `readrnxobs` (`rinex.cpp` lines 1247-1253) -/

/-- Signal indexes `index[7]` of `readrnxobs` after its seven calls of
`set_index`; `tobs k` is the observation-type table `tobs[k]`. -/
def readrnxobs_index (E : Ext) (ver : ℚ) (opt : List Char) (tobs : Nat → List (List Char)) :
    Nat → sigind_t :=
  fun k =>
    if k = 0 then set_index E ver E.SYS_GPS opt (tobs 0) sigind0
    else if k = 1 then set_index E ver E.SYS_GLO opt (tobs 1) sigind0
    else if k = 2 then set_index E ver E.SYS_GAL opt (tobs 2) sigind0
    else if k = 3 then set_index E ver E.SYS_QZS opt (tobs 3) sigind0
    else if k = 4 then set_index E ver E.SYS_SBS opt (tobs 4) sigind0
    else if k = 5 then set_index E ver E.SYS_CMP opt (tobs 5) sigind0
    else if k = 6 then set_index E ver E.SYS_IRN opt (tobs 6) sigind0
    else sigind0

/-! ## Observation type conversion (`rinex.cpp` lines 244-328) -/

/-- Function `convcode(ver,sys,str,type)`: the ver.3 type written to `type`;
`str[0]` and `str[1]` are the first two characters of `str` (the terminating
zero when `str` is shorter). -/
def convcode (E : Ext) (ver : ℚ) (sys : Nat) (str : List Char) : List Char :=
  let c0 := str.getD 0 (Char.ofNat 0)
  let c1 := str.getD 1 (Char.ofNat 0)
  let blank := "   ".toList
  if str = "P1".toList then
    if sys = E.SYS_GPS then "C1W".toList
    else if sys = E.SYS_GLO then "C1P".toList
    else blank
  else if str = "P2".toList then
    if sys = E.SYS_GPS then "C2W".toList
    else if sys = E.SYS_GLO then "C2P".toList
    else blank
  else if str = "C1".toList then
    if ver ≥ 2.12 then blank
    else if sys = E.SYS_GPS then "C1C".toList
    else if sys = E.SYS_GLO then "C1C".toList
    else if sys = E.SYS_GAL then "C1X".toList
    else if sys = E.SYS_QZS then "C1C".toList
    else if sys = E.SYS_SBS then "C1C".toList
    else blank
  else if str = "C2".toList then
    if sys = E.SYS_GPS then
      if ver ≥ 2.12 then "C2W".toList else "C2X".toList
    else if sys = E.SYS_GLO then "C2C".toList
    else if sys = E.SYS_QZS then "C2X".toList
    else if sys = E.SYS_CMP then "C1X".toList
    else blank
  else if ver ≥ 2.12 ∧ c1 = 'A' then
    if sys = E.SYS_GPS then [c0, '1', 'C']
    else if sys = E.SYS_GLO then [c0, '1', 'C']
    else if sys = E.SYS_QZS then [c0, '1', 'C']
    else if sys = E.SYS_SBS then [c0, '1', 'C']
    else blank
  else if ver ≥ 2.12 ∧ c1 = 'B' then
    if sys = E.SYS_GPS then [c0, '1', 'X']
    else if sys = E.SYS_QZS then [c0, '1', 'X']
    else blank
  else if ver ≥ 2.12 ∧ c1 = 'C' then
    if sys = E.SYS_GPS then [c0, '2', 'X']
    else if sys = E.SYS_QZS then [c0, '2', 'X']
    else blank
  else if ver ≥ 2.12 ∧ c1 = 'D' then
    if sys = E.SYS_GLO then [c0, '2', 'C']
    else blank
  else if ver ≥ 2.12 ∧ c1 = '1' then
    if sys = E.SYS_GPS then [c0, '1', 'W']
    else if sys = E.SYS_GLO then [c0, '1', 'P']
    else if sys = E.SYS_GAL then [c0, '1', 'X']
    else if sys = E.SYS_CMP then [c0, '1', 'X']
    else blank
  else if ver < 2.12 ∧ c1 = '1' then
    if sys = E.SYS_GPS then [c0, '1', 'C']
    else if sys = E.SYS_GLO then [c0, '1', 'C']
    else if sys = E.SYS_GAL then [c0, '1', 'X']
    else if sys = E.SYS_QZS then [c0, '1', 'C']
    else if sys = E.SYS_SBS then [c0, '1', 'C']
    else blank
  else if c1 = '2' then
    if sys = E.SYS_GPS then [c0, '2', 'W']
    else if sys = E.SYS_GLO then [c0, '2', 'P']
    else if sys = E.SYS_QZS then [c0, '2', 'X']
    else if sys = E.SYS_CMP then [c0, '1', 'X']
    else blank
  else if c1 = '5' then
    if sys = E.SYS_GPS then [c0, '5', 'X']
    else if sys = E.SYS_GAL then [c0, '5', 'X']
    else if sys = E.SYS_QZS then [c0, '5', 'X']
    else if sys = E.SYS_SBS then [c0, '5', 'X']
    else blank
  else if c1 = '6' then
    if sys = E.SYS_GAL then [c0, '6', 'X']
    else if sys = E.SYS_QZS then [c0, '6', 'X']
    else if sys = E.SYS_CMP then [c0, '6', 'X']
    else blank
  else if c1 = '7' then
    if sys = E.SYS_GAL then [c0, '7', 'X']
    else if sys = E.SYS_CMP then [c0, '7', 'X']
    else blank
  else if c1 = '8' then
    if sys = E.SYS_GAL then [c0, '8', 'X']
    else blank
  else blank

/-! ## Observation-type header lines (`rinex.cpp` lines 2600-2654) -/

/-- Conversion `%ws` of `printf`: right-justified in at least `w` columns. -/
def padLeft (w : Nat) (s : List Char) : List Char := List.replicate (w - s.length) ' ' ++ s

/-- Conversion `%-ws` of `printf`: left-justified in at least `w` columns. -/
def padRight (w : Nat) (s : List Char) : List Char := s ++ List.replicate (w - s.length) ' '

/-- Conversion `%wd` of `printf`. -/
def fmtInt (w : Nat) (n : Int) : List Char :=
  padLeft w ((if n < 0 then ['-'] else []) ++ decDigits n.natAbs)

/-- Label of `outobstype_ver2`. -/
def labelObsV2 : List Char := "# / TYPES OF OBSERV".toList

/-- Label of `outobstype_ver3`. -/
def labelObsV3 : List Char := "SYS / # / OBS TYPES".toList

/-- Loop `for (i=0;i<opt->nobs[0];i++)` of `outobstype_ver2` from `i` on, with
`fuel` iterations left: the characters written. -/
def outobstype_ver2_loop (tobs : Nat → List Char) : Nat → Nat → List Char
  | 0, _ => []
  | fuel + 1, i =>
    (if i > 0 ∧ i % 9 = 0 then "      ".toList else []) ++
    padLeft 6 (tobs i) ++
    (if i % 9 = 8 then padRight 20 labelObsV2 ++ ['\n'] else []) ++
    outobstype_ver2_loop tobs fuel (i + 1)

/-- Function `outobstype_ver2(fp,opt)`: the characters written to `fp`, for
`nobs = opt->nobs[0]` and `tobs i = opt->tobs[0][i]`. -/
def outobstype_ver2 (nobs : Int) (tobs : Nat → List Char) : List Char :=
  fmtInt 6 nobs ++ outobstype_ver2_loop tobs nobs.toNat 0 ++
  (if nobs = 0 ∨ nobs.toNat % 9 > 0 then
    List.replicate ((9 - nobs.toNat % 9) * 6) ' ' ++ padRight 20 labelObsV2 ++ ['\n']
   else [])

/-- Fields of `rnxopt_t` read by `outobstype_ver3`. -/
structure rnxopt_t where
  rnxver : ℚ
  navsys : Nat
  nobs : Nat → Int
  tobs : Nat → Nat → List Char

/-- Table `navsys[]` of `rinex.cpp` without its terminating zero, each system
with its letter of `syscodes[]` and its position. -/
def navsysTable (E : Ext) : List (Nat × Char × Nat) :=
  [(E.SYS_GPS, 'G', 0), (E.SYS_GLO, 'R', 1), (E.SYS_GAL, 'E', 2), (E.SYS_QZS, 'J', 3),
   (E.SYS_SBS, 'S', 4), (E.SYS_CMP, 'C', 5), (E.SYS_IRN, 'I', 6)]

/-- BeiDou renaming of `outobstype_ver3` applied to the copy of a type:
`tobs[1]` becomes `1` for ver.3.02 and `2` otherwise. -/
def bdsType (E : Ext) (rnxver : ℚ) (sys : Nat) (t : List Char) : List Char :=
  if sys = E.SYS_CMP then
    match t with
    | a :: b :: r =>
      let b1 := if rnxver = 3.02 ∧ b = '2' then '1' else b
      let b2 := if rnxver ≠ 3.02 ∧ b1 = '1' then '2' else b1
      a :: b2 :: r
    | _ => t
  else t

/-- Loop `for (j=0;j<opt->nobs[i];j++)` of `outobstype_ver3` from `j` on, with
`fuel` iterations left: the characters written. -/
def outobstype_ver3_loop (E : Ext) (rnxver : ℚ) (sys : Nat) (tobs : Nat → List Char) :
    Nat → Nat → List Char
  | 0, _ => []
  | fuel + 1, j =>
    (if j > 0 ∧ j % 13 = 0 then "      ".toList else []) ++
    ([' '] ++ padLeft 3 (bdsType E rnxver sys (tobs j))) ++
    (if j % 13 = 12 then "  ".toList ++ padRight 20 labelObsV3 ++ ['\n'] else []) ++
    outobstype_ver3_loop E rnxver sys tobs fuel (j + 1)

/-- Body of the loop `for (i=0;navsys[i];i++)` of `outobstype_ver3` for the
system `sys` with letter `c` at position `i`. -/
def outobstype_ver3_sys (E : Ext) (opt : rnxopt_t) (sys : Nat) (c : Char) (i : Nat) :
    List Char :=
  if sys &&& opt.navsys = 0 ∨ opt.nobs i = 0 then []
  else
    ([c] ++ "  ".toList ++ fmtInt 3 (opt.nobs i)) ++
    outobstype_ver3_loop E opt.rnxver sys (opt.tobs i) (opt.nobs i).toNat 0 ++
    (if (opt.nobs i).toNat % 13 > 0 then
      List.replicate ((13 - (opt.nobs i).toNat % 13) * 4) ' ' ++ "  ".toList ++
        padRight 20 labelObsV3 ++ ['\n']
     else [])

/-- Loop `for (i=0;navsys[i];i++)` of `outobstype_ver3` over the rest of the
table; it ends at the first system code that is zero. -/
def outobstype_ver3_systems (E : Ext) (opt : rnxopt_t) : List (Nat × Char × Nat) → List Char
  | [] => []
  | (sys, c, i) :: rest =>
    if sys = 0 then []
    else outobstype_ver3_sys E opt sys c i ++ outobstype_ver3_systems E opt rest

/-- Function `outobstype_ver3(fp,opt)`: the characters written to `fp`. -/
def outobstype_ver3 (E : Ext) (opt : rnxopt_t) : List Char :=
  outobstype_ver3_systems E opt (navsysTable E)

/-- Text of the lines with the bodies `bodies`, each followed by the label
`lab` and a newline. -/
def linesText (lab : List Char) : List (List Char) → List Char
  | [] => []
  | b :: bs => b ++ lab ++ ['\n'] ++ linesText lab bs

/-! ## Observation and ephemeris stores (`rinex.cpp` lines 969-984, 1997-2110, 1232-1293) -/

/-- Constant `NINCOBS`: first capacity of the observation store. -/
def NINCOBS : Int := 262144

/-- Observation store `obs_t` with its count `n` and capacity `nmax`; `data`
lists the records appended to the buffer (empty after `free`). -/
structure obsstore_t where
  n : Int
  nmax : Int
  data : List obsd_t

/-- Function `addobsdata(obs,data)`: the return value and the store;
`realloc c` tells whether `realloc` succeeds for the capacity `c`. -/
def addobsdata (realloc : Int → Bool) (obs : obsstore_t) (data : obsd_t) : Int × obsstore_t :=
  if obs.nmax ≤ obs.n then
    let nmax := if obs.nmax ≤ 0 then NINCOBS else obs.nmax * 2
    if realloc nmax = false then (-1, { n := 0, nmax := 0, data := [] })
    else (1, { n := obs.n + 1, nmax := nmax, data := obs.data ++ [data] })
  else (1, { obs with n := obs.n + 1, data := obs.data ++ [data] })

/-- Second inner loop of the body of `readrnxobs` with the result of
`addobsdata`: `restslips`, receiver number and `addobsdata` for the records of
`data` from index `i` on, `fuel` of them, ended by `break` when `stat<0`. Returns
`stat`, the records, the slip table and the store. -/
def readrnxobs_add (E : Ext) (realloc : Int → Bool) (rcv : Int) :
    Nat → Nat → Int → (Nat → obsd_t) → (Int → Nat → Nat) → obsstore_t →
    Int × (Nat → obsd_t) × (Int → Nat → Nat) × obsstore_t
  | 0, _, stat, data, slips, obs => (stat, data, slips, obs)
  | fuel + 1, i, _, data, slips, obs =>
    let d := storeRecord E rcv slips (data i)
    let a := addobsdata realloc obs d
    if a.1 < 0 then (a.1, Function.update data i d, (restslips E slips (data i)).1, a.2)
    else readrnxobs_add E realloc rcv fuel (i + 1) a.1 (Function.update data i d)
      (restslips E slips (data i)).1 a.2

/-- Loop `while ((n=readrnxobsb(...))>=0&&stat>=0)` of `readrnxobs` with the
status `stat`; `fuel` bounds the number of calls of `readrnxobsb`, `none` when it
is used up. Returns the final `stat` and the store. -/
def readrnxobs_run {H : Type} (E : Ext) (obsh : ObshFn H) (tsys : H → Int)
    (realloc : Int → Bool) (ts te : gtime_t) (tint : ℚ) (rcv : Int) (ver : ℚ) (mask : Nat)
    (index : Nat → sigind_t) :
    Nat → List (List Char) → Int → (Nat → obsd_t) → H → (Int → Nat → Nat) → obsstore_t → Int →
    Option (Int × obsstore_t)
  | 0, _, _, _, _, _, _, _ => none
  | fuel + 1, fp, flag, data, hdr, slips, obs, stat =>
    let r := readrnxobsb E obsh fp mask ver hdr flag data index
    if r.ret < 0 ∨ stat < 0 then some (stat, obs)
    else
      let s := readrnxobs_save E (tsys r.hdr) r.ret.toNat 0 r.data slips
      if r.ret.toNat > 0 ∧ E.screent (s.1 0).time ts te tint = false then
        readrnxobs_run E obsh tsys realloc ts te tint rcv ver mask index fuel r.fp r.flag s.1
          r.hdr s.2 obs stat
      else
        let a := readrnxobs_add E realloc rcv r.ret.toNat 0 stat s.1 s.2 obs
        readrnxobs_run E obsh tsys realloc ts te tint rcv ver mask index fuel r.fp r.flag a.2.1
          r.hdr a.2.2.1 a.2.2.2 a.1

/-- Body of the loop `while ((n=readrnxobsb(...))>=0&&stat>=0)` of `readrnxobs`
for the `n` records that `readrnxobsb` left in `data`: conversion of the times
and `saveslips`, the time screen (`continue`), then `restslips` and
`addobsdata` for each record until `stat<0`. Returns `stat`, the records, the
slip table and the store. -/
def readrnxobs_body (E : Ext) (realloc : Int → Bool) (ts te : gtime_t) (tint : ℚ) (rcv : Int)
    (tsys : Int) (n : Nat) (data : Nat → obsd_t) (stat : Int) (slips : Int → Nat → Nat)
    (obs : obsstore_t) : Int × (Nat → obsd_t) × (Int → Nat → Nat) × obsstore_t :=
  let s := readrnxobs_save E tsys n 0 data slips
  if n > 0 ∧ E.screent (s.1 0).time ts te tint = false then (stat, s.1, s.2, obs)
  else readrnxobs_add E realloc rcv n 0 stat s.1 s.2 obs

/-- State carried by the loop of `readrnxobs`: the status `stat`, the slip table
and the store. -/
structure obsloop_t where
  stat : Int
  slips : Int → Nat → Nat
  obs : obsstore_t

/-- One pass of the loop `while ((n=readrnxobsb(...))>=0&&stat>=0)` of
`readrnxobs` after `readrnxobsb` has returned `n` and left its records in
`data`: when the condition fails the loop is over and nothing changes,
otherwise the body runs. -/
def readrnxobs_step (E : Ext) (realloc : Int → Bool) (ts te : gtime_t) (tint : ℚ) (rcv : Int)
    (tsys : Int) (n : Int) (data : Nat → obsd_t) (st : obsloop_t) :
    (Nat → obsd_t) × obsloop_t :=
  if n < 0 ∨ st.stat < 0 then (data, st)
  else
    let b := readrnxobs_body E realloc ts te tint rcv tsys n.toNat data st.stat st.slips st.obs
    (b.2.1, { stat := b.1, slips := b.2.2.1, obs := b.2.2.2 })

/-- Function `readrnxobs(fp,ts,te,tint,opt,rcv,ver,tsys,tobs,obs,sta)`: the
return value and the store, `none` when `fuel` calls of `readrnxobsb` do not
reach the end. `obs = none` is the null pointer, `mallocOk` tells whether the
record buffer is allocated, `data` is its initial content, `tobs` reads the
observation-type tables from the header data; the table `obs->isci` is not
modelled. -/
def readrnxobs {H : Type} (E : Ext) (obsh : ObshFn H) (tsys : H → Int)
    (tobs : H → Nat → List (List Char)) (mallocOk : Bool) (realloc : Int → Bool)
    (fuel : Nat) (fp : List (List Char)) (ts te : gtime_t) (tint : ℚ) (opt : List Char)
    (rcv : Int) (ver : ℚ) (hdr : H) (obs : Option obsstore_t) (data : Nat → obsd_t) :
    Option (Int × Option obsstore_t) :=
  match obs with
  | none => some (0, none)
  | some o =>
    if rcv > E.MAXRCV then some (0, some o)
    else if mallocOk = false then some (0, some o)
    else
      (readrnxobs_run E obsh tsys realloc ts te tint rcv ver (set_sysmask E opt)
        (readrnxobs_index E ver opt (tobs hdr)) fuel fp 0 data hdr (fun _ _ => 0) o 0).map
        (fun r => (r.1, some r.2))

/-- Part of `nav_t` written by `readrnxnav`: the three ephemeris stores with
their counts and capacities (each list holds the records appended to the
buffer, empty after `free`) and the ionosphere tables. -/
structure navstore_t where
  n : Int
  nmax : Int
  eph : List eph_t
  ng : Int
  ngmax : Int
  geph : List geph_t
  ns : Int
  nsmax : Int
  seph : List seph_t
  ion_gal : Nat → ℚ
  ion_gps : Nat → ℚ
  ion_cmp : Nat → ℚ
  /-- Field `ion_bdsk9->bds_ion.bdsk8` -/
  bdsk8 : Nat → bdsion_t
  /-- Field `ion_bdsk9->bds_ion.nk8` -/
  nk8 : Nat
  /-- Field `ion_bdsk9->bds_ion.bdssh9` -/
  bdssh9 : Nat → bdsion_t
  /-- Field `ion_bdsk9->bds_ion.nsh9` -/
  nsh9 : Nat

/-- Function `add_ion(nav,iono,type)`: the return value and the store. -/
def add_ion (E : Ext) (nav : navstore_t) (iono : ion_t) (type : Int) : Int × navstore_t :=
  let hour := toInt (E.time2epoch iono.toc 3)
  if type = 5 then
    (1, { nav with ion_gal := fun i => if i < 3 then iono.ion i else nav.ion_gal i })
  else if type = 6 ∧ iono.sys = (E.SYS_GPS : Int) then
    (1, { nav with ion_gps := fun i => if i < 8 then iono.ion i else nav.ion_gps i })
  else if type = 6 ∧ iono.sys = (E.SYS_CMP : Int) then
    (1, { nav with
      ion_cmp := fun i => if i < 8 then iono.ion i else nav.ion_cmp i
      bdsk8 := Function.update nav.bdsk8 nav.nk8
        { nav.bdsk8 nav.nk8 with
          hour := hour, ion := fun i => if i < 8 then iono.ion i else (nav.bdsk8 nav.nk8).ion i }
      nk8 := nav.nk8 + 1 })
  else if type = 7 then
    (1, { nav with
      bdssh9 := Function.update nav.bdssh9 nav.nsh9
        { nav.bdssh9 nav.nsh9 with
          hour := hour,
          ion := fun i => if i < 9 then iono.ion i else (nav.bdssh9 nav.nsh9).ion i }
      nsh9 := nav.nsh9 + 1 })
  else (1, nav)

/-- Function `add_eph(nav,eph)`: the return value and the store; `realloc c`
tells whether `realloc` succeeds for the capacity `c`. -/
def add_eph (realloc : Int → Bool) (nav : navstore_t) (eph : eph_t) : Int × navstore_t :=
  if nav.nmax ≤ nav.n then
    if realloc (nav.nmax + 1024) = false then (0, { nav with n := 0, nmax := 0, eph := [] })
    else (1, { nav with n := nav.n + 1, nmax := nav.nmax + 1024, eph := nav.eph ++ [eph] })
  else (1, { nav with n := nav.n + 1, eph := nav.eph ++ [eph] })

/-- Function `add_geph(nav,geph)`: the return value and the store. -/
def add_geph (realloc : Int → Bool) (nav : navstore_t) (geph : geph_t) : Int × navstore_t :=
  if nav.ngmax ≤ nav.ng then
    if realloc (nav.ngmax + 1024) = false then (0, { nav with ng := 0, ngmax := 0, geph := [] })
    else (1, { nav with ng := nav.ng + 1, ngmax := nav.ngmax + 1024,
                        geph := nav.geph ++ [geph] })
  else (1, { nav with ng := nav.ng + 1, geph := nav.geph ++ [geph] })

/-- Function `add_seph(nav,seph)`: the return value and the store. -/
def add_seph (realloc : Int → Bool) (nav : navstore_t) (seph : seph_t) : Int × navstore_t :=
  if nav.nsmax ≤ nav.ns then
    if realloc (nav.nsmax + 1024) = false then (0, { nav with ns := 0, nsmax := 0, seph := [] })
    else (1, { nav with ns := nav.ns + 1, nsmax := nav.nsmax + 1024,
                        seph := nav.seph ++ [seph] })
  else (1, { nav with ns := nav.ns + 1, seph := nav.seph ++ [seph] })

/-- Statement `switch (type)` of `readrnxnav`: the new `stat` and the store;
`re`, `rg`, `rs` are the outcomes of `realloc` for the three stores. -/
def readrnxnav_add (E : Ext) (re rg rs : Int → Bool) (nav : navstore_t) (r : navret_t) :
    Int × navstore_t :=
  if r.type = 1 then add_geph rg nav r.geph
  else if r.type = 2 then add_seph rs nav r.seph
  else if r.type = 5 then add_ion E nav r.ion 5
  else if r.type = 6 then add_ion E nav r.ion 6
  else if r.type = 7 then add_ion E nav r.ion 7
  else add_eph re nav r.eph

/-- Loop `while ((stat=readrnxnavb(...))>=0)` of `readrnxnav` and the final
`return`; `out` holds the locals `type`, `eph`, `geph`, `seph`, `ion`, `fuel`
bounds the number of calls of `readrnxnavb`, `none` when it is used up. -/
def readrnxnav_loop (E : Ext) (re rg rs : Int → Bool) (opt : List Char) (ver : ℚ) (sys : Nat)
    (d0 : Nat → ℚ) : Nat → List (List Char) → navret_t → navstore_t → Option (Int × navstore_t)
  | 0, _, _, _ => none
  | fuel + 1, fp, out, nav =>
    let r := readrnxnavb E fp opt ver sys d0 out
    if r.ret < 0 then some (if nav.n > 0 ∨ nav.ng > 0 ∨ nav.ns > 0 then 1 else 0, nav)
    else if r.ret ≠ 0 then
      let a := readrnxnav_add E re rg rs nav r
      if a.1 = 0 then some (0, a.2)
      else readrnxnav_loop E re rg rs opt ver sys d0 fuel r.fp r a.2
    else readrnxnav_loop E re rg rs opt ver sys d0 fuel r.fp r nav

/-- Function `readrnxnav(fp,opt,ver,sys,nav)`: the return value and the store,
`none` when `fuel` calls of `readrnxnavb` do not reach the end. `nav = none` is
the null pointer; `out` holds the uninitialised locals and `d0` the
uninitialised array `data` of `readrnxnavb`. -/
def readrnxnav (E : Ext) (re rg rs : Int → Bool) (fuel : Nat) (fp : List (List Char))
    (opt : List Char) (ver : ℚ) (sys : Nat) (d0 : Nat → ℚ) (out : navret_t)
    (nav : Option navstore_t) : Option (Int × Option navstore_t) :=
  match nav with
  | none => some (0, none)
  | some v =>
    (readrnxnav_loop E re rg rs opt ver sys d0 fuel fp out v).map (fun r => (r.1, some r.2))

/-! ## Record-by-record input (`rinex.cpp` lines 2536-2595) -/

/-- Fields of the control struct `rnxctr_t` used by the navigation part of
`input_rnxctr`; the arrays `nav.eph`, `nav.geph`, `nav.seph` are maps from the
index, an `int`, so that an index below zero is a position before the array. -/
structure rnxctr_t where
  time : gtime_t
  ver : ℚ
  type : Char
  opt : List Char
  ephsat : Int
  eph : Int → eph_t
  geph : Int → geph_t
  seph : Int → seph_t

/-- Statement `switch (rnx->type)` of `input_rnxctr`: the system passed to
`readrnxnavb`, `none` for `default: return 0`. -/
def input_rnxctr_sys (E : Ext) (c : Char) : Option Nat :=
  if c = 'N' then some E.SYS_NONE
  else if c = 'G' then some E.SYS_GLO
  else if c = 'H' then some E.SYS_SBS
  else if c = 'L' then some E.SYS_GAL
  else if c = 'J' then some E.SYS_QZS
  else none

/-- Function `input_rnxctr(rnx,fp)`: the return value, the control struct and
the stream. The branch `if (rnx->type=='O')` is the parameter `obsPart`; `d0` is
the uninitialised array `data` of `readrnxnavb` and `type0` the uninitialised
local `type`. -/
def input_rnxctr (E : Ext)
    (obsPart : rnxctr_t → List (List Char) → Int × rnxctr_t × List (List Char))
    (d0 : Nat → ℚ) (type0 : Int) (rnx : rnxctr_t) (fp : List (List Char)) :
    Int × rnxctr_t × List (List Char) :=
  if rnx.type = 'O' then obsPart rnx fp
  else
    match input_rnxctr_sys E rnx.type with
    | none => (0, rnx, fp)
    | some sys =>
      let r := readrnxnavb E fp rnx.opt rnx.ver sys d0
        { ret := 0, type := type0, eph := eph0, geph := geph0, seph := seph0, ion := ion0,
          fp := fp }
      if r.ret ≤ 0 then (if r.ret < 0 then -2 else 0, rnx, r.fp)
      else if r.type = 1 then
        (2, { rnx with
              geph := Function.update rnx.geph (E.satprn r.geph.sat.toNat - 1) r.geph
              time := r.geph.tof
              ephsat := r.geph.sat }, r.fp)
      else if r.type = 2 then
        (2, { rnx with
              seph := Function.update rnx.seph (E.satprn r.seph.sat.toNat - E.MINPRNSBS) r.seph
              time := r.seph.tof
              ephsat := r.seph.sat }, r.fp)
      else
        (2, { rnx with
              eph := Function.update rnx.eph (r.eph.sat - 1) r.eph
              time := r.eph.ttr
              ephsat := r.eph.sat }, r.fp)

/-! ## Times as exact seconds -/

/-- Value of a time in seconds: the integer part plus the fraction. -/
def gtimeSec (t : gtime_t) : ℚ := (t.time : ℚ) + t.sec

/-- Modelled from the spec: `timediff` and `timeadd` of `rtkcmn.c` are exact
arithmetic on seconds, `timediff(t1,t2)` being `t1 - t2` and `timeadd(t,s)` the
time `t + s`. -/
def ExactTime (E : Ext) : Prop :=
  (∀ t1 t2 : gtime_t, E.timediff t1 t2 = gtimeSec t1 - gtimeSec t2) ∧
  (∀ (t : gtime_t) (s : ℚ), gtimeSec (E.timeadd t s) = gtimeSec t + s)

/-! ## Extended positions of the signal index (`rinex.cpp` lines 1097-1112) -/

/-- State of the index in `set_index` after the loop "assign index for highest
priority code", before the loop "assign index of extended obs data". -/
def set_index_afterPrimary (E : Ext) (sys : Nat) (opt : List Char) (tobs : List (List Char))
    (ind : sigind_t) : sigind_t :=
  let s := set_index_scan E sys opt tobs 0 ind
  set_index_primary E s.2 { s.1 with shift := set_index_shift E sys s.2 s.1.code opt s.1.shift }

/-- Entry `j` is a candidate for an extended position: nonzero code, nonzero
priority and no position (the test `ind->code[j]&&ind->pri[j]&&ind->pos[j]<0`). -/
def extCandidate (ind : sigind_t) (j : Nat) : Prop :=
  ind.code j ≠ 0 ∧ ind.pri j ≠ 0 ∧ ind.pos j < 0

instance (ind : sigind_t) (j : Nat) : Decidable (extCandidate ind j) := by
  unfold extCandidate
  infer_instance

/-- Codes of the candidate entries among `j .. j+fuel-1`, in declaration order. -/
def candCodes (ind : sigind_t) : Nat → Nat → List Nat
  | 0, _ => []
  | fuel + 1, j =>
    if extCandidate ind j then ind.code j :: candCodes ind fuel (j + 1)
    else candCodes ind fuel (j + 1)

/-- Distinct values of a list in the order of their first occurrence. -/
def firstOccurrences : List Nat → List Nat
  | [] => []
  | c :: cs => c :: (firstOccurrences cs).filter (fun x => decide (x ≠ c))

/-- Distinct codes of the candidate entries of a table of `n` entries, in
declaration order. -/
def extCodes (ind : sigind_t) (n : Nat) : List Nat := firstOccurrences (candCodes ind n 0)

/-! ## Order of precise clock entries -/

/-- Value in seconds of the time of a precise clock entry. -/
def pclkSec (q : pclk_t) : ℚ := gtimeSec q.time

/-- Two entries are less than 1e-9 s apart, the test of the merging loop of
`combpclk`. -/
def pclkNear (a b : pclk_t) : Prop := |pclkSec a - pclkSec b| < 1e-9

/-- Entry `a` is not later than entry `b`: they are less than 1e-9 s apart or `a`
is more than 1e-9 s earlier. -/
def pclkBefore (a b : pclk_t) : Prop := pclkNear a b ∨ pclkSec a + 1e-9 < pclkSec b

/-- Timestamps of the first `n` entries of a store form clusters: no two of them
differ by exactly 1e-9 s, and being less than 1e-9 s apart is transitive among
them (so it is when any two timestamps are equal or more than 1e-9 s apart). -/
def ClusteredTimes (pclk : Nat → pclk_t) (n : Nat) : Prop :=
  (∀ a b, a < n → b < n → |pclkSec (pclk a) - pclkSec (pclk b)| ≠ 1e-9) ∧
  (∀ a b c, a < n → b < n → c < n → pclkNear (pclk a) (pclk b) →
    pclkNear (pclk b) (pclk c) → pclkNear (pclk a) (pclk c))

/-! ## Header lines read by `decode_obsh` (`rinex.cpp` lines 330-481) -/

/-- Labels of the chain of tests `strstr(label,...)` of `decode_obsh`, in the
order of the chain, up to `GLONASS SLOT / FRQ #`. -/
def obshLabels : List (List Char) :=
  ["MARKER NAME", "MARKER NUMBER", "MARKER TYPE", "OBSERVER / AGENCY", "REC # / TYPE / VERS",
   "ANT # / TYPE", "APPROX POSITION XYZ", "ANTENNA: DELTA H/E/N", "ANTENNA: DELTA X/Y/Z",
   "ANTENNA: PHASECENTER", "ANTENNA: B.SIGHT XYZ", "ANTENNA: ZERODIR AZI",
   "ANTENNA: ZERODIR XYZ", "CENTER OF MASS: XYZ", "SYS / # / OBS TYPES",
   "WAVELENGTH FACT L1/2", "# / TYPES OF OBSERV", "SIGNAL STRENGTH UNIT", "INTERVAL",
   "TIME OF FIRST OBS", "TIME OF LAST OBS", "RCV CLOCK OFFS APPL", "SYS / DCBS APPLIED",
   "SYS / PCVS APPLIED", "SYS / SCALE FACTOR", "SYS / PHASE SHIFTS",
   "GLONASS SLOT / FRQ #"].map String.toList

/-- Branch of `decode_obsh` taken for the line `buff`: the position in
`obshLabels` of the first label found in `label = buff+60`. -/
def obshBranch (buff : List Char) : Nat :=
  obshLabels.findIdx (fun l => strstr (buff.drop 60) l)

/-- Function `setstr(dst,src,n)`: at most `n` characters of `src`, without the
tail spaces. -/
def setstr (src : List Char) (n : Nat) : List Char :=
  ((src.take n).reverse.dropWhile (fun c => c == ' ')).reverse

/-- Loop `for (j=nt=0,k=7;j<n;j++,k+=4)` of the branch `SYS / # / OBS TYPES` of
`decode_obsh`, with `fuel = n - j` iterations left: the line buffer, the
stream, `nt` and the row `tobs[i]` after it. -/
def decode_obsh_sys_loop (E : Ext) :
    Nat → Nat → Nat → List Char → List (List Char) → (Nat → List Char) →
    List Char × List (List Char) × Nat × (Nat → List Char)
  | 0, _, nt, buff, fp, tobs => (buff, fp, nt, tobs)
  | fuel + 1, k, nt, buff, fp, tobs =>
    if k > 58 then
      match fp with
      | [] => (buff, fp, nt, tobs)
      | line :: rest =>
        if nt < E.MAXOBSTYPE - 1 then
          decode_obsh_sys_loop E fuel (7 + 4) (nt + 1) line rest
            (Function.update tobs nt (setstr (line.drop 7) 3))
        else decode_obsh_sys_loop E fuel (7 + 4) nt line rest tobs
    else if nt < E.MAXOBSTYPE - 1 then
      decode_obsh_sys_loop E fuel (k + 4) (nt + 1) buff fp
        (Function.update tobs nt (setstr (buff.drop k) 3))
    else decode_obsh_sys_loop E fuel (k + 4) nt buff fp tobs

/-- Conversions `convcode(ver,SYS_x,str,tobs[s][nt])` of `decode_obsh` for the
six systems of a version 2 file. -/
def convcodeRows (E : Ext) (ver : ℚ) (str : List Char) (nt : Nat)
    (tobs : Nat → Nat → List Char) : Nat → Nat → List Char :=
  fun s =>
    if s = 0 then Function.update (tobs 0) nt (convcode E ver E.SYS_GPS str)
    else if s = 1 then Function.update (tobs 1) nt (convcode E ver E.SYS_GLO str)
    else if s = 2 then Function.update (tobs 2) nt (convcode E ver E.SYS_GAL str)
    else if s = 3 then Function.update (tobs 3) nt (convcode E ver E.SYS_QZS str)
    else if s = 4 then Function.update (tobs 4) nt (convcode E ver E.SYS_SBS str)
    else if s = 5 then Function.update (tobs 5) nt (convcode E ver E.SYS_CMP str)
    else tobs s

/-- Loop `for (i=nt=0,j=10;i<n;i++,j+=6)` of the branch `# / TYPES OF OBSERV` of
`decode_obsh`, with `fuel = n - i` iterations left: the line buffer, the
stream, `nt` and the table `tobs` after it. -/
def decode_obsh_v2_loop (E : Ext) (ver : ℚ) :
    Nat → Nat → Nat → List Char → List (List Char) → (Nat → Nat → List Char) →
    List Char × List (List Char) × Nat × (Nat → Nat → List Char)
  | 0, _, nt, buff, fp, tobs => (buff, fp, nt, tobs)
  | fuel + 1, j, nt, buff, fp, tobs =>
    if j > 58 then
      match fp with
      | [] => (buff, fp, nt, tobs)
      | line :: rest =>
        if nt ≥ E.MAXOBSTYPE - 1 then decode_obsh_v2_loop E ver fuel (10 + 6) nt line rest tobs
        else
          decode_obsh_v2_loop E ver fuel (10 + 6) (nt + 1) line rest
            (if ver ≤ 2.99 then convcodeRows E ver (setstr (line.drop 10) 2) nt tobs else tobs)
    else if nt ≥ E.MAXOBSTYPE - 1 then decode_obsh_v2_loop E ver fuel (j + 6) nt buff fp tobs
    else
      decode_obsh_v2_loop E ver fuel (j + 6) (nt + 1) buff fp
        (if ver ≤ 2.99 then convcodeRows E ver (setstr (buff.drop j) 2) nt tobs else tobs)

/-- Test `strchr(syscodes,buff[0])` of `decode_obsh` with `syscodes = "GREJSCI"`;
the terminating zero of an empty line is found in the terminated string. -/
def obshSysFound (buff : List Char) : Bool :=
  match buff with
  | [] => true
  | c :: _ => "GREJSCI".toList.contains c

/-- Stream after `decode_obsh(fp,buff,ver,...)`: only the branches
`SYS / # / OBS TYPES` and `# / TYPES OF OBSERV` read from the stream. -/
def decode_obsh_fp (E : Ext) (ver : ℚ) (buff : List Char) (fp : List (List Char))
    (tobs : Nat → Nat → List Char) : List (List Char) :=
  if obshBranch buff = 14 then
    if obshSysFound buff then
      (decode_obsh_sys_loop E (toInt (E.str2num buff 3 3)).toNat 7 0 buff fp (fun _ => [])).2.1
    else fp
  else if obshBranch buff = 16 then
    (decode_obsh_v2_loop E ver (toInt (E.str2num buff 0 6)).toNat 10 0 buff fp tobs).2.1
  else fp

/-- Loop `for (i=0,p=buff+4;i<8;i++,p+=7)` of the branch `GLONASS SLOT / FRQ #`
of `decode_obsh` from slot `i` on, with `fuel = 8 - i` slots left: the table
`nav->glo_fcn` after it. -/
def decode_obsh_glo_loop (E : Ext) (buff : List Char) :
    Nat → Nat → (Nat → Int) → (Nat → Int)
  | 0, _, glo_fcn => glo_fcn
  | fuel + 1, i, glo_fcn =>
    decode_obsh_glo_loop E buff fuel (i + 1)
      (match E.scanSlot (buff.drop (4 + 7 * i)) with
       | some (prn, fcn) =>
         if 1 ≤ prn ∧ prn ≤ (E.MAXPRNGLO : Int) then
           Function.update glo_fcn (prn - 1).toNat (fcn + 8)
         else glo_fcn
       | none => glo_fcn)

/-- Table `nav->glo_fcn` after `decode_obsh(fp,buff,ver,...,nav,sta)` with `nav`
not null: only the branch `GLONASS SLOT / FRQ #` writes the table. -/
def decode_obsh_glo (E : Ext) (buff : List Char) (glo_fcn : Nat → Int) : Nat → Int :=
  if obshBranch buff = 26 then decode_obsh_glo_loop E buff 8 0 glo_fcn else glo_fcn

/-! ## Satellite list and GLONASS slot lines written (`rinex.cpp` lines 2740-2756, 2877-2885) -/

/-- Loop `for (i=0;i<ns;i++)` of the ver.2 branch of `outrnxobsb` from `i` on,
with `fuel` iterations left: the characters written after the epoch fields. -/
def outrnxobsb_sats (sats : Nat → List Char) : Nat → Nat → List Char
  | 0, _ => []
  | fuel + 1, i =>
    (if i > 0 ∧ i % 12 = 0 then ['\n'] ++ padLeft 32 [] else []) ++
    padRight 3 (sats i) ++ outrnxobsb_sats sats fuel (i + 1)

/-- Loop `for (i=n=0;i<MAXPRNGLO;i++) if (nav->glo_fcn[i]>=1) prn[n++]=i+1;` of
`outrnxobsh`: the slot numbers `prn[0..n-1]`. -/
def gloSlots (E : Ext) (glo_fcn : Nat → Int) : List Nat :=
  ((List.range E.MAXPRNGLO).filter (fun i => decide (glo_fcn i ≥ 1))).map (fun i => i + 1)

/-- Slot `j` of the lines `GLONASS SLOT / FRQ #` written by `outrnxobsh`:
`" R%02d %2d"` for `j < n` and `" %6s"` with the empty string otherwise. -/
def outGloSlot (glo_fcn : Nat → Int) (prn : List Nat) (j : Nat) : List Char :=
  if j < prn.length then
    " R".toList ++ zeroPad 2 (decDigits (prn.getD j 0)) ++ [' '] ++
      fmtInt 2 (glo_fcn (prn.getD j 0 - 1) - 8)
  else [' '] ++ padLeft 6 []

/-- Line `i` of the loop `for (i=j=0;i<(n<=0?1:(n-1)/8+1);i++)` of `outrnxobsh`;
the slots of line `i` are `j = 8 i .. 8 i + 7`. -/
def outGloLine (glo_fcn : Nat → Int) (prn : List Nat) (i : Nat) : List Char :=
  (if i = 0 then fmtInt 3 prn.length else "   ".toList) ++
  (outGloSlot glo_fcn prn (8 * i) ++ outGloSlot glo_fcn prn (8 * i + 1) ++
   outGloSlot glo_fcn prn (8 * i + 2) ++ outGloSlot glo_fcn prn (8 * i + 3) ++
   outGloSlot glo_fcn prn (8 * i + 4) ++ outGloSlot glo_fcn prn (8 * i + 5) ++
   outGloSlot glo_fcn prn (8 * i + 6) ++ outGloSlot glo_fcn prn (8 * i + 7)) ++
  ([' '] ++ padRight 20 "GLONASS SLOT / FRQ #".toList ++ ['\n'])

/-- Lines `GLONASS SLOT / FRQ #` written by `outrnxobsh` for `rnxver >= 3.02`. -/
def outrnxobsh_glo (E : Ext) (glo_fcn : Nat → Int) : List (List Char) :=
  (List.range (if (gloSlots E glo_fcn).length ≤ 0 then 1
    else ((gloSlots E glo_fcn).length - 1) / 8 + 1)).map
    (outGloLine glo_fcn (gloSlots E glo_fcn))

/-- Effect of slot `j` of the lines written by `outrnxobsh` on a table: the
entry of slot number `prn[j]` takes the value of `glo_fcn`. -/
def gloApply (glo_fcn : Nat → Int) (prn : List Nat) (j : Nat) (t : Nat → Int) : Nat → Int :=
  if j < prn.length then Function.update t (prn.getD j 0 - 1) (glo_fcn (prn.getD j 0 - 1))
  else t

/-! ## A sample environment and sample inputs

A concrete instance of `Ext`, used to evaluate the embedding on concrete lines.
Its number reader handles integer fields only. -/

/-- Value of the leading decimal digits of a character list, after `acc`. -/
def digitsVal : List Char → Nat → Nat
  | [], acc => acc
  | c :: cs, acc => if c.isDigit then digitsVal cs (acc * 10 + (c.toNat - 48)) else acc

/-- Signed decimal integer written in columns `i .. i+n-1` of `s`, 0 when the
field holds no number. -/
def sampleInt (s : List Char) (i n : Nat) : Int :=
  match ((s.drop i).take n).dropWhile (fun c => c == ' ') with
  | '-' :: r => -((digitsVal r 0 : Nat) : Int)
  | r => ((digitsVal r 0 : Nat) : Int)

/-- Conversion `%2d` of `sscanf`: blanks are skipped, then at most two characters
of a signed decimal number are read; the number and the text that follows. -/
def sampleScanInt2 (s : List Char) : Option (Int × List Char) :=
  match s.dropWhile (fun c => c == ' ') with
  | '-' :: d :: r => if d.isDigit then some (-((d.toNat - 48 : Nat) : Int), r) else none
  | d1 :: d2 :: r =>
    if d1.isDigit then
      if d2.isDigit then some ((((d1.toNat - 48) * 10 + (d2.toNat - 48) : Nat) : Int), r)
      else some (((d1.toNat - 48 : Nat) : Int), d2 :: r)
    else none
  | [d1] => if d1.isDigit then some (((d1.toNat - 48 : Nat) : Int), []) else none
  | [] => none

/-- Sample `sscanf(p,"R%2d %2d",&prn,&fcn)`. -/
def sampleScanSlot (p : List Char) : Option (Int × Int) :=
  match p with
  | 'R' :: r =>
    match sampleScanInt2 r with
    | some (prn, r1) =>
      match sampleScanInt2 r1 with
      | some (fcn, _) => some (prn, fcn)
      | none => none
    | none => none
  | _ => none

/-- Sample `str2num`. -/
def sampleStr2num (s : List Char) (i n : Nat) : ℚ := ((sampleInt s i n : Int) : ℚ)

/-- Sample `str2time`: the year field must hold a number; the result counts years. -/
def sampleStr2time (s : List Char) (i n : Nat) : Option gtime_t :=
  if (((s.drop i).take n).dropWhile (fun c => c == ' ')).head?.any Char.isDigit
  then some { time := sampleInt s i 3, sec := 0 } else none

/-- Sample `satid2no`: `Gnn` is satellite nn (1..32), `Rnn` is 32+nn (nn in 1..27). -/
def sampleSatid2no (id : List Char) : Int :=
  match id with
  | c :: r =>
    let prn := digitsVal ((r.take 2).dropWhile (fun c => c == ' ')) 0
    if c = 'G' ∧ 1 ≤ prn ∧ prn ≤ 32 then prn
    else if c = 'R' ∧ 1 ≤ prn ∧ prn ≤ 27 then 32 + prn
    else 0
  | [] => 0

/-- Sample `satsys`: 1..32 GPS (0x01), 33..59 GLONASS (0x04), else none (0). -/
def sampleSatsys (sat : Nat) : Nat :=
  if 1 ≤ sat ∧ sat ≤ 32 then 1 else if 33 ≤ sat ∧ sat ≤ 59 then 4 else 0

/-- Sample prn output of `satsys`: the number within the system of `sampleSatsys`. -/
def sampleSatprn (sat : Nat) : Int :=
  if 1 ≤ sat ∧ sat ≤ 32 then sat else if 33 ≤ sat ∧ sat ≤ 59 then (sat : Int) - 32 else 0

/-- Sample `satid2sys`: the system of the leading letter (G, R, E, J, C, I, S). -/
def sampleSatid2sys (id : List Char) : Nat :=
  match id with
  | 'G' :: _ => 1
  | 'S' :: _ => 2
  | 'R' :: _ => 4
  | 'E' :: _ => 8
  | 'J' :: _ => 16
  | 'C' :: _ => 32
  | 'I' :: _ => 64
  | _ => 0

/-- Sample `satno`: GPS prn 1..32 is satellite prn, GLONASS prn 1..27 is 32+prn. -/
def sampleSatno (sys : Nat) (prn : Int) : Int :=
  if sys = 1 ∧ 1 ≤ prn ∧ prn ≤ 32 then prn
  else if sys = 4 ∧ 1 ≤ prn ∧ prn ≤ 27 then 32 + prn
  else 0

/-- Sample `obs2code`: a few L1/L2 codes with their frequency numbers. -/
def sampleObs2code (obs : List Char) : Nat × Int :=
  if obs = "1C".toList then (1, 1)
  else if obs = "1P".toList then (2, 1)
  else if obs = "1W".toList then (3, 1)
  else if obs = "1X".toList then (12, 1)
  else if obs = "2C".toList then (14, 2)
  else if obs = "2W".toList then (20, 2)
  else (0, 0)

/-- Sample `code2obs`. -/
def sampleCode2obs (code : Nat) : List Char :=
  if code = 1 then "1C".toList
  else if code = 2 then "1P".toList
  else if code = 3 then "1W".toList
  else if code = 12 then "1X".toList
  else if code = 14 then "2C".toList
  else if code = 20 then "2W".toList
  else []

/-- Sample `getcodepri`: a fixed priority per code, 0 for the others. -/
def sampleGetcodepri (_sys : Nat) (code : Nat) (_opt : List Char) : Int :=
  if code = 1 then 14
  else if code = 2 then 14
  else if code = 3 then 12
  else if code = 14 then 14
  else if code = 20 then 12
  else 0

/-- Sample `norm`: the sum of squares, zero exactly when every component is. -/
def sampleNorm (v : List ℚ) : ℚ := (v.map (fun x => x * x)).sum

/-- Sample `screent`: the window `ts <= time < te` in whole seconds, a zero
bound being open. -/
def sampleScreent (t ts te : gtime_t) (_tint : ℚ) : Bool :=
  (ts.time == 0 || decide (ts.time ≤ t.time)) && (te.time == 0 || decide (t.time < te.time))

/-- Sample environment. -/
def sampleExt : Ext where
  NFREQ := 3
  NEXOBS := 1
  MAXOBS := 64
  MAXSAT := 221
  SYS_GPS := 1
  SYS_SBS := 2
  SYS_GLO := 4
  SYS_GAL := 8
  SYS_QZS := 16
  SYS_CMP := 32
  SYS_IRN := 64
  SYS_NONE := 0
  SYS_ALL := 255
  TSYS_UTC := 1
  TSYS_CMP := 5
  str2num := sampleStr2num
  str2time := sampleStr2time
  satid2no := sampleSatid2no
  satsys := sampleSatsys
  obs2code := sampleObs2code
  code2obs := sampleCode2obs
  getcodepri := sampleGetcodepri
  scanShift := fun _ _ => none
  norm := sampleNorm
  screent := sampleScreent
  utc2gpst := fun t => { t with time := t.time + 18 }
  bdt2gpst := fun t => { t with time := t.time + 14 }
  satid2sys := sampleSatid2sys
  satno := sampleSatno
  gpst2time := fun week sec => { time := 315964800 + 604800 * week + ⌊sec⌋, sec := sec - ⌊sec⌋ }
  time2gpst := fun t =>
    ((((t.time - 315964800) % 604800 : Int) : ℚ) + t.sec, (t.time - 315964800) / 604800)
  bdt2time := fun week sec => { time := 1136073600 + 604800 * week + ⌊sec⌋, sec := sec - ⌊sec⌋ }
  time2bdt := fun t =>
    ((((t.time - 1136073600) % 604800 : Int) : ℚ) + t.sec, (t.time - 1136073600) / 604800)
  timediff := fun t1 t2 => ((t1.time - t2.time : Int) : ℚ) + (t1.sec - t2.sec)
  timeadd := fun t sec => { time := t.time + ⌊t.sec + sec⌋, sec := t.sec + sec - ⌊t.sec + sec⌋ }
  LLI_HALFC := 2
  LLI_BOCTRK := 4
  MAXRCV := 64
  MINPRNSBS := 120
  satprn := sampleSatprn
  time2epoch := fun t k => if k = 3 then (((t.time / 3600) % 24 : Int) : ℚ) else 0
  MAXOBSTYPE := 64
  MAXPRNGLO := 27
  scanSlot := sampleScanSlot

/-- Sample navigation data with nothing stored. -/
def nav0 : nav_t where
  ion_gps := fun _ => 0
  ion_gal := fun _ => 0
  ion_qzs := fun _ => 0
  ion_irn := fun _ => 0
  utc_gps := fun _ => 0
  utc_glo := fun _ => 0
  utc_gal := fun _ => 0
  utc_qzs := fun _ => 0
  utc_cmp := fun _ => 0
  utc_irn := fun _ => 0
  leaps := 0
  bdsk8 := fun _ => { hour := 0, sat := 0, ion := fun _ => 0 }
  nk8 := 0
  bdssh9 := fun _ => { hour := 0, sat := 0, ion := fun _ => 0 }
  nsh9 := 0

/-- Sample header line `BDSA` with coefficients 1 2 3 4, hour letter C, satellite 5. -/
def lineBDSA : List Char :=
  "BDSA            1           2           3           4 C   5 IONOSPHERIC CORR".toList

/-- Sample header line `BDSB` with coefficients 5 6 7 8, hour letter C, satellite 5. -/
def lineBDSB : List Char :=
  "BDSB            5           6           7           8 C   5 IONOSPHERIC CORR".toList

/-- Sample header line `BDSA` whose four coefficients are all zero. -/
def lineBDSA0 : List Char :=
  "BDSA            0           0           0           0 C   5 IONOSPHERIC CORR".toList

/-- Sample header line `BDS1` with coefficients 1 2 3, hour letter D, satellite 7. -/
def lineBDS1 : List Char :=
  "BDS1            1           2           3             D   7 IONOSPHERIC CORR".toList

/-- Sample header line `BDS2` with coefficients 4 5 6, hour letter D, satellite 7. -/
def lineBDS2 : List Char :=
  "BDS2            4           5           6             D   7 IONOSPHERIC CORR".toList

/-- Sample header line `BDS3` with coefficients 7 8 9, hour letter D, satellite 7. -/
def lineBDS3 : List Char :=
  "BDS3            7           8           9             D   7 IONOSPHERIC CORR".toList

/-- Sample record with every field zero. -/
def obsd0 : obsd_t where
  time := { time := 0, sec := 0 }
  sat := 0
  rcv := 0
  SNR := fun _ => 0
  LLI := fun _ => 0
  code := fun _ => 0
  L := fun _ => 0
  P := fun _ => 0
  D := fun _ => 0

/-- Sample record of satellite 1 at time 100 with the slip bit set in `LLI[0]`. -/
def recSlip : obsd_t :=
  { obsd0 with sat := 1, time := { time := 100, sec := 0 },
               LLI := fun i => if i = 0 then 1 else 0 }

/-- Sample record of satellite 1 at time 160 with no slip bit. -/
def recClean : obsd_t :=
  { obsd0 with sat := 1, time := { time := 160, sec := 0 } }

/-- Sample loop state of `readrnxobs` at its start: status 0, empty slip table,
empty store without capacity. -/
def obsloop0 : obsloop_t where
  stat := 0
  slips := fun _ _ => 0
  obs := { n := 0, nmax := 0, data := [] }

/-- Sample time bound 0 (no bound). -/
def time0 : gtime_t := { time := 0, sec := 0 }

/-- Sample start time 150. -/
def time150 : gtime_t := { time := 150, sec := 0 }

/-- Satellite-count field of an epoch line: columns 29-31 for ver.2, 32-34 for
ver.3, as read by `decode_obsepoch`. -/
def epochCount (E : Ext) (ver : ℚ) (buff : List Char) : Int :=
  if ver ≤ 2.99 then toInt (E.str2num buff 29 3) else toInt (E.str2num buff 32 3)

/-- Epoch-flag field of an epoch line: column 28 for ver.2, column 31 for ver.3,
as read by `decode_obsepoch`. -/
def epochFlag (E : Ext) (ver : ℚ) (buff : List Char) : Int :=
  if ver ≤ 2.99 then toInt (E.str2num buff 28 1) else toInt (E.str2num buff 31 1)

/-- Sample ver.2 epoch line: year 05, epoch flag 0, two satellites G01 G02. -/
def lineEpoch0 : List Char := " 05  1  1  0  0  0.0000000  0  2G01G02".toList

/-- Sample ver.2 epoch line: year 05, epoch flag 2, one satellite G01. -/
def lineEpoch2 : List Char := " 05  1  1  0  0 30.0000000  2  1G01".toList

/-- Sample ver.2 epoch line: epoch flag 4, two header lines follow. -/
def lineEpoch4 : List Char := " 05  1  1  0  1  0.0000000  4  2".toList

/-- Sample ver.2 data line with one field, the value 23456789. -/
def lineObs1 : List Char := "      23456789  ".toList

/-- Sample header handler: reads no further line and keeps the header data. -/
def sampleObsh : ObshFn Unit := fun _ _ _ h => (0, h)

/-- Sample header line that follows an interruption epoch. -/
def lineComment : List Char :=
  "ANTENNA MOVED                                               COMMENT".toList

/-- Sample signal indexes: every system uses the index of the one-code table
`C1C` built by `set_index` for GPS. -/
def sampleIndex : Nat → sigind_t :=
  fun _ => set_index sampleExt 2.11 1 [] ["C1C".toList] sigind0

/-- Sample record array with every record zero. -/
def data0 : Nat → obsd_t := fun _ => obsd0

/-- Sample signal indexes for ver.2.11: every system uses the index of the
one-code table `C1X`, a code of priority zero on frequency 1. -/
def sampleIndexX : Nat → sigind_t :=
  fun _ => set_index sampleExt 2.11 1 [] ["C1X".toList] sigind0

/-- Sample signal indexes for ver.3: every system uses the index of the sample
table. -/
def sampleIndex3 : Nat → sigind_t :=
  fun _ => set_index sampleExt 3.03 1 [] tobsSample sigind0

/-- Sample record of satellite 1 with every other field zero. -/
def recSat1 : obsd_t := { obsd0 with sat := 1 }

/-- Sample ver.3 data line of satellite G01 with one field, the value 23456789. -/
def lineObsV3 : List Char := "G01      23456789  ".toList

/-- Sample signal indexes for ver.2.11: every system uses the index of the
table `C1C C1W C2W` built by `set_index` for GPS (two codes on slot 0). -/
def sampleIndex2 : Nat → sigind_t :=
  fun _ => set_index sampleExt 2.11 1 [] ["C1C".toList, "C1W".toList, "C2W".toList] sigind0

/-- Sample ver.2 data line with three fields: 20000001, 20000002, 20000003. -/
def lineObs3 : List Char :=
  "      20000001        20000002        20000003  ".toList

/-- Sample header line `BDSB` with hour letter D, satellite 5. -/
def lineBDSBx : List Char :=
  "BDSB            5           6           7           8 D   5 IONOSPHERIC CORR".toList

/-- Sample header line `BDS2` with coefficients 4 5 6, hour letter D, satellite 8. -/
def lineBDS2x : List Char :=
  "BDS2            4           5           6             D   8 IONOSPHERIC CORR".toList

/-- Sample header line `BDS3` with coefficients 7 8 9, hour letter E, satellite 7. -/
def lineBDS3x : List Char :=
  "BDS3            7           8           9             E   7 IONOSPHERIC CORR".toList

/-- Sample option string selecting GPS and GLONASS. -/
def optGR : List Char := "-GL1C -SYS=G,R -EL1X".toList

/-- Sample GLONASS record fields: frequency-channel field `data[10]` is 200, the
others are zero. -/
def dataFrq200 : Nat → ℚ := fun k => if k = 10 then 200 else 0

/-- Sample `satsys` with all seven systems: 1..32 GPS, 33..59 GLONASS, 60..95
Galileo, 96..105 QZSS, 106..168 BeiDou, 169..182 IRNSS, 183..221 SBAS. -/
def navSatsys (sat : Nat) : Nat :=
  if sat = 0 then 0
  else if sat ≤ 32 then 1
  else if sat ≤ 59 then 4
  else if sat ≤ 95 then 8
  else if sat ≤ 105 then 16
  else if sat ≤ 168 then 32
  else if sat ≤ 182 then 64
  else if sat ≤ 221 then 2
  else 0

/-- Sample `satid2no` with all seven systems, numbered as in `navSatsys`. -/
def navSatid2no (id : List Char) : Int :=
  match id with
  | c :: r =>
    let prn := digitsVal ((r.take 2).dropWhile (fun c => c == ' ')) 0
    if c = 'G' ∧ 1 ≤ prn ∧ prn ≤ 32 then prn
    else if c = 'R' ∧ 1 ≤ prn ∧ prn ≤ 27 then 32 + prn
    else if c = 'E' ∧ 1 ≤ prn ∧ prn ≤ 36 then 59 + prn
    else if c = 'J' ∧ 1 ≤ prn ∧ prn ≤ 10 then 95 + prn
    else if c = 'C' ∧ 1 ≤ prn ∧ prn ≤ 63 then 105 + prn
    else if c = 'I' ∧ 1 ≤ prn ∧ prn ≤ 14 then 168 + prn
    else if c = 'S' ∧ 20 ≤ prn ∧ prn ≤ 58 then 163 + prn
    else 0
  | [] => 0

/-- Sample `satno` with all seven systems, numbered as in `navSatsys`; QZSS has
the prn range 193..202 and SBAS 120..158. -/
def navSatno (sys : Nat) (prn : Int) : Int :=
  if sys = 1 ∧ 1 ≤ prn ∧ prn ≤ 32 then prn
  else if sys = 4 ∧ 1 ≤ prn ∧ prn ≤ 27 then 32 + prn
  else if sys = 8 ∧ 1 ≤ prn ∧ prn ≤ 36 then 59 + prn
  else if sys = 16 ∧ 193 ≤ prn ∧ prn ≤ 202 then prn - 97
  else if sys = 32 ∧ 1 ≤ prn ∧ prn ≤ 63 then 105 + prn
  else if sys = 64 ∧ 1 ≤ prn ∧ prn ≤ 14 then 168 + prn
  else if sys = 2 ∧ 120 ≤ prn ∧ prn ≤ 158 then prn + 63
  else 0

/-- Sample prn output of `satsys` with all seven systems, the inverse of
`navSatno`. -/
def navSatprn (sat : Nat) : Int :=
  if sat = 0 then 0
  else if sat ≤ 32 then sat
  else if sat ≤ 59 then (sat : Int) - 32
  else if sat ≤ 95 then (sat : Int) - 59
  else if sat ≤ 105 then (sat : Int) + 97
  else if sat ≤ 168 then (sat : Int) - 105
  else if sat ≤ 182 then (sat : Int) - 168
  else if sat ≤ 221 then (sat : Int) - 63
  else 0

/-- Sample environment for navigation records: `sampleExt` with the
seven-system satellite numbering. -/
def navExt : Ext :=
  { sampleExt with satsys := navSatsys, satid2no := navSatid2no, satno := navSatno,
                   satprn := navSatprn }

/-- Sample record fields: `data[k] = k + 1`. -/
def dataRamp : Nat → ℚ := fun k => (k : ℚ) + 1

/-- Sample first line of a version 3 GPS record (satellite G01). -/
def lineNavG : List Char :=
  "G01 2020 01 01 00 00 00                  1                  2                  3".toList

/-- Sample first line of a version 3 QZSS record (satellite J01). -/
def lineNavJ : List Char :=
  "J01 2020 01 01 00 00 00                  1                  2                  3".toList

/-- Sample continuation line of a navigation record with the fields 4 5 6 7. -/
def lineNavC : List Char :=
  "                      4                  5                  6                  7".toList

/-- Sample values behind the output pointers of `readrnxnavb` before a call. -/
def navret0 : navret_t where
  ret := -9
  type := -1
  eph := eph0
  geph := geph0
  seph := seph0
  ion := ion0
  fp := []

/-- Sample first line of a version 3 record whose satellite identifier `X01`
belongs to no system. -/
def lineNavX : List Char :=
  "X01 2020 01 01 00 00 00                  1                  2                  3".toList

/-- Sample first line of a version 2 GPS navigation record with the prn 93 of
the QZSS extension. -/
def lineNav93 : List Char :=
  "93 20  1  1  0  0  0.0                  1                  2                  3".toList

/-- Sample continuation line of a version 2 navigation record. -/
def lineNavC2 : List Char :=
  "                     4                  5                  6                  7".toList

/-- Sample option string selecting GPS only. -/
def optG : List Char := "-SYS=G".toList

/-- Sample precise clock entry inserted first: clock value 1 for satellite
index 0, 5 for index 1. -/
def pclkA : pclk_t :=
  { time := { time := 100, sec := 0 }, index := 0,
    clk := fun k => if k = 0 then 1 else if k = 1 then 5 else 0, std := fun _ => 0 }

/-- Sample precise clock entry inserted later with the same time: clock value 2
for satellite index 0 and none (0) for index 1. -/
def pclkB : pclk_t :=
  { time := { time := 100, sec := 0 }, index := 1,
    clk := fun k => if k = 0 then 2 else 0, std := fun _ => 0 }

/-- Sample store holding `pclkA` and `pclkB`. -/
def pclkAB : pclkstore_t :=
  { pclk := fun i => if i = 0 then pclkA else pclkB, nc := 2, ncmax := 2 }

/-- Number denoted by a field in the notation of `outnavf`: a blank, the sign
character, `.`, the mantissa digits, `E` and the signed exponent; this is the
value that a reader of decimal scientific notation obtains from the field. -/
def sciFieldValue (s : List Char) : ℚ :=
  match s with
  | _ :: sg :: '.' :: rest =>
    let mant := rest.takeWhile Char.isDigit
    let ex := (rest.dropWhile Char.isDigit).drop 1
    let expo : Int :=
      (if ex.head? = some '-' then -1 else 1) * ((digitsVal (ex.drop 1) 0 : Nat) : Int)
    (if sg = '-' then -1 else 1) * ((digitsVal mant 0 : Nat) : ℚ) *
      (10 : ℚ) ^ (expo - (mant.length : Int))
  | _ => 0

/-- Sample slip table with the slip bit pending for satellite 1, slot 0, and the
value 3 for satellite 2, slot 1. -/
def slipsPending : Int → Nat → Nat :=
  fun s i => if s = 0 ∧ i = 0 then 1 else if s = 1 ∧ i = 1 then 3 else 0

/-- Positions of the entries below `n` are -1 or lie in `0..B-1`, and entries
that share a position that is not negative share the code. -/
def PosInv (ind : sigind_t) (n : Nat) (B : Int) : Prop :=
  (∀ j, j < n → ind.pos j = -1 ∨ (0 ≤ ind.pos j ∧ ind.pos j < B)) ∧
  (∀ i j, i < n → j < n → ind.pos i = ind.pos j → 0 ≤ ind.pos i → ind.code i = ind.code j)

/-- Sample signal indexes for ver.2.11: every system uses the index of the
one-code table `L1C` (carrier phase) built by `set_index` for GPS. -/
def sampleIndexL : Nat → sigind_t :=
  fun _ => set_index sampleExt 2.11 1 [] ["L1C".toList] sigind0

/-- Sample ver.2 data line with one field: the value 23456789.000, the
loss-of-lock flag 1 in column 14 and a blank signal strength in column 15. -/
def lineObsSlip : List Char := "  23456789.0001 ".toList

/-- Sample ver.2 data line with one field: the value 23456789.000, a blank
loss-of-lock flag in column 14 and the signal strength 7 in column 15. -/
def lineObsSnr : List Char := "  23456789.000 7".toList

/-- Sample observation-type tables: `C1C` for GPS (table 0), `C2W` for IRNSS
(table 6), nothing for the other systems. -/
def tobsTables : Nat → List (List Char) :=
  fun k => if k = 0 then ["C1C".toList] else if k = 6 then ["C2W".toList] else []

/-- Sample ver.3 data line of the IRNSS satellite I01 with one field, the value
23456789. -/
def lineObsI : List Char := "I01      23456789  ".toList

/-- Sample `sscanf` of the phase-shift option of system letter `l`: the text
`-?Lss=` followed by an unsigned whole number. -/
def sampleScanShift (l : Char) (p : List Char) : Option (List Char × ℚ) :=
  match p with
  | '-' :: x :: 'L' :: a :: b :: '=' :: r =>
    if x = l ∧ r.head?.any Char.isDigit = true then some ([a, b], ((digitsVal r 0 : Nat) : ℚ))
    else none
  | _ => none

/-- Sample environment whose `sscanf` reads phase-shift options. -/
def shiftExt : Ext := { sampleExt with scanShift := sampleScanShift }

/-- Sample option string: a phase shift of 5 cycles for the GPS code `1C`. -/
def optShift : List Char := "-GL1C=5".toList

/-- Sample signal indexes for ver.3: every system uses the index that
`set_index` builds for GPS from the table `C1C L1C` with the options `opt`. -/
def shiftIndex (opt : List Char) : Nat → sigind_t :=
  fun _ => set_index shiftExt 3.03 1 opt ["C1C".toList, "L1C".toList] sigind0

/-- Sample ver.3 data line of satellite G01 with two fields: the pseudorange
23456789 and a blank carrier phase. -/
def lineObsPL : List Char := "G01      23456789                  ".toList

/-- Sample output options for ver.3.03: every system selected, 14 types `C1C`
for GPS, none for the other systems. -/
def optObs14 : rnxopt_t where
  rnxver := 3.03
  navsys := 255
  nobs := fun i => if i = 0 then 14 else 0
  tobs := fun _ _ => "C1C".toList

/-- Sample navigation store: nothing stored, no capacity. -/
def navstore0 : navstore_t where
  n := 0
  nmax := 0
  eph := []
  ng := 0
  ngmax := 0
  geph := []
  ns := 0
  nsmax := 0
  seph := []
  ion_gal := fun _ => 0
  ion_gps := fun _ => 0
  ion_cmp := fun _ => 0
  bdsk8 := fun _ => { hour := 0, sat := 0, ion := fun _ => 0 }
  nk8 := 0
  bdssh9 := fun _ => { hour := 0, sat := 0, ion := fun _ => 0 }
  nsh9 := 0

/-- Sample observation store: nothing stored, no capacity. -/
def obsstore0 : obsstore_t := { n := 0, nmax := 0, data := [] }

/-- Sample first line of a version 4 ionosphere record of Galileo. -/
def lineIonE : List Char := "> ION E01 IFNV".toList

/-- Sample control struct of a version 4 navigation file with every slot of the
ephemeris array marked by `iode = 9`, the position before the array included. -/
def rnxNav4 : rnxctr_t where
  time := gtime0
  ver := 4
  type := 'N'
  opt := []
  ephsat := 33
  eph := fun _ => { eph0 with iode := 9 }
  geph := fun _ => geph0
  seph := fun _ => seph0

/-- Sample observation part of `input_rnxctr`: no message. -/
def obsPart0 (rnx : rnxctr_t) (fp : List (List Char)) : Int × rnxctr_t × List (List Char) :=
  (0, rnx, fp)

/-- Sample header line with the tag `SBUT`: coefficients 7 and 3, reference
time 9 and week 5. -/
def lineSBUT : List Char :=
  "SBUT                 7               3      9    5          TIME SYSTEM CORR".toList

/-- Sample header line with the tag `GPUT` and the same four fields. -/
def lineGPUT : List Char :=
  "GPUT                 7               3      9    5          TIME SYSTEM CORR".toList

/-- Sample precise clock entry inserted first, 1e-9 s after `pclkEarly`. -/
def pclkLate : pclk_t :=
  { time := { time := 100, sec := 1e-9 }, index := 0, clk := fun _ => 1, std := fun _ => 0 }

/-- Sample precise clock entry inserted second, 1e-9 s before `pclkLate`. -/
def pclkEarly : pclk_t :=
  { time := { time := 100, sec := 0 }, index := 1, clk := fun _ => 2, std := fun _ => 0 }

/-- Sample store holding `pclkLate` and then `pclkEarly`. -/
def pclkEdge : pclkstore_t :=
  { pclk := fun i => if i = 0 then pclkLate else pclkEarly, nc := 2, ncmax := 2 }

/-- Sample precise clock entry of index `idx` at `100 s + sec`. -/
def pclkAt (sec : ℚ) (idx : Int) : pclk_t :=
  { time := { time := 100, sec := sec }, index := idx, clk := fun _ => 1, std := fun _ => 0 }

/-- Sample store of three entries inserted in decreasing time order, each
0.8e-9 s before the one inserted before it. -/
def pclkChain : pclkstore_t :=
  { pclk := fun i => if i = 0 then pclkAt 1.6e-9 0 else if i = 1 then pclkAt 0.8e-9 1
      else pclkAt 0 2,
    nc := 3, ncmax := 3 }

/-- Sample store of three entries on whole seconds: 200 s, then 100 s twice. -/
def pclkWhole : pclkstore_t :=
  { pclk := fun i => if i = 0 then { pclkA with time := { time := 200, sec := 0 } }
      else if i = 1 then pclkA else pclkB,
    nc := 3, ncmax := 3 }

/-- Sample first line of a version 4 GPS ephemeris record of message type
`CNV2` (satellite G01). -/
def lineEphCNV2 : List Char := "> EPH G01 CNV2".toList

/-- Sample version 4 GPS `CNV2` record: the record line, the line of the epoch
and nine continuation lines. -/
def fileCNV2 : List (List Char) :=
  lineEphCNV2 :: lineNavG :: (List.replicate 8 lineNavC ++ [lineNavC])

/-- Sample first line `# / TYPES OF OBSERV` for ten types `C1`, as written by
`outobstype_ver2`. -/
def lineTypes2 : List Char :=
  "    10    C1    C1    C1    C1    C1    C1    C1    C1    C1# / TYPES OF OBSERV ".toList

/-- Sample continuation line `# / TYPES OF OBSERV` with the tenth type. -/
def lineTypes2b : List Char :=
  "          C1                                                # / TYPES OF OBSERV ".toList

/-- Sample first line `SYS / # / OBS TYPES` for fourteen GPS types `C1C`, as
written by `outobstype_ver3`. -/
def lineTypes3 : List Char :=
  "G   14 C1C C1C C1C C1C C1C C1C C1C C1C C1C C1C C1C C1C C1C  SYS / # / OBS TYPES ".toList

/-- Sample continuation line `SYS / # / OBS TYPES` with the fourteenth type. -/
def lineTypes3b : List Char :=
  "       C1C                                                  SYS / # / OBS TYPES ".toList

/-- Sample ver.2 epoch line with thirteen satellites, the first twelve on the
line. -/
def lineEpoch13 : List Char :=
  " 05  1  1  0  0  0.0000000  0 13G01G02G03G04G05G06G07G08G09G10G11G12".toList

/-- Sample continuation line of a ver.2 epoch with the thirteenth satellite. -/
def lineEpoch13b : List Char :=
  "                                G13".toList

/-- Sample GLONASS slot table: slots 1 to 9 with the values 1 to 9, slot 21 with
the value 21, the other slots unused (0). -/
def sampleGloFcn : Nat → Int :=
  fun i => if i < 9 then (i : Int) + 1 else if i = 20 then 21 else 0

/-! ## Theorems -/

/-! ### Accuracy index (C5, C6) -/

/-- Entries of `ura_eph`, one equation per index. -/
theorem ura_eph_entries :
    ura_eph.getD 0 0 = 2.4 ∧
    ura_eph.getD 1 0 = 3.4 ∧
    ura_eph.getD 2 0 = 4.85 ∧
    ura_eph.getD 3 0 = 6.85 ∧
    ura_eph.getD 4 0 = 9.65 ∧
    ura_eph.getD 5 0 = 13.65 ∧
    ura_eph.getD 6 0 = 24.0 ∧
    ura_eph.getD 7 0 = 48.0 ∧
    ura_eph.getD 8 0 = 96.0 ∧
    ura_eph.getD 9 0 = 192.0 ∧
    ura_eph.getD 10 0 = 384.0 ∧
    ura_eph.getD 11 0 = 768.0 ∧
    ura_eph.getD 12 0 = 1536.0 ∧
    ura_eph.getD 13 0 = 3072.0 ∧
    ura_eph.getD 14 0 = 6144.0 ∧
    ura_eph.getD 15 0 = 0.0 :=
  ⟨rfl, rfl, rfl, rfl, rfl, rfl, rfl, rfl, rfl, rfl, rfl, rfl, rfl, rfl, rfl, rfl⟩

/-- Entries of `ura_nominal`, one equation per index. -/
theorem ura_nominal_entries :
    ura_nominal.getD 0 0 = 2.0 ∧
    ura_nominal.getD 1 0 = 2.8 ∧
    ura_nominal.getD 2 0 = 4.0 ∧
    ura_nominal.getD 3 0 = 5.7 ∧
    ura_nominal.getD 4 0 = 8.0 ∧
    ura_nominal.getD 5 0 = 11.3 ∧
    ura_nominal.getD 6 0 = 16.0 ∧
    ura_nominal.getD 7 0 = 32.0 ∧
    ura_nominal.getD 8 0 = 64.0 ∧
    ura_nominal.getD 9 0 = 128.0 ∧
    ura_nominal.getD 10 0 = 256.0 ∧
    ura_nominal.getD 11 0 = 512.0 ∧
    ura_nominal.getD 12 0 = 1024.0 ∧
    ura_nominal.getD 13 0 = 2048.0 ∧
    ura_nominal.getD 14 0 = 4096.0 ∧
    ura_nominal.getD 15 0 = 8192.0 :=
  ⟨rfl, rfl, rfl, rfl, rfl, rfl, rfl, rfl, rfl, rfl, rfl, rfl, rfl, rfl, rfl, rfl⟩

/-- Loop invariant of `uraindex`: started at `i`, the loop stops at the first
index from `i` on whose threshold is at least `x`, or at 15. -/
theorem uraindexLoop_spec (x : ℚ) : ∀ fuel i : Nat, i + fuel = 15 →
    i ≤ uraindexLoop x fuel i ∧ uraindexLoop x fuel i ≤ 15 ∧
    (uraindexLoop x fuel i < 15 → ura_eph.getD (uraindexLoop x fuel i) 0 ≥ x) ∧
    ∀ j, i ≤ j → j < uraindexLoop x fuel i → ¬ ura_eph.getD j 0 ≥ x := by
  intro fuel
  induction fuel with
  | zero =>
    intro i hi
    simp only [uraindexLoop]
    refine ⟨le_refl _, by omega, fun h => by omega, fun j h1 h2 => by omega⟩
  | succ f ih =>
    intro i hi
    have hlt : i < 15 := by omega
    simp only [uraindexLoop, if_pos hlt]
    by_cases hx : ura_eph.getD i 0 ≥ x
    · simp only [if_pos hx]
      exact ⟨le_refl _, by omega, fun _ => hx, fun j h1 h2 => by omega⟩
    · simp only [if_neg hx]
      obtain ⟨h1, h2, h3, h4⟩ := ih (i + 1) (by omega)
      refine ⟨by omega, h2, h3, fun j hj1 hj2 => ?_⟩
      rcases Nat.eq_or_lt_of_le hj1 with h | h
      · subst h; exact hx
      · exact h4 j h hj2

theorem ura_eph_le (i : Nat) (h : i < 15) : ura_eph.getD i 0 ≤ 6144 := by
  obtain ⟨e0, e1, e2, e3, e4, e5, e6, e7, e8, e9, e10, e11, e12, e13, e14, -⟩ := ura_eph_entries
  interval_cases i <;> simp only [e0, e1, e2, e3, e4, e5, e6, e7, e8, e9, e10, e11, e12, e13, e14] <;>
    norm_num

/-- C6: for every value x, `uraindex x` lies in 0..15, is the least index i in
0..14 whose threshold `ura_eph[i]` is at least x, and equals 15 exactly when no
tabulated threshold is at least x, that is exactly when x > 6144. -/
theorem uraindex_least (x : ℚ) :
    (0 ≤ uraindex x ∧ uraindex x ≤ 15) ∧
    (uraindex x < 15 → ura_eph.getD (uraindex x).toNat 0 ≥ x) ∧
    (∀ i : Nat, i < 15 → ura_eph.getD i 0 ≥ x → uraindex x ≤ i) ∧
    (uraindex x = 15 ↔ ∀ i : Nat, i < 15 → ¬ ura_eph.getD i 0 ≥ x) ∧
    (uraindex x = 15 ↔ x > 6144) := by
  obtain ⟨-, h2, h3, h4⟩ := uraindexLoop_spec x 15 0 rfl
  have hall : uraindexLoop x 15 0 = 15 ↔ ∀ i : Nat, i < 15 → ¬ ura_eph.getD i 0 ≥ x := by
    constructor
    · intro h i hi; exact h4 i (Nat.zero_le _) (by omega)
    · intro h
      by_contra hne
      have hlt : uraindexLoop x 15 0 < 15 := by omega
      exact h _ hlt (h3 hlt)
  unfold uraindex
  refine ⟨⟨by positivity, by exact_mod_cast h2⟩, ?_, ?_, ?_, ?_⟩
  · intro h
    have : uraindexLoop x 15 0 < 15 := by exact_mod_cast h
    simpa using h3 this
  · intro i hi hx
    by_contra hc
    have : i < uraindexLoop x 15 0 := by
      have := not_le.mp hc
      exact_mod_cast this
    exact h4 i (Nat.zero_le _) this hx
  · rw [← hall]; norm_cast
  · have : ((uraindexLoop x 15 0 : Nat) : Int) = 15 ↔ uraindexLoop x 15 0 = 15 := by norm_cast
    rw [this, hall]
    constructor
    · intro h
      have := h 14 (by norm_num)
      rw [ura_eph_entries.2.2.2.2.2.2.2.2.2.2.2.2.2.2.1] at this
      norm_num at this
      linarith
    · intro h i hi hge
      have := ura_eph_le i hi
      linarith

/-- C5 (as stated) fails: in the sample environment, for the GPS system code 1
(Galileo being 8) and x = 2.25, inside the table range, `uraindex` gives index 0 (2.4 >= 2.25) and
`uravalue` gives the nominal value 2.0, which is below x. -/
theorem uravalue_uraindex_counterexample :
    (0 : ℚ) ≤ 2.25 ∧ (2.25 : ℚ) ≤ 8192 ∧ uraindex 2.25 = 0 ∧
    uravalue sampleExt 1 (uraindex 2.25) = 2 ∧ ¬ (uravalue sampleExt 1 (uraindex 2.25) ≥ 2.25) := by
  have h : uraindex 2.25 = 0 := by
    simp only [uraindex, uraindexLoop, ura_eph]
    norm_num
  rw [h]
  have hg : ¬ (1 = sampleExt.SYS_GAL) := by decide
  refine ⟨by norm_num, by norm_num, rfl, ?_, ?_⟩ <;>
    norm_num [uravalue, ura_nominal, if_neg hg]

/-- Value `uravalue` of a non-Galileo system at an index 0..15 is the entry of
the nominal table. -/
theorem uravalue_nominal (E : Ext) (sys : Nat) (hs : sys ≠ E.SYS_GAL) (r : Nat) (hr : r ≤ 15) :
    uravalue E sys (r : Int) = ura_nominal.getD r 0 := by
  have h0 : (0 : Int) ≤ (r : Int) := Int.natCast_nonneg r
  by_cases h : r < 15
  · have h1 : ((r : Int) < 15) := by exact_mod_cast h
    simp only [uravalue, if_neg hs, h0, h1, and_self, if_true, Int.toNat_ofNat]
  · have h1 : ¬ ((r : Int) < 15) := by
      intro hc
      exact h (by exact_mod_cast hc)
    have h2 : r = 15 := by omega
    subst h2
    simp only [uravalue, if_neg hs, h1, and_false, if_false]
    rw [ura_nominal_entries.2.2.2.2.2.2.2.2.2.2.2.2.2.2.2]

/-- Uniqueness: an index with the least-threshold property is the one returned. -/
theorem uraindexLoop_eq (x : ℚ) (r : Nat) (hr : r ≤ 15)
    (h1 : r < 15 → ura_eph.getD r 0 ≥ x) (h2 : ∀ j, j < r → ¬ ura_eph.getD j 0 ≥ x) :
    uraindexLoop x 15 0 = r := by
  obtain ⟨-, s2, s3, s4⟩ := uraindexLoop_spec x 15 0 rfl
  rcases Nat.lt_trichotomy (uraindexLoop x 15 0) r with h | h | h
  · exact absurd (s3 (by omega)) (h2 _ h)
  · exact h
  · exact absurd (h1 (by omega)) (s4 r (Nat.zero_le _) h)

/-- C5 (amended): for every non-Galileo system, `uravalue (uraindex x) >= x`
holds for every x that is one of the 16 entries of the nominal table (there it
is an equality), and for every x with 0 <= x <= 8192 the value returned is at
least two thirds of x. -/
theorem uravalue_uraindex_bound (E : Ext) (sys : Nat) (hs : sys ≠ E.SYS_GAL) :
    (∀ i : Nat, i < 16 →
      uravalue E sys (uraindex (ura_nominal.getD i 0)) ≥ ura_nominal.getD i 0 ∧
      uravalue E sys (uraindex (ura_nominal.getD i 0)) = ura_nominal.getD i 0) ∧
    (∀ x : ℚ, 0 ≤ x → x ≤ 8192 → 3 * uravalue E sys (uraindex x) ≥ 2 * x) := by
  constructor
  · intro i hi
    have hidx : uraindexLoop (ura_nominal.getD i 0) 15 0 = i := by
      obtain ⟨e0, e1, e2, e3, e4, e5, e6, e7, e8, e9, e10, e11, e12, e13, e14, e15⟩ :=
        ura_eph_entries
      obtain ⟨n0, n1, n2, n3, n4, n5, n6, n7, n8, n9, n10, n11, n12, n13, n14, n15⟩ :=
        ura_nominal_entries
      apply uraindexLoop_eq _ _ (by omega)
      · intro _
        interval_cases i <;>
          simp only [e0, e1, e2, e3, e4, e5, e6, e7, e8, e9, e10, e11, e12, e13, e14, e15,
            n0, n1, n2, n3, n4, n5, n6, n7, n8, n9, n10, n11, n12, n13, n14, n15] <;>
          norm_num
      · intro j hj
        interval_cases i <;> interval_cases j <;>
          simp only [e0, e1, e2, e3, e4, e5, e6, e7, e8, e9, e10, e11, e12, e13, e14, e15,
            n0, n1, n2, n3, n4, n5, n6, n7, n8, n9, n10, n11, n12, n13, n14, n15] <;>
          norm_num
    have key : uravalue E sys (uraindex (ura_nominal.getD i 0)) = ura_nominal.getD i 0 := by
      unfold uraindex
      rw [hidx, uravalue_nominal E sys hs i (by omega)]
    exact ⟨le_of_eq key.symm, key⟩
  · intro x _ hx
    obtain ⟨-, h2, h3, -⟩ := uraindexLoop_spec x 15 0 rfl
    unfold uraindex
    rw [uravalue_nominal E sys hs _ h2]
    obtain ⟨r, hr⟩ : ∃ r, uraindexLoop x 15 0 = r := ⟨_, rfl⟩
    rw [hr] at h2 h3 ⊢
    obtain ⟨e0, e1, e2, e3, e4, e5, e6, e7, e8, e9, e10, e11, e12, e13, e14, e15⟩ :=
      ura_eph_entries
    obtain ⟨n0, n1, n2, n3, n4, n5, n6, n7, n8, n9, n10, n11, n12, n13, n14, n15⟩ :=
      ura_nominal_entries
    interval_cases r <;>
      simp only [e0, e1, e2, e3, e4, e5, e6, e7, e8, e9, e10, e11, e12, e13, e14, e15,
        n0, n1, n2, n3, n4, n5, n6, n7, n8, n9, n10, n11, n12, n13, n14, n15] at h3 ⊢ <;>
      norm_num at h3 ⊢ <;> linarith

theorem uravalue_uraindex_bound_witness :
    (1 ≠ sampleExt.SYS_GAL) ∧ 3 * uravalue sampleExt 1 (uraindex 2.25) ≥ 2 * 2.25 :=
  ⟨by decide,
    (uravalue_uraindex_bound sampleExt 1 (by decide)).2 2.25 (by norm_num) (by norm_num)⟩

/-! ### BeiDou split ionosphere records (C10) -/

theorem startsWith_comparable (buff s t : List Char)
    (hs : startsWith buff s = true) (ht : startsWith buff t = true) :
    (s.isPrefixOf t || t.isPrefixOf s) = true := by
  simp only [startsWith, List.isPrefixOf_iff_prefix] at hs ht
  simp only [Bool.or_eq_true, List.isPrefixOf_iff_prefix]
  rcases Nat.le_total s.length t.length with h | h
  · exact Or.inl (List.prefix_of_prefix_length_le hs ht h)
  · exact Or.inr (List.prefix_of_prefix_length_le ht hs h)

theorem startsWith_excl (buff s t : List Char) (hs : startsWith buff s = true)
    (hne : (s.isPrefixOf t || t.isPrefixOf s) = false) : startsWith buff t = false := by
  cases ht : startsWith buff t
  · rfl
  · have := startsWith_comparable buff s t hs ht
    rw [hne] at this
    exact absurd this (by decide)

theorem decode_navh_ionCorr (E : Ext) (buff tag : List Char) (nav : nav_t)
    (h : ionCorrLine buff tag) : decode_navh E buff nav = decode_navh_ion E buff nav := by
  obtain ⟨h1, h2, h3, h4, -⟩ := h
  simp only [decode_navh, h1, h2, h3, h4, Bool.false_eq_true, if_false, if_true]

/-- Effect of a `BDSA` line: the pending record at index `nk8` is overwritten. -/
theorem decode_navh_ion_BDSA (E : Ext) (buff : List Char) (nav : nav_t)
    (hs : startsWith buff "BDSA".toList = true) :
    (decode_navh_ion E buff nav).nk8 = nav.nk8 ∧
    ((decode_navh_ion E buff nav).bdsk8 nav.nk8).hour = AZ2hour (buff.getD 54 (Char.ofNat 0)) ∧
    ((decode_navh_ion E buff nav).bdsk8 nav.nk8).sat = toInt (E.str2num buff 57 2) ∧
    (∀ i, ((decode_navh_ion E buff nav).bdsk8 nav.nk8).ion i =
      if i < 4 then E.str2num buff (5 + 12 * i) 12
      else if i < 8 then 0 else (nav.bdsk8 nav.nk8).ion i) := by
  have e1 := startsWith_excl buff _ "GPSA".toList hs (by decide)
  have e2 := startsWith_excl buff _ "GPSB".toList hs (by decide)
  have e3 := startsWith_excl buff _ "GAL".toList hs (by decide)
  have e4 := startsWith_excl buff _ "QZSA".toList hs (by decide)
  have e5 := startsWith_excl buff _ "QZSB".toList hs (by decide)
  simp only [decode_navh_ion, e1, e2, e3, e4, e5, hs, if_true, Bool.false_eq_true, if_false]
  simp only [Function.update_same, readCols, true_and]
  intro i
  split_ifs <;> first | rfl | omega

/-- Effect of a `BDSB` line on a pending record with the same hour and satellite. -/
theorem decode_navh_ion_BDSB (E : Ext) (buff : List Char) (nav : nav_t)
    (hs : startsWith buff "BDSB".toList = true)
    (hh : (nav.bdsk8 nav.nk8).hour = AZ2hour (buff.getD 54 (Char.ofNat 0)))
    (hsat : (nav.bdsk8 nav.nk8).sat = toInt (E.str2num buff 57 2)) :
    (decode_navh_ion E buff nav).nk8 =
      (if E.norm [(nav.bdsk8 nav.nk8).ion 0, (nav.bdsk8 nav.nk8).ion 1,
            (nav.bdsk8 nav.nk8).ion 2, (nav.bdsk8 nav.nk8).ion 3] ≠ 0 ∧
          E.norm [E.str2num buff 5 12, E.str2num buff 17 12, E.str2num buff 29 12,
            E.str2num buff 41 12] ≠ 0 then nav.nk8 + 1 else nav.nk8) ∧
    ((decode_navh_ion E buff nav).bdsk8 nav.nk8).hour = (nav.bdsk8 nav.nk8).hour ∧
    ((decode_navh_ion E buff nav).bdsk8 nav.nk8).sat = (nav.bdsk8 nav.nk8).sat ∧
    (∀ i, ((decode_navh_ion E buff nav).bdsk8 nav.nk8).ion i =
      if 4 ≤ i ∧ i < 8 then E.str2num buff (5 + 12 * (i - 4)) 12
      else (nav.bdsk8 nav.nk8).ion i) := by
  have e1 := startsWith_excl buff _ "GPSA".toList hs (by decide)
  have e2 := startsWith_excl buff _ "GPSB".toList hs (by decide)
  have e3 := startsWith_excl buff _ "GAL".toList hs (by decide)
  have e4 := startsWith_excl buff _ "QZSA".toList hs (by decide)
  have e5 := startsWith_excl buff _ "QZSB".toList hs (by decide)
  have e6 := startsWith_excl buff _ "BDSA".toList hs (by decide)
  have hc : (nav.bdsk8 nav.nk8).hour = AZ2hour (buff.getD 54 (Char.ofNat 0)) ∧
      (nav.bdsk8 nav.nk8).sat = toInt (E.str2num buff 57 2) := ⟨hh, hsat⟩
  simp only [decode_navh_ion, e1, e2, e3, e4, e5, e6, hs, if_true, Bool.false_eq_true, if_false,
    hc, and_self]
  have hr : ∀ i, (if 4 ≤ i ∧ i < 8 then readCols E buff 5 12 4 0 (fun _ => 0) (i - 4)
      else (nav.bdsk8 nav.nk8).ion i) =
      if 4 ≤ i ∧ i < 8 then E.str2num buff (5 + 12 * (i - 4)) 12
      else (nav.bdsk8 nav.nk8).ion i := by
    intro i
    simp only [readCols]
    split_ifs <;> first | rfl | omega
  simp only [hr]
  norm_num
  split_ifs <;> simp

/-- Effect of a `BDS1` line: the pending record at index `nsh9` is overwritten. -/
theorem decode_navh_ion_BDS1 (E : Ext) (buff : List Char) (nav : nav_t)
    (hs : startsWith buff "BDS1".toList = true) :
    (decode_navh_ion E buff nav).nsh9 = nav.nsh9 ∧
    ((decode_navh_ion E buff nav).bdssh9 nav.nsh9).hour =
      AZ2hour (buff.getD 54 (Char.ofNat 0)) ∧
    ((decode_navh_ion E buff nav).bdssh9 nav.nsh9).sat = toInt (E.str2num buff 57 2) ∧
    (∀ i, ((decode_navh_ion E buff nav).bdssh9 nav.nsh9).ion i =
      if i < 3 then E.str2num buff (5 + 12 * i) 12
      else if i < 9 then 0 else (nav.bdssh9 nav.nsh9).ion i) := by
  have e1 := startsWith_excl buff _ "GPSA".toList hs (by decide)
  have e2 := startsWith_excl buff _ "GPSB".toList hs (by decide)
  have e3 := startsWith_excl buff _ "GAL".toList hs (by decide)
  have e4 := startsWith_excl buff _ "QZSA".toList hs (by decide)
  have e5 := startsWith_excl buff _ "QZSB".toList hs (by decide)
  have e6 := startsWith_excl buff _ "BDSA".toList hs (by decide)
  have e7 := startsWith_excl buff _ "BDSB".toList hs (by decide)
  simp only [decode_navh_ion, e1, e2, e3, e4, e5, e6, e7, hs, if_true, Bool.false_eq_true,
    if_false]
  simp only [Function.update_same, readCols, true_and]
  intro i
  split_ifs <;> first | rfl | omega

/-- Effect of a `BDS2` line on a pending record with the same hour and satellite. -/
theorem decode_navh_ion_BDS2 (E : Ext) (buff : List Char) (nav : nav_t)
    (hs : startsWith buff "BDS2".toList = true)
    (hh : (nav.bdssh9 nav.nsh9).hour = AZ2hour (buff.getD 54 (Char.ofNat 0)))
    (hsat : (nav.bdssh9 nav.nsh9).sat = toInt (E.str2num buff 57 2)) :
    (decode_navh_ion E buff nav).nsh9 = nav.nsh9 ∧
    ((decode_navh_ion E buff nav).bdssh9 nav.nsh9).hour = (nav.bdssh9 nav.nsh9).hour ∧
    ((decode_navh_ion E buff nav).bdssh9 nav.nsh9).sat = (nav.bdssh9 nav.nsh9).sat ∧
    (∀ i, ((decode_navh_ion E buff nav).bdssh9 nav.nsh9).ion i =
      if 3 ≤ i ∧ i < 6 then E.str2num buff (5 + 12 * (i - 3)) 12
      else (nav.bdssh9 nav.nsh9).ion i) := by
  have e1 := startsWith_excl buff _ "GPSA".toList hs (by decide)
  have e2 := startsWith_excl buff _ "GPSB".toList hs (by decide)
  have e3 := startsWith_excl buff _ "GAL".toList hs (by decide)
  have e4 := startsWith_excl buff _ "QZSA".toList hs (by decide)
  have e5 := startsWith_excl buff _ "QZSB".toList hs (by decide)
  have e6 := startsWith_excl buff _ "BDSA".toList hs (by decide)
  have e7 := startsWith_excl buff _ "BDSB".toList hs (by decide)
  have e8 := startsWith_excl buff _ "BDS1".toList hs (by decide)
  have hc : (nav.bdssh9 nav.nsh9).hour = AZ2hour (buff.getD 54 (Char.ofNat 0)) ∧
      (nav.bdssh9 nav.nsh9).sat = toInt (E.str2num buff 57 2) := ⟨hh, hsat⟩
  simp only [decode_navh_ion, e1, e2, e3, e4, e5, e6, e7, e8, hs, if_true, Bool.false_eq_true,
    if_false, hc, and_self]
  simp only [Function.update_same, readCols, true_and]
  intro i
  split_ifs <;> first | rfl | omega

/-- Effect of a `BDS3` line on a pending record with the same hour and satellite. -/
theorem decode_navh_ion_BDS3 (E : Ext) (buff : List Char) (nav : nav_t)
    (hs : startsWith buff "BDS3".toList = true)
    (hh : (nav.bdssh9 nav.nsh9).hour = AZ2hour (buff.getD 54 (Char.ofNat 0)))
    (hsat : (nav.bdssh9 nav.nsh9).sat = toInt (E.str2num buff 57 2)) :
    (decode_navh_ion E buff nav).nsh9 =
      (if E.norm [(nav.bdssh9 nav.nsh9).ion 0, (nav.bdssh9 nav.nsh9).ion 1,
            (nav.bdssh9 nav.nsh9).ion 2] ≠ 0 ∧
          E.norm [(nav.bdssh9 nav.nsh9).ion 3, (nav.bdssh9 nav.nsh9).ion 4,
            (nav.bdssh9 nav.nsh9).ion 5] ≠ 0 ∧
          E.norm [E.str2num buff 5 12, E.str2num buff 17 12, E.str2num buff 29 12] ≠ 0
       then nav.nsh9 + 1 else nav.nsh9) ∧
    ((decode_navh_ion E buff nav).bdssh9 nav.nsh9).hour = (nav.bdssh9 nav.nsh9).hour ∧
    ((decode_navh_ion E buff nav).bdssh9 nav.nsh9).sat = (nav.bdssh9 nav.nsh9).sat ∧
    (∀ i, ((decode_navh_ion E buff nav).bdssh9 nav.nsh9).ion i =
      if 6 ≤ i ∧ i < 9 then E.str2num buff (5 + 12 * (i - 6)) 12
      else (nav.bdssh9 nav.nsh9).ion i) := by
  have e1 := startsWith_excl buff _ "GPSA".toList hs (by decide)
  have e2 := startsWith_excl buff _ "GPSB".toList hs (by decide)
  have e3 := startsWith_excl buff _ "GAL".toList hs (by decide)
  have e4 := startsWith_excl buff _ "QZSA".toList hs (by decide)
  have e5 := startsWith_excl buff _ "QZSB".toList hs (by decide)
  have e6 := startsWith_excl buff _ "BDSA".toList hs (by decide)
  have e7 := startsWith_excl buff _ "BDSB".toList hs (by decide)
  have e8 := startsWith_excl buff _ "BDS1".toList hs (by decide)
  have e9 := startsWith_excl buff _ "BDS2".toList hs (by decide)
  have hc : (nav.bdssh9 nav.nsh9).hour = AZ2hour (buff.getD 54 (Char.ofNat 0)) ∧
      (nav.bdssh9 nav.nsh9).sat = toInt (E.str2num buff 57 2) := ⟨hh, hsat⟩
  simp only [decode_navh_ion, e1, e2, e3, e4, e5, e6, e7, e8, e9, hs, if_true,
    Bool.false_eq_true, if_false, hc, and_self]
  have hr : ∀ i, (if 6 ≤ i ∧ i < 9 then readCols E buff 5 12 3 0 (fun _ => 0) (i - 6)
      else (nav.bdssh9 nav.nsh9).ion i) =
      if 6 ≤ i ∧ i < 9 then E.str2num buff (5 + 12 * (i - 6)) 12
      else (nav.bdssh9 nav.nsh9).ion i := by
    intro i
    simp only [readCols]
    split_ifs <;> first | rfl | omega
  simp only [hr]
  norm_num
  split_ifs <;> simp

/-- Two-line case of C10: a `BDSA` line followed by a `BDSB` line with the same
hour letter and satellite number. -/
theorem decode_navh_bdsab (E : Ext) (nav : nav_t) (bA bB : List Char)
    (hA : ionCorrLine bA "BDSA".toList) (hB : ionCorrLine bB "BDSB".toList)
    (hhour : bA.getD 54 (Char.ofNat 0) = bB.getD 54 (Char.ofNat 0))
    (hsat : toInt (E.str2num bA 57 2) = toInt (E.str2num bB 57 2)) :
    (decode_navh E bB (decode_navh E bA nav)).nk8 =
      (if E.norm [E.str2num bA 5 12, E.str2num bA 17 12, E.str2num bA 29 12,
            E.str2num bA 41 12] ≠ 0 ∧
          E.norm [E.str2num bB 5 12, E.str2num bB 17 12, E.str2num bB 29 12,
            E.str2num bB 41 12] ≠ 0 then nav.nk8 + 1 else nav.nk8) ∧
    (∀ i, i < 8 → ((decode_navh E bB (decode_navh E bA nav)).bdsk8 nav.nk8).ion i =
      if i < 4 then E.str2num bA (5 + 12 * i) 12 else E.str2num bB (5 + 12 * (i - 4)) 12) := by
  rw [decode_navh_ionCorr E bA _ nav hA, decode_navh_ionCorr E bB _ _ hB]
  obtain ⟨a1, a2, a3, a4⟩ := decode_navh_ion_BDSA E bA nav hA.2.2.2.2
  have b := decode_navh_ion_BDSB E bB (decode_navh_ion E bA nav) hB.2.2.2.2
  rw [a1] at b
  obtain ⟨b1, -, -, b4⟩ := b (by rw [a2, hhour]) (by rw [a3, hsat])
  refine ⟨?_, fun i hi => ?_⟩
  · rw [b1, a4 0, a4 1, a4 2, a4 3]
    norm_num
  · rw [b4 i, a4 i]
    split_ifs <;> first | rfl | omega

/-- Three-line case of C10: `BDS1`, `BDS2`, `BDS3` lines with the same hour letter
and satellite number. -/
theorem decode_navh_bds123 (E : Ext) (nav : nav_t) (b1 b2 b3 : List Char)
    (h1 : ionCorrLine b1 "BDS1".toList) (h2 : ionCorrLine b2 "BDS2".toList)
    (h3 : ionCorrLine b3 "BDS3".toList)
    (hhour2 : b1.getD 54 (Char.ofNat 0) = b2.getD 54 (Char.ofNat 0))
    (hhour3 : b1.getD 54 (Char.ofNat 0) = b3.getD 54 (Char.ofNat 0))
    (hsat2 : toInt (E.str2num b1 57 2) = toInt (E.str2num b2 57 2))
    (hsat3 : toInt (E.str2num b1 57 2) = toInt (E.str2num b3 57 2)) :
    (decode_navh E b3 (decode_navh E b2 (decode_navh E b1 nav))).nsh9 =
      (if E.norm [E.str2num b1 5 12, E.str2num b1 17 12, E.str2num b1 29 12] ≠ 0 ∧
          E.norm [E.str2num b2 5 12, E.str2num b2 17 12, E.str2num b2 29 12] ≠ 0 ∧
          E.norm [E.str2num b3 5 12, E.str2num b3 17 12, E.str2num b3 29 12] ≠ 0
       then nav.nsh9 + 1 else nav.nsh9) ∧
    (∀ i, i < 9 →
      ((decode_navh E b3 (decode_navh E b2 (decode_navh E b1 nav))).bdssh9 nav.nsh9).ion i =
      if i < 3 then E.str2num b1 (5 + 12 * i) 12
      else if i < 6 then E.str2num b2 (5 + 12 * (i - 3)) 12
      else E.str2num b3 (5 + 12 * (i - 6)) 12) := by
  rw [decode_navh_ionCorr E b1 _ nav h1, decode_navh_ionCorr E b2 _ _ h2,
    decode_navh_ionCorr E b3 _ _ h3]
  obtain ⟨a1, a2, a3, a4⟩ := decode_navh_ion_BDS1 E b1 nav h1.2.2.2.2
  have b := decode_navh_ion_BDS2 E b2 (decode_navh_ion E b1 nav) h2.2.2.2.2
  rw [a1] at b
  obtain ⟨b1', b2', b3', b4'⟩ := b (by rw [a2, hhour2]) (by rw [a3, hsat2])
  have c := decode_navh_ion_BDS3 E b3 (decode_navh_ion E b2 (decode_navh_ion E b1 nav))
    h3.2.2.2.2
  rw [b1'] at c
  obtain ⟨c1, -, -, c4⟩ := c (by rw [b2', a2, hhour3]) (by rw [b3', a3, hsat3])
  refine ⟨?_, fun i hi => ?_⟩
  · rw [c1, b4' 0, b4' 1, b4' 2, b4' 3, b4' 4, b4' 5, a4 0, a4 1, a4 2]
    norm_num
  · rw [c4 i, b4' i, a4 i]
    split_ifs <;> first | rfl | omega

/-- C10 (amended): a `BDSA` line followed by a `BDSB` line with the same hour
letter and satellite number increases `nk8` by exactly one and leaves the four
`BDSA` coefficients followed by the four `BDSB` coefficients in the committed
record, provided `norm` of each four-coefficient part is nonzero; likewise
`BDS1`, `BDS2`, `BDS3` lines with equal hour letter and satellite increase `nsh9`
by exactly one and leave the nine coefficients in order, provided `norm` of each
three-coefficient part is nonzero. -/
theorem decode_navh_bds_merge (E : Ext) (nav : nav_t) (bA bB b1 b2 b3 : List Char)
    (hA : ionCorrLine bA "BDSA".toList) (hB : ionCorrLine bB "BDSB".toList)
    (hhour : bA.getD 54 (Char.ofNat 0) = bB.getD 54 (Char.ofNat 0))
    (hsat : toInt (E.str2num bA 57 2) = toInt (E.str2num bB 57 2))
    (hnA : E.norm [E.str2num bA 5 12, E.str2num bA 17 12, E.str2num bA 29 12,
      E.str2num bA 41 12] ≠ 0)
    (hnB : E.norm [E.str2num bB 5 12, E.str2num bB 17 12, E.str2num bB 29 12,
      E.str2num bB 41 12] ≠ 0)
    (h1 : ionCorrLine b1 "BDS1".toList) (h2 : ionCorrLine b2 "BDS2".toList)
    (h3 : ionCorrLine b3 "BDS3".toList)
    (hhour2 : b1.getD 54 (Char.ofNat 0) = b2.getD 54 (Char.ofNat 0))
    (hhour3 : b1.getD 54 (Char.ofNat 0) = b3.getD 54 (Char.ofNat 0))
    (hsat2 : toInt (E.str2num b1 57 2) = toInt (E.str2num b2 57 2))
    (hsat3 : toInt (E.str2num b1 57 2) = toInt (E.str2num b3 57 2))
    (hn1 : E.norm [E.str2num b1 5 12, E.str2num b1 17 12, E.str2num b1 29 12] ≠ 0)
    (hn2 : E.norm [E.str2num b2 5 12, E.str2num b2 17 12, E.str2num b2 29 12] ≠ 0)
    (hn3 : E.norm [E.str2num b3 5 12, E.str2num b3 17 12, E.str2num b3 29 12] ≠ 0) :
    ((decode_navh E bB (decode_navh E bA nav)).nk8 = nav.nk8 + 1 ∧
      ∀ i, i < 8 → ((decode_navh E bB (decode_navh E bA nav)).bdsk8 nav.nk8).ion i =
        if i < 4 then E.str2num bA (5 + 12 * i) 12
        else E.str2num bB (5 + 12 * (i - 4)) 12) ∧
    ((decode_navh E b3 (decode_navh E b2 (decode_navh E b1 nav))).nsh9 = nav.nsh9 + 1 ∧
      ∀ i, i < 9 →
        ((decode_navh E b3 (decode_navh E b2 (decode_navh E b1 nav))).bdssh9 nav.nsh9).ion i =
        if i < 3 then E.str2num b1 (5 + 12 * i) 12
        else if i < 6 then E.str2num b2 (5 + 12 * (i - 3)) 12
        else E.str2num b3 (5 + 12 * (i - 6)) 12) := by
  obtain ⟨p1, p2⟩ := decode_navh_bdsab E nav bA bB hA hB hhour hsat
  obtain ⟨q1, q2⟩ := decode_navh_bds123 E nav b1 b2 b3 h1 h2 h3 hhour2 hhour3 hsat2 hsat3
  rw [if_pos ⟨hnA, hnB⟩] at p1
  rw [if_pos ⟨hn1, hn2, hn3⟩] at q1
  exact ⟨⟨p1, p2⟩, ⟨q1, q2⟩⟩

theorem sampleStr2num_eq (s : List Char) (i n : Nat) (z : Int) (h : sampleInt s i n = z) :
    sampleExt.str2num s i n = (z : ℚ) := by
  simp [sampleExt, sampleStr2num, h]

/-- C10 (as stated) fails: the sample `BDSA` line with four zero coefficients
followed by the sample `BDSB` line with the same hour letter `C` and the same
satellite 5 leaves `nk8` unchanged. -/
theorem decode_navh_bds_merge_counterexample :
    ionCorrLine lineBDSA0 "BDSA".toList ∧ ionCorrLine lineBDSB "BDSB".toList ∧
    lineBDSA0.getD 54 (Char.ofNat 0) = lineBDSB.getD 54 (Char.ofNat 0) ∧
    toInt (sampleExt.str2num lineBDSA0 57 2) = toInt (sampleExt.str2num lineBDSB 57 2) ∧
    ¬ ((decode_navh sampleExt lineBDSB (decode_navh sampleExt lineBDSA0 nav0)).nk8
        = nav0.nk8 + 1) := by
  have hA : ionCorrLine lineBDSA0 "BDSA".toList := by unfold ionCorrLine; decide
  have hB : ionCorrLine lineBDSB "BDSB".toList := by unfold ionCorrLine; decide
  have hh : lineBDSA0.getD 54 (Char.ofNat 0) = lineBDSB.getD 54 (Char.ofNat 0) := by decide
  have hs : toInt (sampleExt.str2num lineBDSA0 57 2) = toInt (sampleExt.str2num lineBDSB 57 2) := by
    rw [sampleStr2num_eq _ _ _ 5 (by decide), sampleStr2num_eq _ _ _ 5 (by decide)]
  refine ⟨hA, hB, hh, hs, ?_⟩
  rw [(decode_navh_bdsab sampleExt nav0 lineBDSA0 lineBDSB hA hB hh hs).1]
  rw [sampleStr2num_eq lineBDSA0 5 12 0 (by decide), sampleStr2num_eq lineBDSA0 17 12 0 (by decide),
    sampleStr2num_eq lineBDSA0 29 12 0 (by decide), sampleStr2num_eq lineBDSA0 41 12 0 (by decide)]
  simp [sampleExt, sampleNorm, nav0]

theorem decode_navh_bds_merge_witness :
    (decode_navh sampleExt lineBDSB (decode_navh sampleExt lineBDSA nav0)).nk8 = 1 ∧
    (decode_navh sampleExt lineBDS3 (decode_navh sampleExt lineBDS2
      (decode_navh sampleExt lineBDS1 nav0))).nsh9 = 1 := by
  have e : ∀ s i n z, sampleInt s i n = z → sampleExt.str2num s i n = (z : ℚ) :=
    sampleStr2num_eq
  have h := decode_navh_bds_merge sampleExt nav0 lineBDSA lineBDSB lineBDS1 lineBDS2 lineBDS3
    (by unfold ionCorrLine; decide) (by unfold ionCorrLine; decide) (by decide)
    (by rw [e _ _ _ 5 (by decide), e _ _ _ 5 (by decide)])
    (by rw [e _ 5 _ 1 (by decide), e _ 17 _ 2 (by decide), e _ 29 _ 3 (by decide),
          e _ 41 _ 4 (by decide)]; norm_num [sampleExt, sampleNorm])
    (by rw [e _ 5 _ 5 (by decide), e _ 17 _ 6 (by decide), e _ 29 _ 7 (by decide),
          e _ 41 _ 8 (by decide)]; norm_num [sampleExt, sampleNorm])
    (by unfold ionCorrLine; decide) (by unfold ionCorrLine; decide)
    (by unfold ionCorrLine; decide) (by decide) (by decide)
    (by rw [e _ _ _ 7 (by decide), e _ _ _ 7 (by decide)])
    (by rw [e _ _ _ 7 (by decide), e _ _ _ 7 (by decide)])
    (by rw [e _ 5 _ 1 (by decide), e _ 17 _ 2 (by decide), e _ 29 _ 3 (by decide)]
        norm_num [sampleExt, sampleNorm])
    (by rw [e _ 5 _ 4 (by decide), e _ 17 _ 5 (by decide), e _ 29 _ 6 (by decide)]
        norm_num [sampleExt, sampleNorm])
    (by rw [e _ 5 _ 7 (by decide), e _ 17 _ 8 (by decide), e _ 29 _ 9 (by decide)]
        norm_num [sampleExt, sampleNorm])
  exact ⟨h.1.1, h.2.1⟩

/-! ### Signal index (C2, C3) -/

theorem bestCode_step_spec (ind : sigind_t) (i : Nat) : ∀ m : Nat,
    let k := (List.range m).foldl
      (fun k j =>
        if ind.frq j = (i : Int) + 1 ∧ ind.pri j ≠ 0 ∧ (k < 0 ∨ ind.pri j > ind.pri k.toNat)
        then (j : Int) else k) (-1)
    (k = -1 ∧ ∀ j, j < m → ¬ eligible ind i j) ∨
    (0 ≤ k ∧ k.toNat < m ∧ eligible ind i k.toNat ∧
      (∀ j, j < m → eligible ind i j → ind.pri j ≤ ind.pri k.toNat) ∧
      (∀ j, j < k.toNat → eligible ind i j → ind.pri j < ind.pri k.toNat)) := by
  intro m
  induction m with
  | zero =>
    left
    exact ⟨rfl, fun j hj => absurd hj (Nat.not_lt_zero j)⟩
  | succ m ih =>
    simp only [List.range_succ, List.foldl_append, List.foldl_cons, List.foldl_nil]
    simp only at ih
    generalize (List.range m).foldl
      (fun k j =>
        if ind.frq j = (i : Int) + 1 ∧ ind.pri j ≠ 0 ∧ (k < 0 ∨ ind.pri j > ind.pri k.toNat)
        then (j : Int) else k) (-1) = k at ih ⊢
    rcases ih with ⟨hk, hno⟩ | ⟨hk0, hkm, hek, hmax, hfirst⟩
    · subst hk
      by_cases he : eligible ind i m
      · right
        have hc : ind.frq m = (i : Int) + 1 ∧ ind.pri m ≠ 0 ∧
            ((-1 : Int) < 0 ∨ ind.pri m > ind.pri (Int.toNat (-1))) :=
          ⟨he.1, he.2, Or.inl (by decide)⟩
        rw [if_pos hc]
        simp only [Int.toNat_ofNat]
        refine ⟨Int.natCast_nonneg m, Nat.lt_succ_self m, he, ?_, ?_⟩
        · intro j hj hej
          rcases Nat.lt_succ_iff_lt_or_eq.mp hj with h | h
          · exact absurd hej (hno j h)
          · subst h; exact le_refl _
        · intro j hj hej
          exact absurd hej (hno j hj)
      · left
        have hc : ¬ (ind.frq m = (i : Int) + 1 ∧ ind.pri m ≠ 0 ∧
            ((-1 : Int) < 0 ∨ ind.pri m > ind.pri (Int.toNat (-1)))) :=
          fun h => he ⟨h.1, h.2.1⟩
        rw [if_neg hc]
        refine ⟨rfl, fun j hj => ?_⟩
        rcases Nat.lt_succ_iff_lt_or_eq.mp hj with h | h
        · exact hno j h
        · subst h; exact he
    · right
      have hnk : ¬ k < 0 := not_lt.mpr hk0
      by_cases hc : ind.frq m = (i : Int) + 1 ∧ ind.pri m ≠ 0 ∧
          (k < 0 ∨ ind.pri m > ind.pri k.toNat)
      · rw [if_pos hc]
        simp only [Int.toNat_ofNat]
        have hgt : ind.pri m > ind.pri k.toNat := hc.2.2.resolve_left hnk
        refine ⟨Int.natCast_nonneg m, Nat.lt_succ_self m, ⟨hc.1, hc.2.1⟩, ?_, ?_⟩
        · intro j hj hej
          rcases Nat.lt_succ_iff_lt_or_eq.mp hj with h | h
          · exact le_trans (hmax j h hej) (le_of_lt hgt)
          · subst h; exact le_refl _
        · intro j hj hej
          exact lt_of_le_of_lt (hmax j hj hej) hgt
      · rw [if_neg hc]
        refine ⟨hk0, Nat.lt_succ_of_lt hkm, hek, ?_, hfirst⟩
        intro j hj hej
        rcases Nat.lt_succ_iff_lt_or_eq.mp hj with h | h
        · exact hmax j h hej
        · subst h
          by_contra hlt
          exact hc ⟨hej.1, hej.2, Or.inr (not_le.mp hlt)⟩

/-- Result of the inner loop: none when no entry is eligible, else the first
eligible entry of highest priority. -/
theorem bestCode_spec (ind : sigind_t) (n i : Nat) :
    (bestCode ind n i = -1 ∧ ∀ j, j < n → ¬ eligible ind i j) ∨
    (0 ≤ bestCode ind n i ∧ (bestCode ind n i).toNat < n ∧
      eligible ind i (bestCode ind n i).toNat ∧
      (∀ j, j < n → eligible ind i j → ind.pri j ≤ ind.pri (bestCode ind n i).toNat) ∧
      (∀ j, j < (bestCode ind n i).toNat → eligible ind i j →
        ind.pri j < ind.pri (bestCode ind n i).toNat)) :=
  bestCode_step_spec ind i n

theorem set_index_scan_spec (E : Ext) (sys : Nat) (opt : List Char) :
    ∀ (tobs : List (List Char)) (i : Nat) (ind : sigind_t),
    i ≤ (set_index_scan E sys opt tobs i ind).2 ∧
    (set_index_scan E sys opt tobs i ind).1.shift = ind.shift ∧
    (∀ j, j < i →
      (set_index_scan E sys opt tobs i ind).1.code j = ind.code j ∧
      (set_index_scan E sys opt tobs i ind).1.frq j = ind.frq j ∧
      (set_index_scan E sys opt tobs i ind).1.pri j = ind.pri j ∧
      (set_index_scan E sys opt tobs i ind).1.pos j = ind.pos j) ∧
    (∀ j, i ≤ j → j < (set_index_scan E sys opt tobs i ind).2 →
      (set_index_scan E sys opt tobs i ind).1.pos j = -1 ∧
      (set_index_scan E sys opt tobs i ind).1.pri j =
        toUChar (E.getcodepri sys ((set_index_scan E sys opt tobs i ind).1.code j) opt) ∧
      ∃ lab, (set_index_scan E sys opt tobs i ind).1.code j = (E.obs2code lab).1 ∧
        (set_index_scan E sys opt tobs i ind).1.frq j = remapFrq E sys (E.obs2code lab).2) := by
  intro tobs
  induction tobs with
  | nil =>
    intro i ind
    have e : set_index_scan E sys opt [] i ind = (ind, i) := rfl
    rw [e]
    exact ⟨le_refl _, rfl, fun j _ => ⟨rfl, rfl, rfl, rfl⟩, fun j h1 h2 => by omega⟩
  | cons t ts ih =>
    intro i ind
    by_cases ht : t = []
    · have e : set_index_scan E sys opt (t :: ts) i ind = (ind, i) := by
        simp only [set_index_scan, if_pos ht]
      rw [e]
      exact ⟨le_refl _, rfl, fun j _ => ⟨rfl, rfl, rfl, rfl⟩, fun j h1 h2 => by omega⟩
    · have e : set_index_scan E sys opt (t :: ts) i ind =
          set_index_scan E sys opt ts (i + 1) (set_index_entry E sys opt t i ind) := by
        simp only [set_index_scan, if_neg ht]
      rw [e]
      obtain ⟨h1, h2, h3, h4⟩ := ih (i + 1) (set_index_entry E sys opt t i ind)
      refine ⟨by omega, ?_, ?_, ?_⟩
      · rw [h2]; rfl
      · intro j hj
        obtain ⟨a, b, c, d⟩ := h3 j (by omega)
        have hne : j ≠ i := by omega
        rw [a, b, c, d]
        simp [set_index_entry, Function.update_noteq hne]
      · intro j hj1 hj2
        rcases Nat.eq_or_lt_of_le hj1 with h | h
        · subst h
          obtain ⟨a, b, c, d⟩ := h3 i (Nat.lt_succ_self i)
          rw [a, b, c, d]
          simp only [set_index_entry, Function.update_same]
          exact ⟨trivial, trivial, ⟨t.tail, rfl, rfl⟩⟩
        · exact h4 j h hj2

theorem assignPos_zeroUnassigned (E : Ext) (sys : Nat) (opt : List Char) (ind : sigind_t)
    (n k : Nat) (v : Int) (hp : PriByCode E sys opt ind n) (hk : k < n) (hpk : ind.pri k ≠ 0)
    (hz : ZeroUnassigned ind n) : ZeroUnassigned (assignPos ind n k v) n := by
  intro j hj hj0
  have hj0' : ind.pri j = 0 := hj0
  have hne : ¬ (j < n ∧ ind.code j = ind.code k) := by
    rintro ⟨-, hc⟩
    apply hpk
    rw [hp k hk, ← hc, ← hp j hj]
    exact hj0'
  show (if j < n ∧ ind.code j = ind.code k then v else ind.pos j) = -1
  rw [if_neg hne]
  exact hz j hj hj0'

theorem assignPos_priByCode (E : Ext) (sys : Nat) (opt : List Char) (ind : sigind_t)
    (n k : Nat) (v : Int) (hp : PriByCode E sys opt ind n) :
    PriByCode E sys opt (assignPos ind n k v) n := hp

theorem primary_fold_inv (E : Ext) (sys : Nat) (opt : List Char) (n : Nat) :
    ∀ (l : List Nat) (ind : sigind_t), PriByCode E sys opt ind n → ZeroUnassigned ind n →
    PriByCode E sys opt (l.foldl (fun ind i =>
        let k := bestCode ind n i
        if k < 0 then ind else assignPos ind n k.toNat (i : Int)) ind) n ∧
    ZeroUnassigned (l.foldl (fun ind i =>
        let k := bestCode ind n i
        if k < 0 then ind else assignPos ind n k.toNat (i : Int)) ind) n := by
  intro l
  induction l with
  | nil => intro ind hp hz; exact ⟨hp, hz⟩
  | cons i l ih =>
    intro ind hp hz
    simp only [List.foldl_cons]
    apply ih
    · by_cases hk : bestCode ind n i < 0
      · simp only [if_pos hk]; exact hp
      · simp only [if_neg hk]; exact assignPos_priByCode E sys opt ind n _ _ hp
    · by_cases hk : bestCode ind n i < 0
      · simp only [if_pos hk]; exact hz
      · simp only [if_neg hk]
        rcases bestCode_spec ind n i with ⟨h1, -⟩ | ⟨-, h2, h3, -, -⟩
        · rw [h1] at hk; exact absurd (by decide) hk
        · exact assignPos_zeroUnassigned E sys opt ind n _ _ hp h2 h3.2 hz

theorem firstUnassigned_spec (ind : sigind_t) : ∀ (fuel j : Nat),
    j ≤ firstUnassigned ind fuel j ∧ firstUnassigned ind fuel j ≤ j + fuel ∧
    (firstUnassigned ind fuel j < j + fuel →
      ind.code (firstUnassigned ind fuel j) ≠ 0 ∧ ind.pri (firstUnassigned ind fuel j) ≠ 0 ∧
      ind.pos (firstUnassigned ind fuel j) < 0) ∧
    (∀ i, j ≤ i → i < firstUnassigned ind fuel j →
      ¬ (ind.code i ≠ 0 ∧ ind.pri i ≠ 0 ∧ ind.pos i < 0)) := by
  intro fuel
  induction fuel with
  | zero =>
    intro j
    simp only [firstUnassigned]
    exact ⟨le_refl _, by omega, fun h => by omega, fun i h1 h2 => by omega⟩
  | succ f ih =>
    intro j
    by_cases hc : ind.code j ≠ 0 ∧ ind.pri j ≠ 0 ∧ ind.pos j < 0
    · have e : firstUnassigned ind (f + 1) j = j := by
        simp only [firstUnassigned, if_pos hc]
      rw [e]
      exact ⟨le_refl _, by omega, fun _ => hc, fun i h1 h2 => by omega⟩
    · have e : firstUnassigned ind (f + 1) j = firstUnassigned ind f (j + 1) := by
        simp only [firstUnassigned, if_neg hc]
      rw [e]
      obtain ⟨h1, h2, h3, h4⟩ := ih (j + 1)
      refine ⟨by omega, by omega, fun h => h3 (by omega), fun i hi1 hi2 => ?_⟩
      rcases Nat.eq_or_lt_of_le hi1 with h | h
      · subst h; exact hc
      · exact h4 i h hi2

theorem set_index_ext_inv (E : Ext) (sys : Nat) (opt : List Char) (n : Nat) :
    ∀ (fuel i : Nat) (ind : sigind_t), PriByCode E sys opt ind n → ZeroUnassigned ind n →
    PriByCode E sys opt (set_index_ext E n fuel i ind) n ∧
    ZeroUnassigned (set_index_ext E n fuel i ind) n := by
  intro fuel
  induction fuel with
  | zero => intro i ind hp hz; exact ⟨hp, hz⟩
  | succ f ih =>
    intro i ind hp hz
    by_cases hj : firstUnassigned ind n 0 ≥ n
    · have e : set_index_ext E n (f + 1) i ind = ind := by
        simp only [set_index_ext, if_pos hj]
      rw [e]; exact ⟨hp, hz⟩
    · have e : set_index_ext E n (f + 1) i ind = set_index_ext E n f (i + 1)
          (assignPos ind n (firstUnassigned ind n 0) ((E.NFREQ : Int) + i)) := by
        simp only [set_index_ext, if_neg hj]
      rw [e]
      obtain ⟨-, -, h3, -⟩ := firstUnassigned_spec ind n 0
      have hlt : firstUnassigned ind n 0 < n := by omega
      apply ih
      · exact assignPos_priByCode E sys opt ind n _ _ hp
      · exact assignPos_zeroUnassigned E sys opt ind n _ _ hp hlt (h3 (by omega)).2.1 hz

/-- Table left by `set_index`: stored priorities are `getcodepri` of the stored
codes, and entries of priority zero have no position. -/
theorem set_index_inv (E : Ext) (ver : ℚ) (sys : Nat) (opt : List Char)
    (tobs : List (List Char)) (ind : sigind_t) :
    PriByCode E sys opt (set_index E ver sys opt tobs ind) (set_index E ver sys opt tobs ind).n ∧
    ZeroUnassigned (set_index E ver sys opt tobs ind) (set_index E ver sys opt tobs ind).n := by
  obtain ⟨-, -, -, h4⟩ := set_index_scan_spec E sys opt tobs 0 ind
  have hp : PriByCode E sys opt
      { (set_index_scan E sys opt tobs 0 ind).1 with
        shift := set_index_shift E sys (set_index_scan E sys opt tobs 0 ind).2
          (set_index_scan E sys opt tobs 0 ind).1.code opt
          (set_index_scan E sys opt tobs 0 ind).1.shift }
      (set_index_scan E sys opt tobs 0 ind).2 :=
    fun j hj => (h4 j (Nat.zero_le _) hj).2.1
  have hz : ZeroUnassigned
      { (set_index_scan E sys opt tobs 0 ind).1 with
        shift := set_index_shift E sys (set_index_scan E sys opt tobs 0 ind).2
          (set_index_scan E sys opt tobs 0 ind).1.code opt
          (set_index_scan E sys opt tobs 0 ind).1.shift }
      (set_index_scan E sys opt tobs 0 ind).2 :=
    fun j hj _ => (h4 j (Nat.zero_le _) hj).1
  obtain ⟨hp2, hz2⟩ := primary_fold_inv E sys opt _ (List.range E.NFREQ) _ hp hz
  exact set_index_ext_inv E sys opt _ E.NEXOBS 0 _ hp2 hz2

/-- C3: after `set_index`, every entry whose priority (the `getcodepri` of its
code for the system and options) is zero has `pos = -1`. -/
theorem set_index_zero_priority (E : Ext) (ver : ℚ) (sys : Nat) (opt : List Char)
    (tobs : List (List Char)) (ind : sigind_t) (j : Nat)
    (hj : j < (set_index E ver sys opt tobs ind).n)
    (h0 : (set_index E ver sys opt tobs ind).pri j = 0) :
    (set_index E ver sys opt tobs ind).pos j = -1 := by
  obtain ⟨-, hz⟩ := set_index_inv E ver sys opt tobs ind
  exact hz j hj h0

theorem set_index_zero_priority_witness :
    (set_index sampleExt 3 1 [] tobsSample sigind0).pos 5 = -1 :=
  set_index_zero_priority sampleExt 3 1 [] tobsSample sigind0 5 (by decide) (by decide)

theorem bestCode_congr (ind ind1 : sigind_t) (n i : Nat) (hf : ind1.frq = ind.frq)
    (hp : ind1.pri = ind.pri) : bestCode ind1 n i = bestCode ind n i := by
  unfold bestCode
  rw [hf, hp]

/-- First entry among those of highest priority eligible for a slot is the one
the inner loop returns. -/
theorem bestCode_eq (ind : sigind_t) (n i a : Nat) (ha : a < n) (hea : eligible ind i a)
    (hmax : ∀ j, j < n → eligible ind i j →
      ind.pri j < ind.pri a ∨ (ind.pri j = ind.pri a ∧ a ≤ j)) :
    bestCode ind n i = (a : Int) := by
  rcases bestCode_spec ind n i with ⟨-, hno⟩ | ⟨h0, hlt, hek, hm, hfirst⟩
  · exact absurd hea (hno a ha)
  · have h1 : ind.pri a ≤ ind.pri (bestCode ind n i).toNat := hm a ha hea
    have h2 := hmax _ hlt hek
    have h3 : a ≤ (bestCode ind n i).toNat := by
      rcases h2 with h | h
      · omega
      · exact h.2
    have h4 : (bestCode ind n i).toNat = a := by
      rcases Nat.eq_or_lt_of_le h3 with h | h
      · exact h.symm
      · have := hfirst a h hea
        omega
    have h5 : ((bestCode ind n i).toNat : Int) = bestCode ind n i := Int.toNat_of_nonneg h0
    rw [← h5, h4]

theorem assignPos_sameCode (ind : sigind_t) (n k : Nat) (v : Int)
    (h : SameCodeSamePos ind n) : SameCodeSamePos (assignPos ind n k v) n := by
  intro i j hi hj hc
  have hc' : ind.code i = ind.code j := hc
  show (if i < n ∧ ind.code i = ind.code k then v else ind.pos i) =
    (if j < n ∧ ind.code j = ind.code k then v else ind.pos j)
  by_cases hk : ind.code i = ind.code k
  · rw [if_pos ⟨hi, hk⟩, if_pos ⟨hj, by rw [← hc', hk]⟩]
  · rw [if_neg (fun h => hk h.2), if_neg (fun h => hk (by rw [hc', h.2]))]
    exact h i j hi hj hc'

/-- State after the primary loop has treated slots `0..m-1`. -/
theorem primary_range_spec (ind : sigind_t) (n : Nat) (hcf : CodeFrq ind n)
    (hsc : SameCodeSamePos ind n) : ∀ m : Nat,
    ((List.range m).foldl (fun ind i =>
        let k := bestCode ind n i
        if k < 0 then ind else assignPos ind n k.toNat (i : Int)) ind).code = ind.code ∧
    ((List.range m).foldl (fun ind i =>
        let k := bestCode ind n i
        if k < 0 then ind else assignPos ind n k.toNat (i : Int)) ind).frq = ind.frq ∧
    ((List.range m).foldl (fun ind i =>
        let k := bestCode ind n i
        if k < 0 then ind else assignPos ind n k.toNat (i : Int)) ind).pri = ind.pri ∧
    SameCodeSamePos ((List.range m).foldl (fun ind i =>
        let k := bestCode ind n i
        if k < 0 then ind else assignPos ind n k.toNat (i : Int)) ind) n ∧
    (∀ s, s < m → 0 ≤ bestCode ind n s → ∀ j, j < n →
      ind.code j = ind.code (bestCode ind n s).toNat →
      ((List.range m).foldl (fun ind i =>
        let k := bestCode ind n i
        if k < 0 then ind else assignPos ind n k.toNat (i : Int)) ind).pos j = (s : Int)) ∧
    (∀ j, j < n →
      ((List.range m).foldl (fun ind i =>
        let k := bestCode ind n i
        if k < 0 then ind else assignPos ind n k.toNat (i : Int)) ind).pos j = ind.pos j ∨
      ∃ s, s < m ∧ 0 ≤ bestCode ind n s ∧ ind.code j = ind.code (bestCode ind n s).toNat ∧
        ((List.range m).foldl (fun ind i =>
          let k := bestCode ind n i
          if k < 0 then ind else assignPos ind n k.toNat (i : Int)) ind).pos j = (s : Int)) := by
  intro m
  induction m with
  | zero =>
    simp only [List.range_zero, List.foldl_nil]
    exact ⟨trivial, trivial, trivial, hsc, fun s hs => absurd hs (Nat.not_lt_zero s),
      fun j _ => Or.inl trivial⟩
  | succ m ih =>
    simp only [List.range_succ, List.foldl_append, List.foldl_cons, List.foldl_nil]
    generalize (List.range m).foldl (fun ind i =>
        let k := bestCode ind n i
        if k < 0 then ind else assignPos ind n k.toNat (i : Int)) ind = cur at ih ⊢
    obtain ⟨hc, hf, hp, hs, hw, hor⟩ := ih
    have hb : bestCode cur n m = bestCode ind n m := bestCode_congr ind cur n m hf hp
    rw [hb]
    by_cases hk : bestCode ind n m < 0
    · simp only [if_pos hk]
      refine ⟨hc, hf, hp, hs, ?_, ?_⟩
      · intro s hsm h0 j hj hcj
        rcases Nat.lt_succ_iff_lt_or_eq.mp hsm with h | h
        · exact hw s h h0 j hj hcj
        · subst h; omega
      · intro j hj
        rcases hor j hj with h | ⟨s, h1, h2, h3, h4⟩
        · exact Or.inl h
        · exact Or.inr ⟨s, Nat.lt_succ_of_lt h1, h2, h3, h4⟩
    · simp only [if_neg hk]
      have hk0 : 0 ≤ bestCode ind n m := not_lt.mp hk
      rcases bestCode_spec ind n m with ⟨h1, -⟩ | ⟨-, hlt, hel, -, -⟩
      · rw [h1] at hk0; exact absurd hk0 (by decide)
      refine ⟨hc, hf, hp, assignPos_sameCode cur n _ _ hs, ?_, ?_⟩
      · intro s hsm h0 j hj hcj
        show (if j < n ∧ cur.code j = cur.code (bestCode ind n m).toNat then (m : Int)
          else cur.pos j) = (s : Int)
        rw [hc]
        rcases Nat.lt_succ_iff_lt_or_eq.mp hsm with h | h
        · have hne : ¬ (j < n ∧ ind.code j = ind.code (bestCode ind n m).toNat) := by
            rintro ⟨-, hcm⟩
            rcases bestCode_spec ind n s with ⟨h1, -⟩ | ⟨-, hlt2, hel2, -, -⟩
            · rw [h1] at h0; exact absurd h0 (by decide)
            have e1 := hcf _ _ hlt2 hlt (by rw [← hcj, hcm])
            rw [hel2.1, hel.1] at e1
            omega
          rw [if_neg hne]
          exact hw s h h0 j hj hcj
        · subst h
          rw [if_pos ⟨hj, hcj⟩]
      · intro j hj
        show (if j < n ∧ cur.code j = cur.code (bestCode ind n m).toNat then (m : Int)
            else cur.pos j) = ind.pos j ∨
          ∃ s, s < m + 1 ∧ 0 ≤ bestCode ind n s ∧
            ind.code j = ind.code (bestCode ind n s).toNat ∧
            (if j < n ∧ cur.code j = cur.code (bestCode ind n m).toNat then (m : Int)
              else cur.pos j) = (s : Int)
        rw [hc]
        by_cases hcm : j < n ∧ ind.code j = ind.code (bestCode ind n m).toNat
        · rw [if_pos hcm]
          exact Or.inr ⟨m, Nat.lt_succ_self m, hk0, hcm.2, rfl⟩
        · rw [if_neg hcm]
          rcases hor j hj with h | ⟨s, h1, h2, h3, h4⟩
          · exact Or.inl h
          · exact Or.inr ⟨s, Nat.lt_succ_of_lt h1, h2, h3, h4⟩

/-- Extended-slot loop: it keeps the code, frequency and priority columns, keeps
every position already assigned, and only hands out positions from `NFREQ` on. -/
theorem set_index_ext_spec (E : Ext) (n : Nat) : ∀ (fuel i : Nat) (ind : sigind_t),
    SameCodeSamePos ind n →
    (set_index_ext E n fuel i ind).code = ind.code ∧
    (set_index_ext E n fuel i ind).frq = ind.frq ∧
    (set_index_ext E n fuel i ind).pri = ind.pri ∧
    (∀ j, j < n → 0 ≤ ind.pos j → (set_index_ext E n fuel i ind).pos j = ind.pos j) ∧
    (∀ j, j < n → (set_index_ext E n fuel i ind).pos j = ind.pos j ∨
      (E.NFREQ : Int) ≤ (set_index_ext E n fuel i ind).pos j) := by
  intro fuel
  induction fuel with
  | zero =>
    intro i ind _
    exact ⟨rfl, rfl, rfl, fun j _ _ => rfl, fun j _ => Or.inl rfl⟩
  | succ f ih =>
    intro i ind hs
    by_cases hj : firstUnassigned ind n 0 ≥ n
    · have e : set_index_ext E n (f + 1) i ind = ind := by
        simp only [set_index_ext, if_pos hj]
      rw [e]
      exact ⟨rfl, rfl, rfl, fun j _ _ => rfl, fun j _ => Or.inl rfl⟩
    · have e : set_index_ext E n (f + 1) i ind = set_index_ext E n f (i + 1)
          (assignPos ind n (firstUnassigned ind n 0) ((E.NFREQ : Int) + i)) := by
        simp only [set_index_ext, if_neg hj]
      rw [e]
      obtain ⟨-, -, h3, -⟩ := firstUnassigned_spec ind n 0
      have hlt : firstUnassigned ind n 0 < n := by omega
      have hneg : ind.pos (firstUnassigned ind n 0) < 0 := (h3 (by omega)).2.2
      obtain ⟨a1, a2, a3, a4, a5⟩ :=
        ih (i + 1) (assignPos ind n (firstUnassigned ind n 0) ((E.NFREQ : Int) + i))
          (assignPos_sameCode ind n _ _ hs)
      refine ⟨a1, a2, a3, ?_, ?_⟩
      · intro j hjn hpos
        have hne : ¬ (j < n ∧ ind.code j = ind.code (firstUnassigned ind n 0)) := by
          rintro ⟨-, hc⟩
          have := hs j _ hjn hlt hc
          omega
        have hstep : (assignPos ind n (firstUnassigned ind n 0) ((E.NFREQ : Int) + i)).pos j =
            ind.pos j := by
          show (if j < n ∧ ind.code j = ind.code (firstUnassigned ind n 0)
            then ((E.NFREQ : Int) + i) else ind.pos j) = ind.pos j
          rw [if_neg hne]
        rw [a4 j hjn (by rw [hstep]; exact hpos), hstep]
      · intro j hjn
        have hstep : (assignPos ind n (firstUnassigned ind n 0) ((E.NFREQ : Int) + i)).pos j =
            ind.pos j ∨ (E.NFREQ : Int) ≤
            (assignPos ind n (firstUnassigned ind n 0) ((E.NFREQ : Int) + i)).pos j := by
          show (if j < n ∧ ind.code j = ind.code (firstUnassigned ind n 0)
            then ((E.NFREQ : Int) + i) else ind.pos j) = ind.pos j ∨ (E.NFREQ : Int) ≤
            (if j < n ∧ ind.code j = ind.code (firstUnassigned ind n 0)
            then ((E.NFREQ : Int) + i) else ind.pos j)
          by_cases hc : j < n ∧ ind.code j = ind.code (firstUnassigned ind n 0)
          · rw [if_pos hc]; right; omega
          · rw [if_neg hc]; left; rfl
        rcases a5 j hjn with h | h
        · rcases hstep with h2 | h2
          · left; rw [h, h2]
          · right; rw [h]; exact h2
        · right; exact h

/-- C2 (amended): when two distinct codes, first declared at `a` and `b`, map to
the same slot f (1 <= f <= NFREQ) with nonzero priorities, the code at `a` has the
larger priority or an equal one with `a` declared first, and every other code of
that slot has a lower priority than `a` or an equal one and a later declaration,
then `set_index` gives position f-1 to every entry of the code at `a` and not to
`b`.  The frequency returned by `obs2code` is assumed to depend on the code only. -/
theorem set_index_priority (E : Ext) (ver : ℚ) (sys : Nat) (opt : List Char)
    (tobs : List (List Char)) (ind : sigind_t)
    (hfun : ∀ s t, (E.obs2code s).1 = (E.obs2code t).1 → (E.obs2code s).2 = (E.obs2code t).2)
    (a b f : Nat)
    (ha : a < (set_index E ver sys opt tobs ind).n)
    (hb : b < (set_index E ver sys opt tobs ind).n)
    (hab : (set_index E ver sys opt tobs ind).code a ≠ (set_index E ver sys opt tobs ind).code b)
    (hf1 : 1 ≤ f) (hf2 : f ≤ E.NFREQ)
    (hfa : (set_index E ver sys opt tobs ind).frq a = (f : Int))
    (hfb : (set_index E ver sys opt tobs ind).frq b = (f : Int))
    (hpa : (set_index E ver sys opt tobs ind).pri a ≠ 0)
    (_hpb : (set_index E ver sys opt tobs ind).pri b ≠ 0)
    (hfirst_a : ∀ j, j < a →
      (set_index E ver sys opt tobs ind).code j ≠ (set_index E ver sys opt tobs ind).code a)
    (hfirst_b : ∀ j, j < b →
      (set_index E ver sys opt tobs ind).code j ≠ (set_index E ver sys opt tobs ind).code b)
    (hwin : (set_index E ver sys opt tobs ind).pri b < (set_index E ver sys opt tobs ind).pri a ∨
      ((set_index E ver sys opt tobs ind).pri a = (set_index E ver sys opt tobs ind).pri b ∧
        a < b))
    (hothers : ∀ j, j < (set_index E ver sys opt tobs ind).n →
      (set_index E ver sys opt tobs ind).frq j = (f : Int) →
      (set_index E ver sys opt tobs ind).code j ≠ (set_index E ver sys opt tobs ind).code a →
      (set_index E ver sys opt tobs ind).code j ≠ (set_index E ver sys opt tobs ind).code b →
      (set_index E ver sys opt tobs ind).pri j < (set_index E ver sys opt tobs ind).pri a ∨
      ((set_index E ver sys opt tobs ind).pri j = (set_index E ver sys opt tobs ind).pri a ∧
        a < j)) :
    (∀ j, j < (set_index E ver sys opt tobs ind).n →
      (set_index E ver sys opt tobs ind).code j = (set_index E ver sys opt tobs ind).code a →
      (set_index E ver sys opt tobs ind).pos j = (f : Int) - 1) ∧
    (set_index E ver sys opt tobs ind).pos b ≠ (f : Int) - 1 := by
  obtain ⟨-, -, -, h4⟩ := set_index_scan_spec E sys opt tobs 0 ind
  generalize hn : (set_index_scan E sys opt tobs 0 ind).2 = n at h4
  generalize hi1 : ({ (set_index_scan E sys opt tobs 0 ind).1 with
        shift := set_index_shift E sys n
          (set_index_scan E sys opt tobs 0 ind).1.code opt
          (set_index_scan E sys opt tobs 0 ind).1.shift } : sigind_t) = ind1
  have hc1 : ind1.code = (set_index_scan E sys opt tobs 0 ind).1.code := by rw [← hi1]
  have hf1' : ind1.frq = (set_index_scan E sys opt tobs 0 ind).1.frq := by rw [← hi1]
  have hp1 : ind1.pri = (set_index_scan E sys opt tobs 0 ind).1.pri := by rw [← hi1]
  have hpos1 : ind1.pos = (set_index_scan E sys opt tobs 0 ind).1.pos := by rw [← hi1]
  rw [← hc1, ← hf1', ← hp1, ← hpos1] at h4
  have hr : set_index E ver sys opt tobs ind =
      { set_index_ext E n E.NEXOBS 0 (set_index_primary E n ind1) with n := n } := by
    simp only [set_index, hn, hi1]
  rw [hr] at ha hb hab hfa hfb hpa hfirst_a hfirst_b hwin hothers ⊢
  have hpc : PriByCode E sys opt ind1 n := fun j hj => (h4 j (Nat.zero_le _) hj).2.1
  have hcf : CodeFrq ind1 n := by
    intro i j hi hj hc
    obtain ⟨li, ci, fi⟩ := (h4 i (Nat.zero_le _) hi).2.2
    obtain ⟨lj, cj, fj⟩ := (h4 j (Nat.zero_le _) hj).2.2
    rw [fi, fj, hfun li lj (by rw [← ci, ← cj, hc])]
  have hsc : SameCodeSamePos ind1 n := by
    intro i j hi hj _
    rw [(h4 i (Nat.zero_le _) hi).1, (h4 j (Nat.zero_le _) hj).1]
  obtain ⟨q1, q2, q3, q4, q5, q6⟩ := primary_range_spec ind1 n hcf hsc E.NFREQ
  have hprim : set_index_primary E n ind1 = (List.range E.NFREQ).foldl (fun ind i =>
        let k := bestCode ind n i
        if k < 0 then ind else assignPos ind n k.toNat (i : Int)) ind1 := rfl
  rw [← hprim] at q1 q2 q3 q4 q5 q6
  obtain ⟨x1, x2, x3, x4, x5⟩ := set_index_ext_spec E n E.NEXOBS 0 _ q4
  simp only at ha hb hab hfa hfb hpa hfirst_a hfirst_b hwin hothers ⊢
  rw [x1, q1] at hab hfirst_a hfirst_b hothers ⊢
  rw [x2, q2] at hfa hfb hothers
  rw [x3, q3] at hpa hwin hothers
  have hela : eligible ind1 (f - 1) a := by
    refine ⟨?_, hpa⟩
    rw [hfa]; omega
  have hbest : bestCode ind1 n (f - 1) = (a : Int) := by
    apply bestCode_eq ind1 n (f - 1) a ha hela
    intro j hj hej
    have hfj : ind1.frq j = (f : Int) := by rw [hej.1]; omega
    by_cases hca : ind1.code j = ind1.code a
    · right
      refine ⟨by rw [hpc j hj, hpc a ha, hca], ?_⟩
      by_contra hlt
      exact hfirst_a j (not_le.mp hlt) hca
    · by_cases hcb : ind1.code j = ind1.code b
      · have hpj : ind1.pri j = ind1.pri b := by rw [hpc j hj, hpc b hb, hcb]
        have hbj : b ≤ j := by
          by_contra hlt
          exact hfirst_b j (not_le.mp hlt) hcb
        rcases hwin with h | ⟨h1, h2⟩
        · left; omega
        · right; exact ⟨by omega, by omega⟩
      · rcases hothers j hj hfj hca hcb with h | ⟨h1, h2⟩
        · left; exact h
        · right; exact ⟨h1, by omega⟩
  have hbest0 : 0 ≤ bestCode ind1 n (f - 1) := by rw [hbest]; exact Int.natCast_nonneg a
  have hbt : (bestCode ind1 n (f - 1)).toNat = a := by rw [hbest]; rfl
  constructor
  · intro j hj hcj
    have hpj : (set_index_primary E n ind1).pos j = ((f - 1 : Nat) : Int) :=
      q5 (f - 1) (by omega) hbest0 j hj (by rw [hbt]; exact hcj)
    rw [x4 j hj (by rw [hpj]; exact Int.natCast_nonneg _), hpj]
    omega
  · intro hpb'
    have hprimb : (set_index_primary E n ind1).pos b ≠ (f : Int) - 1 := by
      rcases q6 b hb with h | ⟨s, hs1, hs2, hs3, hs4⟩
      · rw [h, (h4 b (Nat.zero_le _) hb).1]; omega
      · rw [hs4]
        intro hsf
        have hsf' : s = f - 1 := by omega
        subst hsf'
        rw [hbt] at hs3
        exact hab hs3.symm
    rcases x5 b hb with h | h
    · rw [h] at hpb'; exact hprimb hpb'
    · rw [hpb'] at h; omega

theorem sampleObs2code_range (s : List Char) :
    sampleObs2code s = (1, 1) ∨ sampleObs2code s = (2, 1) ∨ sampleObs2code s = (3, 1) ∨
    sampleObs2code s = (12, 1) ∨ sampleObs2code s = (14, 2) ∨ sampleObs2code s = (20, 2) ∨
    sampleObs2code s = (0, 0) := by
  unfold sampleObs2code
  split_ifs <;> simp

theorem sampleObs2code_fun (s t : List Char)
    (h : (sampleExt.obs2code s).1 = (sampleExt.obs2code t).1) :
    (sampleExt.obs2code s).2 = (sampleExt.obs2code t).2 := by
  have e : sampleExt.obs2code = sampleObs2code := rfl
  rw [e] at h ⊢
  rcases sampleObs2code_range s with a | a | a | a | a | a | a <;>
    rcases sampleObs2code_range t with b | b | b | b | b | b | b <;>
    rw [a, b] at h ⊢ <;> first | rfl | (exact absurd h (by decide))

/-- C2 (as stated) fails: in the sample table the codes C1P (index 1, priority
14) and C1W (index 2, priority 12) share slot 1 and no code of the slot has a
priority above 14, yet position 0 goes to C1C (index 0, priority 14, declared
first) and C1P gets the extended position 3. -/
theorem set_index_priority_counterexample :
    (set_index sampleExt 3 1 [] tobsSample sigind0).code 1 ≠
      (set_index sampleExt 3 1 [] tobsSample sigind0).code 2 ∧
    (set_index sampleExt 3 1 [] tobsSample sigind0).frq 1 = 1 ∧
    (set_index sampleExt 3 1 [] tobsSample sigind0).frq 2 = 1 ∧
    (set_index sampleExt 3 1 [] tobsSample sigind0).pri 1 = 14 ∧
    (set_index sampleExt 3 1 [] tobsSample sigind0).pri 2 = 12 ∧
    (∀ j, j < (set_index sampleExt 3 1 [] tobsSample sigind0).n →
      (set_index sampleExt 3 1 [] tobsSample sigind0).frq j = 1 →
      (set_index sampleExt 3 1 [] tobsSample sigind0).pri j ≤ 14) ∧
    (set_index sampleExt 3 1 [] tobsSample sigind0).pos 1 = 3 ∧
    (set_index sampleExt 3 1 [] tobsSample sigind0).pos 0 = 0 ∧
    ¬ ((set_index sampleExt 3 1 [] tobsSample sigind0).pos 1 = 1 - 1) := by
  decide

theorem set_index_priority_witness :
    (set_index sampleExt 3 1 [] tobsSample sigind0).pos 0 = 0 ∧
    (set_index sampleExt 3 1 [] tobsSample sigind0).pos 3 = 0 ∧
    (set_index sampleExt 3 1 [] tobsSample sigind0).pos 1 ≠ 0 := by
  have h := set_index_priority sampleExt 3 1 [] tobsSample sigind0 sampleObs2code_fun 0 1 1
    (by decide) (by decide) (by decide) (by decide) (by decide) (by decide) (by decide)
    (by decide) (by decide) (by decide) (by decide) (by decide) (by decide)
  exact ⟨h.1 0 (by decide) rfl, h.1 3 (by decide) (by decide), h.2⟩

/-! ### Cycle-slip table (C1) -/

theorem slipbit_or (x : Nat) : (x ||| LLI_SLIP) &&& 1 ≠ 0 := by
  simp [LLI_SLIP, Nat.and_one_is_mod, Nat.or_mod_two_eq_one]

theorem saveslips_mono (E : Ext) (slips : Int → Nat → Nat) (d : obsd_t) (s : Int) (f : Nat)
    (h : slips s f &&& 1 ≠ 0) : saveslips E slips d s f &&& 1 ≠ 0 := by
  unfold saveslips
  split_ifs
  · exact slipbit_or _
  · exact h

theorem saveslips_set (E : Ext) (slips : Int → Nat → Nat) (d : obsd_t) (f : Nat)
    (hf : f < E.NFREQ) (h : d.LLI f &&& 1 ≠ 0) :
    saveslips E slips d ((d.sat : Int) - 1) f &&& 1 ≠ 0 := by
  unfold saveslips
  rw [if_pos ⟨rfl, hf, h⟩]
  exact slipbit_or _

/-- First inner loop: the `fuel` records from `i` on get their time converted and
nothing else changes in `data`; a set slip bit of the table stays set, and every
record with a slip bit sets the bit of its entry. -/
theorem readrnxobs_save_spec (E : Ext) (tsys : Int) : ∀ (fuel i : Nat) (data : Nat → obsd_t)
    (slips : Int → Nat → Nat),
    (∀ j, (readrnxobs_save E tsys fuel i data slips).1 j =
      if i ≤ j ∧ j < i + fuel then { data j with time := obsTime E tsys (data j).time }
      else data j) ∧
    (∀ s f, slips s f &&& 1 ≠ 0 → (readrnxobs_save E tsys fuel i data slips).2 s f &&& 1 ≠ 0) ∧
    (∀ j f, i ≤ j → j < i + fuel → f < E.NFREQ → (data j).LLI f &&& 1 ≠ 0 →
      (readrnxobs_save E tsys fuel i data slips).2 (((data j).sat : Int) - 1) f &&& 1 ≠ 0) := by
  intro fuel
  induction fuel with
  | zero =>
    intro i data slips
    refine ⟨fun j => ?_, fun s f h => h, fun j f h1 h2 => by omega⟩
    rw [if_neg (by omega)]
    rfl
  | succ n ih =>
    intro i data slips
    have e : readrnxobs_save E tsys (n + 1) i data slips =
        readrnxobs_save E tsys n (i + 1)
          (Function.update data i { data i with time := obsTime E tsys (data i).time })
          (saveslips E slips { data i with time := obsTime E tsys (data i).time }) := rfl
    rw [e]
    obtain ⟨h1, h4, h5⟩ := ih (i + 1)
      (Function.update data i { data i with time := obsTime E tsys (data i).time })
      (saveslips E slips { data i with time := obsTime E tsys (data i).time })
    refine ⟨fun j => ?_, ?_, ?_⟩
    · rw [h1 j]
      by_cases hj : j = i
      · subst hj
        rw [if_neg (by omega), if_pos (by omega), Function.update_same]
      · rw [Function.update_noteq hj]
        by_cases hc : i + 1 ≤ j ∧ j < i + 1 + n
        · rw [if_pos hc, if_pos (by omega)]
        · rw [if_neg hc, if_neg (by omega)]
    · intro s f h
      exact h4 s f (saveslips_mono E slips _ s f h)
    · intro j f hj1 hj2 hf hl
      rcases Nat.eq_or_lt_of_le hj1 with h | h
      · subst h
        apply h4
        exact saveslips_set E slips { data i with time := obsTime E tsys (data i).time } f hf hl
      · have hne : j ≠ i := by omega
        have := h5 j f h (by omega) hf (by rw [Function.update_noteq hne]; exact hl)
        rw [Function.update_noteq hne] at this
        exact this

/-- With an allocation that never fails, `addobsdata` returns 1 and appends the
record. -/
theorem addobsdata_ok (realloc : Int → Bool) (hre : ∀ c, realloc c = true) (obs : obsstore_t)
    (d : obsd_t) :
    (addobsdata realloc obs d).1 = 1 ∧ (addobsdata realloc obs d).2.data = obs.data ++ [d] := by
  unfold addobsdata
  by_cases h1 : obs.nmax ≤ obs.n
  · rw [if_pos h1]
    simp only [hre, Bool.true_eq_false, if_false]
    exact ⟨trivial, trivial⟩
  · rw [if_neg h1]
    exact ⟨rfl, rfl⟩

theorem readrnxobs_add_succ (E : Ext) (realloc : Int → Bool) (hre : ∀ c, realloc c = true)
    (rcv : Int) (fuel i : Nat) (stat : Int) (data : Nat → obsd_t) (slips : Int → Nat → Nat)
    (obs : obsstore_t) :
    readrnxobs_add E realloc rcv (fuel + 1) i stat data slips obs =
      readrnxobs_add E realloc rcv fuel (i + 1) 1
        (Function.update data i (storeRecord E rcv slips (data i)))
        (restslips E slips (data i)).1
        (addobsdata realloc obs (storeRecord E rcv slips (data i))).2 := by
  rw [readrnxobs_add, (addobsdata_ok realloc hre obs _).1, if_neg (by decide)]

/-- Second inner loop with an allocation that never fails: the status stays
non-negative, the records are appended in order, a zero entry of the table
stays zero, and the first record of a satellite whose entry has the slip bit
set is stored with the bit set, the entry being zero afterwards. -/
theorem readrnxobs_add_spec (E : Ext) (realloc : Int → Bool) (hre : ∀ c, realloc c = true)
    (rcv : Int) : ∀ (fuel i : Nat) (stat : Int) (data : Nat → obsd_t)
    (slips : Int → Nat → Nat) (obs : obsstore_t),
    (0 ≤ stat → 0 ≤ (readrnxobs_add E realloc rcv fuel i stat data slips obs).1) ∧
    (∃ l, (readrnxobs_add E realloc rcv fuel i stat data slips obs).2.2.2.data = obs.data ++ l ∧
      l.length = fuel) ∧
    (∀ s f, slips s f = 0 →
      (readrnxobs_add E realloc rcv fuel i stat data slips obs).2.2.1 s f = 0) ∧
    (∀ b F, i ≤ b → b < i + fuel → F < E.NFREQ →
      (∀ j, i ≤ j → j < b → (data j).sat ≠ (data b).sat) →
      slips (((data b).sat : Int) - 1) F &&& 1 ≠ 0 →
      ∃ d, (readrnxobs_add E realloc rcv fuel i stat data slips obs).2.2.2.data[
            obs.data.length + (b - i)]? = some d ∧
        d.sat = (data b).sat ∧ d.time = (data b).time ∧ d.P = (data b).P ∧
        d.L = (data b).L ∧ d.LLI F &&& 1 ≠ 0 ∧
        (readrnxobs_add E realloc rcv fuel i stat data slips obs).2.2.1
          (((data b).sat : Int) - 1) F = 0) := by
  intro fuel
  induction fuel with
  | zero =>
    intro i stat data slips obs
    exact ⟨fun h => h, ⟨[], by simp [readrnxobs_add], rfl⟩, fun s f h => h,
      fun b F h1 h2 => by omega⟩
  | succ n ih =>
    intro i stat data slips obs
    rw [readrnxobs_add_succ E realloc hre]
    obtain ⟨-, ha2⟩ := addobsdata_ok realloc hre obs (storeRecord E rcv slips (data i))
    obtain ⟨hA, ⟨l, hl1, hl2⟩, hB, hC⟩ := ih (i + 1) 1
      (Function.update data i (storeRecord E rcv slips (data i)))
      (restslips E slips (data i)).1
      (addobsdata realloc obs (storeRecord E rcv slips (data i))).2
    generalize readrnxobs_add E realloc rcv n (i + 1) 1
      (Function.update data i (storeRecord E rcv slips (data i)))
      (restslips E slips (data i)).1
      (addobsdata realloc obs (storeRecord E rcv slips (data i))).2 = res
      at hA hl1 hB hC ⊢
    rw [ha2] at hl1 hC
    have hzero : ∀ s f, slips s f = 0 → (restslips E slips (data i)).1 s f = 0 := by
      intro s f h
      show (if s = ((data i).sat : Int) - 1 ∧ f < E.NFREQ then 0 else slips s f) = 0
      split_ifs
      · rfl
      · exact h
    have hl1' : res.2.2.2.data =
        obs.data ++ (storeRecord E rcv slips (data i) :: l) := by
      rw [hl1, List.append_assoc]; rfl
    refine ⟨fun _ => hA (by decide),
      ⟨storeRecord E rcv slips (data i) :: l, hl1', by simp [hl2]⟩,
      fun s f h => hB s f (hzero s f h), ?_⟩
    intro b F hb1 hb2 hF hfirst hbit
    rcases Nat.eq_or_lt_of_le hb1 with h | h
    · subst h
      refine ⟨storeRecord E rcv slips (data i), ?_, rfl, rfl, rfl, rfl, ?_, ?_⟩
      · rw [hl1', Nat.sub_self, Nat.add_zero, List.getElem?_append_right (le_refl _)]
        simp
      · show (if F < E.NFREQ ∧ slips (((data i).sat : Int) - 1) F &&& 1 ≠ 0
          then (data i).LLI F ||| LLI_SLIP else (data i).LLI F) &&& 1 ≠ 0
        rw [if_pos ⟨hF, hbit⟩]
        exact slipbit_or _
      · apply hB
        show (if ((data i).sat : Int) - 1 = ((data i).sat : Int) - 1 ∧ F < E.NFREQ then 0
          else slips (((data i).sat : Int) - 1) F) = 0
        rw [if_pos ⟨rfl, hF⟩]
    · have hne : b ≠ i := by omega
      have hsat : (data i).sat ≠ (data b).sat := hfirst i (le_refl _) h
      have hdb : Function.update data i (storeRecord E rcv slips (data i)) b = data b :=
        Function.update_noteq hne _ _
      have hC' := hC b F h (by omega) hF
      rw [hdb] at hC'
      have hkeep : (restslips E slips (data i)).1 (((data b).sat : Int) - 1) F =
          slips (((data b).sat : Int) - 1) F := by
        show (if ((data b).sat : Int) - 1 = ((data i).sat : Int) - 1 ∧ F < E.NFREQ then 0
          else slips (((data b).sat : Int) - 1) F) = _
        have : ¬ (((data b).sat : Int) - 1 = ((data i).sat : Int) - 1 ∧ F < E.NFREQ) := by
          rintro ⟨h1, -⟩
          apply hsat
          omega
        rw [if_neg this]
      obtain ⟨d, hd1, hd2, hd3, hd4, hd5, hd6, hd7⟩ := hC' (by
          intro j hj1 hj2
          have hjne : j ≠ i := by omega
          rw [Function.update_noteq hjne]
          exact hfirst j (by omega) hj2) (by rw [hkeep]; exact hbit)
      refine ⟨d, ?_, hd2, hd3, hd4, hd5, hd6, hd7⟩
      have hidx : (obs.data ++ [storeRecord E rcv slips (data i)]).length +
          (b - (i + 1)) = obs.data.length + (b - i) := by
        simp only [List.length_append, List.length_singleton]
        omega
      rw [← hidx]
      exact hd1

/-- The loop of `readrnxobs` runs `readrnxobs_step` on what each call of
`readrnxobsb` returns. -/
theorem readrnxobs_run_step {H : Type} (E : Ext) (obsh : ObshFn H) (tsys : H → Int)
    (realloc : Int → Bool) (ts te : gtime_t) (tint : ℚ) (rcv : Int) (ver : ℚ) (mask : Nat)
    (index : Nat → sigind_t) (fuel : Nat) (fp : List (List Char)) (flag : Int)
    (data : Nat → obsd_t) (hdr : H) (slips : Int → Nat → Nat) (obs : obsstore_t) (stat : Int) :
    readrnxobs_run E obsh tsys realloc ts te tint rcv ver mask index (fuel + 1) fp flag data hdr
      slips obs stat =
      if (readrnxobsb E obsh fp mask ver hdr flag data index).ret < 0 ∨ stat < 0 then
        some (stat, obs)
      else
        readrnxobs_run E obsh tsys realloc ts te tint rcv ver mask index fuel
          (readrnxobsb E obsh fp mask ver hdr flag data index).fp
          (readrnxobsb E obsh fp mask ver hdr flag data index).flag
          (readrnxobs_step E realloc ts te tint rcv
            (tsys (readrnxobsb E obsh fp mask ver hdr flag data index).hdr)
            (readrnxobsb E obsh fp mask ver hdr flag data index).ret
            (readrnxobsb E obsh fp mask ver hdr flag data index).data
            { stat := stat, slips := slips, obs := obs }).1
          (readrnxobsb E obsh fp mask ver hdr flag data index).hdr
          (readrnxobs_step E realloc ts te tint rcv
            (tsys (readrnxobsb E obsh fp mask ver hdr flag data index).hdr)
            (readrnxobsb E obsh fp mask ver hdr flag data index).ret
            (readrnxobsb E obsh fp mask ver hdr flag data index).data
            { stat := stat, slips := slips, obs := obs }).2.slips
          (readrnxobs_step E realloc ts te tint rcv
            (tsys (readrnxobsb E obsh fp mask ver hdr flag data index).hdr)
            (readrnxobsb E obsh fp mask ver hdr flag data index).ret
            (readrnxobsb E obsh fp mask ver hdr flag data index).data
            { stat := stat, slips := slips, obs := obs }).2.obs
          (readrnxobs_step E realloc ts te tint rcv
            (tsys (readrnxobsb E obsh fp mask ver hdr flag data index).hdr)
            (readrnxobsb E obsh fp mask ver hdr flag data index).ret
            (readrnxobsb E obsh fp mask ver hdr flag data index).data
            { stat := stat, slips := slips, obs := obs }).2.stat := by
  rw [readrnxobs_run]
  dsimp only
  generalize readrnxobsb E obsh fp mask ver hdr flag data index = r
  by_cases hc : r.ret < 0 ∨ stat < 0
  · rw [if_pos hc, if_pos hc]
  · rw [if_neg hc, if_neg hc]
    unfold readrnxobs_step readrnxobs_body
    dsimp only
    rw [if_neg hc]
    by_cases hs : r.ret.toNat > 0 ∧
        E.screent ((readrnxobs_save E (tsys r.hdr) r.ret.toNat 0 r.data slips).1 0).time
          ts te tint = false
    · rw [if_pos hs, if_pos hs]
    · rw [if_neg hs, if_neg hs]

/-- C1 (amended): when the epoch holding a record of satellite S with the slip
bit of slot F set is rejected by the time screen (so the record is not stored),
the next epoch is an interruption without records, and the following epoch
passes the screen and holds a record of S (its first for S), then, the loop
being entered with `stat >= 0` and no allocation of `addobsdata` failing, that
record is stored with the slip bit set in `LLI[F]`, `slips[S-1][F]` is zero
afterwards and `stat` is still not negative. -/
theorem readrnxobs_slip_carried (E : Ext) (realloc : Int → Bool) (ts te : gtime_t) (tint : ℚ)
    (rcv : Int) (tsys1 tsys2 tsys3 : Int) (st : obsloop_t) (d1 d2 d3 : Nat → obsd_t)
    (n1 n3 a b F : Nat) (hre : ∀ c, realloc c = true) (hstat : 0 ≤ st.stat)
    (hF : F < E.NFREQ) (ha : a < n1) (hb : b < n3)
    (hsat : (d1 a).sat = (d3 b).sat) (hslip : (d1 a).LLI F &&& 1 ≠ 0)
    (hfirst : ∀ j, j < b → (d3 j).sat ≠ (d3 b).sat)
    (hscr1 : E.screent (obsTime E tsys1 (d1 0).time) ts te tint = false)
    (hscr3 : E.screent (obsTime E tsys3 (d3 0).time) ts te tint = true) :
    ∃ d,
      (readrnxobs_step E realloc ts te tint rcv tsys3 n3 d3
        (readrnxobs_step E realloc ts te tint rcv tsys2 0 d2
          (readrnxobs_step E realloc ts te tint rcv tsys1 n1 d1 st).2).2).2.obs.data[
            st.obs.data.length + b]? = some d ∧
      d.sat = (d3 b).sat ∧ d.P = (d3 b).P ∧ d.L = (d3 b).L ∧ d.LLI F &&& 1 ≠ 0 ∧
      (readrnxobs_step E realloc ts te tint rcv tsys3 n3 d3
        (readrnxobs_step E realloc ts te tint rcv tsys2 0 d2
          (readrnxobs_step E realloc ts te tint rcv tsys1 n1 d1 st).2).2).2.slips
            (((d3 b).sat : Int) - 1) F = 0 ∧
      0 ≤ (readrnxobs_step E realloc ts te tint rcv tsys3 n3 d3
        (readrnxobs_step E realloc ts te tint rcv tsys2 0 d2
          (readrnxobs_step E realloc ts te tint rcv tsys1 n1 d1 st).2).2).2.stat := by
  -- epoch 1: saved, then rejected by the screen
  obtain ⟨s1, s2, s3⟩ := readrnxobs_save_spec E tsys1 n1 0 d1 st.slips
  have ht1 : ((readrnxobs_save E tsys1 n1 0 d1 st.slips).1 0).time =
      obsTime E tsys1 (d1 0).time := by
    rw [s1 0, if_pos (by omega)]
  have hstep1 : readrnxobs_step E realloc ts te tint rcv tsys1 n1 d1 st =
      ((readrnxobs_save E tsys1 n1 0 d1 st.slips).1,
       { st with slips := (readrnxobs_save E tsys1 n1 0 d1 st.slips).2 }) := by
    unfold readrnxobs_step readrnxobs_body
    rw [if_neg (by omega)]
    simp only [Int.toNat_natCast]
    rw [if_pos ⟨by omega, by rw [ht1]; exact hscr1⟩]
  have hbit1 := s3 a F (Nat.zero_le _) (by omega) hF hslip
  rw [hsat] at hbit1
  -- epoch 2: no records
  have hstep2 : ∀ st1 : obsloop_t, 0 ≤ st1.stat →
      (readrnxobs_step E realloc ts te tint rcv tsys2 0 d2 st1).2 = st1 := by
    intro st1 h1
    unfold readrnxobs_step readrnxobs_body
    rw [if_neg (by omega)]
    simp only [Int.toNat_zero, readrnxobs_save, readrnxobs_add]
    rw [if_neg (by simp)]
  rw [hstep1]
  dsimp only
  rw [hstep2 { st with slips := (readrnxobs_save E tsys1 n1 0 d1 st.slips).2 } hstat]
  -- epoch 3: saved, passes the screen, restored and stored
  obtain ⟨t1, t2, -⟩ := readrnxobs_save_spec E tsys3 n3 0 d3
    (readrnxobs_save E tsys1 n1 0 d1 st.slips).2
  have ht3 : ((readrnxobs_save E tsys3 n3 0 d3
      (readrnxobs_save E tsys1 n1 0 d1 st.slips).2).1 0).time =
      obsTime E tsys3 (d3 0).time := by
    rw [t1 0, if_pos (by omega)]
  have hstep3 : (readrnxobs_step E realloc ts te tint rcv tsys3 n3 d3
      { st with slips := (readrnxobs_save E tsys1 n1 0 d1 st.slips).2 }).2 =
      { stat := (readrnxobs_add E realloc rcv n3 0 st.stat
          (readrnxobs_save E tsys3 n3 0 d3 (readrnxobs_save E tsys1 n1 0 d1 st.slips).2).1
          (readrnxobs_save E tsys3 n3 0 d3 (readrnxobs_save E tsys1 n1 0 d1 st.slips).2).2
          st.obs).1,
        slips := (readrnxobs_add E realloc rcv n3 0 st.stat
          (readrnxobs_save E tsys3 n3 0 d3 (readrnxobs_save E tsys1 n1 0 d1 st.slips).2).1
          (readrnxobs_save E tsys3 n3 0 d3 (readrnxobs_save E tsys1 n1 0 d1 st.slips).2).2
          st.obs).2.2.1,
        obs := (readrnxobs_add E realloc rcv n3 0 st.stat
          (readrnxobs_save E tsys3 n3 0 d3 (readrnxobs_save E tsys1 n1 0 d1 st.slips).2).1
          (readrnxobs_save E tsys3 n3 0 d3 (readrnxobs_save E tsys1 n1 0 d1 st.slips).2).2
          st.obs).2.2.2 } := by
    unfold readrnxobs_step readrnxobs_body
    rw [if_neg (by show ¬ ((n3 : Int) < 0 ∨ st.stat < 0); omega)]
    simp only [Int.toNat_natCast]
    rw [if_neg (by rw [ht3, hscr3]; simp)]
  rw [hstep3]
  have hsat3 : ∀ j, ((readrnxobs_save E tsys3 n3 0 d3
      (readrnxobs_save E tsys1 n1 0 d1 st.slips).2).1 j).sat = (d3 j).sat := by
    intro j
    rw [t1 j]
    split_ifs <;> rfl
  have hP3 : ((readrnxobs_save E tsys3 n3 0 d3
      (readrnxobs_save E tsys1 n1 0 d1 st.slips).2).1 b).P = (d3 b).P := by
    rw [t1 b]
    split_ifs <;> rfl
  have hL3 : ((readrnxobs_save E tsys3 n3 0 d3
      (readrnxobs_save E tsys1 n1 0 d1 st.slips).2).1 b).L = (d3 b).L := by
    rw [t1 b]
    split_ifs <;> rfl
  obtain ⟨hA, -, -, hC⟩ := readrnxobs_add_spec E realloc hre rcv n3 0 st.stat
    (readrnxobs_save E tsys3 n3 0 d3 (readrnxobs_save E tsys1 n1 0 d1 st.slips).2).1
    (readrnxobs_save E tsys3 n3 0 d3 (readrnxobs_save E tsys1 n1 0 d1 st.slips).2).2 st.obs
  obtain ⟨d, e1, e2, -, e4, e5, e6, e7⟩ := hC b F (Nat.zero_le _) (by omega) hF
    (by intro j _ hj; rw [hsat3 j, hsat3 b]; exact hfirst j hj)
    (by rw [hsat3 b]; exact t2 _ _ hbit1)
  rw [hsat3 b] at e2 e7
  rw [hP3] at e4
  rw [hL3] at e5
  exact ⟨d, by simpa using e1, e2, e4, e5, e6, e7, hA hstat⟩

/-- C1 (as stated) fails: with no time screen (bounds 0) and an allocation that
never fails, the sample record of satellite 1 with the slip bit in `LLI[0]` is
stored and its table entry cleared at once; after an epoch without records, the
next record of satellite 1 (no slip bit of its own) is stored with
`LLI[0] = 0`. -/
theorem readrnxobs_slip_counterexample :
    recSlip.sat = 1 ∧ recSlip.LLI 0 &&& 1 = 1 ∧ recClean.sat = 1 ∧ recClean.LLI 0 &&& 1 = 0 ∧
    (0 : Nat) < sampleExt.NFREQ ∧
    ((readrnxobs_step sampleExt (fun _ => true) time0 time0 0 1 0 1 (fun _ => recClean)
      (readrnxobs_step sampleExt (fun _ => true) time0 time0 0 1 0 0 (fun _ => recSlip)
        (readrnxobs_step sampleExt (fun _ => true) time0 time0 0 1 0 1 (fun _ => recSlip)
          obsloop0).2).2).2.obs.data.map (fun d => (d.sat, d.LLI 0 &&& 1))) =
      [(1, 1), (1, 0)] := by
  decide

theorem readrnxobs_slip_carried_witness :
    ∃ d,
      (readrnxobs_step sampleExt (fun _ => true) time150 time0 0 1 0 1 (fun _ => recClean)
        (readrnxobs_step sampleExt (fun _ => true) time150 time0 0 1 0 0 (fun _ => recSlip)
          (readrnxobs_step sampleExt (fun _ => true) time150 time0 0 1 0 1 (fun _ => recSlip)
            obsloop0).2).2).2.obs.data[obsloop0.obs.data.length + 0]? = some d ∧
      d.sat = recClean.sat ∧ d.P = recClean.P ∧ d.L = recClean.L ∧ d.LLI 0 &&& 1 ≠ 0 ∧
      (readrnxobs_step sampleExt (fun _ => true) time150 time0 0 1 0 1 (fun _ => recClean)
        (readrnxobs_step sampleExt (fun _ => true) time150 time0 0 1 0 0 (fun _ => recSlip)
          (readrnxobs_step sampleExt (fun _ => true) time150 time0 0 1 0 1 (fun _ => recSlip)
            obsloop0).2).2).2.slips ((recClean.sat : Int) - 1) 0 = 0 ∧
      0 ≤ (readrnxobs_step sampleExt (fun _ => true) time150 time0 0 1 0 1 (fun _ => recClean)
        (readrnxobs_step sampleExt (fun _ => true) time150 time0 0 1 0 0 (fun _ => recSlip)
          (readrnxobs_step sampleExt (fun _ => true) time150 time0 0 1 0 1 (fun _ => recSlip)
            obsloop0).2).2).2.stat :=
  readrnxobs_slip_carried sampleExt (fun _ => true) time150 time0 0 1 0 0 0 obsloop0
    (fun _ => recSlip) (fun _ => recSlip) (fun _ => recClean) 1 1 0 0 0
    (fun _ => rfl) (by decide) (by decide) (by decide) (by decide) (by decide) (by decide)
    (by decide) (by decide) (by decide)

/-! ### Epoch header (C7, C8) -/

theorem toInt_intCast (z : Int) : toInt (z : ℚ) = z := by
  simp [toInt]

theorem sample_toInt (s : List Char) (i n : Nat) (z : Int) (h : sampleInt s i n = z) :
    toInt (sampleExt.str2num s i n) = z := by
  rw [sampleStr2num_eq s i n z h, toInt_intCast]

/-- C7: for a ver <= 2.99 epoch line with a parseable timestamp, epoch flag 0 and
satellite count N > 0 in columns 29-31, `decode_obsepoch` returns exactly N
(whatever the continuation lines are), with flag 0 and the parsed time. -/
theorem decode_obsepoch_count (E : Ext) (fp : List (List Char)) (buff : List Char) (ver : ℚ)
    (time : gtime_t) (flag : Int) (sats : Nat → Int) (t : gtime_t)
    (hver : ver ≤ 2.99) (hN : 0 < toInt (E.str2num buff 29 3))
    (hflag : toInt (E.str2num buff 28 1) = 0) (htime : E.str2time buff 0 26 = some t) :
    (decode_obsepoch E fp buff ver time flag sats).ret = toInt (E.str2num buff 29 3) ∧
    (decode_obsepoch E fp buff ver time flag sats).flag = 0 ∧
    (decode_obsepoch E fp buff ver time flag sats).time = t := by
  unfold decode_obsepoch
  simp only [if_pos hver, if_neg (not_le.mpr hN), hflag, htime]
  rw [if_neg (by omega)]
  exact ⟨rfl, rfl, rfl⟩

theorem decode_obsepoch_count_witness :
    (decode_obsepoch sampleExt [] lineEpoch0 2.11 time0 0 (fun _ => 0)).ret = 2 := by
  have h := decode_obsepoch_count sampleExt [] lineEpoch0 2.11 time0 0 (fun _ => 0)
    { time := 5, sec := 0 } (by norm_num)
    (by rw [sample_toInt _ _ _ 2 (by decide)]; decide)
    (sample_toInt _ _ _ 0 (by decide)) rfl
  rw [h.1]
  exact sample_toInt _ _ _ 2 (by decide)

/-- Result of `decode_obsepoch` on an epoch line whose flag is 3, 4 or 5: the
count is returned at once, nothing but the flag changes. -/
theorem decode_obsepoch_event (E : Ext) (fp : List (List Char)) (buff : List Char) (ver : ℚ)
    (time : gtime_t) (flag : Int) (sats : Nat → Int)
    (hN : 0 < epochCount E ver buff)
    (hfl : 3 ≤ epochFlag E ver buff ∧ epochFlag E ver buff ≤ 5) :
    decode_obsepoch E fp buff ver time flag sats =
      { ret := epochCount E ver buff, fp := fp, buff := buff, time := time,
        flag := epochFlag E ver buff, sats := sats } := by
  unfold decode_obsepoch
  unfold epochCount at hN ⊢
  unfold epochFlag at hfl ⊢
  by_cases hver : ver ≤ 2.99
  · simp only [if_pos hver] at hN hfl ⊢
    simp only [if_neg (not_le.mpr hN), if_pos hfl]
  · simp only [if_neg hver] at hN hfl ⊢
    simp only [if_neg (not_le.mpr hN), if_pos hfl]

/-- Loop of `readrnxobsb` after an epoch line with flag 3, 4 or 5: whatever the
lines are, it returns the count `n` it started with or -1, and leaves `data`
and the flag as they are. -/
theorem readrnxobsb_loop_event {H : Type} (E : Ext) (obsh : ObshFn H) (ver : ℚ) (mask : Nat)
    (index : Nat → sigind_t) : ∀ (fuel : Nat) (fp : List (List Char)) (i n : Nat) (nsat : Int)
    (sats : Nat → Int) (time : gtime_t) (flag : Int) (data : Nat → obsd_t) (hdr : H),
    1 ≤ i → 3 ≤ flag → flag ≤ 5 →
    ((readrnxobsb_loop E obsh ver mask index fuel fp i n nsat sats time flag data hdr).ret = n ∨
      (readrnxobsb_loop E obsh ver mask index fuel fp i n nsat sats time flag data hdr).ret
        = -1) ∧
    (readrnxobsb_loop E obsh ver mask index fuel fp i n nsat sats time flag data hdr).data
      = data ∧
    (readrnxobsb_loop E obsh ver mask index fuel fp i n nsat sats time flag data hdr).flag
      = flag := by
  intro fuel
  induction fuel with
  | zero =>
    intro fp i n nsat sats time flag data hdr _ _ _
    exact ⟨Or.inr rfl, rfl, rfl⟩
  | succ f ih =>
    intro fp i n nsat sats time flag data hdr hi h3 h5
    cases fp with
    | nil => exact ⟨Or.inr rfl, rfl, rfl⟩
    | cons buff rest =>
      have hi0 : ¬ i = 0 := by omega
      have hdat : ¬ (flag ≤ 2 ∨ flag = 6) := by omega
      simp only [readrnxobsb_loop, if_neg hi0, if_neg hdat]
      by_cases h34 : flag = 3 ∨ flag = 4
      · simp only [if_pos h34]
        by_cases hend : ((i : Int) + 1) > nsat
        · rw [if_pos hend]
          exact ⟨Or.inl rfl, rfl, rfl⟩
        · rw [if_neg hend]
          exact ih _ (i + 1) n nsat sats time flag data _ (by omega) h3 h5
      · simp only [if_neg h34]
        by_cases hend : ((i : Int) + 1) > nsat
        · rw [if_pos hend]
          exact ⟨Or.inl rfl, rfl, rfl⟩
        · rw [if_neg hend]
          exact ih _ (i + 1) n nsat sats time flag data _ (by omega) h3 h5

/-- C8 (amended): for every epoch line with a positive record count whose epoch
flag is 3, 4 or 5, `readrnxobsb` returns no observation record, whatever the
following lines contain: its return value is 0 (or -1 when the stream ends
first) and the record array is left as it was. -/
theorem readrnxobsb_event_no_records {H : Type} (E : Ext) (obsh : ObshFn H) (line : List Char)
    (rest : List (List Char)) (mask : Nat) (ver : ℚ) (hdr : H) (flag : Int)
    (data : Nat → obsd_t) (index : Nat → sigind_t)
    (hN : 0 < epochCount E ver line)
    (hfl : 3 ≤ epochFlag E ver line ∧ epochFlag E ver line ≤ 5) :
    ((readrnxobsb E obsh (line :: rest) mask ver hdr flag data index).ret = 0 ∨
      (readrnxobsb E obsh (line :: rest) mask ver hdr flag data index).ret = -1) ∧
    (readrnxobsb E obsh (line :: rest) mask ver hdr flag data index).data = data ∧
    (readrnxobsb E obsh (line :: rest) mask ver hdr flag data index).flag =
      epochFlag E ver line := by
  unfold readrnxobsb
  simp only [List.length_cons, readrnxobsb_loop, if_true,
    decode_obsepoch_event E rest line ver _ flag _ hN hfl]
  rw [if_neg (not_le.mpr hN), if_neg (by omega)]
  have := readrnxobsb_loop_event E obsh ver mask index (rest.length + 1) rest 1 0
    (epochCount E ver line) (fun _ => 0) { time := 0, sec := 0 } (epochFlag E ver line) data hdr
    (le_refl _) hfl.1 hfl.2
  exact_mod_cast this

theorem readrnxobsb_event_no_records_witness :
    ((readrnxobsb sampleExt sampleObsh [lineEpoch4, lineComment, lineComment] 255 2.11 ()
        0 data0 sampleIndex).ret = 0 ∨
      (readrnxobsb sampleExt sampleObsh [lineEpoch4, lineComment, lineComment] 255 2.11 ()
        0 data0 sampleIndex).ret = -1) ∧
    (readrnxobsb sampleExt sampleObsh [lineEpoch4, lineComment, lineComment] 255 2.11 ()
        0 data0 sampleIndex).data = data0 := by
  have hv : (2.11 : ℚ) ≤ 2.99 := by norm_num
  have h := readrnxobsb_event_no_records sampleExt sampleObsh lineEpoch4
    [lineComment, lineComment] 255 2.11 () 0 data0 sampleIndex
    (by unfold epochCount; rw [if_pos hv, sample_toInt _ _ _ 2 (by decide)]; decide)
    (by unfold epochFlag; rw [if_pos hv, sample_toInt _ _ _ 4 (by decide)]; decide)
  exact ⟨h.1, h.2.1⟩

/-- Result of `decode_obsepoch` on a ver.2 data epoch line (flag outside 3..5,
parseable time). -/
theorem decode_obsepoch_data (E : Ext) (fp : List (List Char)) (buff : List Char) (ver : ℚ)
    (time : gtime_t) (flag : Int) (sats : Nat → Int) (t : gtime_t)
    (hver : ver ≤ 2.99) (hN : 0 < toInt (E.str2num buff 29 3))
    (hflag : ¬ (3 ≤ toInt (E.str2num buff 28 1) ∧ toInt (E.str2num buff 28 1) ≤ 5))
    (htime : E.str2time buff 0 26 = some t) :
    decode_obsepoch E fp buff ver time flag sats =
      { ret := toInt (E.str2num buff 29 3),
        fp := (decode_obsepoch_sats E (toInt (E.str2num buff 29 3)).toNat 0 32 buff fp sats).2.1,
        buff := (decode_obsepoch_sats E (toInt (E.str2num buff 29 3)).toNat 0 32 buff fp sats).1,
        time := t, flag := toInt (E.str2num buff 28 1),
        sats :=
          (decode_obsepoch_sats E (toInt (E.str2num buff 29 3)).toNat 0 32 buff fp sats).2.2 } := by
  unfold decode_obsepoch
  simp only [if_pos hver, if_neg (not_le.mpr hN), if_neg hflag, htime]

theorem decode_obsdata_ret (E : Ext) (fp : List (List Char)) (buff : List Char) (ver : ℚ)
    (mask : Nat) (index : Nat → sigind_t) (obs : obsd_t) :
    (decode_obsdata E fp buff ver mask index obs).ret =
      if obsStat E mask (obsSat E buff ver obs) = false then 0 else 1 := by
  unfold decode_obsdata
  simp only
  split_ifs <;> rfl

theorem saveObs_sat (ind : sigind_t) (p : Nat → Int) (val : Nat → ℚ) (lli : Nat → Nat)
    (obs : obsd_t) (i : Nat) : (saveObs ind p val lli obs i).sat = obs.sat := by
  unfold saveObs
  split_ifs <;> rfl

theorem foldl_saveObs_sat (ind : sigind_t) (p : Nat → Int) (val : Nat → ℚ) (lli : Nat → Nat) :
    ∀ (l : List Nat) (obs : obsd_t), (l.foldl (saveObs ind p val lli) obs).sat = obs.sat := by
  intro l
  induction l with
  | nil => intro obs; rfl
  | cons i l ih =>
    intro obs
    rw [List.foldl_cons, ih, saveObs_sat]

/-- Satellite number of the record left by `decode_obsdata`. -/
theorem decode_obsdata_sat (E : Ext) (fp : List (List Char)) (buff : List Char) (ver : ℚ)
    (mask : Nat) (index : Nat → sigind_t) (obs : obsd_t) :
    (decode_obsdata E fp buff ver mask index obs).obs.sat = obsSat E buff ver obs := by
  unfold decode_obsdata
  simp only
  split_ifs
  · rfl
  · rw [foldl_saveObs_sat]
    rfl

/-- One pass of the loop of `readrnxobsb` on an epoch line that
`decode_obsepoch` accepts. -/
theorem readrnxobsb_loop_epoch {H : Type} (E : Ext) (obsh : ObshFn H) (ver : ℚ) (mask : Nat)
    (index : Nat → sigind_t) (fuel : Nat) (buff : List Char) (rest : List (List Char))
    (n : Nat) (nsat : Int) (sats : Nat → Int) (time : gtime_t) (flag : Int)
    (data : Nat → obsd_t) (hdr : H)
    (h : 0 < (decode_obsepoch E rest buff ver time flag sats).ret) :
    readrnxobsb_loop E obsh ver mask index (fuel + 1) (buff :: rest) 0 n nsat sats time flag
        data hdr =
      readrnxobsb_loop E obsh ver mask index fuel
        (decode_obsepoch E rest buff ver time flag sats).fp 1 n
        (decode_obsepoch E rest buff ver time flag sats).ret
        (decode_obsepoch E rest buff ver time flag sats).sats
        (decode_obsepoch E rest buff ver time flag sats).time
        (decode_obsepoch E rest buff ver time flag sats).flag data hdr := by
  simp only [readrnxobsb_loop, if_true]
  rw [if_neg (not_le.mpr h), if_neg (by omega)]

/-- Last pass of the loop of `readrnxobsb` on a satellite line of a data epoch
(flag 0, 1, 2 or 6). -/
theorem readrnxobsb_loop_last {H : Type} (E : Ext) (obsh : ObshFn H) (ver : ℚ) (mask : Nat)
    (index : Nat → sigind_t) (fuel : Nat) (buff : List Char) (rest : List (List Char))
    (i n : Nat) (nsat : Int) (sats : Nat → Int) (time : gtime_t) (flag : Int)
    (data : Nat → obsd_t) (hdr : H) (hi : i ≠ 0) (hf : flag ≤ 2 ∨ flag = 6)
    (hlast : ((i : Int) + 1) > nsat) :
    readrnxobsb_loop E obsh ver mask index (fuel + 1) (buff :: rest) i n nsat sats time flag
        data hdr =
      { ret := ((if (decode_obsdata E rest buff ver mask index
            { data n with time := time, sat := toUChar (sats (i - 1)) }).ret ≠ 0 ∧ n < E.MAXOBS
          then n + 1 else n : Nat) : Int),
        fp := (decode_obsdata E rest buff ver mask index
            { data n with time := time, sat := toUChar (sats (i - 1)) }).fp,
        flag := flag,
        data := Function.update data n (decode_obsdata E rest buff ver mask index
            { data n with time := time, sat := toUChar (sats (i - 1)) }).obs,
        hdr := hdr } := by
  simp only [readrnxobsb_loop, if_neg hi, if_pos hf, if_pos hlast]

/-- C8 (as stated) fails for flag 2: the sample ver.2 epoch line with epoch flag 2
and one satellite G01, followed by one data line, makes `readrnxobsb` return one
observation record, that of satellite 1. -/
theorem readrnxobsb_flag2_counterexample :
    epochFlag sampleExt 2.11 lineEpoch2 = 2 ∧ epochCount sampleExt 2.11 lineEpoch2 = 1 ∧
    (readrnxobsb sampleExt sampleObsh [lineEpoch2, lineObs1] 255 2.11 () 0 data0
      sampleIndex).ret = 1 ∧
    ((readrnxobsb sampleExt sampleObsh [lineEpoch2, lineObs1] 255 2.11 () 0 data0
      sampleIndex).data 0).sat = 1 := by
  have hv : (2.11 : ℚ) ≤ 2.99 := by norm_num
  have hcnt : toInt (sampleExt.str2num lineEpoch2 29 3) = 1 := sample_toInt _ _ _ 1 (by decide)
  have hflg : toInt (sampleExt.str2num lineEpoch2 28 1) = 2 := sample_toInt _ _ _ 2 (by decide)
  have he := decode_obsepoch_data sampleExt [lineObs1] lineEpoch2 2.11 { time := 0, sec := 0 } 0
    (fun _ => 0) { time := 5, sec := 0 } hv (by rw [hcnt]; decide) (by rw [hflg]; decide) rfl
  rw [hcnt, hflg] at he
  have hsats : decode_obsepoch_sats sampleExt (1 : Int).toNat 0 32 lineEpoch2 [lineObs1]
      (fun _ => 0) = (lineEpoch2, [lineObs1], Function.update (fun _ => 0) 0 1) := rfl
  rw [hsats] at he
  refine ⟨by unfold epochFlag; rw [if_pos hv, hflg], by unfold epochCount; rw [if_pos hv, hcnt],
    ?_⟩
  have hloop : readrnxobsb sampleExt sampleObsh [lineEpoch2, lineObs1] 255 2.11 () 0 data0
      sampleIndex =
      readrnxobsb_loop sampleExt sampleObsh 2.11 255 sampleIndex 1 [lineObs1] 1 0 1
        (Function.update (fun _ => 0) 0 1) { time := 5, sec := 0 } 2 data0 () := by
    unfold readrnxobsb
    rw [show [lineEpoch2, lineObs1].length + 1 = 2 + 1 from rfl,
      readrnxobsb_loop_epoch sampleExt sampleObsh 2.11 255 sampleIndex 2 lineEpoch2 [lineObs1]
        0 0 (fun _ => 0) { time := 0, sec := 0 } 0 data0 () (by rw [he]; decide), he]
    rfl
  rw [hloop, readrnxobsb_loop_last sampleExt sampleObsh 2.11 255 sampleIndex 0 lineObs1 []
    1 0 1 _ _ 2 data0 () (by decide) (by decide) (by decide)]
  have hsat : obsSat sampleExt lineObs1 2.11
      { data0 0 with time := { time := 5, sec := 0 },
                     sat := toUChar (Function.update (fun _ => (0 : Int)) 0 1 (1 - 1)) } = 1 := by
    unfold obsSat
    rw [if_neg (by norm_num)]
    rfl
  have hst : obsStat sampleExt 255 1 = true := by decide
  have hret := decode_obsdata_ret sampleExt [] lineObs1 2.11 255 sampleIndex
      { data0 0 with time := { time := 5, sec := 0 },
                     sat := toUChar (Function.update (fun _ => (0 : Int)) 0 1 (1 - 1)) }
  rw [hsat, hst] at hret
  simp only [Bool.true_eq_false, if_false] at hret
  constructor
  · show (((if _ ∧ _ then 0 + 1 else 0 : Nat)) : Int) = 1
    rw [hret, if_pos ⟨by decide, by decide⟩]
    rfl
  · simp only [Function.update_same]
    rw [decode_obsdata_sat]
    exact hsat

/-! ### Observation record (C4, C9) -/

theorem selectIndex_mem (E : Ext) (index : Nat → sigind_t) (sys : Nat) :
    ∃ k, selectIndex E index sys = index k := by
  unfold selectIndex
  split_ifs
  · exact ⟨1, rfl⟩
  · exact ⟨2, rfl⟩
  · exact ⟨3, rfl⟩
  · exact ⟨4, rfl⟩
  · exact ⟨5, rfl⟩
  · exact ⟨0, rfl⟩

/-- Entry without a position, or with value zero, is skipped by the save loop. -/
theorem saveObs_skip (ind : sigind_t) (p : Nat → Int) (val : Nat → ℚ) (lli : Nat → Nat)
    (obs : obsd_t) (i : Nat) (h : p i < 0 ∨ val i = 0) : saveObs ind p val lli obs i = obs := by
  unfold saveObs
  rw [if_pos h]

theorem foldl_saveObs_filter (ind : sigind_t) (p : Nat → Int) (val : Nat → ℚ) (lli : Nat → Nat)
    (keep : Nat → Bool) : ∀ (l : List Nat) (obs : obsd_t),
    (∀ i, i ∈ l → keep i = false → p i < 0) →
    l.foldl (saveObs ind p val lli) obs = (l.filter keep).foldl (saveObs ind p val lli) obs := by
  intro l
  induction l with
  | nil => intro obs _; rfl
  | cons i l ih =>
    intro obs h
    have ht : ∀ j, j ∈ l → keep j = false → p j < 0 :=
      fun j hj => h j (List.mem_cons_of_mem i hj)
    cases hk : keep i
    · rw [List.filter_cons_of_neg (by simp [hk]), List.foldl_cons,
        saveObs_skip ind p val lli obs i (Or.inl (h i (List.mem_cons_self i l) hk))]
      exact ih obs ht
    · rw [List.filter_cons_of_pos (by simp [hk]), List.foldl_cons, List.foldl_cons]
      exact ih _ ht

/-- C4 (amended): for every RINEX version above 2.11 and signal indexes produced
by `set_index`, the record that `decode_obsdata` builds is the one obtained by
saving only the entries of nonzero priority: no field (P, L, D, SNR, LLI, code)
of any slot receives the value of an entry whose priority is zero, whatever the
line holds in that field. -/
theorem decode_obsdata_skips_zero_priority (E : Ext) (fp : List (List Char))
    (buff : List Char) (ver : ℚ) (mask : Nat) (index : Nat → sigind_t) (obs : obsd_t)
    (hver : 2.11 < ver)
    (hidx : ∀ k, ∃ v sys opt tobs ind0, index k = set_index E v sys opt tobs ind0) :
    (decode_obsdata E fp buff ver mask index obs).obs =
      if obsStat E mask (obsSat E buff ver obs) = false
      then { obs with sat := obsSat E buff ver obs }
      else
        ((List.range (selectIndex E index (E.satsys (obsSat E buff ver obs))).n).filter
          (fun i => decide ((selectIndex E index (E.satsys (obsSat E buff ver obs))).pri i ≠ 0))).foldl
          (saveObs (selectIndex E index (E.satsys (obsSat E buff ver obs)))
            (selectIndex E index (E.satsys (obsSat E buff ver obs))).pos
            (obsFields E fp buff ver mask index obs).val
            (obsFields E fp buff ver mask index obs).lli)
          (clearObs E { obs with sat := obsSat E buff ver obs }) := by
  obtain ⟨k, hk⟩ := selectIndex_mem E index (E.satsys (obsSat E buff ver obs))
  obtain ⟨v, sys, opt, tobs, ind0, hset⟩ := hidx k
  have hz : ZeroUnassigned (selectIndex E index (E.satsys (obsSat E buff ver obs)))
      (selectIndex E index (E.satsys (obsSat E buff ver obs))).n := by
    rw [hk, hset]
    exact (set_index_inv E v sys opt tobs ind0).2
  have hp : obsAssign E ver (selectIndex E index (E.satsys (obsSat E buff ver obs)))
      (obsFields E fp buff ver mask index obs).val =
      (selectIndex E index (E.satsys (obsSat E buff ver obs))).pos := by
    unfold obsAssign obsPos
    simp only [if_neg (not_le.mpr hver)]
  unfold decode_obsdata
  simp only [hp]
  split_ifs with hs
  · rfl
  · simp only
    apply foldl_saveObs_filter
    intro i hi hkeep
    have hi' : i < (selectIndex E index (E.satsys (obsSat E buff ver obs))).n :=
      List.mem_range.mp hi
    have h0 : (selectIndex E index (E.satsys (obsSat E buff ver obs))).pri i = 0 := by
      simpa using hkeep
    rw [hz i hi' h0]
    decide

/-- Entry `i` writes pseudorange position `x`: it is a pseudorange entry placed
at `x` with a nonzero value. -/
theorem saveObs_P_other (ind : sigind_t) (p : Nat → Int) (val : Nat → ℚ) (lli : Nat → Nat)
    (obs : obsd_t) (i x : Nat) (h : ¬ (ind.type i = 0 ∧ p i = (x : Int) ∧ val i ≠ 0)) :
    (saveObs ind p val lli obs i).P x = obs.P x ∧
    (saveObs ind p val lli obs i).code x = obs.code x := by
  unfold saveObs
  by_cases hs : p i < 0 ∨ val i = 0
  · rw [if_pos hs]; exact ⟨rfl, rfl⟩
  · rw [if_neg hs]
    by_cases ht : ind.type i = 0
    · rw [if_pos ht]
      have hne : x ≠ (p i).toNat := by
        intro hx
        apply h
        refine ⟨ht, ?_, fun hv => hs (Or.inr hv)⟩
        have : 0 ≤ p i := by
          by_contra hc
          exact hs (Or.inl (not_le.mp hc))
        omega
      exact ⟨Function.update_noteq hne _ _, Function.update_noteq hne _ _⟩
    · rw [if_neg ht]
      split_ifs <;> exact ⟨rfl, rfl⟩

theorem saveObs_P_write (ind : sigind_t) (p : Nat → Int) (val : Nat → ℚ) (lli : Nat → Nat)
    (obs : obsd_t) (i x : Nat) (ht : ind.type i = 0) (hp : p i = (x : Int)) (hv : val i ≠ 0) :
    (saveObs ind p val lli obs i).P x = val i ∧
    (saveObs ind p val lli obs i).code x = ind.code i := by
  unfold saveObs
  have hs : ¬ (p i < 0 ∨ val i = 0) := by
    rintro (h | h)
    · omega
    · exact hv h
  have hx : (p i).toNat = x := by omega
  rw [if_neg hs, if_pos ht, hx]
  exact ⟨Function.update_same _ _ _, Function.update_same _ _ _⟩

/-- Pseudorange position `x` after the save loop over the first `m` entries:
untouched when no entry writes it, the value and code of the entry `w` when `w`
is the only entry that writes it. -/
theorem foldl_saveObs_P (ind : sigind_t) (p : Nat → Int) (val : Nat → ℚ) (lli : Nat → Nat)
    (x : Nat) (obs : obsd_t) : ∀ m : Nat,
    ((∀ i, i < m → ¬ (ind.type i = 0 ∧ p i = (x : Int) ∧ val i ≠ 0)) →
      ((List.range m).foldl (saveObs ind p val lli) obs).P x = obs.P x ∧
      ((List.range m).foldl (saveObs ind p val lli) obs).code x = obs.code x) ∧
    (∀ w, w < m → ind.type w = 0 → p w = (x : Int) → val w ≠ 0 →
      (∀ i, i < m → i ≠ w → ¬ (ind.type i = 0 ∧ p i = (x : Int) ∧ val i ≠ 0)) →
      ((List.range m).foldl (saveObs ind p val lli) obs).P x = val w ∧
      ((List.range m).foldl (saveObs ind p val lli) obs).code x = ind.code w) := by
  intro m
  induction m with
  | zero =>
    exact ⟨fun _ => ⟨rfl, rfl⟩, fun w hw => absurd hw (Nat.not_lt_zero w)⟩
  | succ m ih =>
    obtain ⟨ih1, ih2⟩ := ih
    simp only [List.range_succ, List.foldl_append, List.foldl_cons, List.foldl_nil]
    constructor
    · intro hno
      obtain ⟨a, b⟩ := saveObs_P_other ind p val lli
        ((List.range m).foldl (saveObs ind p val lli) obs) m x (hno m (Nat.lt_succ_self m))
      obtain ⟨c, d⟩ := ih1 (fun i hi => hno i (Nat.lt_succ_of_lt hi))
      exact ⟨by rw [a, c], by rw [b, d]⟩
    · intro w hw ht hp hv huniq
      rcases Nat.lt_succ_iff_lt_or_eq.mp hw with h | h
      · obtain ⟨a, b⟩ := saveObs_P_other ind p val lli
          ((List.range m).foldl (saveObs ind p val lli) obs) m x
          (huniq m (Nat.lt_succ_self m) (by omega))
        obtain ⟨c, d⟩ := ih2 w h ht hp hv
          (fun i hi hne => huniq i (Nat.lt_succ_of_lt hi) hne)
        exact ⟨by rw [a, c], by rw [b, d]⟩
      · subst h
        exact saveObs_P_write ind p val lli _ w x ht hp hv
theorem decode_obsdata_obs (E : Ext) (fp : List (List Char)) (buff : List Char) (ver : ℚ)
    (mask : Nat) (index : Nat → sigind_t) (obs : obsd_t)
    (hs : obsStat E mask (obsSat E buff ver obs) = true) :
    (decode_obsdata E fp buff ver mask index obs).obs =
      (List.range (selectIndex E index (E.satsys (obsSat E buff ver obs))).n).foldl
        (saveObs (selectIndex E index (E.satsys (obsSat E buff ver obs)))
          (obsAssign E ver (selectIndex E index (E.satsys (obsSat E buff ver obs)))
            (obsFields E fp buff ver mask index obs).val)
          (obsFields E fp buff ver mask index obs).val
          (obsFields E fp buff ver mask index obs).lli)
        (clearObs E { obs with sat := obsSat E buff ver obs }) := by
  unfold decode_obsdata
  simp only [hs, Bool.true_eq_false, if_false]

theorem sample_obsFields_val :
    (obsFields sampleExt [] lineObs1 2.11 255 sampleIndexX recSat1).val 0 = 23456789 := by
  have hv : (2.11 : ℚ) ≤ 2.99 := by norm_num
  have hsat : obsSat sampleExt lineObs1 2.11 recSat1 = 1 := by
    unfold obsSat; rw [if_neg (by norm_num)]; rfl
  have hn : (selectIndex sampleExt sampleIndexX (sampleExt.satsys 1)).n = 1 := by decide
  have hst : obsStat sampleExt 255 1 = true := by decide
  have hsh : (selectIndex sampleExt sampleIndexX (sampleExt.satsys 1)).shift 0 = 0 := rfl
  unfold obsFields
  simp only [hsat, hn, hst, decode_obsdata_read, if_pos hv]
  rw [if_neg (by rintro ⟨-, h⟩; omega), if_pos trivial]
  simp only [Function.update_same]
  rw [hsh, sampleStr2num_eq lineObs1 0 14 23456789 (by decide)]
  norm_num

/-- C4 (as stated) fails for ver <= 2.11: with the index that `set_index` builds
for the one-code table `C1X` (priority 0, so `pos = -1`, frequency 1), the ver.2.11
data line with the value 23456789 in that field is decoded into `P[0] = 23456789`
and `code[0] = 12`. -/
theorem decode_obsdata_zero_priority_counterexample :
    (sampleIndexX 0).n = 1 ∧ (sampleIndexX 0).pri 0 = 0 ∧ (sampleIndexX 0).pos 0 = -1 ∧
    (decode_obsdata sampleExt [] lineObs1 2.11 255 sampleIndexX recSat1).ret = 1 ∧
    (decode_obsdata sampleExt [] lineObs1 2.11 255 sampleIndexX recSat1).obs.P 0 = 23456789 ∧
    (decode_obsdata sampleExt [] lineObs1 2.11 255 sampleIndexX recSat1).obs.code 0 = 12 := by
  have hv : (2.11 : ℚ) ≤ 2.11 := le_refl _
  have hsat : obsSat sampleExt lineObs1 2.11 recSat1 = 1 := by
    unfold obsSat; rw [if_neg (by norm_num)]; rfl
  have hst : obsStat sampleExt 255 (obsSat sampleExt lineObs1 2.11 recSat1) = true := by
    rw [hsat]; decide
  have hret := decode_obsdata_ret sampleExt [] lineObs1 2.11 255 sampleIndexX recSat1
  rw [hst] at hret
  have hobs := decode_obsdata_obs sampleExt [] lineObs1 2.11 255 sampleIndexX recSat1 hst
  have hval := sample_obsFields_val
  have hp : obsAssign sampleExt 2.11
      (selectIndex sampleExt sampleIndexX (sampleExt.satsys (obsSat sampleExt lineObs1 2.11 recSat1)))
      (obsFields sampleExt [] lineObs1 2.11 255 sampleIndexX recSat1).val 0 = ((0 : Nat) : Int) := by
    rw [hsat]
    unfold obsAssign obsPos
    simp only [if_pos hv]
    have hk0 : slotCodes (selectIndex sampleExt sampleIndexX (sampleExt.satsys 1))
        (fun i => (selectIndex sampleExt sampleIndexX (sampleExt.satsys 1)).frq i - 1) 0 = [0] := by
      decide
    have hk1 : slotCodes (selectIndex sampleExt sampleIndexX (sampleExt.satsys 1))
        (fun i => (selectIndex sampleExt sampleIndexX (sampleExt.satsys 1)).frq i - 1) 1 = [] := by
      decide
    rw [hk0, hk1]
    simp only [resolveSlot]
    decide
  have hn : (selectIndex sampleExt sampleIndexX
      (sampleExt.satsys (obsSat sampleExt lineObs1 2.11 recSat1))).n = 1 := by
    rw [hsat]; decide
  obtain ⟨-, hw⟩ := foldl_saveObs_P
    (selectIndex sampleExt sampleIndexX (sampleExt.satsys (obsSat sampleExt lineObs1 2.11 recSat1)))
    (obsAssign sampleExt 2.11
      (selectIndex sampleExt sampleIndexX (sampleExt.satsys (obsSat sampleExt lineObs1 2.11 recSat1)))
      (obsFields sampleExt [] lineObs1 2.11 255 sampleIndexX recSat1).val)
    (obsFields sampleExt [] lineObs1 2.11 255 sampleIndexX recSat1).val
    (obsFields sampleExt [] lineObs1 2.11 255 sampleIndexX recSat1).lli 0
    (clearObs sampleExt { recSat1 with sat := obsSat sampleExt lineObs1 2.11 recSat1 }) 1
  have hfin := hw 0 (by decide) (by rw [hsat]; decide) hp (by rw [hval]; norm_num)
    (fun i hi hne => by omega)
  rw [← hn, ← hobs, hval] at hfin
  refine ⟨by decide, by decide, by decide, by simpa using hret, hfin.1, ?_⟩
  rw [hfin.2, hsat]
  decide

theorem decode_obsdata_skips_zero_priority_witness :
    (decode_obsdata sampleExt [] lineObsV3 3.03 255 sampleIndex3 obsd0).obs =
      if obsStat sampleExt 255 (obsSat sampleExt lineObsV3 3.03 obsd0) = false
      then { obsd0 with sat := obsSat sampleExt lineObsV3 3.03 obsd0 }
      else
        ((List.range (selectIndex sampleExt sampleIndex3
            (sampleExt.satsys (obsSat sampleExt lineObsV3 3.03 obsd0))).n).filter
          (fun i => decide ((selectIndex sampleExt sampleIndex3
            (sampleExt.satsys (obsSat sampleExt lineObsV3 3.03 obsd0))).pri i ≠ 0))).foldl
          (saveObs (selectIndex sampleExt sampleIndex3
              (sampleExt.satsys (obsSat sampleExt lineObsV3 3.03 obsd0)))
            (selectIndex sampleExt sampleIndex3
              (sampleExt.satsys (obsSat sampleExt lineObsV3 3.03 obsd0))).pos
            (obsFields sampleExt [] lineObsV3 3.03 255 sampleIndex3 obsd0).val
            (obsFields sampleExt [] lineObsV3 3.03 255 sampleIndex3 obsd0).lli)
          (clearObs sampleExt { obsd0 with sat := obsSat sampleExt lineObsV3 3.03 obsd0 }) :=
  decode_obsdata_skips_zero_priority sampleExt [] lineObsV3 3.03 255 sampleIndex3 obsd0
    (by norm_num) (fun _ => ⟨3.03, 1, [], tobsSample, sigind0, rfl⟩)


theorem resolvePair_at (ind : sigind_t) (val : Nat → ℚ) (k0 k1 : Nat) (slot ext : Int)
    (q : Nat → Int) (h01 : k0 ≠ k1) :
    (val k0 = 0 → val k1 = 0 →
      resolvePair ind val k0 k1 slot ext q k0 = -1 ∧
      resolvePair ind val k0 k1 slot ext q k1 = -1) ∧
    (val k0 ≠ 0 → val k1 = 0 →
      resolvePair ind val k0 k1 slot ext q k0 = slot ∧
      resolvePair ind val k0 k1 slot ext q k1 = -1) ∧
    (val k0 = 0 → val k1 ≠ 0 →
      resolvePair ind val k0 k1 slot ext q k0 = -1 ∧
      resolvePair ind val k0 k1 slot ext q k1 = slot) ∧
    (val k0 ≠ 0 → val k1 ≠ 0 → ind.pri k1 > ind.pri k0 →
      resolvePair ind val k0 k1 slot ext q k0 = ext ∧
      resolvePair ind val k0 k1 slot ext q k1 = slot) ∧
    (val k0 ≠ 0 → val k1 ≠ 0 → ¬ ind.pri k1 > ind.pri k0 →
      resolvePair ind val k0 k1 slot ext q k0 = slot ∧
      resolvePair ind val k0 k1 slot ext q k1 = ext) := by
  have h10 : k1 ≠ k0 := fun h => h01 h.symm
  refine ⟨?_, ?_, ?_, ?_, ?_⟩
  · intro a b
    unfold resolvePair
    rw [if_pos ⟨a, b⟩]
    exact ⟨by rw [Function.update_noteq h01, Function.update_same], Function.update_same _ _ _⟩
  · intro a b
    unfold resolvePair
    rw [if_neg (fun h => a h.1), if_pos ⟨a, b⟩]
    exact ⟨by rw [Function.update_noteq h01, Function.update_same], Function.update_same _ _ _⟩
  · intro a b
    unfold resolvePair
    rw [if_neg (fun h => b h.2), if_neg (fun h => b h.2), if_pos ⟨a, b⟩]
    exact ⟨by rw [Function.update_noteq h01, Function.update_same], Function.update_same _ _ _⟩
  · intro a b c
    unfold resolvePair
    rw [if_neg (fun h => b h.2), if_neg (fun h => b h.2), if_neg (fun h => a h.1), if_pos c]
    exact ⟨Function.update_same _ _ _, by rw [Function.update_noteq h10, Function.update_same]⟩
  · intro a b c
    unfold resolvePair
    rw [if_neg (fun h => b h.2), if_neg (fun h => b h.2), if_neg (fun h => a h.1), if_neg c]
    exact ⟨by rw [Function.update_noteq h01, Function.update_same], Function.update_same _ _ _⟩

theorem resolvePair_other (ind : sigind_t) (val : Nat → ℚ) (k0 k1 : Nat) (slot ext : Int)
    (q : Nat → Int) (i : Nat) (h0 : i ≠ k0) (h1 : i ≠ k1) :
    resolvePair ind val k0 k1 slot ext q i = q i := by
  unfold resolvePair
  split_ifs <;> simp [Function.update_noteq h0, Function.update_noteq h1]

/-- Position left by one selection block: unchanged, or one of slot, -1 and the
loser position for an entry of the block. -/
theorem resolveSlot_cases (ind : sigind_t) (val : Nat → ℚ) (ks : List Nat) (slot ext : Int)
    (q : Nat → Int) (i : Nat) :
    resolveSlot ind val ks slot ext q i = q i ∨
    (i ∈ ks ∧ (resolveSlot ind val ks slot ext q i = slot ∨
      resolveSlot ind val ks slot ext q i = -1 ∨
      resolveSlot ind val ks slot ext q i = ext)) := by
  match ks with
  | [] => exact Or.inl rfl
  | [_] => exact Or.inl rfl
  | k0 :: k1 :: t =>
    show resolvePair ind val k0 k1 slot ext q i = q i ∨
      (i ∈ k0 :: k1 :: t ∧ (resolvePair ind val k0 k1 slot ext q i = slot ∨
        resolvePair ind val k0 k1 slot ext q i = -1 ∨
        resolvePair ind val k0 k1 slot ext q i = ext))
    by_cases h0 : i = k0
    · right
      refine ⟨by simp [h0], ?_⟩
      subst h0
      unfold resolvePair
      by_cases h1 : i = k1
      · subst h1
        split_ifs <;> simp [Function.update_same]
      · split_ifs <;> simp [Function.update_same, Function.update_noteq h1]
    · by_cases h1 : i = k1
      · right
        refine ⟨by simp [h1], ?_⟩
        subst h1
        unfold resolvePair
        split_ifs <;> simp [Function.update_same, Function.update_noteq h0]
      · left
        exact resolvePair_other ind val k0 k1 slot ext q i h0 h1

/-- Record built by the save loop when the entries `k0`, `k1` hold the positions
of the two-code selection for slot `x` and no other entry writes that slot. -/
theorem pair_core (ind : sigind_t) (val : Nat → ℚ) (lli : Nat → Nat) (p q : Nat → Int)
    (o : obsd_t) (k0 k1 x : Nat) (ext : Int)
    (h01 : k0 ≠ k1) (hk0 : k0 < ind.n) (hk1 : k1 < ind.n)
    (ht0 : ind.type k0 = 0) (ht1 : ind.type k1 = 0)
    (hp0 : p k0 = resolvePair ind val k0 k1 (x : Int) ext q k0)
    (hp1 : p k1 = resolvePair ind val k0 k1 (x : Int) ext q k1)
    (hno : ∀ i, i < ind.n → i ≠ k0 → i ≠ k1 → ¬ (ind.type i = 0 ∧ p i = (x : Int) ∧ val i ≠ 0))
    (hext : ext ≠ (x : Int)) (hoP : o.P x = 0) (hoc : o.code x = 0) :
    PairStored ind val ((List.range ind.n).foldl (saveObs ind p val lli) o) p k0 k1 x ext := by
  obtain ⟨r1, r2, r3, r4, r5⟩ := resolvePair_at ind val k0 k1 (x : Int) ext q h01
  obtain ⟨fno, fw⟩ := foldl_saveObs_P ind p val lli x o ind.n
  have hneg : (-1 : Int) ≠ (x : Int) := by omega
  refine ⟨?_, ?_, ?_, ?_, ?_⟩
  · intro a b
    obtain ⟨e0, e1⟩ := r1 a b
    rw [← hp0] at e0
    rw [← hp1] at e1
    obtain ⟨c, d⟩ := fno (by
      intro i hi
      by_cases hi0 : i = k0
      · subst hi0; exact fun h => h.2.2 a
      · by_cases hi1 : i = k1
        · subst hi1; exact fun h => h.2.2 b
        · exact hno i hi hi0 hi1)
    exact ⟨by rw [c, hoP], by rw [d, hoc], e0, e1⟩
  · intro a b
    obtain ⟨e0, e1⟩ := r2 a b
    rw [← hp0] at e0
    rw [← hp1] at e1
    obtain ⟨c, d⟩ := fw k0 hk0 ht0 e0 a (by
      intro i hi hne
      by_cases hi1 : i = k1
      · subst hi1; exact fun h => h.2.2 b
      · exact hno i hi hne hi1)
    exact ⟨c, d, e0, e1⟩
  · intro a b
    obtain ⟨e0, e1⟩ := r3 a b
    rw [← hp0] at e0
    rw [← hp1] at e1
    obtain ⟨c, d⟩ := fw k1 hk1 ht1 e1 b (by
      intro i hi hne
      by_cases hi0 : i = k0
      · subst hi0; exact fun h => h.2.2 a
      · exact hno i hi hi0 hne)
    exact ⟨c, d, e1, e0⟩
  · intro a b hpri
    obtain ⟨e0, e1⟩ := r4 a b hpri
    rw [← hp0] at e0
    rw [← hp1] at e1
    obtain ⟨c, d⟩ := fw k1 hk1 ht1 e1 b (by
      intro i hi hne
      by_cases hi0 : i = k0
      · subst hi0
        exact fun h => hext (by rw [← e0]; exact h.2.1)
      · exact hno i hi hi0 hne)
    refine ⟨c, d, e1, e0, ?_⟩
    intro hge hother
    obtain ⟨-, fw2⟩ := foldl_saveObs_P ind p val lli ext.toNat o ind.n
    have hcast : ((ext.toNat : Nat) : Int) = ext := Int.toNat_of_nonneg hge
    exact fw2 k0 hk0 ht0 (by rw [e0, hcast]) a (by
      intro i hi hne
      rw [hcast]
      by_cases hi1 : i = k1
      · subst hi1
        exact fun h => hext (by rw [← h.2.1, e1])
      · exact fun h => h.2.2 (hother i hi hne hi1 h.1 h.2.1))
  · intro a b hpri
    obtain ⟨e0, e1⟩ := r5 a b hpri
    rw [← hp0] at e0
    rw [← hp1] at e1
    obtain ⟨c, d⟩ := fw k0 hk0 ht0 e0 a (by
      intro i hi hne
      by_cases hi1 : i = k1
      · subst hi1
        exact fun h => hext (by rw [← e1]; exact h.2.1)
      · exact hno i hi hne hi1)
    refine ⟨c, d, e0, e1, ?_⟩
    intro hge hother
    obtain ⟨-, fw2⟩ := foldl_saveObs_P ind p val lli ext.toNat o ind.n
    have hcast : ((ext.toNat : Nat) : Int) = ext := Int.toNat_of_nonneg hge
    exact fw2 k1 hk1 ht1 (by rw [e1, hcast]) b (by
      intro i hi hne
      rw [hcast]
      by_cases hi0 : i = k0
      · subst hi0
        exact fun h => hext (by rw [← h.2.1, e0])
      · exact fun h => h.2.2 (hother i hi hi0 hne h.1 h.2.1))

theorem slotCodes_mem (ind : sigind_t) (p : Nat → Int) (s : Int) (i : Nat) :
    i ∈ slotCodes ind p s ↔ i < ind.n ∧ ind.type i = 0 ∧ p i = s := by
  simp [slotCodes, List.mem_filter, List.mem_range]

theorem slotCodes_pair (ind : sigind_t) (p : Nat → Int) (s : Int) (k0 k1 : Nat)
    (h : slotCodes ind p s = [k0, k1]) :
    k0 ≠ k1 ∧ k0 < ind.n ∧ k1 < ind.n ∧ ind.type k0 = 0 ∧ ind.type k1 = 0 ∧
    p k0 = s ∧ p k1 = s ∧
    (∀ i, i < ind.n → ind.type i = 0 → p i = s → i = k0 ∨ i = k1) := by
  have hnd : (slotCodes ind p s).Nodup := (List.nodup_range ind.n).filter _
  rw [h] at hnd
  have hne : k0 ≠ k1 := by
    intro e
    rw [e] at hnd
    simp at hnd
  have m0 := (slotCodes_mem ind p s k0).mp (by rw [h]; simp)
  have m1 := (slotCodes_mem ind p s k1).mp (by rw [h]; simp)
  refine ⟨hne, m0.1, m1.1, m0.2.1, m1.2.1, m0.2.2, m1.2.2, ?_⟩
  intro i hi ht hp
  have := (slotCodes_mem ind p s i).mpr ⟨hi, ht, hp⟩
  rw [h] at this
  simpa using this

/-- Slot 0 of C9: outcome for the two pseudorange entries that map to slot 0. -/
theorem obsAssign_pair0 (E : Ext) (ver : ℚ) (ind : sigind_t) (val : Nat → ℚ) (lli : Nat → Nat)
    (o : obsd_t) (hver : ver ≤ 2.11) (hN : 1 ≤ E.NFREQ) (k0 k1 : Nat)
    (hK : slotCodes ind (obsPos ver ind) 0 = [k0, k1]) (hoP : o.P 0 = 0) (hoc : o.code 0 = 0) :
    PairStored ind val
      ((List.range ind.n).foldl (saveObs ind (obsAssign E ver ind val) val lli) o)
      (obsAssign E ver ind val) k0 k1 0 (if E.NEXOBS < 1 then -1 else (E.NFREQ : Int)) := by
  obtain ⟨h01, hk0, hk1, ht0, ht1, hq0, hq1, hall⟩ := slotCodes_pair ind _ 0 k0 k1 hK
  have hp : obsAssign E ver ind val =
      resolveSlot ind val (slotCodes ind (obsPos ver ind) 1) 1
        (if E.NEXOBS < 2 then -1 else (E.NFREQ : Int) + 1)
        (resolvePair ind val k0 k1 0 (if E.NEXOBS < 1 then -1 else (E.NFREQ : Int))
          (obsPos ver ind)) := by
    unfold obsAssign
    simp only [if_pos hver, hK]
    rfl
  have hnotL : ∀ i, obsPos ver ind i = 0 → i ∉ slotCodes ind (obsPos ver ind) 1 := by
    intro i hi hm
    have := ((slotCodes_mem ind _ 1 i).mp hm).2.2
    omega
  have hat : ∀ i, obsPos ver ind i = 0 → obsAssign E ver ind val i =
      resolvePair ind val k0 k1 0 (if E.NEXOBS < 1 then -1 else (E.NFREQ : Int))
        (obsPos ver ind) i := by
    intro i hi
    rw [hp]
    rcases resolveSlot_cases ind val (slotCodes ind (obsPos ver ind) 1) 1
      (if E.NEXOBS < 2 then -1 else (E.NFREQ : Int) + 1)
      (resolvePair ind val k0 k1 0 (if E.NEXOBS < 1 then -1 else (E.NFREQ : Int))
        (obsPos ver ind)) i with h | ⟨hm, -⟩
    · exact h
    · exact absurd hm (hnotL i hi)
  apply pair_core ind val lli (obsAssign E ver ind val) (obsPos ver ind) o k0 k1 0 _ h01 hk0 hk1
    ht0 ht1
  · rw [hat k0 hq0]; rfl
  · rw [hat k1 hq1]; rfl
  · intro i hi hi0 hi1 ⟨ht, hpi, _⟩
    rw [hp] at hpi
    rcases resolveSlot_cases ind val (slotCodes ind (obsPos ver ind) 1) 1
      (if E.NEXOBS < 2 then -1 else (E.NFREQ : Int) + 1)
      (resolvePair ind val k0 k1 0 (if E.NEXOBS < 1 then -1 else (E.NFREQ : Int))
        (obsPos ver ind)) i with h | ⟨-, h | h | h⟩
    · rw [h, resolvePair_other ind val k0 k1 _ _ _ i hi0 hi1] at hpi
      rcases hall i hi ht (by simpa using hpi) with e | e
      · exact hi0 e
      · exact hi1 e
    · rw [h] at hpi; omega
    · rw [h] at hpi; omega
    · rw [h] at hpi
      split_ifs at hpi
      omega
  · split_ifs <;> omega
  · exact hoP
  · exact hoc

/-- Slot 1 of C9: outcome for the two pseudorange entries that map to slot 1. -/
theorem obsAssign_pair1 (E : Ext) (ver : ℚ) (ind : sigind_t) (val : Nat → ℚ) (lli : Nat → Nat)
    (o : obsd_t) (hver : ver ≤ 2.11) (hN : 2 ≤ E.NFREQ) (l0 l1 : Nat)
    (hL : slotCodes ind (obsPos ver ind) 1 = [l0, l1]) (hoP : o.P 1 = 0) (hoc : o.code 1 = 0) :
    PairStored ind val
      ((List.range ind.n).foldl (saveObs ind (obsAssign E ver ind val) val lli) o)
      (obsAssign E ver ind val) l0 l1 1 (if E.NEXOBS < 2 then -1 else (E.NFREQ : Int) + 1) := by
  obtain ⟨h01, hk0, hk1, ht0, ht1, -, -, hall⟩ := slotCodes_pair ind _ 1 l0 l1 hL
  have hp : obsAssign E ver ind val =
      resolvePair ind val l0 l1 ((1 : Nat) : Int)
        (if E.NEXOBS < 2 then -1 else (E.NFREQ : Int) + 1)
        (resolveSlot ind val (slotCodes ind (obsPos ver ind) 0) 0
          (if E.NEXOBS < 1 then -1 else (E.NFREQ : Int)) (obsPos ver ind)) := by
    unfold obsAssign
    simp only [if_pos hver, hL]
    rfl
  apply pair_core ind val lli (obsAssign E ver ind val)
    (resolveSlot ind val (slotCodes ind (obsPos ver ind) 0) 0
      (if E.NEXOBS < 1 then -1 else (E.NFREQ : Int)) (obsPos ver ind)) o l0 l1 1 _ h01 hk0 hk1
    ht0 ht1
  · rw [hp]
  · rw [hp]
  · intro i hi hi0 hi1 ⟨ht, hpi, _⟩
    rw [hp, resolvePair_other ind val l0 l1 _ _ _ i hi0 hi1] at hpi
    rcases resolveSlot_cases ind val (slotCodes ind (obsPos ver ind) 0) 0
      (if E.NEXOBS < 1 then -1 else (E.NFREQ : Int)) (obsPos ver ind) i with h | ⟨-, h | h | h⟩
    · rw [h] at hpi
      rcases hall i hi ht (by simpa using hpi) with e | e
      · exact hi0 e
      · exact hi1 e
    · rw [h] at hpi; omega
    · rw [h] at hpi; omega
    · rw [h] at hpi
      split_ifs at hpi
      omega
  · split_ifs <;> omega
  · exact hoP
  · exact hoc

/-- C9: for version <= 2.11 and a satellite line that is decoded (valid satellite
of a selected system), when exactly two pseudorange entries `k0`, `k1` (in table
order) map to slot 0, respectively slot 1: if both values are zero nothing is
stored in the slot; if exactly one is nonzero it is stored in the slot and the
other entry has no position; if both are nonzero the entry of strictly higher
priority (`k0` on a tie) is stored in the slot and the other gets the extended
position NFREQ, respectively NFREQ+1, when NEXOBS provides it (its value is what
that position holds unless another pseudorange entry is placed there too), and
position -1, that is dropped, otherwise. -/
theorem decode_obsdata_two_codes (E : Ext) (fp : List (List Char)) (buff : List Char)
    (ver : ℚ) (mask : Nat) (index : Nat → sigind_t) (obs : obsd_t)
    (hver : ver ≤ 2.11) (hstat : obsStat E mask (obsSat E buff ver obs) = true)
    (hN : 1 ≤ E.NFREQ) :
    (∀ k0 k1, slotCodes (selectIndex E index (E.satsys (obsSat E buff ver obs)))
        (obsPos ver (selectIndex E index (E.satsys (obsSat E buff ver obs)))) 0 = [k0, k1] →
      PairStored (selectIndex E index (E.satsys (obsSat E buff ver obs)))
        (obsFields E fp buff ver mask index obs).val
        (decode_obsdata E fp buff ver mask index obs).obs
        (obsAssign E ver (selectIndex E index (E.satsys (obsSat E buff ver obs))) (obsFields E fp buff ver mask index obs).val)
        k0 k1 0 (if E.NEXOBS < 1 then -1 else (E.NFREQ : Int))) ∧
    (2 ≤ E.NFREQ → ∀ l0 l1, slotCodes (selectIndex E index (E.satsys (obsSat E buff ver obs)))
        (obsPos ver (selectIndex E index (E.satsys (obsSat E buff ver obs)))) 1 = [l0, l1] →
      PairStored (selectIndex E index (E.satsys (obsSat E buff ver obs)))
        (obsFields E fp buff ver mask index obs).val
        (decode_obsdata E fp buff ver mask index obs).obs
        (obsAssign E ver (selectIndex E index (E.satsys (obsSat E buff ver obs))) (obsFields E fp buff ver mask index obs).val)
        l0 l1 1 (if E.NEXOBS < 2 then -1 else (E.NFREQ : Int) + 1)) := by
  rw [decode_obsdata_obs E fp buff ver mask index obs hstat]
  constructor
  · intro k0 k1 hK
    apply obsAssign_pair0 E ver _ _ _ _ hver hN k0 k1 hK
    · show (if 0 < E.NFREQ + E.NEXOBS then (0 : ℚ) else obs.P 0) = 0
      rw [if_pos (by omega)]
    · show (if 0 < E.NFREQ + E.NEXOBS then (0 : Nat) else obs.code 0) = 0
      rw [if_pos (by omega)]
  · intro hN2 l0 l1 hL
    apply obsAssign_pair1 E ver _ _ _ _ hver hN2 l0 l1 hL
    · show (if 1 < E.NFREQ + E.NEXOBS then (0 : ℚ) else obs.P 1) = 0
      rw [if_pos (by omega)]
    · show (if 1 < E.NFREQ + E.NEXOBS then (0 : Nat) else obs.code 1) = 0
      rw [if_pos (by omega)]

/-- The sample ver.2.11 line with C1C = 20000001 and C1W = 20000002 (priorities
14 and 12): C1C is stored in `P[0]`, C1W in the extended slot `P[3]`. -/
theorem decode_obsdata_two_codes_witness :
    (decode_obsdata sampleExt [] lineObs3 2.11 255 sampleIndex2 recSat1).obs.P 0 = 20000001 ∧
    (decode_obsdata sampleExt [] lineObs3 2.11 255 sampleIndex2 recSat1).obs.code 0 = 1 ∧
    (decode_obsdata sampleExt [] lineObs3 2.11 255 sampleIndex2 recSat1).obs.P 3 = 20000002 ∧
    (decode_obsdata sampleExt [] lineObs3 2.11 255 sampleIndex2 recSat1).obs.code 3 = 3 := by
  have hv : (2.11 : ℚ) ≤ 2.99 := by norm_num
  have hsat : obsSat sampleExt lineObs3 2.11 recSat1 = 1 := by
    unfold obsSat; rw [if_neg (by norm_num)]; rfl
  have hn : (selectIndex sampleExt sampleIndex2 (sampleExt.satsys 1)).n = 3 := by decide
  have hst : obsStat sampleExt 255 1 = true := by decide
  have hsh : ∀ i, (selectIndex sampleExt sampleIndex2 (sampleExt.satsys 1)).shift i = 0 :=
    fun _ => rfl
  have hval : (obsFields sampleExt [] lineObs3 2.11 255 sampleIndex2 recSat1).val 0 = 20000001 ∧
      (obsFields sampleExt [] lineObs3 2.11 255 sampleIndex2 recSat1).val 1 = 20000002 ∧
      (obsFields sampleExt [] lineObs3 2.11 255 sampleIndex2 recSat1).val 2 = 20000003 := by
    unfold obsFields
    simp only [hsat, hn, hst, decode_obsdata_read, if_pos hv, hsh]
    rw [if_neg (by rintro ⟨-, h⟩; omega), if_pos trivial, if_neg (by rintro ⟨-, h⟩; omega),
      if_pos trivial, if_neg (by rintro ⟨-, h⟩; omega), if_pos trivial]
    simp only [Function.update_same, Function.update_noteq, ne_eq, OfNat.ofNat_ne_zero,
      not_false_eq_true, OfNat.zero_ne_ofNat, OfNat.ofNat_ne_one, OfNat.one_ne_ofNat,
      zero_ne_one, one_ne_zero]
    rw [sampleStr2num_eq lineObs3 0 14 20000001 (by decide),
      sampleStr2num_eq lineObs3 (0 + 16) 14 20000002 (by decide),
      sampleStr2num_eq lineObs3 (0 + 16 + 16) 14 20000003 (by decide)]
    norm_num
  have hpos1 : obsPos 2.11 (selectIndex sampleExt sampleIndex2
      (sampleExt.satsys (obsSat sampleExt lineObs3 2.11 recSat1))) =
      fun i => (selectIndex sampleExt sampleIndex2
        (sampleExt.satsys (obsSat sampleExt lineObs3 2.11 recSat1))).frq i - 1 := by
    unfold obsPos
    simp only [if_pos (le_refl (2.11 : ℚ))]
  have h := (decode_obsdata_two_codes sampleExt [] lineObs3 2.11 255 sampleIndex2 recSat1
    (le_refl _) (by rw [hsat]; decide) (by decide)).1 0 1 (by rw [hpos1, hsat]; decide)
  rw [hsat] at h
  obtain ⟨-, -, -, -, h5⟩ := h
  obtain ⟨a, b, -, -, e⟩ := h5 (by rw [hval.1]; norm_num) (by rw [hval.2.1]; norm_num)
    (by decide)
  have hext : (if sampleExt.NEXOBS < 1 then (-1 : Int) else (sampleExt.NFREQ : Int)) = 3 := by
    decide
  rw [hext] at e
  obtain ⟨c, d⟩ := e (by decide) (by
    intro i hi h0 h1 _ hp
    have hi3 : i < 3 := by rw [← hn]; exact hi
    have hi2 : i = 2 := by omega
    subst hi2
    exfalso
    have hpos : obsPos 2.11 (selectIndex sampleExt sampleIndex2 (sampleExt.satsys 1)) =
        fun i => (selectIndex sampleExt sampleIndex2 (sampleExt.satsys 1)).frq i - 1 := by
      unfold obsPos
      simp only [if_pos (le_refl (2.11 : ℚ))]
    have hK : slotCodes (selectIndex sampleExt sampleIndex2 (sampleExt.satsys 1))
        (obsPos 2.11 (selectIndex sampleExt sampleIndex2 (sampleExt.satsys 1))) 0 = [0, 1] := by
      rw [hpos]; decide
    have hL : slotCodes (selectIndex sampleExt sampleIndex2 (sampleExt.satsys 1))
        (obsPos 2.11 (selectIndex sampleExt sampleIndex2 (sampleExt.satsys 1))) 1 = [2] := by
      rw [hpos]; decide
    unfold obsAssign at hp
    simp only [if_pos (le_refl (2.11 : ℚ)), hK, hL, resolveSlot] at hp
    rw [resolvePair_other _ _ 0 1 _ _ _ 2 (by decide) (by decide), hpos] at hp
    exact absurd hp (by decide))
  have e3 : Int.toNat 3 = 3 := rfl
  rw [e3] at c d
  rw [hval.1] at a
  rw [hval.2.1] at c
  exact ⟨a, by rw [b]; decide, c, by rw [d]; decide⟩

/-! ### Mismatched BeiDou ionosphere parts (C11) -/

/-- A `BDSB` line whose hour or satellite differs from the pending record is ignored. -/
theorem decode_navh_ion_BDSB_skip (E : Ext) (buff : List Char) (nav : nav_t)
    (hs : startsWith buff "BDSB".toList = true)
    (hm : ¬ ((nav.bdsk8 nav.nk8).hour = AZ2hour (buff.getD 54 (Char.ofNat 0)) ∧
      (nav.bdsk8 nav.nk8).sat = toInt (E.str2num buff 57 2))) :
    decode_navh_ion E buff nav = nav := by
  have e1 := startsWith_excl buff _ "GPSA".toList hs (by decide)
  have e2 := startsWith_excl buff _ "GPSB".toList hs (by decide)
  have e3 := startsWith_excl buff _ "GAL".toList hs (by decide)
  have e4 := startsWith_excl buff _ "QZSA".toList hs (by decide)
  have e5 := startsWith_excl buff _ "QZSB".toList hs (by decide)
  have e6 := startsWith_excl buff _ "BDSA".toList hs (by decide)
  simp only [decode_navh_ion, e1, e2, e3, e4, e5, e6, hs, if_true, Bool.false_eq_true, if_false]
  rw [if_neg hm]

/-- A `BDS2` line whose hour or satellite differs from the pending record is ignored. -/
theorem decode_navh_ion_BDS2_skip (E : Ext) (buff : List Char) (nav : nav_t)
    (hs : startsWith buff "BDS2".toList = true)
    (hm : ¬ ((nav.bdssh9 nav.nsh9).hour = AZ2hour (buff.getD 54 (Char.ofNat 0)) ∧
      (nav.bdssh9 nav.nsh9).sat = toInt (E.str2num buff 57 2))) :
    decode_navh_ion E buff nav = nav := by
  have e1 := startsWith_excl buff _ "GPSA".toList hs (by decide)
  have e2 := startsWith_excl buff _ "GPSB".toList hs (by decide)
  have e3 := startsWith_excl buff _ "GAL".toList hs (by decide)
  have e4 := startsWith_excl buff _ "QZSA".toList hs (by decide)
  have e5 := startsWith_excl buff _ "QZSB".toList hs (by decide)
  have e6 := startsWith_excl buff _ "BDSA".toList hs (by decide)
  have e7 := startsWith_excl buff _ "BDSB".toList hs (by decide)
  have e8 := startsWith_excl buff _ "BDS1".toList hs (by decide)
  simp only [decode_navh_ion, e1, e2, e3, e4, e5, e6, e7, e8, hs, if_true, Bool.false_eq_true,
    if_false]
  rw [if_neg hm]

/-- A `BDS3` line whose hour or satellite differs from the pending record is ignored. -/
theorem decode_navh_ion_BDS3_skip (E : Ext) (buff : List Char) (nav : nav_t)
    (hs : startsWith buff "BDS3".toList = true)
    (hm : ¬ ((nav.bdssh9 nav.nsh9).hour = AZ2hour (buff.getD 54 (Char.ofNat 0)) ∧
      (nav.bdssh9 nav.nsh9).sat = toInt (E.str2num buff 57 2))) :
    decode_navh_ion E buff nav = nav := by
  have e1 := startsWith_excl buff _ "GPSA".toList hs (by decide)
  have e2 := startsWith_excl buff _ "GPSB".toList hs (by decide)
  have e3 := startsWith_excl buff _ "GAL".toList hs (by decide)
  have e4 := startsWith_excl buff _ "QZSA".toList hs (by decide)
  have e5 := startsWith_excl buff _ "QZSB".toList hs (by decide)
  have e6 := startsWith_excl buff _ "BDSA".toList hs (by decide)
  have e7 := startsWith_excl buff _ "BDSB".toList hs (by decide)
  have e8 := startsWith_excl buff _ "BDS1".toList hs (by decide)
  have e9 := startsWith_excl buff _ "BDS2".toList hs (by decide)
  simp only [decode_navh_ion, e1, e2, e3, e4, e5, e6, e7, e8, e9, hs, if_true,
    Bool.false_eq_true, if_false]
  rw [if_neg hm]

/-- C11: a `BDSB` line whose hour or satellite number differs from that of the
pending record `bdsk8[nk8]`, and a `BDS2` or `BDS3` line whose hour or satellite
number differs from that of the pending record `bdssh9[nsh9]`, leaves the
navigation data as it was; in particular `decode_navh` increases neither `nk8`
nor `nsh9` on such a line. -/
theorem decode_navh_bds_mismatch (E : Ext) (nav : nav_t) (buff : List Char)
    (h : (ionCorrLine buff "BDSB".toList ∧
          ¬ ((nav.bdsk8 nav.nk8).hour = AZ2hour (buff.getD 54 (Char.ofNat 0)) ∧
            (nav.bdsk8 nav.nk8).sat = toInt (E.str2num buff 57 2))) ∨
        ((ionCorrLine buff "BDS2".toList ∨ ionCorrLine buff "BDS3".toList) ∧
          ¬ ((nav.bdssh9 nav.nsh9).hour = AZ2hour (buff.getD 54 (Char.ofNat 0)) ∧
            (nav.bdssh9 nav.nsh9).sat = toInt (E.str2num buff 57 2)))) :
    decode_navh E buff nav = nav ∧
    (decode_navh E buff nav).nk8 = nav.nk8 ∧ (decode_navh E buff nav).nsh9 = nav.nsh9 := by
  have key : decode_navh E buff nav = nav := by
    rcases h with ⟨hl, hm⟩ | ⟨hl | hl, hm⟩
    · rw [decode_navh_ionCorr E buff _ nav hl]
      exact decode_navh_ion_BDSB_skip E buff nav hl.2.2.2.2 hm
    · rw [decode_navh_ionCorr E buff _ nav hl]
      exact decode_navh_ion_BDS2_skip E buff nav hl.2.2.2.2 hm
    · rw [decode_navh_ionCorr E buff _ nav hl]
      exact decode_navh_ion_BDS3_skip E buff nav hl.2.2.2.2 hm
  rw [key]
  exact ⟨rfl, rfl, rfl⟩

/-- After the sample `BDSA` line (hour C, satellite 5) the sample `BDSB` line of
hour D is ignored; after the sample `BDS1` line (hour D, satellite 7) the sample
`BDS2` line of satellite 8 and the sample `BDS3` line of hour E are ignored. -/
theorem decode_navh_bds_mismatch_witness :
    (decode_navh sampleExt lineBDSBx (decode_navh sampleExt lineBDSA nav0)).nk8 = 0 ∧
    (decode_navh sampleExt lineBDS2x (decode_navh sampleExt lineBDS1 nav0)).nsh9 = 0 ∧
    (decode_navh sampleExt lineBDS3x (decode_navh sampleExt lineBDS1 nav0)).nsh9 = 0 := by
  have hA : ionCorrLine lineBDSA "BDSA".toList := by unfold ionCorrLine; decide
  have h1 : ionCorrLine lineBDS1 "BDS1".toList := by unfold ionCorrLine; decide
  have a := decode_navh_ion_BDSA sampleExt lineBDSA nav0 hA.2.2.2.2
  have b := decode_navh_ion_BDS1 sampleExt lineBDS1 nav0 h1.2.2.2.2
  rw [← decode_navh_ionCorr sampleExt lineBDSA _ nav0 hA] at a
  rw [← decode_navh_ionCorr sampleExt lineBDS1 _ nav0 h1] at b
  have hB := decode_navh_bds_mismatch sampleExt (decode_navh sampleExt lineBDSA nav0) lineBDSBx
    (Or.inl ⟨by unfold ionCorrLine; decide, by
      rw [a.1, a.2.1]
      intro hh
      exact absurd hh.1 (by decide)⟩)
  have h2 := decode_navh_bds_mismatch sampleExt (decode_navh sampleExt lineBDS1 nav0) lineBDS2x
    (Or.inr ⟨Or.inl (by unfold ionCorrLine; decide), by
      rw [b.1, b.2.2.1, sample_toInt lineBDS1 57 2 7 (by decide),
        sample_toInt lineBDS2x 57 2 8 (by decide)]
      intro hh
      exact absurd hh.2 (by decide)⟩)
  have h3 := decode_navh_bds_mismatch sampleExt (decode_navh sampleExt lineBDS1 nav0) lineBDS3x
    (Or.inr ⟨Or.inr (by unfold ionCorrLine; decide), by
      rw [b.1, b.2.1]
      intro hh
      exact absurd hh.1 (by decide)⟩)
  exact ⟨by rw [hB.2.1, a.1]; rfl, by rw [h2.2.2, b.1]; rfl, by rw [h3.2.2, b.1]; rfl⟩

/-- Set-level reading of C11: when the `BDS2` line does not match the pending
`BDS1` part, no `BDS3` line commits the record, because the middle coefficients
are still the zeros written by the `BDS1` line (`norm` of three zeros is 0). -/
theorem decode_navh_bds123_skip2 (E : Ext) (nav : nav_t) (b1 b2 b3 : List Char)
    (hz : E.norm [0, 0, 0] = 0)
    (h1 : ionCorrLine b1 "BDS1".toList) (h2 : ionCorrLine b2 "BDS2".toList)
    (h3 : ionCorrLine b3 "BDS3".toList)
    (hm : ¬ (AZ2hour (b1.getD 54 (Char.ofNat 0)) = AZ2hour (b2.getD 54 (Char.ofNat 0)) ∧
      toInt (E.str2num b1 57 2) = toInt (E.str2num b2 57 2))) :
    (decode_navh E b3 (decode_navh E b2 (decode_navh E b1 nav))).nsh9 = nav.nsh9 := by
  have a := decode_navh_ion_BDS1 E b1 nav h1.2.2.2.2
  rw [← decode_navh_ionCorr E b1 _ nav h1] at a
  obtain ⟨a1, a2, a3, a4⟩ := a
  have e2 : decode_navh E b2 (decode_navh E b1 nav) = decode_navh E b1 nav := by
    rw [decode_navh_ionCorr E b2 _ _ h2]
    refine decode_navh_ion_BDS2_skip E b2 _ h2.2.2.2.2 ?_
    rw [a1, a2, a3]
    exact hm
  rw [e2, decode_navh_ionCorr E b3 _ _ h3]
  by_cases hc : ((decode_navh E b1 nav).bdssh9 (decode_navh E b1 nav).nsh9).hour =
      AZ2hour (b3.getD 54 (Char.ofNat 0)) ∧
      ((decode_navh E b1 nav).bdssh9 (decode_navh E b1 nav).nsh9).sat =
      toInt (E.str2num b3 57 2)
  · rw [(decode_navh_ion_BDS3 E b3 _ h3.2.2.2.2 hc.1 hc.2).1, a1]
    have z3 := a4 3
    have z4 := a4 4
    have z5 := a4 5
    simp only [show ¬ (3 < 3) by decide, show ¬ (4 < 3) by decide, show ¬ (5 < 3) by decide,
      show (3 < 9) by decide, show (4 < 9) by decide, show (5 < 9) by decide, if_true,
      if_false] at z3 z4 z5
    rw [z3, z4, z5, hz]
    simp
  · rw [decode_navh_ion_BDS3_skip E b3 _ h3.2.2.2.2 hc, a1]

/-! ### System mask (C16) -/

theorem strstrPtr_none (pat : List Char) : ∀ s : List Char,
    strstr s pat = false → strstrPtr s pat = none := by
  intro s
  induction s with
  | nil =>
    intro h
    simp only [strstr] at h
    simp only [strstrPtr, h, Bool.false_eq_true, if_false]
  | cons c cs ih =>
    intro h
    simp only [strstr, Bool.or_eq_false_iff] at h
    simp only [strstrPtr, h.1, Bool.false_eq_true, if_false]
    exact ih h.2

/-- The pointer returned by `strstr` is the first occurrence: when no occurrence
of `pat ++ [x]` starts inside `pre`, the result for `pre ++ pat ++ x :: tail` is
`pat ++ x :: tail`. -/
theorem strstrPtr_first (pat : List Char) (x : Char) (tail : List Char) :
    ∀ pre : List Char, strstr (pre ++ pat) (pat ++ [x]) = false →
      strstrPtr (pre ++ (pat ++ x :: tail)) (pat ++ [x]) = some (pat ++ x :: tail) := by
  have hp : (pat ++ [x]).isPrefixOf (pat ++ x :: tail) = true := by
    rw [List.isPrefixOf_iff_prefix]
    exact ⟨tail, by simp⟩
  intro pre
  induction pre with
  | nil =>
    intro _
    rw [List.nil_append]
    cases hq : pat ++ x :: tail with
    | nil => simp at hq
    | cons a as =>
      rw [hq] at hp
      simp only [strstrPtr, hp, if_true]
  | cons c cs ih =>
    intro h
    rw [List.cons_append] at h
    simp only [strstr, Bool.or_eq_false_iff] at h
    rw [List.cons_append]
    have hnp : (pat ++ [x]).isPrefixOf (c :: (cs ++ (pat ++ x :: tail))) = false := by
      cases hq : (pat ++ [x]).isPrefixOf (c :: (cs ++ (pat ++ x :: tail))) with
      | false => rfl
      | true =>
        rw [List.isPrefixOf_iff_prefix] at hq
        have h2 : (c :: (cs ++ pat)) <+: (c :: (cs ++ (pat ++ x :: tail))) :=
          ⟨x :: tail, by simp⟩
        have h3 : (pat ++ [x]) <+: (c :: (cs ++ pat)) :=
          List.prefix_of_prefix_length_le hq h2 (by simp)
        rw [← List.isPrefixOf_iff_prefix] at h3
        rw [h3] at h
        exact absurd h.1 (by decide)
    simp only [strstrPtr, hnp, Bool.false_eq_true, if_false]
    exact ih h.2

theorem set_sysmask_case_bit (E : Ext) (c : Char) (mask i : Nat) :
    (set_sysmask_case E c mask).testBit i = (mask.testBit i || (sysLetterBit E c).testBit i) := by
  unfold set_sysmask_case sysLetterBit
  split_ifs <;> simp [Nat.testBit_or]

theorem set_sysmask_loop_bit (E : Ext) (rest : List Char)
    (hrest : rest = [] ∨ ∃ r, rest = ' ' :: r) (i : Nat) :
    ∀ (seg : List Char) (mask : Nat), ' ' ∉ seg →
      (set_sysmask_loop E (seg ++ rest) mask).testBit i =
        (mask.testBit i || seg.any (fun c => (sysLetterBit E c).testBit i)) := by
  intro seg
  induction seg with
  | nil =>
    intro mask _
    rcases hrest with h | ⟨r, h⟩
    · rw [h]; simp [set_sysmask_loop]
    · rw [h]; simp [set_sysmask_loop]
  | cons c cs ih =>
    intro mask hs
    have hc : c ≠ ' ' := fun h => hs (by rw [h]; exact List.mem_cons_self _ _)
    have hcs : ' ' ∉ cs := fun h => hs (List.mem_cons_of_mem _ h)
    rw [List.cons_append]
    simp only [set_sysmask_loop, hc, if_false]
    rw [ih _ hcs, set_sysmask_case_bit, List.any_cons, Bool.or_assoc]

/-- C16: `set_sysmask` returns `SYS_ALL` when the options string contains no
`-SYS=`; otherwise, with `seg` the characters between the first `-SYS=` and the
next space or the end of the string, bit `i` of the result is set exactly when
it is set in the system bit of some letter G, R, E, J, C, I, S of `seg` (every
other character contributes nothing), the empty mask `SYS_NONE` being 0. -/
theorem set_sysmask_spec (E : Ext) (hnone : E.SYS_NONE = 0) (opt : List Char) :
    (strstr opt "-SYS=".toList = false → set_sysmask E opt = E.SYS_ALL) ∧
    (∀ pre seg rest : List Char, opt = pre ++ ("-SYS=".toList ++ (seg ++ rest)) →
      strstr (pre ++ "-SYS".toList) "-SYS=".toList = false →
      ' ' ∉ seg → (rest = [] ∨ ∃ r, rest = ' ' :: r) →
      ∀ i, (set_sysmask E opt).testBit i =
        seg.any (fun c => (sysLetterBit E c).testBit i)) := by
  constructor
  · intro h
    unfold set_sysmask
    rw [strstrPtr_none _ _ h]
  · intro pre seg rest hopt hfirst hseg hrest i
    have e1 : "-SYS=".toList = ['-', 'S', 'Y', 'S'] ++ ['='] := rfl
    have e2 : "-SYS".toList = ['-', 'S', 'Y', 'S'] := rfl
    rw [e1, e2] at hfirst
    have hp := strstrPtr_first ['-', 'S', 'Y', 'S'] '=' (seg ++ rest) pre hfirst
    have hopt2 : opt = pre ++ (['-', 'S', 'Y', 'S'] ++ '=' :: (seg ++ rest)) := by
      rw [hopt, e1]; simp
    unfold set_sysmask
    rw [e1, hopt2, hp]
    have hd : (['-', 'S', 'Y', 'S'] ++ '=' :: (seg ++ rest)).drop 5 = seg ++ rest := rfl
    simp only [hd]
    rw [set_sysmask_loop_bit E rest hrest i seg _ hseg, hnone]
    simp

/-- The sample option string `-GL1C -SYS=G,R -EL1X` selects GPS and GLONASS, the
comma is ignored and the letters of the other options do not count. -/
theorem set_sysmask_spec_witness :
    set_sysmask sampleExt optGR = 5 ∧
    ∀ i, (set_sysmask sampleExt optGR).testBit i =
      ['G', ',', 'R'].any (fun c => (sysLetterBit sampleExt c).testBit i) :=
  ⟨by decide,
   (set_sysmask_spec sampleExt rfl optGR).2 "-GL1C ".toList ['G', ',', 'R'] " -EL1X".toList
     (by decide) (by decide) (by decide) (Or.inr ⟨"-EL1X".toList, by decide⟩)⟩

/-! ### GLONASS frequency number (C18) -/

theorem geph_frq_spec (g : geph_t) :
    (geph_frq g).frq = if g.frq ≤ 128 then g.frq else g.frq - 256 := by
  unfold geph_frq
  by_cases h : g.frq > 128
  · rw [if_pos h, if_neg (by omega)]
  · rw [if_neg h, if_pos (by omega)]

/-- C18: for a GLONASS satellite, with `v` the frequency-channel field `data[10]`
truncated to an integer, `decode_geph` and `decode_geph4` both return 1 and store
`frq = v` when `v <= 128` and `frq = v - 256` when `v > 128`, whatever the
result, also outside -7..13. -/
theorem decode_geph_frq (E : Ext) (ver : ℚ) (sat : Int) (toc : gtime_t) (data : Nat → ℚ)
    (geph : geph_t) (hsat : E.satsys sat.toNat = E.SYS_GLO) :
    (decode_geph E ver sat toc data geph).1 = 1 ∧
    (decode_geph E ver sat toc data geph).2.frq =
      (if toInt (data 10) ≤ 128 then toInt (data 10) else toInt (data 10) - 256) ∧
    (decode_geph4 E ver sat toc data geph).1 = 1 ∧
    (decode_geph4 E ver sat toc data geph).2.frq =
      (if toInt (data 10) ≤ 128 then toInt (data 10) else toInt (data 10) - 256) := by
  have h1 : decode_geph E ver sat toc data geph =
      (1, geph_frq (decode_geph_core E ver sat toc data)) := by
    unfold decode_geph
    rw [if_neg (not_not.mpr hsat)]
  have h2 : decode_geph4 E ver sat toc data geph =
      (1, geph_frq { decode_geph_core E ver sat toc data with
        status := toInt (data 15), tgd := data 16, urai := toInt (data 17),
        hflag := toInt (data 18) }) := by
    unfold decode_geph4
    rw [if_neg (not_not.mpr hsat)]
  rw [h1, h2]
  refine ⟨rfl, ?_, rfl, ?_⟩
  · exact geph_frq_spec _
  · exact geph_frq_spec _

/-- GLONASS satellite 33 with the frequency-channel field 200: both decoders
return 1 and store -56, which lies outside -7..13. -/
theorem decode_geph_frq_witness :
    (decode_geph sampleExt 3 33 gtime0 dataFrq200 geph0).1 = 1 ∧
    (decode_geph sampleExt 3 33 gtime0 dataFrq200 geph0).2.frq = -56 ∧
    (decode_geph4 sampleExt 3 33 gtime0 dataFrq200 geph0).1 = 1 ∧
    (decode_geph4 sampleExt 3 33 gtime0 dataFrq200 geph0).2.frq = -56 := by
  have h := decode_geph_frq sampleExt 3 33 gtime0 dataFrq200 geph0 (by decide)
  have e : toInt (dataFrq200 10) = 200 := by
    have : dataFrq200 10 = ((200 : Int) : ℚ) := by simp [dataFrq200]
    rw [this, toInt_intCast]
  rw [e] at h
  exact h

/-! ### BeiDou CNAV bias terms (C19) -/

/-- C19: in a record committed by `decode_eph_BDS_CNV` (return value 1) the
B2b term `tgd[5]` is zero for message types 1 and 2, and the B1C/B2a terms
`tgd[3]` and `tgd[4]` are zero for message type 3; so the two groups are never
both populated. -/
theorem decode_eph_BDS_CNV_tgd (E : Ext) (sat : Int) (toc : gtime_t) (data : Nat → ℚ)
    (eph : eph_t) (mesgType : Int)
    (hret : (decode_eph_BDS_CNV E sat toc data eph mesgType).1 = 1) :
    ((mesgType = 1 ∨ mesgType = 2) →
      (decode_eph_BDS_CNV E sat toc data eph mesgType).2.tgd 5 = 0) ∧
    (mesgType = 3 →
      (decode_eph_BDS_CNV E sat toc data eph mesgType).2.tgd 3 = 0 ∧
      (decode_eph_BDS_CNV E sat toc data eph mesgType).2.tgd 4 = 0) := by
  by_cases hs : E.satsys sat.toNat &&& E.SYS_CMP = 0
  · have h0 : decode_eph_BDS_CNV E sat toc data eph mesgType = (0, eph) := by
      unfold decode_eph_BDS_CNV
      rw [if_pos hs]
    rw [h0] at hret
    have h01 : (0 : Int) = 1 := hret
    omega
  · constructor
    · intro hm
      rcases hm with h | h <;> subst h <;>
        simp [decode_eph_BDS_CNV, hs, eph_kepler, eph0, Function.update]
    · intro hm
      subst hm
      simp [decode_eph_BDS_CNV, hs, eph_kepler, eph0, Function.update]

/-- BeiDou satellite 106 (C01) with the fields `data[k] = k + 1`: the record is
committed for each message type; types 1 and 2 leave `tgd[5]` zero and store
`tgd[3] = 30`, type 3 leaves `tgd[3]`, `tgd[4]` zero and stores `tgd[5] = 31`. -/
theorem decode_eph_BDS_CNV_tgd_witness :
    ((decode_eph_BDS_CNV navExt 106 gtime0 dataRamp eph0 1).2.tgd 5 = 0 ∧
      (decode_eph_BDS_CNV navExt 106 gtime0 dataRamp eph0 1).2.tgd 3 = 30) ∧
    ((decode_eph_BDS_CNV navExt 106 gtime0 dataRamp eph0 3).2.tgd 3 = 0 ∧
      (decode_eph_BDS_CNV navExt 106 gtime0 dataRamp eph0 3).2.tgd 4 = 0 ∧
      (decode_eph_BDS_CNV navExt 106 gtime0 dataRamp eph0 3).2.tgd 5 = 31) := by
  have hs : ¬ (navExt.satsys (106 : Int).toNat &&& navExt.SYS_CMP = 0) := by decide
  have hs2 : ¬ (navExt.satsys 106 &&& navExt.SYS_CMP = 0) := by decide
  have r1 : (decode_eph_BDS_CNV navExt 106 gtime0 dataRamp eph0 1).1 = 1 := by
    unfold decode_eph_BDS_CNV
    rw [if_neg hs]
  have r3 : (decode_eph_BDS_CNV navExt 106 gtime0 dataRamp eph0 3).1 = 1 := by
    unfold decode_eph_BDS_CNV
    rw [if_neg hs]
  refine ⟨⟨(decode_eph_BDS_CNV_tgd navExt 106 gtime0 dataRamp eph0 1 r1).1 (Or.inl rfl), ?_⟩,
    (decode_eph_BDS_CNV_tgd navExt 106 gtime0 dataRamp eph0 3 r3).2 rfl |>.1,
    (decode_eph_BDS_CNV_tgd navExt 106 gtime0 dataRamp eph0 3 r3).2 rfl |>.2, ?_⟩
  · simp [decode_eph_BDS_CNV, hs2, eph_kepler, eph0, Function.update, dataRamp]
    norm_num
  · simp [decode_eph_BDS_CNV, hs2, eph_kepler, eph0, Function.update, dataRamp]
    norm_num

/-! ### Navigation body: dispatch of a record (C14, C15, C17) -/

theorem readrnxnavb_cont_frame (E : Ext) (buff : List Char) (st : navb_t) :
    (readrnxnavb_cont E buff st).i = st.i + 4 ∧
    (readrnxnavb_cont E buff st).sat = st.sat ∧
    (readrnxnavb_cont E buff st).sp = st.sp ∧
    (readrnxnavb_cont E buff st).sys = st.sys ∧
    (readrnxnavb_cont E buff st).recType = st.recType ∧
    (readrnxnavb_cont E buff st).megType = st.megType ∧
    (readrnxnavb_cont E buff st).toc = st.toc :=
  ⟨rfl, rfl, rfl, rfl, rfl, rfl, rfl⟩

theorem navb_read_frame (E : Ext) : ∀ (ls : List (List Char)) (st : navb_t),
    (navb_read E ls st).i = st.i + 4 * ls.length ∧
    (navb_read E ls st).sat = st.sat ∧
    (navb_read E ls st).sp = st.sp ∧
    (navb_read E ls st).sys = st.sys ∧
    (navb_read E ls st).recType = st.recType ∧
    (navb_read E ls st).megType = st.megType ∧
    (navb_read E ls st).toc = st.toc := by
  intro ls
  induction ls with
  | nil => intro st; exact ⟨rfl, rfl, rfl, rfl, rfl, rfl, rfl⟩
  | cons l ls ih =>
    intro st
    have h := ih (readrnxnavb_cont E l st)
    obtain ⟨c1, c2, c3, c4, c5, c6, c7⟩ := readrnxnavb_cont_frame E l st
    rw [c1, c2, c3, c4, c5, c6, c7] at h
    obtain ⟨h1, h2, h3, h4, h5, h6, h7⟩ := h
    refine ⟨?_, h2, h3, h4, h5, h6, h7⟩
    show (navb_read E ls (readrnxnavb_cont E l st)).i = _
    rw [h1, List.length_cons]
    omega

/-- No test of the chain applies while fewer than 31 fields are accumulated, for
a plain record of a system other than SBAS and GLONASS. -/
theorem readrnxnavb_dispatch_none (E : Ext) (ver : ℚ) (mask : Nat) (st : navb_t)
    (out : navret_t) (hrec : plainRec st.recType) (h1 : st.sys ≠ E.SYS_SBS)
    (h2 : st.sys ≠ E.SYS_GLO) (hi : st.i < 31) :
    readrnxnavb_dispatch E ver mask st out = none := by
  obtain ⟨r1, r2, r3⟩ := hrec
  have i31 : ¬ st.i ≥ 31 := by omega
  have i33 : ¬ st.i ≥ 33 := by omega
  have i34 : ¬ st.i ≥ 34 := by omega
  have i35 : ¬ st.i ≥ 35 := by omega
  have i37 : ¬ st.i ≥ 37 := by omega
  simp only [readrnxnavb_dispatch, r1, r2, r3, h1, h2, i31, i33, i34, i35, i37,
    Bool.false_eq_true, false_and, and_false, if_false]

theorem readrnxnavb_loop_none (E : Ext) (ver : ℚ) (mask : Nat) (buff : List Char)
    (fp : List (List Char)) (st : navb_t) (out : navret_t)
    (h : readrnxnavb_dispatch E ver mask (readrnxnavb_cont E buff st) { out with fp := fp }
      = none) :
    readrnxnavb_loop E ver mask (buff :: fp) st out =
      readrnxnavb_loop E ver mask fp (readrnxnavb_cont E buff st) out := by
  simp only [readrnxnavb_loop, h]

theorem readrnxnavb_loop_some (E : Ext) (ver : ℚ) (mask : Nat) (buff : List Char)
    (fp : List (List Char)) (st : navb_t) (out r : navret_t)
    (h : readrnxnavb_dispatch E ver mask (readrnxnavb_cont E buff st) { out with fp := fp }
      = some r) :
    readrnxnavb_loop E ver mask (buff :: fp) st out = r := by
  simp only [readrnxnavb_loop, h]

/-- The loop reads on, without returning, over continuation lines that leave
fewer than 31 fields accumulated. -/
theorem readrnxnavb_loop_skip (E : Ext) (ver : ℚ) (mask : Nat) (fp : List (List Char))
    (out : navret_t) : ∀ (ls : List (List Char)) (st : navb_t),
    plainRec st.recType → st.sys ≠ E.SYS_SBS → st.sys ≠ E.SYS_GLO →
    st.i + 4 * ls.length < 31 →
    readrnxnavb_loop E ver mask (ls ++ fp) st out =
      readrnxnavb_loop E ver mask fp (navb_read E ls st) out := by
  intro ls
  induction ls with
  | nil => intro st _ _ _ _; rfl
  | cons l ls ih =>
    intro st hrec h1 h2 hi
    rw [List.length_cons] at hi
    rw [List.cons_append, readrnxnavb_loop_none E ver mask l (ls ++ fp) st out
      (readrnxnavb_dispatch_none E ver mask _ _ hrec h1 h2
        (by show st.i + 4 < 31; omega))]
    exact ih (readrnxnavb_cont E l st) hrec h1 h2 (by show st.i + 4 + 4 * ls.length < 31; omega)

theorem SysDistinct_ne (E : Ext) (h : SysDistinct E) :
    E.SYS_GPS ≠ E.SYS_SBS ∧ E.SYS_GPS ≠ E.SYS_GLO ∧ E.SYS_GPS ≠ E.SYS_GAL ∧
    E.SYS_GPS ≠ E.SYS_QZS ∧ E.SYS_GPS ≠ E.SYS_CMP ∧ E.SYS_GPS ≠ E.SYS_IRN ∧
    E.SYS_SBS ≠ E.SYS_GLO ∧ E.SYS_SBS ≠ E.SYS_GAL ∧ E.SYS_SBS ≠ E.SYS_QZS ∧
    E.SYS_SBS ≠ E.SYS_CMP ∧ E.SYS_SBS ≠ E.SYS_IRN ∧
    E.SYS_GLO ≠ E.SYS_GAL ∧ E.SYS_GLO ≠ E.SYS_QZS ∧ E.SYS_GLO ≠ E.SYS_CMP ∧
    E.SYS_GLO ≠ E.SYS_IRN ∧
    E.SYS_GAL ≠ E.SYS_QZS ∧ E.SYS_GAL ≠ E.SYS_CMP ∧ E.SYS_GAL ≠ E.SYS_IRN ∧
    E.SYS_QZS ≠ E.SYS_CMP ∧ E.SYS_QZS ≠ E.SYS_IRN ∧ E.SYS_CMP ≠ E.SYS_IRN := by
  unfold SysDistinct at h
  simp only [List.nodup_cons, List.mem_cons, List.mem_singleton, not_or, List.not_mem_nil,
    not_false_eq_true, List.nodup_nil, and_true] at h
  obtain ⟨⟨a1, a2, a3, a4, a5, a6⟩, ⟨b1, b2, b3, b4, b5⟩, ⟨c1, c2, c3, c4⟩, ⟨d1, d2, d3⟩,
    ⟨e1, e2⟩, f1⟩ := h
  exact ⟨a1, a2, a3, a4, a5, a6, b1, b2, b3, b4, b5, c1, c2, c3, c4, d1, d2, d3, e1, e2, f1⟩

/-- With at least 31 fields of a plain GPS (message type without `CN`), Galileo
or BeiDou (message type without `CNV`) record, the chain reaches a branch that
returns through `decode_eph`. -/
theorem readrnxnavb_dispatch_eph (E : Ext) (ver : ℚ) (mask : Nat) (st : navb_t)
    (out : navret_t) (hd : SysDistinct E) (hrec : plainRec st.recType) (hi : 31 ≤ st.i)
    (hsys : (st.sys = E.SYS_GPS ∧ strstr st.megType "CN".toList = false) ∨
      st.sys = E.SYS_GAL ∨
      (st.sys = E.SYS_CMP ∧ strstr st.megType "CNV".toList = false)) :
    readrnxnavb_dispatch E ver mask st out =
      some (navb_eph mask st out (decode_eph E st.sat st.toc st.data out.eph)) := by
  obtain ⟨r1, r2, r3⟩ := hrec
  obtain ⟨a1, a2, a3, a4, a5, a6, b1, b2, b3, b4, b5, c1, c2, c3, c4, d1, d2, d3, e1, e2, f1⟩ :=
    SysDistinct_ne E hd
  have i31 : st.i ≥ 31 := hi
  rcases hsys with ⟨hs, hm⟩ | hs | ⟨hs, hm⟩
  · simp only [readrnxnavb_dispatch, r1, r2, r3, hs, hm, a1, a2, i31, Bool.false_eq_true,
      false_and, and_false, if_false, not_false_eq_true, and_self, true_and, and_true, if_true]
  · simp only [readrnxnavb_dispatch, r1, r2, r3, hs, b2.symm, c1.symm, a3.symm, i31,
      Bool.false_eq_true, false_and, and_false, if_false, not_false_eq_true, and_self,
      true_and, and_true, if_true]
  · simp only [readrnxnavb_dispatch, r1, r2, r3, hs, hm, b4.symm, c3.symm, a5.symm, d2.symm, i31,
      Bool.false_eq_true, false_and, and_false, if_false, not_false_eq_true, and_self,
      true_and, and_true, if_true]

/-- With at least 31 fields of a plain QZSS or IRNSS record of version 3, or of
message type `LNAV`, the chain reaches a branch that only returns 0. -/
theorem readrnxnavb_dispatch_skip (E : Ext) (ver : ℚ) (mask : Nat) (st : navb_t)
    (out : navret_t) (hd : SysDistinct E) (hrec : plainRec st.recType) (hi : 31 ≤ st.i)
    (hsys : st.sys = E.SYS_QZS ∨ st.sys = E.SYS_IRN)
    (hv : (ver ≥ 3 ∧ ver < 4) ∨ strstr st.megType "LNAV".toList = true) :
    readrnxnavb_dispatch E ver mask st out = some { out with ret := 0 } := by
  obtain ⟨r1, r2, r3⟩ := hrec
  obtain ⟨a1, a2, a3, a4, a5, a6, b1, b2, b3, b4, b5, c1, c2, c3, c4, d1, d2, d3, e1, e2, f1⟩ :=
    SysDistinct_ne E hd
  have i31 : st.i ≥ 31 := hi
  rcases hsys with hs | hs
  · rcases hv with ⟨v1, v2⟩ | hm
    · simp only [readrnxnavb_dispatch, r1, r2, r3, hs, b3.symm, c2.symm, a4.symm, d1.symm, e1,
        i31, v1, v2, Bool.false_eq_true, false_and, and_false, if_false, not_false_eq_true,
        and_self, true_and, and_true, if_true]
    · simp only [readrnxnavb_dispatch, r1, r2, r3, hs, b3.symm, c2.symm, a4.symm, d1.symm, e1,
        i31, hm, Bool.false_eq_true, false_and, and_false, if_false, not_false_eq_true,
        and_self, true_and, and_true, if_true, ite_self]
  · rcases hv with ⟨v1, v2⟩ | hm
    · simp only [readrnxnavb_dispatch, r1, r2, r3, hs, b5.symm, c4.symm, a6.symm, d3.symm,
        e2.symm, f1.symm, i31, v1, v2, Bool.false_eq_true, false_and, and_false, if_false,
        not_false_eq_true, and_self, true_and, and_true, if_true]
    · simp only [readrnxnavb_dispatch, r1, r2, r3, hs, b5.symm, c4.symm, a6.symm, d3.symm,
        e2.symm, f1.symm, i31, hm, Bool.false_eq_true, false_and, and_false, if_false,
        not_false_eq_true, and_self, true_and, and_true, if_true, ite_self]

theorem navb_read_concat (E : Ext) (ls : List (List Char)) (l : List Char) (st : navb_t) :
    navb_read E (ls ++ [l]) st = readrnxnavb_cont E l (navb_read E ls st) := by
  unfold navb_read
  rw [List.foldl_append]
  rfl

/-- After the seven continuation lines `ls` of a plain record of a system other
than SBAS and GLONASS, the loop is at the chain of tests with 31 fields. -/
theorem readrnxnavb_loop_31 (E : Ext) (ver : ℚ) (mask : Nat) (ls rest : List (List Char))
    (st : navb_t) (out : navret_t) (hlen : ls.length = 7) (hi : st.i = 3)
    (hrec : plainRec st.recType) (h1 : st.sys ≠ E.SYS_SBS) (h2 : st.sys ≠ E.SYS_GLO) :
    (navb_read E ls st).i = 31 ∧
    readrnxnavb_loop E ver mask (ls ++ rest) st out =
      match readrnxnavb_dispatch E ver mask (navb_read E ls st) { out with fp := rest } with
      | some r => r
      | none => readrnxnavb_loop E ver mask rest (navb_read E ls st) out := by
  have hne : ls ≠ [] := by
    intro h
    rw [h] at hlen
    exact absurd hlen (by decide)
  obtain ⟨ini, l, hl⟩ : ∃ ini l, ls = ini ++ [l] :=
    ⟨ls.dropLast, ls.getLast hne, (List.dropLast_append_getLast hne).symm⟩
  have hini : ini.length = 6 := by
    rw [hl, List.length_append, List.length_singleton] at hlen
    omega
  constructor
  · rw [(navb_read_frame E ls st).1, hi, hlen]
  · rw [hl, List.append_assoc, readrnxnavb_loop_skip E ver mask ([l] ++ rest) out ini st hrec h1 h2
      (by rw [hi, hini]; decide), navb_read_concat]
    rfl

/-- Return value of `decode_eph`. -/
theorem decode_eph_ret (E : Ext) (sat : Int) (toc : gtime_t) (data : Nat → ℚ) (eph : eph_t) :
    (decode_eph E sat toc data eph).1 =
      if E.satsys sat.toNat &&&
        (E.SYS_GPS ||| E.SYS_GAL ||| E.SYS_QZS ||| E.SYS_CMP ||| E.SYS_IRN) = 0 then 0 else 1 := by
  unfold decode_eph
  by_cases h : E.satsys sat.toNat &&&
      (E.SYS_GPS ||| E.SYS_GAL ||| E.SYS_QZS ||| E.SYS_CMP ||| E.SYS_IRN) = 0
  · rw [if_pos h, if_pos h]
  · rw [if_neg h, if_neg h]

/-- A plain GPS, Galileo or BeiDou record: after the first line and seven
continuation lines `readrnxnavb` returns through `decode_eph` on the 31 fields. -/
theorem readrnxnavb_head_eph (E : Ext) (ver : ℚ) (mask : Nat) (buff : List Char)
    (ls rest : List (List Char)) (sat : Int) (sys sp : Nat) (recType megType : List Char)
    (d0 : Nat → ℚ) (out : navret_t) (toc : gtime_t) (hd : SysDistinct E)
    (htoc : E.str2time (buff.drop sp) 0 19 = some toc) (hlen : ls.length = 7)
    (hrec : plainRec recType)
    (hsys : (sys = E.SYS_GPS ∧ strstr megType "CN".toList = false) ∨ sys = E.SYS_GAL ∨
      (sys = E.SYS_CMP ∧ strstr megType "CNV".toList = false)) :
    readrnxnavb_head E ver mask buff (ls ++ rest) sat sys sp recType megType d0 out =
      if mask &&& sys = 0 then { out with ret := 0, fp := rest }
      else
        let data := (navb_read E ls
          { i := 3, sat := sat, sp := sp, sys := sys, recType := recType, megType := megType,
            toc := toc, data := readrnxnavb_first E buff recType sp d0 }).data
        { out with
          ret := (decode_eph E sat toc data out.eph).1, type := 0,
          eph := (decode_eph E sat toc data out.eph).2, fp := rest } := by
  obtain ⟨a1, a2, a3, a4, a5, a6, b1, b2, b3, b4, b5, c1, c2, c3, c4, d1, d2, d3, e1, e2, f1⟩ :=
    SysDistinct_ne E hd
  have h1 : sys ≠ E.SYS_SBS := by
    rcases hsys with ⟨h, -⟩ | h | ⟨h, -⟩ <;> rw [h]
    · exact a1
    · exact b2.symm
    · exact b4.symm
  have h2 : sys ≠ E.SYS_GLO := by
    rcases hsys with ⟨h, -⟩ | h | ⟨h, -⟩ <;> rw [h]
    · exact a2
    · exact c1.symm
    · exact c3.symm
  unfold readrnxnavb_head
  rw [htoc]
  simp only
  generalize hst : (⟨3, sat, sp, sys, recType, megType, toc,
    readrnxnavb_first E buff recType sp d0⟩ : navb_t) = st
  have hi : st.i = 3 := by rw [← hst]
  have hsy : st.sys = sys := by rw [← hst]
  have hrt : st.recType = recType := by rw [← hst]
  have hmt : st.megType = megType := by rw [← hst]
  have hsa : st.sat = sat := by rw [← hst]
  have htc : st.toc = toc := by rw [← hst]
  obtain ⟨k1, k2⟩ := readrnxnavb_loop_31 E ver mask ls rest st out hlen hi (by rw [hrt]; exact hrec)
    (by rw [hsy]; exact h1) (by rw [hsy]; exact h2)
  obtain ⟨f1, f2, f3, f4, f5, f6, f7⟩ := navb_read_frame E ls st
  rw [k2, readrnxnavb_dispatch_eph E ver mask _ _ hd (by rw [f5, hrt]; exact hrec)
    (by rw [k1]) (by rw [f4, f6, hsy, hmt]; exact hsys)]
  simp only [navb_eph, f2, f4, f7, hsy, hsa, htc]

/-- A plain QZSS or IRNSS record of version 3, or of message type `LNAV`: after
the first line and seven continuation lines `readrnxnavb` returns 0 and leaves
everything behind its output pointers as it was. -/
theorem readrnxnavb_head_skip (E : Ext) (ver : ℚ) (mask : Nat) (buff : List Char)
    (ls rest : List (List Char)) (sat : Int) (sys sp : Nat) (recType megType : List Char)
    (d0 : Nat → ℚ) (out : navret_t) (toc : gtime_t) (hd : SysDistinct E)
    (htoc : E.str2time (buff.drop sp) 0 19 = some toc) (hlen : ls.length = 7)
    (hrec : plainRec recType) (hsys : sys = E.SYS_QZS ∨ sys = E.SYS_IRN)
    (hv : (ver ≥ 3 ∧ ver < 4) ∨ strstr megType "LNAV".toList = true) :
    readrnxnavb_head E ver mask buff (ls ++ rest) sat sys sp recType megType d0 out =
      { out with ret := 0, fp := rest } := by
  obtain ⟨a1, a2, a3, a4, a5, a6, b1, b2, b3, b4, b5, c1, c2, c3, c4, d1, d2, d3, e1, e2, f1⟩ :=
    SysDistinct_ne E hd
  have h1 : sys ≠ E.SYS_SBS := by
    rcases hsys with h | h <;> rw [h]
    · exact b3.symm
    · exact b5.symm
  have h2 : sys ≠ E.SYS_GLO := by
    rcases hsys with h | h <;> rw [h]
    · exact c2.symm
    · exact c4.symm
  unfold readrnxnavb_head
  rw [htoc]
  simp only
  generalize hst : (⟨3, sat, sp, sys, recType, megType, toc,
    readrnxnavb_first E buff recType sp d0⟩ : navb_t) = st
  have hi : st.i = 3 := by rw [← hst]
  have hsy : st.sys = sys := by rw [← hst]
  have hrt : st.recType = recType := by rw [← hst]
  have hmt : st.megType = megType := by rw [← hst]
  obtain ⟨k1, k2⟩ := readrnxnavb_loop_31 E ver mask ls rest st out hlen hi (by rw [hrt]; exact hrec)
    (by rw [hsy]; exact h1) (by rw [hsy]; exact h2)
  obtain ⟨f1, f2, f3, f4, f5, f6, f7⟩ := navb_read_frame E ls st
  rw [k2, readrnxnavb_dispatch_skip E ver mask _ _ hd (by rw [f5, hrt]; exact hrec)
    (by rw [k1]) (by rw [f4, hsy]; exact hsys) (by rw [f6, hmt]; exact hv)]

/-- Function `readrnxnavb` for a version below 4 on a stream with a first line. -/
theorem readrnxnavb_v3 (E : Ext) (buff : List Char) (fp : List (List Char)) (opt : List Char)
    (ver : ℚ) (sys : Nat) (d0 : Nat → ℚ) (out : navret_t) (hv : ver < 4) :
    readrnxnavb E (buff :: fp) opt ver sys d0 out =
      readrnxnavb_head E ver (set_sysmask E opt) buff fp (readrnxnavb_sat E buff ver sys).1
        (readrnxnavb_sat E buff ver sys).2.1 (readrnxnavb_sat E buff ver sys).2.2 [] [] d0
        out := by
  unfold readrnxnavb
  simp only [ge_iff_le, not_le.mpr hv, if_false]

theorem plainRec_nil : plainRec [] := by
  unfold plainRec
  decide

/-- C14 (amended): for a plain record (record type without `STO`, `EOP`, `ION`)
of a system enabled by the mask, after the first line and seven continuation
lines, that is with 31 fields accumulated: for GPS with a message type without
`CN`, for Galileo, and for BeiDou with a message type without `CNV`,
`readrnxnavb` sets type 0 and returns what `decode_eph` returns on the 31
fields, which is 1 when the satellite number belongs to one of the five systems
of `decode_eph`; for QZSS and IRNSS (version 3, or message type `LNAV`) it
returns 0 and leaves type and the records as they were. -/
theorem readrnxnavb_legacy (E : Ext) (ver : ℚ) (mask : Nat) (buff : List Char)
    (ls rest : List (List Char)) (sat : Int) (sys sp : Nat) (recType megType : List Char)
    (d0 : Nat → ℚ) (out : navret_t) (toc : gtime_t) (hd : SysDistinct E)
    (htoc : E.str2time (buff.drop sp) 0 19 = some toc) (hlen : ls.length = 7)
    (hrec : plainRec recType) (hmask : mask &&& sys ≠ 0) :
    (((sys = E.SYS_GPS ∧ strstr megType "CN".toList = false) ∨ sys = E.SYS_GAL ∨
        (sys = E.SYS_CMP ∧ strstr megType "CNV".toList = false)) →
      readrnxnavb_head E ver mask buff (ls ++ rest) sat sys sp recType megType d0 out =
        { out with
          ret := (decode_eph E sat toc (navb_read E ls
            { i := 3, sat := sat, sp := sp, sys := sys, recType := recType, megType := megType,
              toc := toc, data := readrnxnavb_first E buff recType sp d0 }).data out.eph).1,
          type := 0,
          eph := (decode_eph E sat toc (navb_read E ls
            { i := 3, sat := sat, sp := sp, sys := sys, recType := recType, megType := megType,
              toc := toc, data := readrnxnavb_first E buff recType sp d0 }).data out.eph).2,
          fp := rest } ∧
      (E.satsys sat.toNat &&&
          (E.SYS_GPS ||| E.SYS_GAL ||| E.SYS_QZS ||| E.SYS_CMP ||| E.SYS_IRN) ≠ 0 →
        (readrnxnavb_head E ver mask buff (ls ++ rest) sat sys sp recType megType d0 out).ret
          = 1)) ∧
    ((sys = E.SYS_QZS ∨ sys = E.SYS_IRN) →
      ((ver ≥ 3 ∧ ver < 4) ∨ strstr megType "LNAV".toList = true) →
      readrnxnavb_head E ver mask buff (ls ++ rest) sat sys sp recType megType d0 out =
        { out with ret := 0, fp := rest }) := by
  constructor
  · intro hsys
    have h := readrnxnavb_head_eph E ver mask buff ls rest sat sys sp recType megType d0 out toc
      hd htoc hlen hrec hsys
    rw [if_neg hmask] at h
    refine ⟨h, ?_⟩
    intro hs
    rw [h]
    show (decode_eph E sat toc _ out.eph).1 = 1
    rw [decode_eph_ret, if_neg hs]
  · intro hsys hv
    exact readrnxnavb_head_skip E ver mask buff ls rest sat sys sp recType megType d0 out toc
      hd htoc hlen hrec hsys hv

theorem navExt_distinct : SysDistinct navExt := by
  unfold SysDistinct
  decide

theorem navExt_toc (c : Char) :
    navExt.str2time ((c :: lineNavG.drop 1).drop 4) 0 19 = some { time := 202, sec := 0 } := rfl

/-- C14 (as stated) fails for QZSS: on the sample version 3 record of satellite
J01 with seven continuation lines and every system enabled, `readrnxnavb`
returns 0 and leaves type at its old value, although `decode_eph` would accept
the satellite. -/
theorem readrnxnavb_legacy_counterexample :
    set_sysmask navExt [] &&& navExt.satid2sys (lineNavJ.take 3) ≠ 0 ∧
    navExt.satid2sys (lineNavJ.take 3) = navExt.SYS_QZS ∧
    (∀ data, (decode_eph navExt (navExt.satid2no (lineNavJ.take 3))
      { time := 202, sec := 0 } data eph0).1 = 1) ∧
    (readrnxnavb navExt (lineNavJ :: List.replicate 7 lineNavC) [] 3 0 (fun _ => 0)
      navret0).ret = 0 ∧
    (readrnxnavb navExt (lineNavJ :: List.replicate 7 lineNavC) [] 3 0 (fun _ => 0)
      navret0).type = -1 := by
  have hv : (3 : ℚ) ≥ 3 := le_refl _
  have hsat : readrnxnavb_sat navExt lineNavJ 3 0 = (96, 16, 4) := by
    unfold readrnxnavb_sat
    rw [if_pos hv]
    rfl
  have h := readrnxnavb_head_skip navExt 3 (set_sysmask navExt []) lineNavJ
    (List.replicate 7 lineNavC) [] 96 16 4 [] [] (fun _ => 0) navret0 { time := 202, sec := 0 }
    navExt_distinct (navExt_toc 'J') rfl plainRec_nil (Or.inl rfl)
    (Or.inl ⟨hv, by norm_num⟩)
  rw [List.append_nil] at h
  refine ⟨by decide, by decide, ?_, ?_, ?_⟩
  · intro data
    rw [decode_eph_ret]
    rfl
  · rw [readrnxnavb_v3 navExt _ _ _ 3 0 _ _ (by norm_num), hsat, h]
  · rw [readrnxnavb_v3 navExt _ _ _ 3 0 _ _ (by norm_num), hsat, h]
    rfl

/-- The sample version 3 GPS record of satellite G01 with seven continuation
lines and every system enabled is committed: return value 1, type 0. -/
theorem readrnxnavb_legacy_witness :
    (readrnxnavb navExt (lineNavG :: List.replicate 7 lineNavC) [] 3 0 (fun _ => 0)
      navret0).ret = 1 ∧
    (readrnxnavb navExt (lineNavG :: List.replicate 7 lineNavC) [] 3 0 (fun _ => 0)
      navret0).type = 0 := by
  have hv : (3 : ℚ) ≥ 3 := le_refl _
  have hsat : readrnxnavb_sat navExt lineNavG 3 0 = (1, 1, 4) := by
    unfold readrnxnavb_sat
    rw [if_pos hv]
    rfl
  have h := (readrnxnavb_legacy navExt 3 (set_sysmask navExt []) lineNavG
    (List.replicate 7 lineNavC) [] 1 1 4 [] [] (fun _ => 0) navret0 { time := 202, sec := 0 }
    navExt_distinct (navExt_toc 'G') rfl plainRec_nil (by decide)).1
    (Or.inl ⟨rfl, by decide⟩)
  rw [List.append_nil] at h
  constructor
  · rw [readrnxnavb_v3 navExt _ _ _ 3 0 _ _ (by norm_num), hsat]
    exact h.2 (by decide)
  · rw [readrnxnavb_v3 navExt _ _ _ 3 0 _ _ (by norm_num), hsat, h.1]

/-- For a plain record of a system that is none of the seven known ones no test
of the chain ever applies, whatever the number of accumulated fields. -/
theorem readrnxnavb_dispatch_unknown (E : Ext) (ver : ℚ) (mask : Nat) (st : navb_t)
    (out : navret_t) (hrec : plainRec st.recType)
    (hsys : st.sys ∉ [E.SYS_GPS, E.SYS_SBS, E.SYS_GLO, E.SYS_GAL, E.SYS_QZS, E.SYS_CMP,
      E.SYS_IRN]) :
    readrnxnavb_dispatch E ver mask st out = none := by
  obtain ⟨r1, r2, r3⟩ := hrec
  simp only [List.mem_cons, List.mem_singleton, not_or, List.not_mem_nil, not_false_eq_true,
    and_true] at hsys
  obtain ⟨h1, h2, h3, h4, h5, h6, h7⟩ := hsys
  simp only [readrnxnavb_dispatch, r1, r2, r3, h1, h2, h3, h4, h5, h6, h7,
    Bool.false_eq_true, false_and, and_false, if_false]

/-- For such a record the loop takes every remaining line of the stream as a
continuation line and returns -1 at its end. -/
theorem readrnxnavb_loop_unknown (E : Ext) (ver : ℚ) (mask : Nat) (out : navret_t) :
    ∀ (ls : List (List Char)) (st : navb_t), plainRec st.recType →
    st.sys ∉ [E.SYS_GPS, E.SYS_SBS, E.SYS_GLO, E.SYS_GAL, E.SYS_QZS, E.SYS_CMP, E.SYS_IRN] →
    readrnxnavb_loop E ver mask ls st out = { out with ret := -1, fp := [] } := by
  intro ls
  induction ls with
  | nil => intro st _ _; rfl
  | cons l ls ih =>
    intro st hrec hsys
    rw [readrnxnavb_loop_none E ver mask l ls st out
      (readrnxnavb_dispatch_unknown E ver mask _ _ hrec hsys)]
    exact ih (readrnxnavb_cont E l st) hrec hsys

/-- C15 fails on the code: after the sample first line with the unknown
identifier `X01`, `readrnxnavb` takes any number `n` of following lines as
continuation lines of the same record, accumulating `3 + 4 * n` fields (more
than the 64 of the array `data` from `n = 16` on), and returns -1 with the
stream exhausted; no bound stops it and no later record is left for the next
call. -/
theorem readrnxnavb_unbounded (n : Nat) (tail : List (List Char)) :
    readrnxnavb navExt (lineNavX :: (List.replicate n lineNavC ++ tail)) [] 3 0 (fun _ => 0)
      navret0 = { navret0 with ret := -1, fp := [] } ∧
    (navb_read navExt (List.replicate n lineNavC)
      { i := 3, sat := 0, sp := 4, sys := 0, recType := [], megType := [],
        toc := { time := 202, sec := 0 },
        data := readrnxnavb_first navExt lineNavX [] 4 (fun _ => 0) }).i = 3 + 4 * n := by
  have hv : (3 : ℚ) ≥ 3 := le_refl _
  have hsat : readrnxnavb_sat navExt lineNavX 3 0 = (0, 0, 4) := by
    unfold readrnxnavb_sat
    rw [if_pos hv]
    rfl
  constructor
  · rw [readrnxnavb_v3 navExt _ _ _ 3 0 _ _ (by norm_num), hsat]
    unfold readrnxnavb_head
    have ht : navExt.str2time (List.drop (0, 0, 4).2.2 lineNavX) 0 19 =
        some { time := 202, sec := 0 } := rfl
    rw [ht]
    exact readrnxnavb_loop_unknown navExt 3 _ navret0 _ _ plainRec_nil (by decide)
  · rw [(navb_read_frame navExt _ _).1, List.length_replicate]

/-! ### Records of a system outside the mask (C17) -/

/-- An observation line of a satellite whose system is not in the mask makes
`decode_obsdata` return 0. -/
theorem decode_obsdata_masked (E : Ext) (fp : List (List Char)) (buff : List Char) (ver : ℚ)
    (mask : Nat) (index : Nat → sigind_t) (obs : obsd_t)
    (h : E.satsys (obsSat E buff ver obs) &&& mask = 0) :
    (decode_obsdata E fp buff ver mask index obs).ret = 0 := by
  have hs : obsStat E mask (obsSat E buff ver obs) = false := by
    unfold obsStat
    split_ifs <;> rfl
  unfold decode_obsdata
  simp only [hs, if_true]

theorem navb_eph_masked (mask : Nat) (st : navb_t) (out : navret_t) (r : Int × eph_t)
    (hm : mask &&& st.sys = 0) : navb_eph mask st out r = { out with ret := 0 } := by
  unfold navb_eph
  rw [if_pos hm]

theorem navb_geph_masked (mask : Nat) (st : navb_t) (out : navret_t) (r : Int × geph_t)
    (hm : mask &&& st.sys = 0) : navb_geph mask st out r = { out with ret := 0 } := by
  unfold navb_geph
  rw [if_pos hm]

theorem navb_ion_masked (mask : Nat) (st : navb_t) (out : navret_t) (ty : Int) (r : Int × ion_t)
    (hm : mask &&& st.sys = 0) : navb_ion mask st out ty r = { out with ret := 0 } := by
  unfold navb_ion
  rw [if_pos hm]

theorem of_ite_some {α : Type} (P : α → Prop) {c : Prop} [Decidable c] {a : α}
    {rest : Option α} {r : α} (h : (if c then some a else rest) = some r) (ha : P a)
    (hr : rest = some r → P r) : P r := by
  by_cases hc : c
  · rw [if_pos hc] at h
    cases h
    exact ha
  · rw [if_neg hc] at h
    exact hr h

/-- When the system that `readrnxnavb` dispatches on is not in the mask, no
return of the chain of tests hands a record out: the return value is 0 and the
four records are as before. -/
theorem readrnxnavb_dispatch_masked (E : Ext) (ver : ℚ) (mask : Nat) (st : navb_t)
    (out r : navret_t) (hm : mask &&& st.sys = 0)
    (h : readrnxnavb_dispatch E ver mask st out = some r) :
    r.ret = 0 ∧ r.eph = out.eph ∧ r.geph = out.geph ∧ r.seph = out.seph ∧ r.ion = out.ion := by
  unfold readrnxnavb_dispatch at h
  dsimp only at h
  iterate 22
    refine of_ite_some (fun r : navret_t => r.ret = 0 ∧ r.eph = out.eph ∧ r.geph = out.geph ∧
      r.seph = out.seph ∧ r.ion = out.ion) h
      (by first
        | exact ⟨rfl, rfl, rfl, rfl, rfl⟩
        | (rw [navb_eph_masked _ _ _ _ hm]; exact ⟨rfl, rfl, rfl, rfl, rfl⟩)
        | (rw [navb_geph_masked _ _ _ _ hm]; exact ⟨rfl, rfl, rfl, rfl, rfl⟩)
        | (rw [navb_ion_masked _ _ _ _ _ hm]; exact ⟨rfl, rfl, rfl, rfl, rfl⟩)
        | (rw [if_pos hm]; exact ⟨rfl, rfl, rfl, rfl, rfl⟩)) ?_
    clear h
    intro h
  exact absurd h (by simp)

/-- When the system that `readrnxnavb` dispatches on is not in the mask, the
loop over the continuation lines returns 0, or -1 with the stream exhausted,
and leaves the four records as they were. -/
theorem readrnxnavb_loop_masked (E : Ext) (ver : ℚ) (mask : Nat) (out : navret_t) :
    ∀ (ls : List (List Char)) (st : navb_t), mask &&& st.sys = 0 →
    ((readrnxnavb_loop E ver mask ls st out).ret = 0 ∨
      ((readrnxnavb_loop E ver mask ls st out).ret = -1 ∧
        (readrnxnavb_loop E ver mask ls st out).fp = [])) ∧
    (readrnxnavb_loop E ver mask ls st out).eph = out.eph ∧
    (readrnxnavb_loop E ver mask ls st out).geph = out.geph ∧
    (readrnxnavb_loop E ver mask ls st out).seph = out.seph ∧
    (readrnxnavb_loop E ver mask ls st out).ion = out.ion := by
  intro ls
  induction ls with
  | nil => intro st _; exact ⟨Or.inr ⟨rfl, rfl⟩, rfl, rfl, rfl, rfl⟩
  | cons l ls ih =>
    intro st hm
    cases hd : readrnxnavb_dispatch E ver mask (readrnxnavb_cont E l st) { out with fp := ls } with
    | none =>
      rw [readrnxnavb_loop_none E ver mask l ls st out hd]
      exact ih (readrnxnavb_cont E l st) hm
    | some r =>
      rw [readrnxnavb_loop_some E ver mask l ls st out r hd]
      obtain ⟨h1, h2, h3, h4, h5⟩ := readrnxnavb_dispatch_masked E ver mask _ _ r
        (show mask &&& (readrnxnavb_cont E l st).sys = 0 from hm) hd
      exact ⟨Or.inl h1, h2, h3, h4, h5⟩

/-- The record that `decode_eph` commits carries the satellite number given. -/
theorem decode_eph_sat (E : Ext) (sat : Int) (toc : gtime_t) (data : Nat → ℚ) (eph : eph_t)
    (h : (decode_eph E sat toc data eph).1 = 1) : (decode_eph E sat toc data eph).2.sat = sat := by
  unfold decode_eph at h ⊢
  by_cases hs : E.satsys sat.toNat &&&
      (E.SYS_GPS ||| E.SYS_GAL ||| E.SYS_QZS ||| E.SYS_CMP ||| E.SYS_IRN) = 0
  · rw [if_pos hs] at h
    have h01 : (0 : Int) = 1 := h
    omega
  · rw [if_neg hs]
    dsimp only
    split_ifs <;> rfl

/-- C17 fails on the code: in a version 2 GPS navigation file read with the
option `-SYS=G`, the record with the prn 93 of the QZSS extension is decoded for
a QZSS satellite, the mask test is made with the system of the file, and
`readrnxnavb` returns 1 with type 0 and the QZSS ephemeris although QZSS is not
in the mask. -/
theorem readrnxnavb_mask_v2_qzss :
    set_sysmask navExt optG &&& navExt.SYS_QZS = 0 ∧
    (readrnxnavb navExt (lineNav93 :: List.replicate 7 lineNavC2) optG 2.11 navExt.SYS_GPS
      (fun _ => 0) navret0).ret = 1 ∧
    (readrnxnavb navExt (lineNav93 :: List.replicate 7 lineNavC2) optG 2.11 navExt.SYS_GPS
      (fun _ => 0) navret0).type = 0 ∧
    navExt.satsys (readrnxnavb navExt (lineNav93 :: List.replicate 7 lineNavC2) optG 2.11
      navExt.SYS_GPS (fun _ => 0) navret0).eph.sat.toNat = navExt.SYS_QZS := by
  have hv : ¬ ((2.11 : ℚ) ≥ 3) := by norm_num
  have hprn : toInt (navExt.str2num lineNav93 0 2) = 93 := sample_toInt lineNav93 0 2 93 (by decide)
  have hsat : readrnxnavb_sat navExt lineNav93 2.11 navExt.SYS_GPS = (96, 1, 3) := by
    unfold readrnxnavb_sat
    rw [if_neg hv]
    simp only [hprn]
    decide
  have h := readrnxnavb_head_eph navExt 2.11 (set_sysmask navExt optG) lineNav93
    (List.replicate 7 lineNavC2) [] 96 1 3 [] [] (fun _ => 0) navret0 { time := 20, sec := 0 }
    navExt_distinct rfl rfl plainRec_nil (Or.inl ⟨rfl, by decide⟩)
  rw [List.append_nil, if_neg (by decide)] at h
  have e := readrnxnavb_v3 navExt lineNav93 (List.replicate 7 lineNavC2) optG 2.11 navExt.SYS_GPS
    (fun _ => 0) navret0 (by norm_num)
  rw [hsat] at e
  rw [e, h]
  dsimp only
  have hr : ∀ data, (decode_eph navExt 96 { time := 20, sec := 0 } data navret0.eph).1 = 1 := by
    intro data
    rw [decode_eph_ret]
    rfl
  refine ⟨by decide, hr _, rfl, ?_⟩
  show navExt.satsys (decode_eph navExt 96 _ _ navret0.eph).2.sat.toNat = _
  rw [decode_eph_sat _ _ _ _ _ (hr _)]
  rfl

/-! ### Merging precise clock entries (C20) -/

/-- One merging step: when entry `j` has the time of the current entry `i`, each
clock value of entry `i` is replaced by that of entry `j` unless the latter
is 0. -/
theorem combpclk_step_merge (E : Ext) (i : Nat) (p : Nat → pclk_t) (j : Nat)
    (ht : |E.timediff (p i).time (p j).time| < 1e-9) :
    (combpclk_step E (i, p) j).1 = i ∧
    ∀ k, k < E.MAXSAT → ((combpclk_step E (i, p) j).2 i).clk k =
      if (p j).clk k = 0 then (p i).clk k else (p j).clk k := by
  unfold combpclk_step
  simp only [ht, if_true, Function.update_same, combpclk_merge, true_and]
  intro k hk
  by_cases h0 : (p j).clk k = 0
  · rw [if_neg (by rw [h0]; simp), if_pos h0]
  · rw [if_pos ⟨hk, h0⟩, if_neg h0]

theorem qsort_pclk_two (E : Ext) (a b : pclk_t) (pclk : Nat → pclk_t) (h0 : pclk 0 = a)
    (h1 : pclk 1 = b) (hc : cmppclk E a b ≤ 0) :
    qsort_pclk E pclk 2 0 = a ∧ qsort_pclk E pclk 2 1 = b := by
  have hl : ((List.range 2).map pclk).insertionSort (fun x y => cmppclk E x y ≤ 0) = [a, b] := by
    have : (List.range 2).map pclk = [a, b] := by
      rw [← h0, ← h1]; rfl
    rw [this]
    simp only [List.insertionSort, List.orderedInsert, hc, if_true]
  unfold qsort_pclk
  simp only [hl]
  exact ⟨rfl, rfl⟩

/-- A store of two entries with the same time, `a` with the smaller index:
`combpclk` leaves one entry, which has the clock values of `b` where they are
not 0 and those of `a` elsewhere. -/
theorem combpclk_pair (E : Ext) (nav : pclkstore_t) (a b : pclk_t)
    (hnc : nav.nc = 2) (h0 : nav.pclk 0 = a) (h1 : nav.pclk 1 = b)
    (hidx : a.index < b.index) (ht : |E.timediff a.time b.time| < 1e-9) :
    (combpclk E true nav).nc = 1 ∧
    ∀ k, k < E.MAXSAT → ((combpclk E true nav).pclk 0).clk k =
      if b.clk k = 0 then a.clk k else b.clk k := by
  have hc : cmppclk E a b ≤ 0 := by
    unfold cmppclk
    rw [abs_lt] at ht
    dsimp only
    split_ifs
    · decide
    · linarith
    · omega
  obtain ⟨q0, q1⟩ := qsort_pclk_two E a b nav.pclk h0 h1 hc
  have hs : (List.range' 1 (nav.nc.toNat - 1)).foldl (combpclk_step E)
      (0, qsort_pclk E nav.pclk nav.nc.toNat) =
      combpclk_step E (0, qsort_pclk E nav.pclk 2) 1 := by
    rw [hnc]
    rfl
  have hm := combpclk_step_merge E 0 (qsort_pclk E nav.pclk 2) 1 (by rw [q0, q1]; exact ht)
  unfold combpclk
  rw [if_neg (by rw [hnc]; decide)]
  simp only [hs, if_true, hm.1]
  refine ⟨rfl, ?_⟩
  intro k hk
  rw [hm.2 k hk, q0, q1]

/-- C20 (amended): for a store of two entries with the same time (to within
1e-9 s), `a` inserted before `b`, `combpclk` leaves one entry, and for every
satellite its clock value is the value of the later entry `b` unless that value
is 0, in which case it is the value of the earlier entry `a`. -/
theorem combpclk_merge_two (E : Ext) (nav : pclkstore_t) (a b : pclk_t)
    (hnc : nav.nc = 2) (h0 : nav.pclk 0 = a) (h1 : nav.pclk 1 = b)
    (hidx : a.index < b.index) (ht : |E.timediff a.time b.time| < 1e-9) :
    (combpclk E true nav).nc = 1 ∧
    ∀ k, k < E.MAXSAT → ((combpclk E true nav).pclk 0).clk k =
      if b.clk k = 0 then a.clk k else b.clk k :=
  combpclk_pair E nav a b hnc h0 h1 hidx ht

theorem pclkAB_time : |sampleExt.timediff pclkA.time pclkB.time| < 1e-9 := by
  have : sampleExt.timediff pclkA.time pclkB.time = 0 := by
    simp [sampleExt, pclkA, pclkB]
  rw [this]
  norm_num

/-- C20 (as stated) fails: the sample entries `pclkA` (inserted first, clock
value 1 for satellite index 0) and `pclkB` (inserted later, same time, clock
value 2) are merged into an entry with the clock value 2, not the value 1 of the
earlier entry, although that value is not the unset value 0. -/
theorem combpclk_merge_counterexample :
    pclkA.index < pclkB.index ∧ |sampleExt.timediff pclkA.time pclkB.time| < 1e-9 ∧
    pclkA.clk 0 ≠ 0 ∧ (combpclk sampleExt true pclkAB).nc = 1 ∧
    ((combpclk sampleExt true pclkAB).pclk 0).clk 0 ≠ pclkA.clk 0 := by
  have h := combpclk_pair sampleExt pclkAB pclkA pclkB rfl rfl rfl (by decide) pclkAB_time
  refine ⟨by decide, pclkAB_time, by simp [pclkA], h.1, ?_⟩
  rw [h.2 0 (by decide)]
  simp [pclkA, pclkB]

/-- The sample store: satellite index 0 gets the value 2 of the later entry,
satellite index 1, for which the later entry holds 0, keeps the value 5 of the
earlier entry. -/
theorem combpclk_merge_two_witness :
    (combpclk sampleExt true pclkAB).nc = 1 ∧
    ((combpclk sampleExt true pclkAB).pclk 0).clk 0 = 2 ∧
    ((combpclk sampleExt true pclkAB).pclk 0).clk 1 = 5 := by
  have h := combpclk_merge_two sampleExt pclkAB pclkA pclkB rfl rfl rfl (by decide) pclkAB_time
  refine ⟨h.1, ?_, ?_⟩
  · rw [h.2 0 (by decide)]
    simp [pclkA, pclkB]
  · rw [h.2 1 (by decide)]
    simp [pclkA, pclkB]

/-! ### Navigation field formatter (C13) -/

theorem decDigits_length (n : Nat) : (decDigits n).length = Nat.log 10 n + 1 := by
  unfold decDigits
  by_cases h : n = 0
  · rw [if_pos h, h]
    simp
  · rw [if_neg h, List.length_map, List.length_reverse, Nat.digits_len 10 n (by decide) h]

theorem outnavf_exponent (value : ℚ) (e : Int) (h1 : (10 : ℚ) ^ (e - 1) ≤ |value|)
    (h2 : |value| < (10 : ℚ) ^ e) (h3 : ¬ |value| < 1e-99) :
    (if |value| < 1e-99 then 0 else Int.log 10 |value| + 1) = e := by
  rw [if_neg h3]
  have hpos : 0 < |value| := lt_of_lt_of_le (by positivity) h1
  have ha : e - 1 ≤ Int.log 10 |value| := by
    rw [← Int.zpow_le_iff_le_log (by decide) hpos]
    exact_mod_cast h1
  have hb : Int.log 10 |value| < e := by
    rw [← Int.lt_zpow_iff_log_lt (by decide) hpos]
    exact_mod_cast h2
  omega

theorem outnavf_length (value : ℚ) :
    (outnavf value).length =
      4 + (fmtMantissa (|value| / (10 : ℚ) ^
        ((if |value| < 1e-99 then 0 else Int.log 10 |value| + 1) - 12))).length +
      (fmtExponent (if |value| < 1e-99 then 0 else Int.log 10 |value| + 1)).length := by
  unfold outnavf
  by_cases hs : value < 0
  · simp only [if_pos hs, List.length_append, List.length_singleton]
    omega
  · simp only [if_neg hs, List.length_append, List.length_singleton]
    omega


theorem roundEven_bounds (x : ℚ) : ⌊x⌋ ≤ roundEven x ∧ roundEven x ≤ ⌊x⌋ + 1 := by
  unfold roundEven
  dsimp only
  split_ifs <;> constructor <;> omega

theorem roundEven_ge (x : ℚ) (a : Int) (h : (a : ℚ) ≤ x) : a ≤ roundEven x :=
  le_trans (Int.le_floor.mpr h) (roundEven_bounds x).1

theorem roundEven_le (x : ℚ) (b : Int) (h : x < (b : ℚ)) : roundEven x ≤ b := by
  have h1 : ⌊x⌋ < b := Int.floor_lt.mpr h
  have h2 := (roundEven_bounds x).2
  omega

theorem roundEven_small (x : ℚ) (h0 : 0 ≤ x) (h1 : x < 1 / 2) : roundEven x = 0 := by
  have hf : ⌊x⌋ = 0 := by
    rw [Int.floor_eq_iff]
    constructor
    · simpa using h0
    · norm_num
      linarith
  unfold roundEven
  dsimp only
  rw [hf]
  rw [if_pos (by simpa using h1)]

theorem log10_lt (n k : Nat) (hk : 0 < k) (h : n < 10 ^ k) : Nat.log 10 n < k := by
  by_cases hn : n = 0
  · rw [hn, Nat.log_zero_right]
    exact hk
  · exact Nat.log_lt_of_lt_pow hn h

theorem zeroPad_length (w : Nat) (s : List Char) : (zeroPad w s).length = max w s.length := by
  unfold zeroPad
  rw [List.length_append, List.length_replicate]
  omega

theorem fmtExponent_length (e : Int) (h1 : -99 ≤ e) (h2 : e ≤ 99) :
    (fmtExponent e).length = 3 := by
  unfold fmtExponent
  rw [List.length_cons, zeroPad_length, decDigits_length]
  have hlt : e.natAbs < 10 ^ 2 := by omega
  have : Nat.log 10 e.natAbs < 2 := log10_lt _ _ (by decide) hlt
  omega

/-- Length of the mantissa written by `%012.0f`: 12 characters for a rounded
value below 10^12, 13 for the rounded value 10^12. -/
theorem fmtMantissa_length (x : ℚ) (h0 : 0 ≤ x) (h1 : x < 1000000000000) :
    (fmtMantissa x).length = if roundEven x < 1000000000000 then 12 else 13 := by
  unfold fmtMantissa
  rw [zeroPad_length, decDigits_length]
  have ha : 0 ≤ roundEven x := roundEven_ge x 0 (by simpa using h0)
  have hb : roundEven x ≤ 1000000000000 := roundEven_le x 1000000000000 (by simpa using h1)
  by_cases hc : roundEven x < 1000000000000
  · rw [if_pos hc]
    have hlt : (roundEven x).toNat < 10 ^ 12 := by
      have : (10 : Nat) ^ 12 = 1000000000000 := by norm_num
      omega
    have : Nat.log 10 (roundEven x).toNat < 12 := log10_lt _ _ (by decide) hlt
    omega
  · rw [if_neg hc]
    have he : roundEven x = 1000000000000 := by omega
    have hl : Nat.log 10 1000000000000 = 12 := by
      have : (1000000000000 : Nat) = 10 ^ 12 := by norm_num
      rw [this, Nat.log_pow (by decide)]
    have hn : (1000000000000 : Int).toNat = 1000000000000 := Int.toNat_ofNat 1000000000000
    rw [he, hn, hl]
    rfl

/-- Length of the field written by `outnavf` for `|value| < 1e99`: 19 characters,
unless the mantissa is rounded up to 10^12, when it is 20. -/
theorem outnavf_length_cases (value : ℚ) (h : |value| < 1e99) :
    (outnavf value).length =
      if roundEven (|value| / (10 : ℚ) ^
        ((if |value| < 1e-99 then 0 else Int.log 10 |value| + 1) - 12)) < 1000000000000
      then 19 else 20 := by
  rw [outnavf_length]
  have key : ∀ e : Int, (if |value| < 1e-99 then 0 else Int.log 10 |value| + 1) = e →
      (-99 ≤ e ∧ e ≤ 99) ∧ |value| < (10 : ℚ) ^ e := by
    intro e he
    by_cases hs : |value| < 1e-99
    · rw [if_pos hs] at he
      rw [← he]
      refine ⟨⟨by decide, by decide⟩, ?_⟩
      refine lt_trans hs ?_
      norm_num
    · rw [if_neg hs] at he
      have hpos : 0 < |value| := lt_of_lt_of_le (by norm_num) (not_lt.mp hs)
      have h1 : Int.log 10 |value| < 99 := by
        rw [← Int.lt_zpow_iff_log_lt (by decide) hpos]
        refine lt_of_lt_of_le h ?_
        norm_num
      have h2 : -99 ≤ Int.log 10 |value| := by
        rw [← Int.zpow_le_iff_le_log (by decide) hpos]
        refine le_trans ?_ (not_lt.mp hs)
        norm_num
      refine ⟨⟨by omega, by omega⟩, ?_⟩
      rw [← he]
      exact_mod_cast Int.lt_zpow_succ_log_self (by decide : 1 < 10) |value|
  generalize (if |value| < 1e-99 then 0 else Int.log 10 |value| + 1) = e at key
  obtain ⟨⟨e1, e2⟩, hv⟩ := key e rfl
  have hp : (0 : ℚ) < (10 : ℚ) ^ (e - 12) := by positivity
  have hm0 : 0 ≤ |value| / (10 : ℚ) ^ (e - 12) := div_nonneg (abs_nonneg _) hp.le
  have hm1 : |value| / (10 : ℚ) ^ (e - 12) < 1000000000000 := by
    rw [div_lt_iff₀ hp]
    have : (1000000000000 : ℚ) * (10 : ℚ) ^ (e - 12) = (10 : ℚ) ^ e := by
      have h12 : (1000000000000 : ℚ) = (10 : ℚ) ^ (12 : Int) := by norm_num
      rw [h12, ← zpow_add₀ (by norm_num : (10 : ℚ) ≠ 0)]
      congr 1
      omega
    rw [this]
    exact hv
  rw [fmtMantissa_length _ hm0 hm1, fmtExponent_length e e1 e2]
  split_ifs <;> rfl

/-- C13 fails on the code: for the value 0.9999999999996 the mantissa
999999999999.6 is rounded by `%012.0f` to 1000000000000, which has 13 digits,
and `outnavf` writes 20 characters. -/
theorem outnavf_rounds_up :
    |(9999999999996 / 10000000000000 : ℚ)| < 1e99 ∧
    (outnavf (9999999999996 / 10000000000000)).length = 20 := by
  constructor
  · norm_num [abs_lt]
  · have he := outnavf_exponent (9999999999996 / 10000000000000) 0
      (by norm_num [abs_of_pos]) (by norm_num [abs_of_pos]) (by norm_num [abs_of_pos])
    have hm : |(9999999999996 / 10000000000000 : ℚ)| / (10 : ℚ) ^ ((0 : Int) - 12) =
        9999999999996 / 10 := by
      norm_num [abs_of_pos]
    have hf : ⌊(9999999999996 / 10 : ℚ)⌋ = 999999999999 := by
      rw [Int.floor_eq_iff]
      norm_num
    have hr : roundEven (9999999999996 / 10) = 1000000000000 := by
      unfold roundEven
      simp only [hf]
      norm_num
    have hmant : (fmtMantissa (9999999999996 / 10)).length = 13 := by
      rw [fmtMantissa_length _ (by norm_num) (by norm_num), hr]
      rfl
    rw [outnavf_length, he, hm, hmant, fmtExponent_length 0 (by decide) (by decide)]

/-! ### Round trip of a navigation field (C12) -/

/-- C12 fails on the code: `outrnxnavb` writes each member with `outnavf`, and
for the value 0.9999999999996 (for instance the mean anomaly `M0`) the field
written is ` .1000000000000E+00`; both this field and its first 19 columns,
which is what `readrnxnavb` reads, denote 0.1, so the decoded member differs
from the encoded one in the first significant digit. -/
theorem outnavf_carry_text :
    outnavf (9999999999996 / 10000000000000) = "  .1000000000000E+00".toList ∧
    sciFieldValue (outnavf (9999999999996 / 10000000000000)) = 1 / 10 ∧
    sciFieldValue ((outnavf (9999999999996 / 10000000000000)).take 19) = 1 / 10 := by
  have he := outnavf_exponent (9999999999996 / 10000000000000) 0
    (by norm_num [abs_of_pos]) (by norm_num [abs_of_pos]) (by norm_num [abs_of_pos])
  have hm : |(9999999999996 / 10000000000000 : ℚ)| / (10 : ℚ) ^ ((0 : Int) - 12) =
      9999999999996 / 10 := by
    norm_num [abs_of_pos]
  have hf : ⌊(9999999999996 / 10 : ℚ)⌋ = 999999999999 := by
    rw [Int.floor_eq_iff]
    norm_num
  have hr : roundEven (9999999999996 / 10) = 1000000000000 := by
    unfold roundEven
    simp only [hf]
    norm_num
  have hn : (1000000000000 : Int).toNat = 1000000000000 := Int.toNat_ofNat 1000000000000
  have hd : decDigits 1000000000000 = "1000000000000".toList := by
    unfold decDigits
    rw [if_neg (by norm_num)]
    have : Nat.digits 10 1000000000000 = [0, 0, 0, 0, 0, 0, 0, 0, 0, 0, 0, 0, 1] := by norm_num
    rw [this]
    decide
  have hmant : fmtMantissa (9999999999996 / 10) = "1000000000000".toList := by
    unfold fmtMantissa zeroPad
    rw [hr, hn, hd]
    rfl
  have hexp : fmtExponent 0 = "+00".toList := by
    unfold fmtExponent zeroPad decDigits
    decide
  have hs : ¬ ((9999999999996 / 10000000000000 : ℚ) < 0) := by norm_num
  have htext : outnavf (9999999999996 / 10000000000000) = "  .1000000000000E+00".toList := by
    have e1 : ∀ (v : ℚ) (e : Int), (if |v| < 1e-99 then 0 else Int.log 10 |v| + 1) = e →
        ¬ v < 0 → outnavf v =
          [' '] ++ [' '] ++ ['.'] ++ fmtMantissa (|v| / (10 : ℚ) ^ (e - 12)) ++ ['E'] ++
            fmtExponent e := by
      intro v e h1 h2
      unfold outnavf
      simp only [h1, if_neg h2]
    rw [e1 _ 0 he hs, hm, hmant, hexp]
    rfl
  refine ⟨htext, ?_, ?_⟩
  · rw [htext]
    have : sciFieldValue "  .1000000000000E+00".toList =
        (1 : ℚ) * ((1000000000000 : Nat) : ℚ) * (10 : ℚ) ^ ((1 : Int) * ((0 : Nat) : Int) - (13 : Nat)) := by
      rfl
    rw [this]
    norm_num
  · rw [htext]
    have : sciFieldValue ("  .1000000000000E+00".toList.take 19) =
        (1 : ℚ) * ((1000000000000 : Nat) : ℚ) * (10 : ℚ) ^ ((1 : Int) * ((0 : Nat) : Int) - (13 : Nat)) := by
      rfl
    rw [this]
    norm_num

/-! ### Restoring slips (C24) -/

theorem testBit_or_slip (x b : Nat) (hb : b ≠ 0) :
    (x ||| LLI_SLIP).testBit b = x.testBit b := by
  have h1 : Nat.testBit 1 b = false := by
    cases b with
    | zero => exact absurd rfl hb
    | succ k => simp [Nat.testBit_succ]
  rw [Nat.testBit_or]
  show (x.testBit b || Nat.testBit 1 b) = x.testBit b
  rw [h1, Bool.or_false]

/-- C24: after `restslips` for a record of satellite S, for every slot
`f < NFREQ`: the table entry `slips[S-1][f]` is 0; the slip bit of `LLI[f]` is set
exactly when it was set before or the table entry had it set; every other bit of
`LLI[f]` is as before; and the rows of all other satellites are unchanged. -/
theorem restslips_spec (E : Ext) (slips : Int → Nat → Nat) (data : obsd_t) (f : Nat)
    (hf : f < E.NFREQ) :
    (restslips E slips data).1 ((data.sat : Int) - 1) f = 0 ∧
    (((restslips E slips data).2.LLI f &&& 1 ≠ 0) ↔
      (data.LLI f &&& 1 ≠ 0 ∨ slips ((data.sat : Int) - 1) f &&& 1 ≠ 0)) ∧
    (∀ b, b ≠ 0 → ((restslips E slips data).2.LLI f).testBit b = (data.LLI f).testBit b) ∧
    (∀ s g, s ≠ (data.sat : Int) - 1 → (restslips E slips data).1 s g = slips s g) := by
  refine ⟨?_, ?_, ?_, ?_⟩
  · show (if (data.sat : Int) - 1 = (data.sat : Int) - 1 ∧ f < E.NFREQ then 0
      else slips ((data.sat : Int) - 1) f) = 0
    rw [if_pos ⟨rfl, hf⟩]
  · show ((if f < E.NFREQ ∧ slips ((data.sat : Int) - 1) f &&& 1 ≠ 0
      then data.LLI f ||| LLI_SLIP else data.LLI f) &&& 1 ≠ 0) ↔ _
    by_cases hs : slips ((data.sat : Int) - 1) f &&& 1 ≠ 0
    · rw [if_pos ⟨hf, hs⟩]
      exact ⟨fun _ => Or.inr hs, fun _ => slipbit_or _⟩
    · rw [if_neg (fun h => hs h.2)]
      exact ⟨fun h => Or.inl h, fun h => h.elim id (fun h2 => absurd h2 hs)⟩
  · intro b hb
    show ((if f < E.NFREQ ∧ slips ((data.sat : Int) - 1) f &&& 1 ≠ 0
      then data.LLI f ||| LLI_SLIP else data.LLI f)).testBit b = _
    split_ifs
    · exact testBit_or_slip _ b hb
    · rfl
  · intro s g hs
    show (if s = (data.sat : Int) - 1 ∧ g < E.NFREQ then 0 else slips s g) = slips s g
    rw [if_neg (fun h => hs h.1)]

/-- The sample table with the slip bit pending for satellite 1, slot 0: after
`restslips` for the clean record of satellite 1 the entry is 0, the record has
the slip bit, and the entry 3 of satellite 2 is untouched. -/
theorem restslips_spec_witness :
    (restslips sampleExt slipsPending recClean).1 0 0 = 0 ∧
    (restslips sampleExt slipsPending recClean).2.LLI 0 &&& 1 ≠ 0 ∧
    (restslips sampleExt slipsPending recClean).1 1 1 = 3 := by
  have h := restslips_spec sampleExt slipsPending recClean 0 (by decide)
  exact ⟨h.1, h.2.1.mpr (Or.inr (by decide)), h.2.2.2 1 1 (by decide)⟩

/-! ### Positions of the signal index (C29, C30) -/

theorem primary_fold_sameCode (n : Nat) : ∀ (l : List Nat) (ind : sigind_t),
    SameCodeSamePos ind n →
    SameCodeSamePos (l.foldl (fun ind i =>
        let k := bestCode ind n i
        if k < 0 then ind else assignPos ind n k.toNat (i : Int)) ind) n := by
  intro l
  induction l with
  | nil => intro ind h; exact h
  | cons i l ih =>
    intro ind h
    rw [List.foldl_cons]
    apply ih
    dsimp only
    split_ifs
    · exact h
    · exact assignPos_sameCode ind n _ _ h

theorem set_index_ext_sameCode (E : Ext) (n : Nat) : ∀ (fuel i : Nat) (ind : sigind_t),
    SameCodeSamePos ind n → SameCodeSamePos (set_index_ext E n fuel i ind) n := by
  intro fuel
  induction fuel with
  | zero => intro i ind h; exact h
  | succ fuel ih =>
    intro i ind h
    unfold set_index_ext
    dsimp only
    split_ifs
    · exact h
    · exact ih _ _ (assignPos_sameCode ind n _ _ h)

/-- C30: after `set_index`, any two entries of the table that have the same
code value have the same `pos`, whatever their observation types and however
often a label is declared. -/
theorem set_index_same_code (E : Ext) (ver : ℚ) (sys : Nat) (opt : List Char)
    (tobs : List (List Char)) (ind : sigind_t) (i j : Nat)
    (hi : i < (set_index E ver sys opt tobs ind).n)
    (hj : j < (set_index E ver sys opt tobs ind).n)
    (hc : (set_index E ver sys opt tobs ind).code i = (set_index E ver sys opt tobs ind).code j) :
    (set_index E ver sys opt tobs ind).pos i = (set_index E ver sys opt tobs ind).pos j := by
  obtain ⟨-, -, -, h4⟩ := set_index_scan_spec E sys opt tobs 0 ind
  have h0 : SameCodeSamePos
      { (set_index_scan E sys opt tobs 0 ind).1 with
        shift := set_index_shift E sys (set_index_scan E sys opt tobs 0 ind).2
          (set_index_scan E sys opt tobs 0 ind).1.code opt
          (set_index_scan E sys opt tobs 0 ind).1.shift }
      (set_index_scan E sys opt tobs 0 ind).2 := by
    intro a b ha hb _
    show (set_index_scan E sys opt tobs 0 ind).1.pos a = (set_index_scan E sys opt tobs 0 ind).1.pos b
    rw [(h4 a (Nat.zero_le _) ha).1, (h4 b (Nat.zero_le _) hb).1]
  have h1 := primary_fold_sameCode _ (List.range E.NFREQ) _ h0
  have h2 := set_index_ext_sameCode E _ E.NEXOBS 0 _ h1
  exact h2 i j hi hj hc

/-- In the sample table the pseudorange `C1C` (entry 0) and the phase `L1C`
(entry 3) have the same code and get the same position. -/
theorem set_index_same_code_witness :
    (set_index sampleExt 3 1 [] tobsSample sigind0).pos 0 =
      (set_index sampleExt 3 1 [] tobsSample sigind0).pos 3 :=
  set_index_same_code sampleExt 3 1 [] tobsSample sigind0 0 3 (by decide) (by decide) (by decide)

theorem PosInv_mono (ind : sigind_t) (n : Nat) (B C : Int) (h : PosInv ind n B) (hBC : B ≤ C) :
    PosInv ind n C := by
  refine ⟨fun j hj => ?_, h.2⟩
  rcases h.1 j hj with h1 | ⟨h1, h2⟩
  · exact Or.inl h1
  · exact Or.inr ⟨h1, by omega⟩

theorem assignPos_posInv (ind : sigind_t) (n k : Nat) (v : Int) (h : PosInv ind n v)
    (hv : 0 ≤ v) : PosInv (assignPos ind n k v) n (v + 1) := by
  obtain ⟨h1, h2⟩ := h
  have hpos : ∀ j, (assignPos ind n k v).pos j =
      if j < n ∧ ind.code j = ind.code k then v else ind.pos j := fun _ => rfl
  have hcode : (assignPos ind n k v).code = ind.code := rfl
  constructor
  · intro j hj
    rw [hpos]
    split_ifs
    · exact Or.inr ⟨hv, by omega⟩
    · rcases h1 j hj with h | ⟨ha, hb⟩
      · exact Or.inl h
      · exact Or.inr ⟨ha, by omega⟩
  · intro i j hi hj he h0
    rw [hpos i, hpos j] at he
    rw [hpos i] at h0
    rw [hcode]
    by_cases ci : ind.code i = ind.code k
    · by_cases cj : ind.code j = ind.code k
      · rw [ci, cj]
      · rw [if_pos ⟨hi, ci⟩, if_neg (fun h => cj h.2)] at he
        rcases h1 j hj with h | ⟨-, hb⟩ <;> omega
    · by_cases cj : ind.code j = ind.code k
      · rw [if_neg (fun h => ci h.2), if_pos ⟨hj, cj⟩] at he
        rcases h1 i hi with h | ⟨-, hb⟩ <;> omega
      · rw [if_neg (fun h => ci h.2), if_neg (fun h => cj h.2)] at he
        rw [if_neg (fun h => ci h.2)] at h0
        exact h2 i j hi hj he h0

theorem primary_range_posInv (n : Nat) (ind : sigind_t) (h : PosInv ind n 0) : ∀ m : Nat,
    PosInv ((List.range m).foldl (fun ind i =>
        let k := bestCode ind n i
        if k < 0 then ind else assignPos ind n k.toNat (i : Int)) ind) n (m : Int) := by
  intro m
  induction m with
  | zero => exact h
  | succ m ih =>
    rw [List.range_succ, List.foldl_append, List.foldl_cons, List.foldl_nil]
    dsimp only
    have hm : ((m + 1 : Nat) : Int) = (m : Int) + 1 := by push_cast; rfl
    rw [hm]
    split_ifs
    · exact PosInv_mono _ n _ _ ih (by omega)
    · exact assignPos_posInv _ n _ _ ih (by omega)

theorem set_index_ext_posInv (E : Ext) (n : Nat) : ∀ (fuel i : Nat) (ind : sigind_t),
    PosInv ind n ((E.NFREQ : Int) + i) →
    PosInv (set_index_ext E n fuel i ind) n ((E.NFREQ : Int) + i + fuel) := by
  intro fuel
  induction fuel with
  | zero =>
    intro i ind h
    exact PosInv_mono _ n _ _ h (by simp)
  | succ fuel ih =>
    intro i ind h
    unfold set_index_ext
    dsimp only
    split_ifs
    · exact PosInv_mono _ n _ _ h (by push_cast; omega)
    · have h1 := assignPos_posInv ind n (firstUnassigned ind n 0) ((E.NFREQ : Int) + i) h
        (by omega)
      have h2 := ih (i + 1) _ (by push_cast; rw [← add_assoc]; exact h1)
      have e : (E.NFREQ : Int) + ((i + 1 : Nat) : Int) + (fuel : Int) =
          (E.NFREQ : Int) + (i : Int) + ((fuel + 1 : Nat) : Int) := by push_cast; omega
      rw [← e]
      exact h2

/-- C29: after `set_index`, the position of every entry of the table is -1 or
lies in `0..NFREQ+NEXOBS-1`, and two entries with the same position that is not
negative have the same code: a storage position is never shared by two
different codes. -/
theorem set_index_pos_unique (E : Ext) (ver : ℚ) (sys : Nat) (opt : List Char)
    (tobs : List (List Char)) (ind : sigind_t) (i : Nat)
    (hi : i < (set_index E ver sys opt tobs ind).n) :
    ((set_index E ver sys opt tobs ind).pos i = -1 ∨
      (0 ≤ (set_index E ver sys opt tobs ind).pos i ∧
        (set_index E ver sys opt tobs ind).pos i < (E.NFREQ : Int) + E.NEXOBS)) ∧
    (∀ j, j < (set_index E ver sys opt tobs ind).n →
      (set_index E ver sys opt tobs ind).pos i = (set_index E ver sys opt tobs ind).pos j →
      0 ≤ (set_index E ver sys opt tobs ind).pos i →
      (set_index E ver sys opt tobs ind).code i = (set_index E ver sys opt tobs ind).code j) := by
  obtain ⟨-, -, -, h4⟩ := set_index_scan_spec E sys opt tobs 0 ind
  have h0 : PosInv
      { (set_index_scan E sys opt tobs 0 ind).1 with
        shift := set_index_shift E sys (set_index_scan E sys opt tobs 0 ind).2
          (set_index_scan E sys opt tobs 0 ind).1.code opt
          (set_index_scan E sys opt tobs 0 ind).1.shift }
      (set_index_scan E sys opt tobs 0 ind).2 0 := by
    constructor
    · intro a ha
      exact Or.inl (h4 a (Nat.zero_le _) ha).1
    · intro a b ha _ _ h0
      have : (set_index_scan E sys opt tobs 0 ind).1.pos a = -1 := (h4 a (Nat.zero_le _) ha).1
      have h0' : 0 ≤ (set_index_scan E sys opt tobs 0 ind).1.pos a := h0
      omega
  have h1 := primary_range_posInv _ _ h0 E.NFREQ
  have h2 := set_index_ext_posInv E _ E.NEXOBS 0 _ (by simpa using h1)
  have h3 : PosInv (set_index E ver sys opt tobs ind) (set_index E ver sys opt tobs ind).n
      ((E.NFREQ : Int) + E.NEXOBS) := by
    simpa using h2
  exact ⟨h3.1 i hi, fun j hj he h0 => h3.2 i j hi hj he h0⟩

/-- In the sample table entry 0 (`C1C`) has position 0, inside `0..3`, and the
only other entry with that position, entry 3 (`L1C`), has the same code. -/
theorem set_index_pos_unique_witness :
    (set_index sampleExt 3 1 [] tobsSample sigind0).pos 0 = 0 ∧
    (set_index sampleExt 3 1 [] tobsSample sigind0).code 0 =
      (set_index sampleExt 3 1 [] tobsSample sigind0).code 3 :=
  ⟨by decide,
   (set_index_pos_unique sampleExt 3 1 [] tobsSample sigind0 0 (by decide)).2 3 (by decide)
     (by decide) (by decide)⟩

/-! ### Loss-of-lock flag column (C22) -/

theorem fmtObs_sample : fmtObs 23456789 = "  23456789.000".toList := by
  have h : roundEven (|(23456789 : ℚ)| * 1000) = 23456789000 := by
    have ha : |(23456789 : ℚ)| * 1000 = ((23456789000 : Int) : ℚ) := by
      rw [abs_of_nonneg (by norm_num)]; norm_num
    rw [ha]
    unfold roundEven
    simp only [Int.floor_intCast, sub_self]
    norm_num
  unfold fmtObs
  simp only [h]
  rw [if_neg (by norm_num)]
  have h1 : (23456789000 : Int).toNat / 1000 = 23456789 := by decide
  have h2 : (23456789000 : Int).toNat % 1000 = 0 := by decide
  rw [h1, h2]
  have d1 : decDigits 23456789 = "23456789".toList := by
    unfold decDigits; rw [if_neg (by norm_num)]; norm_num
  have d2 : decDigits 0 = ['0'] := by decide
  rw [d1, d2]
  decide

theorem outrnxobsf_sample : outrnxobsf sampleExt 23456789 1 = lineObsSlip := by
  unfold outrnxobsf
  rw [if_neg (by norm_num), fmtObs_sample]
  have hm : Int.toNat 1 &&& (LLI_SLIP ||| sampleExt.LLI_HALFC ||| sampleExt.LLI_BOCTRK) = 1 := by
    decide
  rw [hm, if_neg (by decide)]
  have d1 : decDigits 1 = ['1'] := by
    unfold decDigits; rw [if_neg (by norm_num)]; norm_num
  rw [d1]
  rfl

theorem sample_obsFields_lli (line : List Char) (z v : Int)
    (hz : sampleInt line 15 1 = z) (hval : sampleInt line 0 14 = v) :
    (obsFields sampleExt [] line 2.11 255 sampleIndexL recSat1).lli 0 = toUChar z &&& 3 ∧
    (obsFields sampleExt [] line 2.11 255 sampleIndexL recSat1).val 0 = v := by
  have hv : (2.11 : ℚ) ≤ 2.99 := by norm_num
  have hsat : obsSat sampleExt line 2.11 recSat1 = 1 := by
    unfold obsSat; rw [if_neg (by norm_num)]; rfl
  have hn : (selectIndex sampleExt sampleIndexL (sampleExt.satsys 1)).n = 1 := by decide
  have hst : obsStat sampleExt 255 1 = true := by decide
  have hsh : (selectIndex sampleExt sampleIndexL (sampleExt.satsys 1)).shift 0 = 0 := rfl
  unfold obsFields
  simp only [hsat, hn, hst, decode_obsdata_read, if_pos hv]
  rw [if_neg (by rintro ⟨-, h⟩; omega), if_pos trivial]
  simp only [Function.update_same]
  constructor
  · have h15 : (0 : Nat) + 14 + 1 = 15 := rfl
    rw [h15, sample_toInt line 15 1 z hz]
  · rw [hsh, sampleStr2num_eq line 0 14 v hval]
    norm_num
theorem sample_decode_phase (line : List Char) (z v : Int)
    (hz : sampleInt line 15 1 = z) (hval : sampleInt line 0 14 = v) (hv0 : v ≠ 0) :
    (decode_obsdata sampleExt [] line 2.11 255 sampleIndexL recSat1).ret = 1 ∧
    (decode_obsdata sampleExt [] line 2.11 255 sampleIndexL recSat1).obs.L 0 = v ∧
    (decode_obsdata sampleExt [] line 2.11 255 sampleIndexL recSat1).obs.LLI 0 =
      toUChar z &&& 3 := by
  have hv : (2.11 : ℚ) ≤ 2.11 := le_refl _
  have hsat : obsSat sampleExt line 2.11 recSat1 = 1 := by
    unfold obsSat; rw [if_neg (by norm_num)]; rfl
  have hst : obsStat sampleExt 255 (obsSat sampleExt line 2.11 recSat1) = true := by
    rw [hsat]; decide
  have hret := decode_obsdata_ret sampleExt [] line 2.11 255 sampleIndexL recSat1
  rw [hst] at hret
  have hobs := decode_obsdata_obs sampleExt [] line 2.11 255 sampleIndexL recSat1 hst
  obtain ⟨hlli, hval2⟩ := sample_obsFields_lli line z v hz hval
  have hp : obsAssign sampleExt 2.11
      (selectIndex sampleExt sampleIndexL (sampleExt.satsys (obsSat sampleExt line 2.11 recSat1)))
      (obsFields sampleExt [] line 2.11 255 sampleIndexL recSat1).val 0 = 0 := by
    rw [hsat]
    unfold obsAssign obsPos
    simp only [if_pos hv]
    have hk0 : slotCodes (selectIndex sampleExt sampleIndexL (sampleExt.satsys 1))
        (fun i => (selectIndex sampleExt sampleIndexL (sampleExt.satsys 1)).frq i - 1) 0 = [] := by
      decide
    have hk1 : slotCodes (selectIndex sampleExt sampleIndexL (sampleExt.satsys 1))
        (fun i => (selectIndex sampleExt sampleIndexL (sampleExt.satsys 1)).frq i - 1) 1 = [] := by
      decide
    rw [hk0, hk1]
    simp only [resolveSlot]
    decide
  have hn : (selectIndex sampleExt sampleIndexL
      (sampleExt.satsys (obsSat sampleExt line 2.11 recSat1))).n = 1 := by
    rw [hsat]; decide
  have ht : (selectIndex sampleExt sampleIndexL
      (sampleExt.satsys (obsSat sampleExt line 2.11 recSat1))).type 0 = 1 := by
    rw [hsat]; decide
  have hvq : ((v : Int) : ℚ) ≠ 0 := by exact_mod_cast hv0
  rw [hobs, hn]
  have hr : List.range 1 = [0] := rfl
  rw [hr]
  simp only [List.foldl_cons, List.foldl_nil]
  unfold saveObs
  rw [hp, hval2, ht, hlli]
  rw [if_neg (by rintro (h | h); exact absurd h (by decide); exact hvq h)]
  rw [if_neg (by decide), if_pos rfl]
  refine ⟨by simpa using hret, ?_, ?_⟩ <;> simp [Function.update_same]

/-- C22 (code bug): the value is read from columns j..j+13, but the flag is not
read from column j+14. The field that `outrnxobsf` writes for the carrier phase
23456789 with the loss-of-lock flag 1 has the flag digit in column 14 and a blank
in column 15; `decode_obsdata` reads this field back with the value 23456789 and
the flag 0, because it takes the flag from column 15 (`j + 14 + 1`). In a field
whose column 14 is blank and whose column 15 holds the signal strength 7, it
decodes the flag 3. -/
theorem decode_obsdata_lli_column :
    outrnxobsf sampleExt 23456789 1 = lineObsSlip ∧
    lineObsSlip.getD 14 ' ' = '1' ∧ lineObsSlip.getD 15 ' ' = ' ' ∧
    (decode_obsdata sampleExt [] lineObsSlip 2.11 255 sampleIndexL recSat1).ret = 1 ∧
    (decode_obsdata sampleExt [] lineObsSlip 2.11 255 sampleIndexL recSat1).obs.L 0 = 23456789 ∧
    (decode_obsdata sampleExt [] lineObsSlip 2.11 255 sampleIndexL recSat1).obs.LLI 0 = 0 ∧
    lineObsSnr.getD 14 ' ' = ' ' ∧ lineObsSnr.getD 15 ' ' = '7' ∧
    (decode_obsdata sampleExt [] lineObsSnr 2.11 255 sampleIndexL recSat1).obs.L 0 = 23456789 ∧
    (decode_obsdata sampleExt [] lineObsSnr 2.11 255 sampleIndexL recSat1).obs.LLI 0 = 3 := by
  obtain ⟨a1, a2, a3⟩ := sample_decode_phase lineObsSlip 0 23456789 (by decide) (by decide)
    (by decide)
  obtain ⟨-, b2, b3⟩ := sample_decode_phase lineObsSnr 7 23456789 (by decide) (by decide)
    (by decide)
  refine ⟨outrnxobsf_sample, by decide, by decide, a1, ?_, ?_, by decide, by decide, ?_, ?_⟩
  · rw [a2]; norm_num
  · rw [a3]; decide
  · rw [b2]; norm_num
  · rw [b3]; decide

/-! ### Signal index of each system (C23) -/

theorem selectIndex_own (E : Ext) (hd : SysDistinct E) (ver : ℚ) (opt : List Char)
    (tobs : Nat → List (List Char)) :
    selectIndex E (readrnxobs_index E ver opt tobs) E.SYS_GPS =
      set_index E ver E.SYS_GPS opt (tobs 0) sigind0 ∧
    selectIndex E (readrnxobs_index E ver opt tobs) E.SYS_GLO =
      set_index E ver E.SYS_GLO opt (tobs 1) sigind0 ∧
    selectIndex E (readrnxobs_index E ver opt tobs) E.SYS_GAL =
      set_index E ver E.SYS_GAL opt (tobs 2) sigind0 ∧
    selectIndex E (readrnxobs_index E ver opt tobs) E.SYS_QZS =
      set_index E ver E.SYS_QZS opt (tobs 3) sigind0 ∧
    selectIndex E (readrnxobs_index E ver opt tobs) E.SYS_SBS =
      set_index E ver E.SYS_SBS opt (tobs 4) sigind0 ∧
    selectIndex E (readrnxobs_index E ver opt tobs) E.SYS_CMP =
      set_index E ver E.SYS_CMP opt (tobs 5) sigind0 ∧
    selectIndex E (readrnxobs_index E ver opt tobs) E.SYS_IRN =
      set_index E ver E.SYS_GPS opt (tobs 0) sigind0 := by
  unfold SysDistinct at hd
  simp only [List.nodup_cons, List.mem_cons, List.mem_singleton, not_or, List.not_mem_nil,
    not_false_eq_true, List.nodup_nil, and_true] at hd
  obtain ⟨⟨g1, g2, g3, g4, g5, g6⟩, ⟨s1, s2, s3, s4, s5⟩, ⟨r1, r2, r3, r4⟩, ⟨e1, e2, e3⟩,
    ⟨j1, j2⟩, c1⟩ := hd
  unfold selectIndex readrnxobs_index
  refine ⟨?_, ?_, ?_, ?_, ?_, ?_, ?_⟩
  · simp [g2, g3, g4, g1, g5]
  · simp
  · simp [Ne.symm r1]
  · simp [Ne.symm r2, Ne.symm e1]
  · simp [s1, s2, s3]
  · simp [Ne.symm r3, Ne.symm e2, Ne.symm j1, Ne.symm s4]
  · simp [Ne.symm r4, Ne.symm e3, Ne.symm j2, Ne.symm s5, Ne.symm c1]

theorem sample_decode_irnss :
    (decode_obsdata navExt [] lineObsI 3.03 255
      (readrnxobs_index navExt 3.03 [] tobsTables) obsd0).ret = 1 ∧
    (decode_obsdata navExt [] lineObsI 3.03 255
      (readrnxobs_index navExt 3.03 [] tobsTables) obsd0).obs.P 0 = 23456789 ∧
    (decode_obsdata navExt [] lineObsI 3.03 255
      (readrnxobs_index navExt 3.03 [] tobsTables) obsd0).obs.code 0 = 1 ∧
    (decode_obsdata navExt [] lineObsI 3.03 255
      (readrnxobs_index navExt 3.03 [] tobsTables) obsd0).obs.P 1 = 0 := by
  have hv : ¬ (3.03 : ℚ) ≤ 2.11 := by norm_num
  have hv2 : ¬ (3.03 : ℚ) ≤ 2.99 := by norm_num
  have hsat : obsSat navExt lineObsI 3.03 obsd0 = 169 := by
    unfold obsSat; rw [if_pos (by norm_num)]; decide
  have hst : obsStat navExt 255 (obsSat navExt lineObsI 3.03 obsd0) = true := by
    rw [hsat]; decide
  have hret := decode_obsdata_ret navExt [] lineObsI 3.03 255
    (readrnxobs_index navExt 3.03 [] tobsTables) obsd0
  rw [hst] at hret
  have hobs := decode_obsdata_obs navExt [] lineObsI 3.03 255
    (readrnxobs_index navExt 3.03 [] tobsTables) obsd0 hst
  have hn : (selectIndex navExt (readrnxobs_index navExt 3.03 [] tobsTables)
      (navExt.satsys 169)).n = 1 := by decide
  have hsh : (selectIndex navExt (readrnxobs_index navExt 3.03 [] tobsTables)
      (navExt.satsys 169)).shift 0 = 0 := rfl
  have ht : (selectIndex navExt (readrnxobs_index navExt 3.03 [] tobsTables)
      (navExt.satsys 169)).type 0 = 0 := by decide
  have hc : (selectIndex navExt (readrnxobs_index navExt 3.03 [] tobsTables)
      (navExt.satsys 169)).code 0 = 1 := by decide
  have hpos : (selectIndex navExt (readrnxobs_index navExt 3.03 [] tobsTables)
      (navExt.satsys 169)).pos 0 = 0 := by decide
  have hval : (obsFields navExt [] lineObsI 3.03 255
      (readrnxobs_index navExt 3.03 [] tobsTables) obsd0).val 0 = 23456789 := by
    unfold obsFields
    have hst1 : obsStat navExt 255 169 = true := by decide
    simp only [hsat, hn, decode_obsdata_read, if_neg hv2]
    rw [if_neg (by rintro ⟨h, -⟩; exact hv2 h), if_pos hst1]
    simp only [Function.update_same]
    rw [hsh]
    have h : sampleExt.str2num lineObsI 3 14 = ((23456789 : Int) : ℚ) :=
      sampleStr2num_eq lineObsI 3 14 23456789 (by decide)
    have he : navExt.str2num lineObsI 3 14 = sampleExt.str2num lineObsI 3 14 := rfl
    rw [he, h]
    norm_num
  have hp : obsAssign navExt 3.03
      (selectIndex navExt (readrnxobs_index navExt 3.03 [] tobsTables) (navExt.satsys 169))
      (obsFields navExt [] lineObsI 3.03 255
        (readrnxobs_index navExt 3.03 [] tobsTables) obsd0).val 0 = 0 := by
    unfold obsAssign obsPos
    simp only [if_neg hv]
    exact hpos
  rw [hobs, hsat, hn]
  have hr : List.range 1 = [0] := rfl
  rw [hr]
  simp only [List.foldl_cons, List.foldl_nil]
  unfold saveObs
  rw [hp, hval, ht, hc]
  rw [if_neg (by rintro (h | h); exact absurd h (by decide); exact absurd h (by norm_num))]
  rw [if_pos rfl]
  refine ⟨by simpa using hret, ?_, ?_, ?_⟩
  · simp [Function.update_same]
  · simp [Function.update_same]
  · simp [clearObs, navExt, sampleExt]

/-- C23 (code bug): the claim fails for IRNSS. With the indexes that `readrnxobs`
builds from the tables `C1C` for GPS and `C2W` for IRNSS, the ver.3 line of the
IRNSS satellite I01 (satellite 169) is decoded with the GPS index, not with
`index[6]`: the value of its field, an IRNSS `C2W` pseudorange (code 20,
position 1), is stored as `P[0]` with the GPS code 1, and `P[1]` stays zero. -/
theorem decode_obsdata_irnss_index :
    obsSat navExt lineObsI 3.03 obsd0 = 169 ∧ navExt.satsys 169 = navExt.SYS_IRN ∧
    selectIndex navExt (readrnxobs_index navExt 3.03 [] tobsTables) (navExt.satsys 169) =
      set_index navExt 3.03 navExt.SYS_GPS [] ["C1C".toList] sigind0 ∧
    readrnxobs_index navExt 3.03 [] tobsTables 6 =
      set_index navExt 3.03 navExt.SYS_IRN [] ["C2W".toList] sigind0 ∧
    (readrnxobs_index navExt 3.03 [] tobsTables 6).n = 1 ∧
    (readrnxobs_index navExt 3.03 [] tobsTables 6).code 0 = 20 ∧
    (readrnxobs_index navExt 3.03 [] tobsTables 6).pos 0 = 1 ∧
    (decode_obsdata navExt [] lineObsI 3.03 255
      (readrnxobs_index navExt 3.03 [] tobsTables) obsd0).ret = 1 ∧
    (decode_obsdata navExt [] lineObsI 3.03 255
      (readrnxobs_index navExt 3.03 [] tobsTables) obsd0).obs.P 0 = 23456789 ∧
    (decode_obsdata navExt [] lineObsI 3.03 255
      (readrnxobs_index navExt 3.03 [] tobsTables) obsd0).obs.code 0 = 1 ∧
    (decode_obsdata navExt [] lineObsI 3.03 255
      (readrnxobs_index navExt 3.03 [] tobsTables) obsd0).obs.P 1 = 0 := by
  have hsat : obsSat navExt lineObsI 3.03 obsd0 = 169 := by
    unfold obsSat; rw [if_pos (by norm_num)]; decide
  obtain ⟨a, b, c, d⟩ := sample_decode_irnss
  exact ⟨hsat, by decide, rfl, rfl, by decide, by decide, by decide, a, b, c, d⟩

/-! ### Phase-shift option (C26) -/

theorem saveObs_L_other (ind : sigind_t) (p : Nat → Int) (val : Nat → ℚ) (lli : Nat → Nat)
    (obs : obsd_t) (i x : Nat) (h : ¬ (ind.type i = 1 ∧ p i = (x : Int) ∧ val i ≠ 0)) :
    (saveObs ind p val lli obs i).L x = obs.L x := by
  unfold saveObs
  by_cases hs : p i < 0 ∨ val i = 0
  · rw [if_pos hs]
  · rw [if_neg hs]
    by_cases ht0 : ind.type i = 0
    · rw [if_pos ht0]
    · rw [if_neg ht0]
      by_cases ht : ind.type i = 1
      · rw [if_pos ht]
        have hne : x ≠ (p i).toNat := by
          intro hx
          apply h
          refine ⟨ht, ?_, fun hv => hs (Or.inr hv)⟩
          have : 0 ≤ p i := by
            by_contra hc
            exact hs (Or.inl (by omega))
          omega
        exact Function.update_noteq hne _ _
      · rw [if_neg ht]
        split_ifs <;> rfl

theorem saveObs_L_write (ind : sigind_t) (p : Nat → Int) (val : Nat → ℚ) (lli : Nat → Nat)
    (obs : obsd_t) (i x : Nat) (ht : ind.type i = 1) (hp : p i = (x : Int)) (hv : val i ≠ 0) :
    (saveObs ind p val lli obs i).L x = val i := by
  unfold saveObs
  have hs : ¬ (p i < 0 ∨ val i = 0) := by
    rintro (h | h)
    · omega
    · exact hv h
  have hx : (p i).toNat = x := by omega
  have ht0 : ¬ ind.type i = 0 := by rw [ht]; decide
  rw [if_neg hs, if_neg ht0, if_pos ht, hx]
  exact Function.update_same _ _ _

theorem sample_decode_pair (index : Nat → sigind_t) (s0 s1 : ℚ)
    (hn : (index 0).n = 2) (ht0 : (index 0).type 0 = 0) (ht1 : (index 0).type 1 = 1)
    (hp0 : (index 0).pos 0 = 0) (hp1 : (index 0).pos 1 = 0)
    (hs0 : (index 0).shift 0 = s0) (hs1 : (index 0).shift 1 = s1)
    (hne : 23456789 + s0 ≠ 0) :
    (decode_obsdata shiftExt [] lineObsPL 3.03 255 index obsd0).obs.P 0 = 23456789 + s0 ∧
    (decode_obsdata shiftExt [] lineObsPL 3.03 255 index obsd0).obs.L 0 = s1 := by
  have hv : ¬ (3.03 : ℚ) ≤ 2.11 := by norm_num
  have hv2 : ¬ (3.03 : ℚ) ≤ 2.99 := by norm_num
  have hsat : obsSat shiftExt lineObsPL 3.03 obsd0 = 1 := by
    unfold obsSat; rw [if_pos (by norm_num)]; decide
  have hst1 : obsStat shiftExt 255 1 = true := by decide
  have hst : obsStat shiftExt 255 (obsSat shiftExt lineObsPL 3.03 obsd0) = true := by
    rw [hsat]; exact hst1
  have hsel : selectIndex shiftExt index (shiftExt.satsys 1) = index 0 := rfl
  have hobs := decode_obsdata_obs shiftExt [] lineObsPL 3.03 255 index obsd0 hst
  have e0 : shiftExt.str2num lineObsPL 3 14 = ((23456789 : Int) : ℚ) :=
    sampleStr2num_eq lineObsPL 3 14 23456789 (by decide)
  have e1 : shiftExt.str2num lineObsPL (3 + 16) 14 = ((0 : Int) : ℚ) :=
    sampleStr2num_eq lineObsPL 19 14 0 (by decide)
  have hval : (obsFields shiftExt [] lineObsPL 3.03 255 index obsd0).val 0 = 23456789 + s0 ∧
      (obsFields shiftExt [] lineObsPL 3.03 255 index obsd0).val 1 = s1 := by
    unfold obsFields
    simp only [hsat, hsel, hn, decode_obsdata_read, if_neg hv2]
    simp only [if_pos hst1, if_neg (show ¬ ((3.03 : ℚ) ≤ 2.99 ∧ 3 ≥ 80) from fun h => hv2 h.1),
      if_neg (show ¬ ((3.03 : ℚ) ≤ 2.99 ∧ 3 + 16 ≥ 80) from fun h => hv2 h.1)]
    rw [e0, e1, hs0, hs1]
    constructor
    · rw [Function.update_noteq (by decide), Function.update_same]; norm_num
    · rw [Function.update_same]; norm_num
  have hp : obsAssign shiftExt 3.03 (index 0)
      (obsFields shiftExt [] lineObsPL 3.03 255 index obsd0).val = (index 0).pos := by
    unfold obsAssign obsPos
    simp only [if_neg hv]
  rw [hobs, hsat, hsel, hn, hp]
  constructor
  · obtain ⟨-, hw⟩ := foldl_saveObs_P (index 0) (index 0).pos
      (obsFields shiftExt [] lineObsPL 3.03 255 index obsd0).val
      (obsFields shiftExt [] lineObsPL 3.03 255 index obsd0).lli 0
      (clearObs shiftExt { obsd0 with sat := 1 }) 2
    have h := hw 0 (by decide) ht0 (by rw [hp0]; rfl) (by rw [hval.1]; exact hne)
      (fun i hi hne0 => by
        have hi1 : i = 1 := by omega
        subst hi1
        rintro ⟨h, -⟩
        rw [ht1] at h
        exact absurd h (by decide))
    rw [h.1, hval.1]
  · have hr : List.range 2 = [0, 1] := rfl
    rw [hr]
    simp only [List.foldl_cons, List.foldl_nil]
    have h0 := saveObs_L_other (index 0) (index 0).pos
      (obsFields shiftExt [] lineObsPL 3.03 255 index obsd0).val
      (obsFields shiftExt [] lineObsPL 3.03 255 index obsd0).lli
      (clearObs shiftExt { obsd0 with sat := 1 }) 0 0
      (by rintro ⟨h, -⟩; rw [ht0] at h; exact absurd h (by decide))
    have hc : (clearObs shiftExt { obsd0 with sat := 1 }).L 0 = 0 := by
      simp [clearObs, shiftExt, sampleExt]
    by_cases h1 : s1 = 0
    · rw [saveObs_L_other _ _ _ _ _ 1 0 (by rintro ⟨-, -, h⟩; rw [hval.2] at h; exact h h1),
        h0, hc, h1]
    · rw [saveObs_L_write _ _ _ _ _ 1 0 ht1 (by rw [hp1]; rfl) (by rw [hval.2]; exact h1),
        hval.2]

theorem shiftIndex_shift :
    (shiftIndex optShift 0).shift 0 = 5 ∧ (shiftIndex optShift 0).shift 1 = 5 ∧
    (shiftIndex [] 0).shift 0 = 0 ∧ (shiftIndex [] 0).shift 1 = 0 := by
  have h0 : (shiftIndex optShift 0).shift 0 = ((5 : Nat) : ℚ) := rfl
  have h1 : (shiftIndex optShift 0).shift 1 = ((5 : Nat) : ℚ) := rfl
  refine ⟨by rw [h0]; norm_num, by rw [h1]; norm_num, rfl, rfl⟩

/-- C26 (code bug): the claim fails on the code. With the option `-GL1C=5` the
index that `set_index` builds for the GPS table `C1C L1C` carries the shift 5 on
the pseudorange entry `C1C` (type 0) as well as on the phase entry `L1C` (type 1).
The ver.3 line of G01 with the pseudorange 23456789 and a blank carrier-phase
field is decoded without the option into `P[0] = 23456789`, `L[0] = 0`, and with
the option into `P[0] = 23456794` and `L[0] = 5`: the pseudorange is changed and
the blank field is stored. -/
theorem decode_obsdata_shift_all_types :
    (shiftIndex optShift 0).type 0 = 0 ∧ (shiftIndex optShift 0).shift 0 = 5 ∧
    (shiftIndex optShift 0).type 1 = 1 ∧ (shiftIndex optShift 0).shift 1 = 5 ∧
    (decode_obsdata shiftExt [] lineObsPL 3.03 255 (shiftIndex []) obsd0).obs.P 0 = 23456789 ∧
    (decode_obsdata shiftExt [] lineObsPL 3.03 255 (shiftIndex []) obsd0).obs.L 0 = 0 ∧
    (decode_obsdata shiftExt [] lineObsPL 3.03 255 (shiftIndex optShift) obsd0).obs.P 0 =
      23456794 ∧
    (decode_obsdata shiftExt [] lineObsPL 3.03 255 (shiftIndex optShift) obsd0).obs.L 0 = 5 := by
  obtain ⟨s0, s1, z0, z1⟩ := shiftIndex_shift
  obtain ⟨a, b⟩ := sample_decode_pair (shiftIndex []) 0 0 (by decide) (by decide) (by decide)
    (by decide) (by decide) z0 z1 (by norm_num)
  obtain ⟨c, d⟩ := sample_decode_pair (shiftIndex optShift) 5 5 (by decide) (by decide)
    (by decide) (by decide) (by decide) s0 s1 (by norm_num)
  refine ⟨by decide, s0, by decide, s1, ?_, b, ?_, d⟩
  · rw [a]; norm_num
  · rw [c]; norm_num

/-! ### Observation type `C1` for ver. 2.12 (C27) -/

/-- C27: for every system and every version `ver >= 2.12`, `convcode` maps the
ver.2 type `C1` to the blank type of three spaces; the entry that `set_index`
makes for this type gets as its code what `obs2code` returns for the two
blanks that follow the first character, and as its type the default 0. -/
theorem convcode_C1_rejected (E : Ext) (ver : ℚ) (sys : Nat) (h : ver ≥ 2.12)
    (sys2 : Nat) (opt : List Char) (i : Nat) (ind : sigind_t) :
    convcode E ver sys "C1".toList = "   ".toList ∧
    (set_index_entry E sys2 opt (convcode E ver sys "C1".toList) i ind).code i =
      (E.obs2code "  ".toList).1 := by
  have hc : convcode E ver sys "C1".toList = "   ".toList := by
    unfold convcode
    simp only
    rw [if_neg (by decide), if_neg (by decide), if_pos trivial, if_pos h]
  refine ⟨hc, ?_⟩
  rw [hc]
  unfold set_index_entry
  simp only [Function.update_same]
  rfl

theorem convcode_C1_rejected_witness :
    convcode sampleExt 2.12 sampleExt.SYS_GPS "C1".toList = "   ".toList ∧
    (set_index_entry sampleExt 1 [] (convcode sampleExt 2.12 sampleExt.SYS_GPS "C1".toList) 0
      sigind0).code 0 = (sampleExt.obs2code "  ".toList).1 :=
  convcode_C1_rejected sampleExt 2.12 sampleExt.SYS_GPS (le_refl _) 1 [] 0 sigind0

theorem convcode_C1_v211 :
    convcode sampleExt 2.11 sampleExt.SYS_GPS "C1".toList = "C1C".toList := by
  unfold convcode
  simp only
  rw [if_neg (by decide), if_neg (by decide), if_pos trivial, if_neg (by norm_num), if_pos trivial]

/-! ### Label column of the observation-type lines (C28) -/

theorem padLeft_length (w : Nat) (s : List Char) (h : s.length ≤ w) :
    (padLeft w s).length = w := by
  unfold padLeft
  rw [List.length_append, List.length_replicate]
  omega

theorem fmtInt_length (w : Nat) (n : Int) (hw : 0 < w) (h0 : 0 ≤ n) (h1 : n < 10 ^ w) :
    (fmtInt w n).length = w := by
  unfold fmtInt
  apply padLeft_length
  rw [if_neg (by omega), List.nil_append, decDigits_length]
  have h2 : n.natAbs < 10 ^ w := by
    have h3 : ((n.natAbs : Nat) : Int) < ((10 ^ w : Nat) : Int) := by
      rw [Int.natCast_natAbs, abs_of_nonneg h0]
      push_cast
      exact h1
    exact_mod_cast h3
  have := log10_lt n.natAbs w hw h2
  omega

theorem outobstype_ver2_loop_lines (tobs : Nat → List Char) (ht : ∀ i, (tobs i).length ≤ 6) :
    ∀ (fuel i : Nat) (cur : List Char),
      cur.length = (if i = 0 then 6 else if i % 9 = 0 then 0 else 6 + 6 * (i % 9)) →
      ∃ bodies : List (List Char), (∀ b ∈ bodies, b.length = 60) ∧
        cur ++ (outobstype_ver2_loop tobs fuel i ++
          (if i + fuel = 0 ∨ (i + fuel) % 9 > 0 then
            List.replicate ((9 - (i + fuel) % 9) * 6) ' ' ++ (padRight 20 labelObsV2 ++ ['\n'])
           else [])) = linesText (padRight 20 labelObsV2) bodies := by
  intro fuel
  induction fuel with
  | zero =>
    intro i cur hc
    simp only [outobstype_ver2_loop, List.nil_append, Nat.add_zero]
    by_cases h0 : i = 0
    · subst h0
      rw [if_pos rfl] at hc
      refine ⟨[cur ++ List.replicate 54 ' '], ?_, ?_⟩
      · intro b hb
        rw [List.mem_singleton] at hb
        rw [hb, List.length_append, List.length_replicate, hc]
      · rw [if_pos (Or.inl rfl)]
        simp only [linesText, List.append_assoc, List.append_nil]
    · rw [if_neg h0] at hc
      by_cases h9 : i % 9 = 0
      · rw [if_pos h9] at hc
        have hnil : cur = [] := List.length_eq_zero.mp hc
        refine ⟨[], ?_, ?_⟩
        · intro b hb; exact absurd hb (List.not_mem_nil b)
        · rw [if_neg (by omega), hnil]
          rfl
      · rw [if_neg h9] at hc
        refine ⟨[cur ++ List.replicate ((9 - i % 9) * 6) ' '], ?_, ?_⟩
        · intro b hb
          rw [List.mem_singleton] at hb
          rw [hb, List.length_append, List.length_replicate, hc]
          have : i % 9 < 9 := Nat.mod_lt _ (by decide)
          omega
        · rw [if_pos (Or.inr (by omega))]
          simp only [linesText, List.append_assoc, List.append_nil]
  | succ fuel ih =>
    intro i cur hc
    have hlen := padLeft_length 6 (tobs i) (ht i)
    have hadd : i + (fuel + 1) = (i + 1) + fuel := by omega
    rw [hadd]
    simp only [outobstype_ver2_loop]
    by_cases h8 : i % 9 = 8
    · have h0 : i ≠ 0 := by rintro rfl; simp at h8
      rw [if_neg h0, if_neg (by omega)] at hc
      obtain ⟨bodies, hb, heq⟩ := ih (i + 1) [] (by
        rw [if_neg (by omega), if_pos (by omega)]; rfl)
      refine ⟨(cur ++ padLeft 6 (tobs i)) :: bodies, ?_, ?_⟩
      · intro b hmem
        rcases List.mem_cons.mp hmem with h | h
        · rw [h, List.length_append, hlen, hc]; omega
        · exact hb b h
      · rw [if_neg (by omega), if_pos h8]
        simp only [linesText, List.append_assoc, List.nil_append] at heq ⊢
        rw [heq]
    · obtain ⟨bodies, hb, heq⟩ := ih (i + 1)
        (cur ++ ((if i > 0 ∧ i % 9 = 0 then "      ".toList else []) ++ padLeft 6 (tobs i))) (by
          rw [List.length_append, List.length_append, hlen, hc]
          have hlt : i % 9 < 9 := Nat.mod_lt _ (by decide)
          by_cases h0 : i = 0
          · subst h0
            simp
          · have hs : ¬ (i + 1 = 0) := by omega
            rw [if_neg h0, if_neg hs]
            by_cases h9 : i % 9 = 0
            · have h1 : (i + 1) % 9 = 1 := by omega
              rw [if_pos h9, if_pos (show i > 0 ∧ i % 9 = 0 from ⟨by omega, h9⟩), h1]
              decide
            · have h1 : (i + 1) % 9 = i % 9 + 1 := by omega
              rw [if_neg h9, if_neg (show ¬ (i > 0 ∧ i % 9 = 0) from fun h => h9 h.2), h1,
                if_neg (show ¬ (i % 9 + 1 = 0) by omega), List.length_nil]
              omega)
      refine ⟨bodies, hb, ?_⟩
      rw [if_neg h8]
      simp only [List.append_assoc, List.nil_append] at heq ⊢
      rw [heq]

theorem outobstype_ver2_lines (nobs : Int) (tobs : Nat → List Char) (h0 : 0 ≤ nobs)
    (h1 : nobs ≤ 999999) (ht : ∀ i, (tobs i).length ≤ 6) :
    ∃ bodies : List (List Char), (∀ b ∈ bodies, b.length = 60) ∧
      outobstype_ver2 nobs tobs = linesText (padRight 20 labelObsV2) bodies := by
  have hlen : (fmtInt 6 nobs).length = 6 := fmtInt_length 6 nobs (by decide) h0 (by omega)
  obtain ⟨bodies, hb, heq⟩ := outobstype_ver2_loop_lines tobs ht nobs.toNat 0 (fmtInt 6 nobs)
    (by rw [if_pos rfl]; exact hlen)
  refine ⟨bodies, hb, ?_⟩
  rw [← heq]
  unfold outobstype_ver2
  have hiff : (nobs = 0 ∨ nobs.toNat % 9 > 0) ↔ (0 + nobs.toNat = 0 ∨ (0 + nobs.toNat) % 9 > 0) := by
    rw [Nat.zero_add]
    constructor
    · rintro (h | h)
      · left; omega
      · right; exact h
    · rintro (h | h)
      · left; omega
      · right; exact h
  simp only [hiff, Nat.zero_add, List.append_assoc]

theorem linesText_append (lab : List Char) (a b : List (List Char)) :
    linesText lab (a ++ b) = linesText lab a ++ linesText lab b := by
  induction a with
  | nil => rfl
  | cons x xs ih =>
    show x ++ lab ++ ['\n'] ++ linesText lab (xs ++ b) =
      x ++ lab ++ ['\n'] ++ linesText lab xs ++ linesText lab b
    rw [ih, List.append_assoc (x ++ lab ++ ['\n'])]

theorem bdsType_length (E : Ext) (rnxver : ℚ) (sys : Nat) (t : List Char) :
    (bdsType E rnxver sys t).length = t.length := by
  unfold bdsType
  split_ifs
  · split <;> rfl
  · rfl

theorem outobstype_ver3_loop_lines (E : Ext) (rnxver : ℚ) (sys : Nat) (tobs : Nat → List Char)
    (ht : ∀ j, (tobs j).length ≤ 3) :
    ∀ (fuel j : Nat) (cur : List Char), 0 < j + fuel →
      cur.length = (if j = 0 then 6 else if j % 13 = 0 then 0 else 6 + 4 * (j % 13)) →
      ∃ bodies : List (List Char), (∀ b ∈ bodies, b.length = 60) ∧
        cur ++ (outobstype_ver3_loop E rnxver sys tobs fuel j ++
          (if (j + fuel) % 13 > 0 then
            List.replicate ((13 - (j + fuel) % 13) * 4) ' ' ++ ("  ".toList ++
              (padRight 20 labelObsV3 ++ ['\n']))
           else [])) = linesText (padRight 20 labelObsV3) bodies := by
  intro fuel
  induction fuel with
  | zero =>
    intro j cur hpos hc
    simp only [outobstype_ver3_loop, List.nil_append, Nat.add_zero] at hpos ⊢
    have h0 : j ≠ 0 := by omega
    rw [if_neg h0] at hc
    by_cases h13 : j % 13 = 0
    · rw [if_pos h13] at hc
      have hnil : cur = [] := List.length_eq_zero.mp hc
      refine ⟨[], ?_, ?_⟩
      · intro b hb; exact absurd hb (List.not_mem_nil b)
      · rw [if_neg (by omega), hnil]
        rfl
    · rw [if_neg h13] at hc
      refine ⟨[cur ++ (List.replicate ((13 - j % 13) * 4) ' ' ++ "  ".toList)], ?_, ?_⟩
      · intro b hb
        rw [List.mem_singleton] at hb
        rw [hb, List.length_append, List.length_append, List.length_replicate, hc]
        have : j % 13 < 13 := Nat.mod_lt _ (by decide)
        have h2 : "  ".toList.length = 2 := rfl
        rw [h2]
        omega
      · rw [if_pos (by omega)]
        simp only [linesText, List.append_assoc, List.append_nil]
  | succ fuel ih =>
    intro j cur hpos hc
    have hlen : (padLeft 3 (bdsType E rnxver sys (tobs j))).length = 3 :=
      padLeft_length 3 _ (by rw [bdsType_length]; exact ht j)
    have hadd : j + (fuel + 1) = (j + 1) + fuel := by omega
    rw [hadd]
    simp only [outobstype_ver3_loop]
    by_cases h12 : j % 13 = 12
    · have h0 : j ≠ 0 := by rintro rfl; simp at h12
      rw [if_neg h0, if_neg (show ¬ j % 13 = 0 by omega)] at hc
      obtain ⟨bodies, hb, heq⟩ := ih (j + 1) [] (by omega) (by
        rw [if_neg (show ¬ j + 1 = 0 by omega), if_pos (show (j + 1) % 13 = 0 by omega)]; rfl)
      refine ⟨(cur ++ ([' '] ++ padLeft 3 (bdsType E rnxver sys (tobs j)) ++ "  ".toList)) ::
        bodies, ?_, ?_⟩
      · intro b hmem
        rcases List.mem_cons.mp hmem with h | h
        · rw [h, List.length_append, List.length_append, List.length_append, hlen, hc]
          have h2 : "  ".toList.length = 2 := rfl
          rw [h2, List.length_singleton]; omega
        · exact hb b h
      · rw [if_neg (show ¬ (j > 0 ∧ j % 13 = 0) by omega), if_pos h12]
        simp only [linesText, List.append_assoc, List.nil_append] at heq ⊢
        rw [heq]
    · obtain ⟨bodies, hb, heq⟩ := ih (j + 1)
        (cur ++ ((if j > 0 ∧ j % 13 = 0 then "      ".toList else []) ++
          ([' '] ++ padLeft 3 (bdsType E rnxver sys (tobs j))))) (by omega) (by
          rw [List.length_append, List.length_append, List.length_append, hlen, hc,
            List.length_singleton]
          have hlt : j % 13 < 13 := Nat.mod_lt _ (by decide)
          by_cases h0 : j = 0
          · subst h0
            simp
          · have hs : ¬ (j + 1 = 0) := by omega
            rw [if_neg h0, if_neg hs]
            by_cases h9 : j % 13 = 0
            · have h1 : (j + 1) % 13 = 1 := by omega
              rw [if_pos h9, if_pos (show j > 0 ∧ j % 13 = 0 from ⟨by omega, h9⟩), h1]
              decide
            · have h1 : (j + 1) % 13 = j % 13 + 1 := by omega
              rw [if_neg h9, if_neg (show ¬ (j > 0 ∧ j % 13 = 0) from fun h => h9 h.2), h1,
                if_neg (show ¬ (j % 13 + 1 = 0) by omega), List.length_nil]
              omega)
      refine ⟨bodies, hb, ?_⟩
      rw [if_neg h12]
      simp only [List.append_assoc, List.nil_append] at heq ⊢
      rw [heq]

theorem outobstype_ver3_sys_lines (E : Ext) (opt : rnxopt_t) (sys : Nat) (c : Char) (i : Nat)
    (h0 : 0 ≤ opt.nobs i) (h1 : opt.nobs i ≤ 999) (ht : ∀ j, (opt.tobs i j).length ≤ 3) :
    ∃ bodies : List (List Char), (∀ b ∈ bodies, b.length = 60) ∧
      outobstype_ver3_sys E opt sys c i = linesText (padRight 20 labelObsV3) bodies := by
  unfold outobstype_ver3_sys
  by_cases hskip : sys &&& opt.navsys = 0 ∨ opt.nobs i = 0
  · rw [if_pos hskip]
    exact ⟨[], fun b hb => absurd hb (List.not_mem_nil b), rfl⟩
  · rw [if_neg hskip]
    have hn : opt.nobs i ≠ 0 := fun h => hskip (Or.inr h)
    have hlen : (fmtInt 3 (opt.nobs i)).length = 3 :=
      fmtInt_length 3 (opt.nobs i) (by decide) h0 (by omega)
    obtain ⟨bodies, hb, heq⟩ := outobstype_ver3_loop_lines E opt.rnxver sys (opt.tobs i) ht
      (opt.nobs i).toNat 0 ([c] ++ "  ".toList ++ fmtInt 3 (opt.nobs i)) (by omega) (by
        rw [if_pos rfl, List.length_append, List.length_append, hlen]; rfl)
    refine ⟨bodies, hb, ?_⟩
    rw [← heq]
    simp only [Nat.zero_add, List.append_assoc]

theorem outobstype_ver3_systems_lines (E : Ext) (opt : rnxopt_t)
    (h0 : ∀ i, 0 ≤ opt.nobs i) (h1 : ∀ i, opt.nobs i ≤ 999)
    (ht : ∀ i j, (opt.tobs i j).length ≤ 3) (tab : List (Nat × Char × Nat)) :
    ∃ bodies : List (List Char), (∀ b ∈ bodies, b.length = 60) ∧
      outobstype_ver3_systems E opt tab = linesText (padRight 20 labelObsV3) bodies := by
  induction tab with
  | nil => exact ⟨[], fun b hb => absurd hb (List.not_mem_nil b), rfl⟩
  | cons x rest ih =>
    obtain ⟨sys, c, i⟩ := x
    unfold outobstype_ver3_systems
    by_cases hz : sys = 0
    · rw [if_pos hz]
      exact ⟨[], fun b hb => absurd hb (List.not_mem_nil b), rfl⟩
    · rw [if_neg hz]
      obtain ⟨b1, hb1, e1⟩ := outobstype_ver3_sys_lines E opt sys c i (h0 i) (h1 i) (ht i)
      obtain ⟨b2, hb2, e2⟩ := ih
      refine ⟨b1 ++ b2, ?_, ?_⟩
      · intro b hb
        rcases List.mem_append.mp hb with h | h
        · exact hb1 b h
        · exact hb2 b h
      · rw [e1, e2, linesText_append]

theorem linesText_label (lab : List Char) (bodies : List (List Char))
    (h : ∀ b ∈ bodies, b.length = 60) (hl : lab.length = 20)
    (hne : linesText lab bodies ≠ []) :
    ((linesText lab bodies).drop 60).take 20 = lab := by
  cases bodies with
  | nil => exact absurd rfl hne
  | cons b bs =>
    have hb : b.length = 60 := h b (List.mem_cons_self b bs)
    show ((b ++ lab ++ ['\n'] ++ linesText lab bs).drop 60).take 20 = lab
    rw [List.append_assoc, List.append_assoc, List.drop_left' hb, List.take_left' hl]

/-- C28: for a number of types that the table `tobs[][MAXOBSTYPE][4]` can hold
(`0 <= nobs <= MAXOBSTYPE`, the constant being at most 999) and types of at
most 6 characters, the output of `outobstype_ver2` is a sequence of lines, each
of exactly 60 characters followed by the label (padded to 20 columns) and a
newline; for numbers of types `0 <= nobs[i] <= MAXOBSTYPE` and types of at most
3 characters the same holds for the output of `outobstype_ver3` (a system with
no type writes no line). -/
theorem outobstype_label_column (E : Ext) (nobs : Int) (tobs : Nat → List Char)
    (opt : rnxopt_t) (hM : E.MAXOBSTYPE ≤ 999) (h0 : 0 ≤ nobs)
    (h1 : nobs ≤ (E.MAXOBSTYPE : Int)) (ht : ∀ i, (tobs i).length ≤ 6)
    (g0 : ∀ i, 0 ≤ opt.nobs i) (g1 : ∀ i, opt.nobs i ≤ (E.MAXOBSTYPE : Int))
    (gt : ∀ i j, (opt.tobs i j).length ≤ 3) :
    (∃ bodies : List (List Char), (∀ b ∈ bodies, b.length = 60) ∧
      outobstype_ver2 nobs tobs = linesText (padRight 20 labelObsV2) bodies) ∧
    (∃ bodies : List (List Char), (∀ b ∈ bodies, b.length = 60) ∧
      outobstype_ver3 E opt = linesText (padRight 20 labelObsV3) bodies) :=
  ⟨outobstype_ver2_lines nobs tobs h0 (by omega) ht,
   outobstype_ver3_systems_lines E opt g0 (fun i => by have := g1 i; omega) gt (navsysTable E)⟩

/-- Witness for C28: ten types `C1` for ver.2 and the fourteen GPS types of
`optObs14` for ver.3, with `MAXOBSTYPE = 64`. -/
theorem outobstype_label_column_witness :
    sampleExt.MAXOBSTYPE ≤ 999 ∧ (10 : Int) ≤ (sampleExt.MAXOBSTYPE : Int) ∧
    (∀ i, 0 ≤ optObs14.nobs i) ∧ (∀ i, optObs14.nobs i ≤ (sampleExt.MAXOBSTYPE : Int)) ∧
    (∃ bodies : List (List Char), (∀ b ∈ bodies, b.length = 60) ∧
      outobstype_ver2 10 (fun _ => "C1".toList) = linesText (padRight 20 labelObsV2) bodies) ∧
    (∃ bodies : List (List Char), (∀ b ∈ bodies, b.length = 60) ∧
      outobstype_ver3 sampleExt optObs14 = linesText (padRight 20 labelObsV3) bodies) :=
  have hM : sampleExt.MAXOBSTYPE ≤ 999 := by decide
  have h1 : (10 : Int) ≤ (sampleExt.MAXOBSTYPE : Int) := by decide
  have g0 : ∀ i, 0 ≤ optObs14.nobs i := fun i => by
    show (0 : Int) ≤ if i = 0 then 14 else 0
    split_ifs <;> decide
  have g1 : ∀ i, optObs14.nobs i ≤ (sampleExt.MAXOBSTYPE : Int) := fun i => by
    show (if i = 0 then (14 : Int) else 0) ≤ ((64 : Nat) : Int)
    split_ifs <;> decide
  ⟨hM, h1, g0, g1,
    outobstype_label_column sampleExt 10 (fun _ => "C1".toList) optObs14 hM (by decide) h1
      (fun _ => show "C1".toList.length ≤ 6 by decide) g0 g1
      (fun _ _ => show "C1C".toList.length ≤ 3 by decide)⟩

/-! ### Capacity growth failure (C21) -/

theorem addobsdata_fail (realloc : Int → Bool) (obs : obsstore_t) (data : obsd_t)
    (hfull : obs.nmax ≤ obs.n)
    (hre : realloc (if obs.nmax ≤ 0 then NINCOBS else obs.nmax * 2) = false) :
    addobsdata realloc obs data = (-1, { n := 0, nmax := 0, data := [] }) := by
  unfold addobsdata
  rw [if_pos hfull]
  simp only [hre, if_true]

/-- Growth failure in the observation path: when `readrnxobsb` delivers at least
one record that passes the time screen and `realloc` fails for the grown
capacity, `readrnxobs` ends with the status -1 and the store reset. -/
theorem readrnxobs_run_fail {H : Type} (E : Ext) (obsh : ObshFn H) (tsys : H → Int)
    (realloc : Int → Bool) (ts te : gtime_t) (tint : ℚ) (rcv : Int) (ver : ℚ) (mask : Nat)
    (index : Nat → sigind_t) (fuel : Nat) (fp : List (List Char)) (flag : Int)
    (data : Nat → obsd_t) (hdr : H) (slips : Int → Nat → Nat) (obs : obsstore_t) (stat : Int)
    (hstat : 0 ≤ stat)
    (hn : 0 < (readrnxobsb E obsh fp mask ver hdr flag data index).ret)
    (hscr : E.screent ((readrnxobs_save E
      (tsys (readrnxobsb E obsh fp mask ver hdr flag data index).hdr)
      (readrnxobsb E obsh fp mask ver hdr flag data index).ret.toNat 0
      (readrnxobsb E obsh fp mask ver hdr flag data index).data slips).1 0).time ts te tint = true)
    (hfull : obs.nmax ≤ obs.n)
    (hre : realloc (if obs.nmax ≤ 0 then NINCOBS else obs.nmax * 2) = false) :
    readrnxobs_run E obsh tsys realloc ts te tint rcv ver mask index (fuel + 2) fp flag data hdr
      slips obs stat = some (-1, { n := 0, nmax := 0, data := [] }) := by
  rw [readrnxobs_run]
  simp only
  generalize readrnxobsb E obsh fp mask ver hdr flag data index = r at hn hscr ⊢
  rw [if_neg (by rintro (h | h) <;> omega)]
  rw [if_neg (by rintro ⟨-, h⟩; rw [hscr] at h; exact absurd h (by decide))]
  obtain ⟨k, hk⟩ : ∃ k, r.ret.toNat = k + 1 := ⟨r.ret.toNat - 1, by omega⟩
  rw [hk, readrnxobs_add]
  rw [addobsdata_fail realloc obs _ hfull hre]
  dsimp only
  rw [if_pos (show (-1 : Int) < 0 by decide)]
  rw [readrnxobs_run]
  dsimp only
  rw [if_pos (Or.inr (show (-1 : Int) < 0 by decide))]

theorem add_eph_fail (realloc : Int → Bool) (nav : navstore_t) (eph : eph_t)
    (hfull : nav.nmax ≤ nav.n) (hre : realloc (nav.nmax + 1024) = false) :
    add_eph realloc nav eph = (0, { nav with n := 0, nmax := 0, eph := [] }) := by
  unfold add_eph
  rw [if_pos hfull, if_pos hre]

theorem add_geph_fail (realloc : Int → Bool) (nav : navstore_t) (geph : geph_t)
    (hfull : nav.ngmax ≤ nav.ng) (hre : realloc (nav.ngmax + 1024) = false) :
    add_geph realloc nav geph = (0, { nav with ng := 0, ngmax := 0, geph := [] }) := by
  unfold add_geph
  rw [if_pos hfull, if_pos hre]

theorem add_seph_fail (realloc : Int → Bool) (nav : navstore_t) (seph : seph_t)
    (hfull : nav.nsmax ≤ nav.ns) (hre : realloc (nav.nsmax + 1024) = false) :
    add_seph realloc nav seph = (0, { nav with ns := 0, nsmax := 0, seph := [] }) := by
  unfold add_seph
  rw [if_pos hfull, if_pos hre]

/-- Growth failure in the navigation path: when `readrnxnavb` delivers a record
and the store of its kind cannot grow, `readrnxnav` resets that store and
returns 0. -/
theorem readrnxnav_loop_fail (E : Ext) (re rg rs : Int → Bool) (opt : List Char) (ver : ℚ)
    (sys : Nat) (d0 : Nat → ℚ) (fuel : Nat) (fp : List (List Char)) (out : navret_t)
    (nav : navstore_t) (hret : 0 < (readrnxnavb E fp opt ver sys d0 out).ret) :
    ((readrnxnavb E fp opt ver sys d0 out).type = 1 → nav.ngmax ≤ nav.ng →
      rg (nav.ngmax + 1024) = false →
      readrnxnav_loop E re rg rs opt ver sys d0 (fuel + 1) fp out nav =
        some (0, { nav with ng := 0, ngmax := 0, geph := [] })) ∧
    ((readrnxnavb E fp opt ver sys d0 out).type = 2 → nav.nsmax ≤ nav.ns →
      rs (nav.nsmax + 1024) = false →
      readrnxnav_loop E re rg rs opt ver sys d0 (fuel + 1) fp out nav =
        some (0, { nav with ns := 0, nsmax := 0, seph := [] })) ∧
    ((readrnxnavb E fp opt ver sys d0 out).type ∉ [1, 2, 5, 6, 7] → nav.nmax ≤ nav.n →
      re (nav.nmax + 1024) = false →
      readrnxnav_loop E re rg rs opt ver sys d0 (fuel + 1) fp out nav =
        some (0, { nav with n := 0, nmax := 0, eph := [] })) := by
  generalize hr : readrnxnavb E fp opt ver sys d0 out = r at hret
  have hstep : readrnxnav_loop E re rg rs opt ver sys d0 (fuel + 1) fp out nav =
      if (readrnxnav_add E re rg rs nav r).1 = 0 then some (0, (readrnxnav_add E re rg rs nav r).2)
      else readrnxnav_loop E re rg rs opt ver sys d0 fuel r.fp r
        (readrnxnav_add E re rg rs nav r).2 := by
    rw [readrnxnav_loop]
    simp only [hr]
    rw [if_neg (by omega), if_pos (by omega)]
  refine ⟨?_, ?_, ?_⟩
  · intro ht hfull hre
    have ha : readrnxnav_add E re rg rs nav r = (0, { nav with ng := 0, ngmax := 0, geph := [] }) := by
      unfold readrnxnav_add
      rw [if_pos ht, add_geph_fail rg nav r.geph hfull hre]
    rw [hstep, ha]
    rfl
  · intro ht hfull hre
    have ha : readrnxnav_add E re rg rs nav r = (0, { nav with ns := 0, nsmax := 0, seph := [] }) := by
      unfold readrnxnav_add
      rw [if_neg (by rw [ht]; decide), if_pos ht, add_seph_fail rs nav r.seph hfull hre]
    rw [hstep, ha]
    rfl
  · intro ht hfull hre
    simp only [List.mem_cons, List.mem_singleton, not_or, List.not_mem_nil, not_false_eq_true,
      and_true] at ht
    have ha : readrnxnav_add E re rg rs nav r = (0, { nav with n := 0, nmax := 0, eph := [] }) := by
      unfold readrnxnav_add
      rw [if_neg ht.1, if_neg ht.2.1, if_neg ht.2.2.1, if_neg ht.2.2.2.1, if_neg ht.2.2.2.2,
        add_eph_fail re nav r.eph hfull hre]
    rw [hstep, ha]
    rfl

theorem sample_readrnxnavb_G :
    (readrnxnavb navExt (lineNavG :: List.replicate 7 lineNavC) [] 3 0 (fun _ => 0)
      navret0).ret = 1 ∧
    (readrnxnavb navExt (lineNavG :: List.replicate 7 lineNavC) [] 3 0 (fun _ => 0)
      navret0).type = 0 := by
  have hv : (3 : ℚ) ≥ 3 := le_refl _
  have hsat : readrnxnavb_sat navExt lineNavG 3 0 = (1, 1, 4) := by
    unfold readrnxnavb_sat
    rw [if_pos hv]
    rfl
  have h := readrnxnavb_head_eph navExt 3 (set_sysmask navExt []) lineNavG
    (List.replicate 7 lineNavC) [] 1 1 4 [] [] (fun _ => 0) navret0 { time := 202, sec := 0 }
    navExt_distinct (navExt_toc 'G') rfl plainRec_nil (Or.inl ⟨rfl, by decide⟩)
  rw [List.append_nil, if_neg (by decide)] at h
  rw [readrnxnavb_v3 navExt _ _ _ 3 0 _ _ (by norm_num), hsat, h]
  dsimp only
  rw [decode_eph_ret]
  exact ⟨by decide, rfl⟩

/-- C21 (code bug): the navigation half of the claim fails. `readrnxnavb` decodes
the sample version 3 GPS record (return value 1); with an ephemeris store that
cannot grow, `add_eph` resets the store and returns 0, and `readrnxnav` returns
0, the status of "no data", not -1. In the observation path `addobsdata` returns
-1 on the same failure. -/
theorem readrnxnav_growth_failure :
    (readrnxnavb navExt (lineNavG :: List.replicate 7 lineNavC) [] 3 0 (fun _ => 0)
      navret0).ret = 1 ∧
    add_eph (fun _ => false) navstore0 eph0 = (0, navstore0) ∧
    readrnxnav navExt (fun _ => false) (fun _ => false) (fun _ => false) 9
      (lineNavG :: List.replicate 7 lineNavC) [] 3 0 (fun _ => 0) navret0 (some navstore0) =
      some (0, some navstore0) ∧
    addobsdata (fun _ => false) obsstore0 obsd0 = (-1, obsstore0) := by
  obtain ⟨hret, htype⟩ := sample_readrnxnavb_G
  refine ⟨hret, ?_, ?_, ?_⟩
  · exact add_eph_fail (fun _ => false) navstore0 eph0 (le_refl _) rfl
  · have h := (readrnxnav_loop_fail navExt (fun _ => false) (fun _ => false) (fun _ => false)
      [] 3 0 (fun _ => 0) 8 (lineNavG :: List.replicate 7 lineNavC) navret0 navstore0
      (by rw [hret]; decide)).2.2 (by rw [htype]; decide) (le_refl _) rfl
    unfold readrnxnav
    simp only
    rw [h]
    rfl
  · exact addobsdata_fail (fun _ => false) obsstore0 obsd0 (le_refl _) rfl

/-! ### Record stored by `input_rnxctr` (C25) -/

theorem readrnxnavb_dispatch_ifnv (E : Ext) (ver : ℚ) (mask : Nat) (st : navb_t)
    (out : navret_t) (h1 : strstr st.recType "STO".toList = false)
    (h2 : strstr st.recType "EOP".toList = false)
    (h3 : strstr st.recType "ION".toList = true)
    (h4 : strstr st.megType "IFNV".toList = true) (h5 : st.i ≥ 4) :
    readrnxnavb_dispatch E ver mask st out =
      some (navb_ion mask st out 5 (decode_ion_gal E st.sat st.toc st.data out.ion)) := by
  simp only [readrnxnavb_dispatch, h1, h2, h3, h4, h5, Bool.false_eq_true, false_and,
    if_false, and_self, if_true]

theorem sample_readrnxnavb_ion (out : navret_t) :
    (readrnxnavb navExt [lineIonE, lineNavG, lineNavC] [] 4 navExt.SYS_NONE (fun _ => 0)
      out).ret = 1 ∧
    (readrnxnavb navExt [lineIonE, lineNavG, lineNavC] [] 4 navExt.SYS_NONE (fun _ => 0)
      out).type = 5 ∧
    (readrnxnavb navExt [lineIonE, lineNavG, lineNavC] [] 4 navExt.SYS_NONE (fun _ => 0)
      out).eph = out.eph ∧
    (readrnxnavb navExt [lineIonE, lineNavG, lineNavC] [] 4 navExt.SYS_NONE (fun _ => 0)
      out).fp = [] := by
  have hv : (4 : ℚ) ≥ 4 := le_refl _
  have hscan : scanRec lineIonE [] [] [] = ("ION".toList, "E01".toList, "IFNV".toList) := by
    decide
  have ht : navExt.str2time (lineNavG.drop 4) 0 19 = some { time := 202, sec := 0 } := rfl
  have hr : readrnxnavb navExt [lineIonE, lineNavG, lineNavC] [] 4 navExt.SYS_NONE (fun _ => 0)
      out =
      navb_ion (set_sysmask navExt [])
        (readrnxnavb_cont navExt lineNavC
          { i := 3, sat := 60, sp := 4, sys := 8, recType := "ION".toList,
            megType := "IFNV".toList, toc := { time := 202, sec := 0 },
            data := readrnxnavb_first navExt lineNavG "ION".toList 4 (fun _ => 0) })
        { out with fp := [] } 5
        (decode_ion_gal navExt 60 { time := 202, sec := 0 }
          (readrnxnavb_cont navExt lineNavC
            { i := 3, sat := 60, sp := 4, sys := 8, recType := "ION".toList,
              megType := "IFNV".toList, toc := { time := 202, sec := 0 },
              data := readrnxnavb_first navExt lineNavG "ION".toList 4 (fun _ => 0) }).data
          out.ion) := by
    unfold readrnxnavb
    simp only [if_pos hv, hscan]
    unfold readrnxnavb_head
    have e1 : navExt.satid2no "E01".toList = 60 := by decide
    have e2 : navExt.satid2sys "E01".toList = 8 := by decide
    rw [e1, e2, ht]
    simp only
    rw [readrnxnavb_loop]
    rw [readrnxnavb_dispatch_ifnv navExt 4 _ _ _ (by decide) (by decide) (by decide) (by decide)
      (by decide)]
    rfl
  have hm : set_sysmask navExt [] &&& 8 ≠ 0 := by decide
  rw [hr]
  unfold navb_ion
  have hs : (readrnxnavb_cont navExt lineNavC
      { i := 3, sat := 60, sp := 4, sys := 8, recType := "ION".toList,
        megType := "IFNV".toList, toc := { time := 202, sec := 0 },
        data := readrnxnavb_first navExt lineNavG "ION".toList 4 (fun _ => 0) }).sys = 8 := rfl
  rw [hs, if_neg hm]
  have hg : ∀ (toc : gtime_t) (data : Nat → ℚ) (ion : ion_t),
      (decode_ion_gal navExt 60 toc data ion).1 = 1 := by
    intro toc data ion
    unfold decode_ion_gal
    rw [if_neg (show ¬ navExt.satsys (60 : Int).toNat ≠ navExt.SYS_GAL by decide)]
  refine ⟨?_, rfl, rfl, rfl⟩
  dsimp only
  rw [hg]

/-- Result of `input_rnxctr` for a navigation file when `readrnxnavb` hands out a
record (return value above 0): the return value is 2 and the record of the
reported type is written at the index computed from its satellite. -/
theorem input_rnxctr_nav (E : Ext)
    (obsPart : rnxctr_t → List (List Char) → Int × rnxctr_t × List (List Char))
    (d0 : Nat → ℚ) (type0 : Int) (rnx : rnxctr_t) (fp : List (List Char)) (sys : Nat)
    (ho : rnx.type ≠ 'O') (hsys : input_rnxctr_sys E rnx.type = some sys)
    (hret : 0 < (readrnxnavb E fp rnx.opt rnx.ver sys d0
      { ret := 0, type := type0, eph := eph0, geph := geph0, seph := seph0, ion := ion0,
        fp := fp }).ret) :
    (input_rnxctr E obsPart d0 type0 rnx fp).1 = 2 ∧
    ((readrnxnavb E fp rnx.opt rnx.ver sys d0
      { ret := 0, type := type0, eph := eph0, geph := geph0, seph := seph0, ion := ion0,
        fp := fp }).type ∉ [1, 2] →
      (input_rnxctr E obsPart d0 type0 rnx fp).2.1.ephsat =
        (readrnxnavb E fp rnx.opt rnx.ver sys d0
          { ret := 0, type := type0, eph := eph0, geph := geph0, seph := seph0, ion := ion0,
            fp := fp }).eph.sat ∧
      (input_rnxctr E obsPart d0 type0 rnx fp).2.1.eph =
        Function.update rnx.eph ((readrnxnavb E fp rnx.opt rnx.ver sys d0
          { ret := 0, type := type0, eph := eph0, geph := geph0, seph := seph0, ion := ion0,
            fp := fp }).eph.sat - 1)
          (readrnxnavb E fp rnx.opt rnx.ver sys d0
            { ret := 0, type := type0, eph := eph0, geph := geph0, seph := seph0, ion := ion0,
              fp := fp }).eph ∧
      (input_rnxctr E obsPart d0 type0 rnx fp).2.1.geph = rnx.geph ∧
      (input_rnxctr E obsPart d0 type0 rnx fp).2.1.seph = rnx.seph) := by
  unfold input_rnxctr
  rw [if_neg ho, hsys]
  simp only
  generalize readrnxnavb E fp rnx.opt rnx.ver sys d0
    { ret := 0, type := type0, eph := eph0, geph := geph0, seph := seph0, ion := ion0,
      fp := fp } = r at hret ⊢
  rw [if_neg (by omega)]
  constructor
  · split_ifs <;> rfl
  · intro ht
    simp only [List.mem_cons, List.mem_singleton, not_or, List.not_mem_nil, not_false_eq_true,
      and_true] at ht
    rw [if_neg ht.1, if_neg ht.2]
    exact ⟨rfl, rfl, rfl, rfl⟩

/-- C25 (code bug): the claim fails for an ionosphere record. On the sample
version 4 stream with the record `> ION E01 IFNV`, `readrnxnavb` returns 1 with
type 5 and leaves the ephemeris at its initial zero; `input_rnxctr` returns 2
with `ephsat = 0`, and writes the zero ephemeris at index -1, before the first
slot of `nav.eph`; no slot of the store receives the record. -/
theorem input_rnxctr_ion_record :
    (readrnxnavb navExt [lineIonE, lineNavG, lineNavC] [] 4 navExt.SYS_NONE (fun _ => 0)
      { ret := 0, type := 0, eph := eph0, geph := geph0, seph := seph0, ion := ion0,
        fp := [lineIonE, lineNavG, lineNavC] }).ret = 1 ∧
    (readrnxnavb navExt [lineIonE, lineNavG, lineNavC] [] 4 navExt.SYS_NONE (fun _ => 0)
      { ret := 0, type := 0, eph := eph0, geph := geph0, seph := seph0, ion := ion0,
        fp := [lineIonE, lineNavG, lineNavC] }).type = 5 ∧
    (input_rnxctr navExt obsPart0 (fun _ => 0) 0 rnxNav4 [lineIonE, lineNavG, lineNavC]).1 = 2 ∧
    (input_rnxctr navExt obsPart0 (fun _ => 0) 0 rnxNav4
      [lineIonE, lineNavG, lineNavC]).2.1.ephsat = 0 ∧
    (input_rnxctr navExt obsPart0 (fun _ => 0) 0 rnxNav4
      [lineIonE, lineNavG, lineNavC]).2.1.eph (-1) = eph0 ∧
    (rnxNav4.eph (-1)).iode = 9 ∧ eph0.iode = 0 ∧
    (∀ k : Int, k ≠ -1 →
      (input_rnxctr navExt obsPart0 (fun _ => 0) 0 rnxNav4
        [lineIonE, lineNavG, lineNavC]).2.1.eph k = rnxNav4.eph k) ∧
    (input_rnxctr navExt obsPart0 (fun _ => 0) 0 rnxNav4
      [lineIonE, lineNavG, lineNavC]).2.1.geph = rnxNav4.geph ∧
    (input_rnxctr navExt obsPart0 (fun _ => 0) 0 rnxNav4
      [lineIonE, lineNavG, lineNavC]).2.1.seph = rnxNav4.seph := by
  obtain ⟨hret, htype, heph, -⟩ := sample_readrnxnavb_ion
    { ret := 0, type := 0, eph := eph0, geph := geph0, seph := seph0, ion := ion0,
      fp := [lineIonE, lineNavG, lineNavC] }
  obtain ⟨h2, hst⟩ := input_rnxctr_nav navExt obsPart0 (fun _ => 0) 0 rnxNav4
    [lineIonE, lineNavG, lineNavC] navExt.SYS_NONE (by decide) rfl (by
      show 0 < (readrnxnavb navExt [lineIonE, lineNavG, lineNavC] [] 4 navExt.SYS_NONE
        (fun _ => 0) _).ret
      rw [hret]; decide)
  obtain ⟨s1, s2, s3, s4⟩ := hst (by
    show (readrnxnavb navExt [lineIonE, lineNavG, lineNavC] [] 4 navExt.SYS_NONE
      (fun _ => 0) _).type ∉ [1, 2]
    rw [htype]; decide)
  have hsat : (readrnxnavb navExt [lineIonE, lineNavG, lineNavC] rnxNav4.opt rnxNav4.ver
      navExt.SYS_NONE (fun _ => 0)
      { ret := 0, type := 0, eph := eph0, geph := geph0, seph := seph0, ion := ion0,
        fp := [lineIonE, lineNavG, lineNavC] }).eph = eph0 := heph
  rw [hsat] at s1 s2
  have hz : eph0.sat - 1 = -1 := by decide
  rw [hz] at s2
  refine ⟨hret, htype, h2, s1, ?_, rfl, rfl, ?_, s3, s4⟩
  · rw [s2, Function.update_same]
  · intro k hk
    rw [s2, Function.update_noteq hk]

/-! ### Frequency renumbering (C33) -/

/-- C33: the frequency that `set_index` stores for a label is `remapFrq` of the
frequency of `obs2code`. For BeiDou `remapFrq` sends 2, 5, 4, 1, 3, 6 to 1, 2, 3,
4, 5, 6, maps the bands 1..6 onto 1..6 and never sends two different bands to
the same slot; for Galileo it sends band 5 to 2 and leaves every other band;
for every other system it leaves the band. -/
theorem remapFrq_spec (E : Ext) (hne : E.SYS_GAL ≠ E.SYS_CMP) (sys : Nat) (opt t : List Char)
    (i : Nat) (ind : sigind_t) :
    (set_index_entry E sys opt t i ind).frq i = remapFrq E sys (E.obs2code t.tail).2 ∧
    (remapFrq E E.SYS_CMP 2 = 1 ∧ remapFrq E E.SYS_CMP 5 = 2 ∧ remapFrq E E.SYS_CMP 4 = 3 ∧
      remapFrq E E.SYS_CMP 1 = 4 ∧ remapFrq E E.SYS_CMP 3 = 5 ∧ remapFrq E E.SYS_CMP 6 = 6) ∧
    (∀ f : Int, 1 ≤ f → f ≤ 6 → 1 ≤ remapFrq E E.SYS_CMP f ∧ remapFrq E E.SYS_CMP f ≤ 6) ∧
    (∀ y : Int, 1 ≤ y → y ≤ 6 → ∃ f : Int, 1 ≤ f ∧ f ≤ 6 ∧ remapFrq E E.SYS_CMP f = y) ∧
    (∀ f g : Int, remapFrq E E.SYS_CMP f = remapFrq E E.SYS_CMP g → f = g) ∧
    (remapFrq E E.SYS_GAL 5 = 2 ∧ ∀ f : Int, f ≠ 5 → remapFrq E E.SYS_GAL f = f) ∧
    (∀ (s : Nat) (f : Int), s ≠ E.SYS_CMP → s ≠ E.SYS_GAL → remapFrq E s f = f) := by
  have hc : ∀ f : Int, remapFrq E E.SYS_CMP f =
      if f = 2 then 1 else if f = 5 then 2 else if f = 4 then 3 else if f = 1 then 4
      else if f = 3 then 5 else if f = 6 then 6 else f := by
    intro f
    unfold remapFrq
    rw [if_pos rfl]
  refine ⟨?_, ?_, ?_, ?_, ?_, ?_, ?_⟩
  · unfold set_index_entry
    simp only [Function.update_same]
  · simp only [hc]
    decide
  · intro f h1 h6
    rw [hc]
    split_ifs <;> omega
  · intro y h1 h6
    have hy : y = 1 ∨ y = 2 ∨ y = 3 ∨ y = 4 ∨ y = 5 ∨ y = 6 := by omega
    rcases hy with h | h | h | h | h | h <;> subst h
    · exact ⟨2, by decide, by decide, by rw [hc]; decide⟩
    · exact ⟨5, by decide, by decide, by rw [hc]; decide⟩
    · exact ⟨4, by decide, by decide, by rw [hc]; decide⟩
    · exact ⟨1, by decide, by decide, by rw [hc]; decide⟩
    · exact ⟨3, by decide, by decide, by rw [hc]; decide⟩
    · exact ⟨6, by decide, by decide, by rw [hc]; decide⟩
  · intro f g h
    rw [hc, hc] at h
    split_ifs at h <;> omega
  · constructor
    · unfold remapFrq
      rw [if_neg hne, if_pos rfl, if_pos rfl]
    · intro f hf
      unfold remapFrq
      rw [if_neg hne, if_pos rfl, if_neg hf]
  · intro s f h1 h2
    unfold remapFrq
    rw [if_neg h1, if_neg h2]

theorem remapFrq_spec_witness :
    sampleExt.SYS_GAL ≠ sampleExt.SYS_CMP ∧
    remapFrq sampleExt sampleExt.SYS_CMP 2 = 1 ∧ remapFrq sampleExt sampleExt.SYS_GAL 5 = 2 :=
  ⟨by decide,
   (remapFrq_spec sampleExt (by decide) 1 [] [] 0 sigind0).2.1.1,
   (remapFrq_spec sampleExt (by decide) 1 [] [] 0 sigind0).2.2.2.2.2.1.1⟩

/-! ### Accuracy index written and read back (C37) -/

theorem uraindexLoop_nominal (i : Nat) (hi : i < 16) :
    uraindexLoop (ura_nominal.getD i 0) 15 0 = i := by
  obtain ⟨e0, e1, e2, e3, e4, e5, e6, e7, e8, e9, e10, e11, e12, e13, e14, e15⟩ :=
    ura_eph_entries
  obtain ⟨n0, n1, n2, n3, n4, n5, n6, n7, n8, n9, n10, n11, n12, n13, n14, n15⟩ :=
    ura_nominal_entries
  apply uraindexLoop_eq _ _ (by omega)
  · intro _
    interval_cases i <;>
      simp only [e0, e1, e2, e3, e4, e5, e6, e7, e8, e9, e10, e11, e12, e13, e14, e15,
        n0, n1, n2, n3, n4, n5, n6, n7, n8, n9, n10, n11, n12, n13, n14, n15] <;>
      norm_num
  · intro j hj
    interval_cases i <;> interval_cases j <;>
      simp only [e0, e1, e2, e3, e4, e5, e6, e7, e8, e9, e10, e11, e12, e13, e14, e15,
        n0, n1, n2, n3, n4, n5, n6, n7, n8, n9, n10, n11, n12, n13, n14, n15] <;>
      norm_num

/-- C37: for every system other than Galileo and every index `0 <= i <= 15`,
`uraindex (uravalue sys i) = i`; so the GPS/QZSS branch of `decode_eph`, which
stores `uraindex(data[23])`, recovers the index `i` from the field
`uravalue(sys,i)` that `outrnxnavb` writes. -/
theorem uraindex_uravalue (E : Ext) (sys : Nat) (hs : sys ≠ E.SYS_GAL) (i : Int) (h0 : 0 ≤ i)
    (h15 : i ≤ 15) (s : Nat) (toc : gtime_t) (data : Nat → ℚ) (eph : eph_t) :
    uraindex (uravalue E sys i) = i ∧
    (data 23 = uravalue E sys i → (decode_eph_gps E s toc data eph).sva = i) := by
  obtain ⟨r, rfl⟩ : ∃ r : Nat, i = (r : Int) := ⟨i.toNat, by omega⟩
  have hr : r ≤ 15 := by omega
  have key : uraindex (uravalue E sys (r : Int)) = (r : Int) := by
    rw [uravalue_nominal E sys hs r hr]
    unfold uraindex
    rw [uraindexLoop_nominal r (by omega)]
  refine ⟨key, ?_⟩
  intro hd
  show uraindex (data 23) = (r : Int)
  rw [hd, key]

theorem uraindex_uravalue_witness :
    1 ≠ sampleExt.SYS_GAL ∧ uraindex (uravalue sampleExt 1 3) = 3 :=
  ⟨by decide,
   (uraindex_uravalue sampleExt 1 (by decide) 3 (by decide) (by decide) 1 gtime0 (fun _ => 0)
     eph0).1⟩

/-! ### Galileo ionosphere record (C38) -/

/-- What `decode_ion_gal` does for every satellite: for a satellite of another
system it returns 0 and leaves the record; for a Galileo satellite it returns 1
with the given time, the coefficients `data[0..2]`, and the system tag 0 of the
initialiser `ion0`. -/
theorem decode_ion_gal_spec (E : Ext) (sat : Int) (toc : gtime_t) (data : Nat → ℚ)
    (ion : ion_t) :
    (E.satsys sat.toNat ≠ E.SYS_GAL → decode_ion_gal E sat toc data ion = (0, ion)) ∧
    (E.satsys sat.toNat = E.SYS_GAL →
      (decode_ion_gal E sat toc data ion).1 = 1 ∧
      (decode_ion_gal E sat toc data ion).2.toc = toc ∧
      (∀ i, i < 3 → (decode_ion_gal E sat toc data ion).2.ion i = data i) ∧
      (decode_ion_gal E sat toc data ion).2.sys = 0) := by
  constructor
  · intro h
    unfold decode_ion_gal
    rw [if_pos h]
  · intro h
    unfold decode_ion_gal
    rw [if_neg (not_not.mpr h)]
    refine ⟨rfl, rfl, ?_, rfl⟩
    intro i hi
    show (if i < 3 then data i else ion0.ion i) = data i
    rw [if_pos hi]

/-- C38 (code bug): for the Galileo satellite E01 (number 60 of the sample
numbering, system code 8) `decode_ion_gal` returns 1 with the given time and the
first three coefficients, but the system tag of the record is 0, not the code of
Galileo: the tag is assigned before `*ion = ion0` and is cleared by it.
`decode_ion_k8`, which assigns the tag after the initialiser, returns the tag of
the satellite's system for the GPS satellite 1. -/
theorem decode_ion_gal_sys_cleared :
    navExt.satsys (60 : Int).toNat = navExt.SYS_GAL ∧ navExt.SYS_GAL = 8 ∧
    (decode_ion_gal navExt 60 { time := 202, sec := 0 } dataRamp ion0).1 = 1 ∧
    (decode_ion_gal navExt 60 { time := 202, sec := 0 } dataRamp ion0).2.toc =
      { time := 202, sec := 0 } ∧
    (decode_ion_gal navExt 60 { time := 202, sec := 0 } dataRamp ion0).2.ion 0 = 1 ∧
    (decode_ion_gal navExt 60 { time := 202, sec := 0 } dataRamp ion0).2.sys = 0 ∧
    (decode_ion_k8 navExt 1 { time := 202, sec := 0 } dataRamp ion0).1 = 1 ∧
    (decode_ion_k8 navExt 1 { time := 202, sec := 0 } dataRamp ion0).2.sys =
      (navExt.SYS_GPS : Int) := by
  have hg : navExt.satsys (60 : Int).toNat = navExt.SYS_GAL := by decide
  obtain ⟨a, b, c, d⟩ := (decode_ion_gal_spec navExt 60 { time := 202, sec := 0 } dataRamp
    ion0).2 hg
  have hk : decode_ion_k8 navExt 1 { time := 202, sec := 0 } dataRamp ion0 =
      (1, { sys := navExt.satsys (1 : Int).toNat, toc := { time := 202, sec := 0 },
            ion := fun i => if i < 8 then dataRamp i else ion0.ion i }) := by
    unfold decode_ion_k8
    rw [if_neg (by decide)]
  refine ⟨hg, rfl, a, b, ?_, d, ?_, ?_⟩
  · rw [c 0 (by decide)]
    unfold dataRamp
    norm_num
  · rw [hk]
  · rw [hk]
    decide

/-! ### Time system corrections (C39) -/

/-- Header line of the `TIME SYSTEM CORR` block: it carries none of the labels
that `decode_navh` tests before that block. -/
theorem decode_navh_timeCorr (E : Ext) (buff : List Char) (nav : nav_t)
    (h1 : strstr (labelOf buff) "ION ALPHA".toList = false)
    (h2 : strstr (labelOf buff) "ION BETA".toList = false)
    (h3 : strstr (labelOf buff) "DELTA-UTC: A0,A1,T,W".toList = false)
    (h4 : strstr (labelOf buff) "IONOSPHERIC CORR".toList = false)
    (h5 : strstr (labelOf buff) "TIME SYSTEM CORR".toList = true) :
    decode_navh E buff nav = decode_navh_utc E buff nav := by
  simp only [decode_navh, h1, h2, h3, h4, h5, Bool.false_eq_true, if_false, if_true]

/-- Effect of the `TIME SYSTEM CORR` block for each of the seven tags: the tags
`GPUT`, `GLUT`, `GAUT`, `QZUT`, `BDUT`, `IRUT` write the array of their system
and nothing else; the tag `SBUT` writes the BeiDou array `utc_cmp`. -/
theorem decode_navh_utc_tag (E : Ext) (buff : List Char) (nav : nav_t) :
    (startsWith buff "GPUT".toList = true →
      decode_navh_utc E buff nav = { nav with utc_gps := readUtc4 E buff nav.utc_gps }) ∧
    (startsWith buff "GLUT".toList = true →
      decode_navh_utc E buff nav =
        { nav with utc_glo := Function.update (Function.update nav.utc_glo
            0 (E.str2num buff 5 17)) 1 (E.str2num buff 22 16) }) ∧
    (startsWith buff "GAUT".toList = true →
      decode_navh_utc E buff nav = { nav with utc_gal := readUtc4 E buff nav.utc_gal }) ∧
    (startsWith buff "QZUT".toList = true →
      decode_navh_utc E buff nav = { nav with utc_qzs := readUtc4 E buff nav.utc_qzs }) ∧
    (startsWith buff "BDUT".toList = true →
      decode_navh_utc E buff nav = { nav with utc_cmp := readUtc4 E buff nav.utc_cmp }) ∧
    (startsWith buff "SBUT".toList = true →
      decode_navh_utc E buff nav = { nav with utc_cmp := readUtc4 E buff nav.utc_cmp }) ∧
    (startsWith buff "IRUT".toList = true →
      decode_navh_utc E buff nav = { nav with utc_irn := readUtc4 E buff nav.utc_irn }) := by
  refine ⟨?_, ?_, ?_, ?_, ?_, ?_, ?_⟩
  · intro h
    unfold decode_navh_utc
    rw [if_pos h]
  · intro h
    have e1 := startsWith_excl buff _ "GPUT".toList h (by decide)
    simp only [decode_navh_utc, e1, h, Bool.false_eq_true, if_false, if_true]
  · intro h
    have e1 := startsWith_excl buff _ "GPUT".toList h (by decide)
    have e2 := startsWith_excl buff _ "GLUT".toList h (by decide)
    simp only [decode_navh_utc, e1, e2, h, Bool.false_eq_true, if_false, if_true]
  · intro h
    have e1 := startsWith_excl buff _ "GPUT".toList h (by decide)
    have e2 := startsWith_excl buff _ "GLUT".toList h (by decide)
    have e3 := startsWith_excl buff _ "GAUT".toList h (by decide)
    simp only [decode_navh_utc, e1, e2, e3, h, Bool.false_eq_true, if_false, if_true]
  · intro h
    have e1 := startsWith_excl buff _ "GPUT".toList h (by decide)
    have e2 := startsWith_excl buff _ "GLUT".toList h (by decide)
    have e3 := startsWith_excl buff _ "GAUT".toList h (by decide)
    have e4 := startsWith_excl buff _ "QZUT".toList h (by decide)
    simp only [decode_navh_utc, e1, e2, e3, e4, h, Bool.false_eq_true, if_false, if_true]
  · intro h
    have e1 := startsWith_excl buff _ "GPUT".toList h (by decide)
    have e2 := startsWith_excl buff _ "GLUT".toList h (by decide)
    have e3 := startsWith_excl buff _ "GAUT".toList h (by decide)
    have e4 := startsWith_excl buff _ "QZUT".toList h (by decide)
    have e5 := startsWith_excl buff _ "BDUT".toList h (by decide)
    simp only [decode_navh_utc, e1, e2, e3, e4, e5, h, Bool.false_eq_true, if_false, if_true]
  · intro h
    have e1 := startsWith_excl buff _ "GPUT".toList h (by decide)
    have e2 := startsWith_excl buff _ "GLUT".toList h (by decide)
    have e3 := startsWith_excl buff _ "GAUT".toList h (by decide)
    have e4 := startsWith_excl buff _ "QZUT".toList h (by decide)
    have e5 := startsWith_excl buff _ "BDUT".toList h (by decide)
    have e6 := startsWith_excl buff _ "SBUT".toList h (by decide)
    simp only [decode_navh_utc, e1, e2, e3, e4, e5, e6, h, Bool.false_eq_true, if_false,
      if_true]

/-- C39 (code bug): on the sample `TIME SYSTEM CORR` line tagged `SBUT` with the
fields 7, 3, 9, 5, `decode_navh` writes the four fields into the BeiDou array
`utc_cmp`, which held zeros before, and leaves the other five arrays; the same
fields under the tag `GPUT` go to `utc_gps` and leave `utc_cmp`. -/
theorem decode_navh_sbut_writes_cmp :
    nav0.utc_cmp 0 = 0 ∧
    (decode_navh sampleExt lineSBUT nav0).utc_cmp 0 = 7 ∧
    (decode_navh sampleExt lineSBUT nav0).utc_cmp 1 = 3 ∧
    (decode_navh sampleExt lineSBUT nav0).utc_cmp 2 = 9 ∧
    (decode_navh sampleExt lineSBUT nav0).utc_cmp 3 = 5 ∧
    (decode_navh sampleExt lineSBUT nav0).utc_gps = nav0.utc_gps ∧
    (decode_navh sampleExt lineSBUT nav0).utc_glo = nav0.utc_glo ∧
    (decode_navh sampleExt lineSBUT nav0).utc_gal = nav0.utc_gal ∧
    (decode_navh sampleExt lineSBUT nav0).utc_qzs = nav0.utc_qzs ∧
    (decode_navh sampleExt lineSBUT nav0).utc_irn = nav0.utc_irn ∧
    (decode_navh sampleExt lineGPUT nav0).utc_gps 0 = 7 ∧
    (decode_navh sampleExt lineGPUT nav0).utc_cmp = nav0.utc_cmp := by
  have hs : decode_navh sampleExt lineSBUT nav0 =
      { nav0 with utc_cmp := readUtc4 sampleExt lineSBUT nav0.utc_cmp } := by
    rw [decode_navh_timeCorr sampleExt lineSBUT nav0 (by decide) (by decide) (by decide)
      (by decide) (by decide)]
    exact (decode_navh_utc_tag sampleExt lineSBUT nav0).2.2.2.2.2.1 (by decide)
  have hg : decode_navh sampleExt lineGPUT nav0 =
      { nav0 with utc_gps := readUtc4 sampleExt lineGPUT nav0.utc_gps } := by
    rw [decode_navh_timeCorr sampleExt lineGPUT nav0 (by decide) (by decide) (by decide)
      (by decide) (by decide)]
    exact (decode_navh_utc_tag sampleExt lineGPUT nav0).1 (by decide)
  have f0 : sampleExt.str2num lineSBUT 5 17 = ((7 : Int) : ℚ) :=
    sampleStr2num_eq lineSBUT 5 17 7 (by decide)
  have f1 : sampleExt.str2num lineSBUT 22 16 = ((3 : Int) : ℚ) :=
    sampleStr2num_eq lineSBUT 22 16 3 (by decide)
  have f2 : sampleExt.str2num lineSBUT 38 7 = ((9 : Int) : ℚ) :=
    sampleStr2num_eq lineSBUT 38 7 9 (by decide)
  have f3 : sampleExt.str2num lineSBUT 45 5 = ((5 : Int) : ℚ) :=
    sampleStr2num_eq lineSBUT 45 5 5 (by decide)
  have g0 : sampleExt.str2num lineGPUT 5 17 = ((7 : Int) : ℚ) :=
    sampleStr2num_eq lineGPUT 5 17 7 (by decide)
  rw [hs, hg]
  refine ⟨rfl, ?_, ?_, ?_, ?_, rfl, rfl, rfl, rfl, rfl, ?_, rfl⟩
  · show readUtc4 sampleExt lineSBUT nav0.utc_cmp 0 = 7
    unfold readUtc4
    rw [Function.update_noteq (by decide), Function.update_noteq (by decide),
      Function.update_noteq (by decide), Function.update_same, f0]
    norm_num
  · show readUtc4 sampleExt lineSBUT nav0.utc_cmp 1 = 3
    unfold readUtc4
    rw [Function.update_noteq (by decide), Function.update_noteq (by decide),
      Function.update_same, f1]
    norm_num
  · show readUtc4 sampleExt lineSBUT nav0.utc_cmp 2 = 9
    unfold readUtc4
    rw [Function.update_noteq (by decide), Function.update_same, f2]
    norm_num
  · show readUtc4 sampleExt lineSBUT nav0.utc_cmp 3 = 5
    unfold readUtc4
    rw [Function.update_same, f3]
    norm_num
  · show readUtc4 sampleExt lineGPUT nav0.utc_gps 0 = 7
    unfold readUtc4
    rw [Function.update_noteq (by decide), Function.update_noteq (by decide),
      Function.update_noteq (by decide), Function.update_same, g0]
    norm_num

/-! ### Week handover (C32) -/

theorem sampleExt_exactTime : ExactTime sampleExt := by
  constructor
  · intro t1 t2
    show ((t1.time - t2.time : Int) : ℚ) + (t1.sec - t2.sec) = gtimeSec t1 - gtimeSec t2
    unfold gtimeSec
    push_cast
    ring
  · intro t s
    show gtimeSec { time := t.time + ⌊t.sec + s⌋, sec := t.sec + s - ⌊t.sec + s⌋ } =
      gtimeSec t + s
    unfold gtimeSec
    push_cast
    ring

/-- C32: with `timediff` and `timeadd` exact, `adjweek t t0` differs from `t` by
exactly -604800, 0 or +604800 seconds, and when `|t - t0| <= 907200` the result
is within 302400 seconds of `t0`; the time of ephemeris that the GPS branch of
`decode_eph` stores is `adjweek` of the time of the week field against `toc`. -/
theorem adjweek_spec (E : Ext) (hE : ExactTime E) (t t0 : gtime_t) (sys : Nat)
    (data : Nat → ℚ) (eph : eph_t) :
    (gtimeSec (adjweek E t t0) - gtimeSec t = -604800 ∨
      gtimeSec (adjweek E t t0) - gtimeSec t = 0 ∨
      gtimeSec (adjweek E t t0) - gtimeSec t = 604800) ∧
    (|gtimeSec t - gtimeSec t0| ≤ 907200 →
      |gtimeSec (adjweek E t t0) - gtimeSec t0| ≤ 302400) ∧
    (decode_eph_gps E sys t0 data eph).toe =
      adjweek E (E.gpst2time (toInt (data 21)) (data 11)) t0 := by
  obtain ⟨hd, ha⟩ := hE
  have hcases : (E.timediff t t0 < -302400 ∧ adjweek E t t0 = E.timeadd t 604800) ∨
      (¬ E.timediff t t0 < -302400 ∧ E.timediff t t0 > 302400 ∧
        adjweek E t t0 = E.timeadd t (-604800)) ∨
      (¬ E.timediff t t0 < -302400 ∧ ¬ E.timediff t t0 > 302400 ∧ adjweek E t t0 = t) := by
    unfold adjweek
    by_cases h1 : E.timediff t t0 < -302400
    · left
      exact ⟨h1, by simp only [if_pos h1]⟩
    · by_cases h2 : E.timediff t t0 > 302400
      · right; left
        exact ⟨h1, h2, by simp only [if_neg h1, if_pos h2]⟩
      · right; right
        exact ⟨h1, h2, by simp only [if_neg h1, if_neg h2]⟩
  refine ⟨?_, ?_, rfl⟩
  · rcases hcases with ⟨-, h⟩ | ⟨-, -, h⟩ | ⟨-, -, h⟩
    · right; right
      rw [h, ha]; ring
    · left
      rw [h, ha]; ring
    · right; left
      rw [h]; ring
  · intro hb
    rw [abs_le] at hb ⊢
    rcases hcases with ⟨h1, h⟩ | ⟨h1, h2, h⟩ | ⟨h1, h2, h⟩
    · rw [hd] at h1
      rw [h, ha]
      constructor <;> linarith [hb.1, hb.2]
    · rw [hd] at h1 h2
      rw [h, ha]
      constructor <;> linarith [hb.1, hb.2]
    · rw [hd] at h1 h2
      rw [h]
      constructor <;> linarith [hb.1, hb.2]

theorem adjweek_spec_witness :
    ExactTime sampleExt ∧
    |gtimeSec { time := 700000, sec := 0 } - gtimeSec { time := 100, sec := 0 }| ≤ 907200 ∧
    |gtimeSec (adjweek sampleExt { time := 700000, sec := 0 } { time := 100, sec := 0 }) -
      gtimeSec { time := 100, sec := 0 }| ≤ 302400 :=
  have hb : |gtimeSec { time := 700000, sec := 0 } - gtimeSec { time := 100, sec := 0 }| ≤
      907200 := by
    unfold gtimeSec
    rw [abs_le]
    constructor <;> norm_num
  ⟨sampleExt_exactTime, hb,
   (adjweek_spec sampleExt sampleExt_exactTime { time := 700000, sec := 0 }
     { time := 100, sec := 0 } 1 (fun _ => 0) eph0).2.1 hb⟩

/-! ### Extended positions in declaration order (C31) -/

theorem firstOccurrences_filter (p : Nat → Bool) : ∀ l : List Nat,
    firstOccurrences (l.filter p) = (firstOccurrences l).filter p := by
  intro l
  induction l with
  | nil => rfl
  | cons c cs ih =>
    by_cases hp : p c = true
    · rw [List.filter_cons_of_pos hp]
      show c :: (firstOccurrences (cs.filter p)).filter (fun x => decide (x ≠ c)) =
        (c :: (firstOccurrences cs).filter (fun x => decide (x ≠ c))).filter p
      rw [List.filter_cons_of_pos hp, ih, List.filter_filter, List.filter_filter]
      congr 1
      apply List.filter_congr
      intro x _
      exact Bool.and_comm _ _
    · rw [List.filter_cons_of_neg hp]
      show firstOccurrences (cs.filter p) =
        (c :: (firstOccurrences cs).filter (fun x => decide (x ≠ c))).filter p
      rw [List.filter_cons_of_neg hp, ih, List.filter_filter]
      apply List.filter_congr
      intro x _
      by_cases hx : x = c
      · subst hx
        simp only [Bool.not_eq_true] at hp
        rw [hp]
        rfl
      · simp only [ne_eq, hx, not_false_eq_true, decide_True, Bool.and_true]

theorem firstOccurrences_head (c : Nat) (cs : List Nat) :
    firstOccurrences (c :: cs) =
      c :: firstOccurrences ((c :: cs).filter (fun x => decide (x ≠ c))) := by
  have h : (c :: cs).filter (fun x => decide (x ≠ c)) = cs.filter (fun x => decide (x ≠ c)) := by
    rw [List.filter_cons_of_neg (by simp)]
  rw [h, firstOccurrences_filter]
  rfl

theorem candCodes_none (ind : sigind_t) : ∀ (fuel j : Nat),
    (∀ m, j ≤ m → m < j + fuel → ¬ extCandidate ind m) → candCodes ind fuel j = [] := by
  intro fuel
  induction fuel with
  | zero => intro j _; rfl
  | succ f ih =>
    intro j h
    rw [candCodes, if_neg (h j (le_refl _) (by omega))]
    exact ih (j + 1) (fun m h1 h2 => h m (by omega) (by omega))

theorem candCodes_first (ind : sigind_t) : ∀ (fuel j j0 : Nat), j ≤ j0 → j0 < j + fuel →
    extCandidate ind j0 → (∀ m, j ≤ m → m < j0 → ¬ extCandidate ind m) →
    ∃ cs, candCodes ind fuel j = ind.code j0 :: cs := by
  intro fuel
  induction fuel with
  | zero => intro j j0 h1 h2; omega
  | succ f ih =>
    intro j j0 h1 h2 hc hn
    by_cases he : j = j0
    · subst he
      rw [candCodes, if_pos hc]
      exact ⟨_, rfl⟩
    · rw [candCodes, if_neg (hn j (le_refl _) (by omega))]
      exact ih (j + 1) j0 (by omega) (by omega) hc (fun m a b => hn m (by omega) b)

theorem candCodes_assign (ind : sigind_t) (n j0 : Nat) (v : Int) (hv : 0 ≤ v) :
    ∀ (fuel j : Nat), j + fuel ≤ n →
    candCodes (assignPos ind n j0 v) fuel j =
      (candCodes ind fuel j).filter (fun x => decide (x ≠ ind.code j0)) := by
  intro fuel
  induction fuel with
  | zero => intro j _; rfl
  | succ f ih =>
    intro j hj
    have hlt : j < n := by omega
    rw [candCodes, candCodes, ih (j + 1) (by omega)]
    by_cases hc : ind.code j = ind.code j0
    · have h1 : ¬ extCandidate (assignPos ind n j0 v) j := by
        rintro ⟨-, -, h⟩
        have : (assignPos ind n j0 v).pos j = v := by
          show (if j < n ∧ ind.code j = ind.code j0 then v else ind.pos j) = v
          rw [if_pos ⟨hlt, hc⟩]
        rw [this] at h
        omega
      rw [if_neg h1]
      by_cases h2 : extCandidate ind j
      · rw [if_pos h2, List.filter_cons_of_neg (by simp [hc])]
      · rw [if_neg h2]
    · have hpos : (assignPos ind n j0 v).pos j = ind.pos j := by
        show (if j < n ∧ ind.code j = ind.code j0 then v else ind.pos j) = ind.pos j
        rw [if_neg (fun h => hc h.2)]
      have hiff : extCandidate (assignPos ind n j0 v) j ↔ extCandidate ind j := by
        unfold extCandidate
        rw [hpos]
        exact Iff.rfl
      by_cases h2 : extCandidate ind j
      · rw [if_pos (hiff.mpr h2), if_pos h2, List.filter_cons_of_pos (by simp [hc])]
        rfl
      · rw [if_neg (fun h => h2 (hiff.mp h)), if_neg h2]

theorem extCodes_step (ind : sigind_t) (n : Nat) (v : Int) (hv : 0 ≤ v)
    (hlt : firstUnassigned ind n 0 < n) :
    extCodes ind n = ind.code (firstUnassigned ind n 0) ::
      extCodes (assignPos ind n (firstUnassigned ind n 0) v) n := by
  obtain ⟨-, -, h3, h4⟩ := firstUnassigned_spec ind n 0
  have hc : extCandidate ind (firstUnassigned ind n 0) := h3 (by omega)
  obtain ⟨cs, hcs⟩ := candCodes_first ind n 0 (firstUnassigned ind n 0) (Nat.zero_le _)
    (by omega) hc (fun m a b => h4 m a b)
  unfold extCodes
  rw [candCodes_assign ind n _ v hv n 0 (by omega), hcs]
  exact firstOccurrences_head _ _

theorem extCodes_tail_ne (c : Nat) (cs : List Nat) (l : List Nat)
    (h : firstOccurrences (c :: cs) = c :: l) : ∀ x ∈ l, x ≠ c := by
  have e : l = (firstOccurrences cs).filter (fun x => decide (x ≠ c)) := by
    have : firstOccurrences (c :: cs) =
        c :: (firstOccurrences cs).filter (fun x => decide (x ≠ c)) := rfl
    rw [this] at h
    exact (List.cons_injective h).symm
  intro x hx
  rw [e, List.mem_filter] at hx
  exact of_decide_eq_true hx.2

/-- The loop "assign index of extended obs data" started at iteration `i` with
`fuel` iterations left: the candidates whose code is the `k`-th distinct
candidate code get the position `NFREQ + i + k` when `k < fuel`, and keep their
position otherwise. -/
theorem set_index_ext_order (E : Ext) (n : Nat) : ∀ (fuel i : Nat) (ind : sigind_t),
    SameCodeSamePos ind n → ∀ (k j : Nat), k < (extCodes ind n).length → j < n →
    extCandidate ind j → ind.code j = (extCodes ind n).getD k 0 →
    (set_index_ext E n fuel i ind).pos j =
      if k < fuel then (E.NFREQ : Int) + i + k else ind.pos j := by
  intro fuel
  induction fuel with
  | zero =>
    intro i ind _ k j _ _ _ _
    rw [if_neg (Nat.not_lt_zero k)]
    rfl
  | succ f ih =>
    intro i ind hs k j hk hj hc hcode
    by_cases hj0 : firstUnassigned ind n 0 ≥ n
    · obtain ⟨-, -, -, h4⟩ := firstUnassigned_spec ind n 0
      have hnil : candCodes ind n 0 = [] :=
        candCodes_none ind n 0 (fun m a b => h4 m a (by omega))
      unfold extCodes at hk
      rw [hnil] at hk
      exact absurd hk (Nat.not_lt_zero k)
    · have hlt : firstUnassigned ind n 0 < n := by omega
      have hv : (0 : Int) ≤ (E.NFREQ : Int) + i := by omega
      have e : set_index_ext E n (f + 1) i ind = set_index_ext E n f (i + 1)
          (assignPos ind n (firstUnassigned ind n 0) ((E.NFREQ : Int) + i)) := by
        simp only [set_index_ext, if_neg hj0]
      have hstep := extCodes_step ind n ((E.NFREQ : Int) + i) hv hlt
      have hs' := assignPos_sameCode ind n (firstUnassigned ind n 0) ((E.NFREQ : Int) + i) hs
      rw [e]
      cases k with
      | zero =>
        rw [hstep] at hcode
        have hcj : ind.code j = ind.code (firstUnassigned ind n 0) := hcode
        have hp : (assignPos ind n (firstUnassigned ind n 0) ((E.NFREQ : Int) + i)).pos j =
            (E.NFREQ : Int) + i := by
          show (if j < n ∧ ind.code j = ind.code (firstUnassigned ind n 0)
            then (E.NFREQ : Int) + i else ind.pos j) = (E.NFREQ : Int) + i
          rw [if_pos ⟨hj, hcj⟩]
        obtain ⟨-, -, -, h4, -⟩ := set_index_ext_spec E n f (i + 1) _ hs'
        rw [h4 j hj (by rw [hp]; exact hv), hp, if_pos (Nat.succ_pos f)]
        push_cast
        ring
      | succ k' =>
        rw [hstep] at hk hcode
        have hk' : k' < (extCodes (assignPos ind n (firstUnassigned ind n 0)
            ((E.NFREQ : Int) + i)) n).length := by
          rw [List.length_cons] at hk
          omega
        have hcode' : ind.code j = (extCodes (assignPos ind n (firstUnassigned ind n 0)
            ((E.NFREQ : Int) + i)) n).getD k' 0 := hcode
        have hmem : ind.code j ∈ extCodes (assignPos ind n (firstUnassigned ind n 0)
            ((E.NFREQ : Int) + i)) n := by
          rw [hcode', List.getD_eq_getElem _ _ hk']
          exact List.getElem_mem _
        have hne : ind.code j ≠ ind.code (firstUnassigned ind n 0) := by
          obtain ⟨-, -, h3, h4⟩ := firstUnassigned_spec ind n 0
          obtain ⟨cs, hcs⟩ := candCodes_first ind n 0 (firstUnassigned ind n 0) (Nat.zero_le _)
            (by omega) (h3 (by omega)) (fun m a b => h4 m a b)
          have hst2 : firstOccurrences (ind.code (firstUnassigned ind n 0) :: cs) =
              ind.code (firstUnassigned ind n 0) ::
                extCodes (assignPos ind n (firstUnassigned ind n 0) ((E.NFREQ : Int) + i)) n := by
            rw [← hcs]
            exact hstep
          exact extCodes_tail_ne _ _ _ hst2 _ hmem
        have hpos : (assignPos ind n (firstUnassigned ind n 0) ((E.NFREQ : Int) + i)).pos j =
            ind.pos j := by
          show (if j < n ∧ ind.code j = ind.code (firstUnassigned ind n 0)
            then (E.NFREQ : Int) + i else ind.pos j) = ind.pos j
          rw [if_neg (fun h => hne h.2)]
        have hc' : extCandidate (assignPos ind n (firstUnassigned ind n 0)
            ((E.NFREQ : Int) + i)) j := by
          unfold extCandidate
          rw [hpos]
          exact hc
        have h := ih (i + 1) _ hs' k' j hk' hj hc' hcode'
        rw [h, hpos]
        by_cases hkf : k' < f
        · rw [if_pos hkf, if_pos (by omega)]
          push_cast
          ring
        · rw [if_neg hkf, if_neg (by omega)]

/-- C31: in `set_index`, among the entries that after the primary loop have a
nonzero code, a nonzero priority and no position, those whose code is the `k`-th
distinct such code in declaration order get the position `NFREQ + k` when
`k < NEXOBS` and keep the position -1 otherwise. -/
theorem set_index_extended (E : Ext) (ver : ℚ) (sys : Nat) (opt : List Char)
    (tobs : List (List Char)) (ind : sigind_t) (k j : Nat)
    (hk : k < (extCodes (set_index_afterPrimary E sys opt tobs ind)
      (set_index E ver sys opt tobs ind).n).length)
    (hj : j < (set_index E ver sys opt tobs ind).n)
    (hc : extCandidate (set_index_afterPrimary E sys opt tobs ind) j)
    (hcode : (set_index_afterPrimary E sys opt tobs ind).code j =
      (extCodes (set_index_afterPrimary E sys opt tobs ind)
        (set_index E ver sys opt tobs ind).n).getD k 0) :
    (set_index E ver sys opt tobs ind).pos j =
      if k < E.NEXOBS then (E.NFREQ : Int) + k else -1 := by
  obtain ⟨-, -, -, h4⟩ := set_index_scan_spec E sys opt tobs 0 ind
  have hn : (set_index E ver sys opt tobs ind).n = (set_index_scan E sys opt tobs 0 ind).2 := rfl
  have hpos : (set_index E ver sys opt tobs ind).pos =
      (set_index_ext E (set_index_scan E sys opt tobs 0 ind).2 E.NEXOBS 0
        (set_index_afterPrimary E sys opt tobs ind)).pos := rfl
  rw [hn] at hk hj hcode
  have h0 : SameCodeSamePos
      { (set_index_scan E sys opt tobs 0 ind).1 with
        shift := set_index_shift E sys (set_index_scan E sys opt tobs 0 ind).2
          (set_index_scan E sys opt tobs 0 ind).1.code opt
          (set_index_scan E sys opt tobs 0 ind).1.shift }
      (set_index_scan E sys opt tobs 0 ind).2 := by
    intro a b ha hb _
    show (set_index_scan E sys opt tobs 0 ind).1.pos a = (set_index_scan E sys opt tobs 0 ind).1.pos b
    rw [(h4 a (Nat.zero_le _) ha).1, (h4 b (Nat.zero_le _) hb).1]
  have h1 : SameCodeSamePos (set_index_afterPrimary E sys opt tobs ind)
      (set_index_scan E sys opt tobs 0 ind).2 :=
    primary_fold_sameCode _ (List.range E.NFREQ) _ h0
  have hp0 : PosInv
      { (set_index_scan E sys opt tobs 0 ind).1 with
        shift := set_index_shift E sys (set_index_scan E sys opt tobs 0 ind).2
          (set_index_scan E sys opt tobs 0 ind).1.code opt
          (set_index_scan E sys opt tobs 0 ind).1.shift }
      (set_index_scan E sys opt tobs 0 ind).2 0 := by
    constructor
    · intro a ha
      exact Or.inl (h4 a (Nat.zero_le _) ha).1
    · intro a b ha _ _ hge
      have hm : (set_index_scan E sys opt tobs 0 ind).1.pos a = -1 := (h4 a (Nat.zero_le _) ha).1
      have hge' : 0 ≤ (set_index_scan E sys opt tobs 0 ind).1.pos a := hge
      rw [hm] at hge'
      exact absurd hge' (by decide)
  have hp1 : PosInv (set_index_afterPrimary E sys opt tobs ind)
      (set_index_scan E sys opt tobs 0 ind).2 (E.NFREQ : Int) :=
    primary_range_posInv _ _ hp0 E.NFREQ
  have hminus : (set_index_afterPrimary E sys opt tobs ind).pos j = -1 := by
    rcases hp1.1 j hj with h | ⟨h, -⟩
    · exact h
    · exact absurd hc.2.2 (not_lt.mpr h)
  rw [hpos, set_index_ext_order E _ E.NEXOBS 0 _ h1 k j hk hj hc hcode, hminus]
  by_cases hkn : k < E.NEXOBS
  · rw [if_pos hkn, if_pos hkn]
    push_cast
    ring
  · rw [if_neg hkn, if_neg hkn]

/-- In the sample table `C1C C1P C1W L1C C2W C1X` (three slots, one extended
slot) the candidates after the primary loop are `C1P` (code 2) and `C1W` (code 3):
`C1P` gets the position 3 and `C1W` keeps -1. -/
theorem set_index_extended_witness :
    extCodes (set_index_afterPrimary sampleExt 1 [] tobsSample sigind0)
      (set_index sampleExt 3.03 1 [] tobsSample sigind0).n = [2, 3] ∧
    (set_index sampleExt 3.03 1 [] tobsSample sigind0).pos 1 =
      (if 0 < sampleExt.NEXOBS then (sampleExt.NFREQ : Int) + (0 : Nat) else -1) ∧
    (set_index sampleExt 3.03 1 [] tobsSample sigind0).pos 2 =
      (if 1 < sampleExt.NEXOBS then (sampleExt.NFREQ : Int) + (1 : Nat) else -1) :=
  ⟨by decide,
   set_index_extended sampleExt 3.03 1 [] tobsSample sigind0 0 1 (by decide) (by decide)
     (by decide) (by decide),
   set_index_extended sampleExt 3.03 1 [] tobsSample sigind0 1 2 (by decide) (by decide)
     (by decide) (by decide)⟩

/-! ### Order of the merged precise clock entries (C35) -/

theorem cmppclk_le (E : Ext) (hE : ∀ t1 t2 : gtime_t, E.timediff t1 t2 = gtimeSec t1 - gtimeSec t2)
    (a b : pclk_t) :
    cmppclk E a b ≤ 0 ↔
      (pclkSec a - pclkSec b < -1e-9 ∨
        (¬ pclkSec a - pclkSec b < -1e-9 ∧ ¬ pclkSec a - pclkSec b > 1e-9 ∧
          a.index ≤ b.index)) := by
  unfold cmppclk
  simp only [hE]
  show (if pclkSec a - pclkSec b < -1e-9 then (-1 : Int)
    else if pclkSec a - pclkSec b > 1e-9 then 1 else a.index - b.index) ≤ 0 ↔ _
  by_cases h1 : pclkSec a - pclkSec b < -1e-9
  · rw [if_pos h1]
    exact ⟨fun _ => Or.inl h1, fun _ => by decide⟩
  · rw [if_neg h1]
    by_cases h2 : pclkSec a - pclkSec b > 1e-9
    · rw [if_pos h2]
      constructor
      · intro h; exact absurd h (by decide)
      · rintro (h | ⟨-, h, -⟩)
        · exact absurd h h1
        · exact absurd h2 h
    · rw [if_neg h2]
      constructor
      · intro h; exact Or.inr ⟨h1, h2, by omega⟩
      · rintro (h | ⟨-, -, h⟩)
        · exact absurd h h1
        · omega

theorem pclkNear_symm (a b : pclk_t) (h : pclkNear a b) : pclkNear b a := by
  unfold pclkNear at h ⊢
  rw [abs_sub_comm]
  exact h

theorem pclkBefore_of_cmp (E : Ext)
    (hE : ∀ t1 t2 : gtime_t, E.timediff t1 t2 = gtimeSec t1 - gtimeSec t2) (a b : pclk_t)
    (hne : |pclkSec a - pclkSec b| ≠ 1e-9) :
    (cmppclk E a b ≤ 0 → pclkBefore a b) ∧ (¬ cmppclk E a b ≤ 0 → pclkBefore b a) := by
  have hnear : ¬ pclkSec a - pclkSec b < -1e-9 → ¬ pclkSec a - pclkSec b > 1e-9 →
      pclkNear a b := by
    intro h1 h2
    unfold pclkNear
    have hle : |pclkSec a - pclkSec b| ≤ 1e-9 := by
      rw [abs_le]
      exact ⟨by linarith, by linarith⟩
    exact lt_of_le_of_ne hle hne
  constructor
  · intro h
    rcases (cmppclk_le E hE a b).mp h with h1 | ⟨h1, h2, -⟩
    · right; linarith
    · left; exact hnear h1 h2
  · intro h
    by_cases h1 : pclkSec a - pclkSec b < -1e-9
    · exact absurd ((cmppclk_le E hE a b).mpr (Or.inl h1)) h
    · by_cases h2 : pclkSec a - pclkSec b > 1e-9
      · right; linarith
      · left; exact pclkNear_symm a b (hnear h1 h2)

theorem pclkBefore_trans (S : pclk_t → Prop)
    (h1 : ∀ x y, S x → S y → |pclkSec x - pclkSec y| ≠ 1e-9)
    (h2 : ∀ x y z, S x → S y → S z → pclkNear x y → pclkNear y z → pclkNear x z)
    (a b c : pclk_t) (ha : S a) (hb : S b) (hc : S c) (hab : pclkBefore a b)
    (hbc : pclkBefore b c) : pclkBefore a c := by
  have hpos : (0 : ℚ) < 1e-9 := by norm_num
  have far : ¬ pclkNear a c → pclkSec a < pclkSec c → pclkSec a + 1e-9 < pclkSec c := by
    intro hn hlt
    unfold pclkNear at hn
    have hge : (1e-9 : ℚ) ≤ |pclkSec a - pclkSec c| := not_lt.mp hn
    have hne := h1 a c ha hc
    have hgt : (1e-9 : ℚ) < |pclkSec a - pclkSec c| := lt_of_le_of_ne hge (Ne.symm hne)
    rw [abs_sub_comm, abs_of_pos (by linarith)] at hgt
    linarith
  rcases hab with hab | hab
  · rcases hbc with hbc | hbc
    · exact Or.inl (h2 a b c ha hb hc hab hbc)
    · by_cases hn : pclkNear a c
      · exact Or.inl hn
      · right
        apply far hn
        have := hab
        unfold pclkNear at this
        rw [abs_lt] at this
        linarith [this.1, this.2]
  · rcases hbc with hbc | hbc
    · by_cases hn : pclkNear a c
      · exact Or.inl hn
      · right
        apply far hn
        have := hbc
        unfold pclkNear at this
        rw [abs_lt] at this
        linarith [this.1, this.2]
    · right; linarith

theorem orderedInsert_before (E : Ext)
    (hE : ∀ t1 t2 : gtime_t, E.timediff t1 t2 = gtimeSec t1 - gtimeSec t2) (S : pclk_t → Prop)
    (h1 : ∀ x y, S x → S y → |pclkSec x - pclkSec y| ≠ 1e-9)
    (h2 : ∀ x y z, S x → S y → S z → pclkNear x y → pclkNear y z → pclkNear x z)
    (a : pclk_t) (ha : S a) : ∀ l : List pclk_t, (∀ x ∈ l, S x) → l.Pairwise pclkBefore →
    (l.orderedInsert (fun x y => cmppclk E x y ≤ 0) a).Pairwise pclkBefore := by
  intro l
  induction l with
  | nil =>
    intro _ _
    exact List.pairwise_singleton _ _
  | cons b l ih =>
    intro hS hp
    have hb : S b := hS b (List.mem_cons_self b l)
    have hl : ∀ x ∈ l, S x := fun x hx => hS x (List.mem_cons_of_mem b hx)
    rw [List.pairwise_cons] at hp
    obtain ⟨hc1, hc2⟩ := pclkBefore_of_cmp E hE a b (h1 a b ha hb)
    by_cases hr : cmppclk E a b ≤ 0
    · rw [List.orderedInsert, if_pos hr]
      rw [List.pairwise_cons]
      refine ⟨?_, List.pairwise_cons.mpr hp⟩
      intro x hx
      rcases List.mem_cons.mp hx with h | h
      · rw [h]; exact hc1 hr
      · exact pclkBefore_trans S h1 h2 a b x ha hb (hl x h) (hc1 hr) (hp.1 x h)
    · rw [List.orderedInsert, if_neg hr]
      rw [List.pairwise_cons]
      refine ⟨?_, ih hl hp.2⟩
      intro x hx
      rcases (List.mem_orderedInsert _).mp hx with h | h
      · rw [h]; exact hc2 hr
      · exact hp.1 x h

theorem insertionSort_before (E : Ext)
    (hE : ∀ t1 t2 : gtime_t, E.timediff t1 t2 = gtimeSec t1 - gtimeSec t2) (S : pclk_t → Prop)
    (h1 : ∀ x y, S x → S y → |pclkSec x - pclkSec y| ≠ 1e-9)
    (h2 : ∀ x y z, S x → S y → S z → pclkNear x y → pclkNear y z → pclkNear x z) :
    ∀ l : List pclk_t, (∀ x ∈ l, S x) →
    (l.insertionSort (fun x y => cmppclk E x y ≤ 0)).Pairwise pclkBefore := by
  intro l
  induction l with
  | nil => intro _; exact List.Pairwise.nil
  | cons a l ih =>
    intro hS
    rw [List.insertionSort]
    apply orderedInsert_before E hE S h1 h2 a (hS a (List.mem_cons_self a l))
    · intro x hx
      have : x ∈ l := (List.perm_insertionSort _ l).mem_iff.mp hx
      exact hS x (List.mem_cons_of_mem a this)
    · exact ih (fun x hx => hS x (List.mem_cons_of_mem a hx))

theorem pclkBefore_congr (a a1 b : pclk_t) (h : pclkSec a1 = pclkSec a) (hb : pclkBefore a b) :
    pclkBefore a1 b := by
  unfold pclkBefore pclkNear at hb ⊢
  rw [h]
  exact hb

/-- Invariant of the merging loop of `combpclk` on an array sorted with respect
to `pclkBefore`: after the steps `j = 1..m` the entries `0..i` are more than
1e-9 s apart in increasing order, the entries after `m` are untouched, and the
current entry is not later than any of them. -/
theorem combpclk_loop_inv (E : Ext)
    (hE : ∀ t1 t2 : gtime_t, E.timediff t1 t2 = gtimeSec t1 - gtimeSec t2) (n : Nat)
    (sorted : Nat → pclk_t)
    (hP : ∀ x y, x < y → y < n → pclkBefore (sorted x) (sorted y)) :
    ∀ m : Nat, m + 1 ≤ n →
    ((List.range' 1 m).foldl (combpclk_step E) (0, sorted)).1 ≤ m ∧
    (∀ k, m < k → ((List.range' 1 m).foldl (combpclk_step E) (0, sorted)).2 k = sorted k) ∧
    (∀ y, m < y → y < n →
      pclkBefore (((List.range' 1 m).foldl (combpclk_step E) (0, sorted)).2
        ((List.range' 1 m).foldl (combpclk_step E) (0, sorted)).1) (sorted y)) ∧
    (∀ a b, a < b → b ≤ ((List.range' 1 m).foldl (combpclk_step E) (0, sorted)).1 →
      pclkSec (((List.range' 1 m).foldl (combpclk_step E) (0, sorted)).2 a) + 1e-9 <
        pclkSec (((List.range' 1 m).foldl (combpclk_step E) (0, sorted)).2 b)) := by
  have hpos : (0 : ℚ) < 1e-9 := by norm_num
  intro m
  induction m with
  | zero =>
    intro _
    refine ⟨le_refl _, fun k _ => rfl, fun y hy hn => hP 0 y hy hn, ?_⟩
    intro a b hab hb
    have hb0 : b ≤ 0 := hb
    omega
  | succ m ih =>
    intro hm
    obtain ⟨i1, i2, i3, i4⟩ := ih (by omega)
    rw [List.range'_concat, List.foldl_append, List.foldl_cons, List.foldl_nil]
    generalize (List.range' 1 m).foldl (combpclk_step E) (0, sorted) = s at i1 i2 i3 i4
    obtain ⟨i, p⟩ := s
    simp only at i1 i2 i3 i4
    have hj : 1 + 1 * m = m + 1 := by omega
    rw [hj]
    have hpj : p (m + 1) = sorted (m + 1) := i2 (m + 1) (by omega)
    have hcond : |E.timediff (p i).time (p (m + 1)).time| < 1e-9 ↔ pclkNear (p i) (p (m + 1)) := by
      rw [hE]
      exact Iff.rfl
    by_cases hnear : pclkNear (p i) (p (m + 1))
    · have hs : combpclk_step E (i, p) (m + 1) =
          (i, Function.update p i (combpclk_merge E (p i) (p (m + 1)))) := by
        unfold combpclk_step
        simp only [if_pos (hcond.mpr hnear)]
      rw [hs]
      have hT : pclkSec (combpclk_merge E (p i) (p (m + 1))) = pclkSec (p i) := rfl
      refine ⟨by omega, ?_, ?_, ?_⟩
      · intro k hk
        simp only
        rw [Function.update_noteq (by omega)]
        exact i2 k (by omega)
      · intro y hy hn
        simp only [Function.update_same]
        exact pclkBefore_congr (p i) _ (sorted y) hT (i3 y (by omega) hn)
      · intro a b hab hb
        simp only at hb ⊢
        rw [Function.update_noteq (by omega : a ≠ i)]
        by_cases hbi : b = i
        · rw [hbi, Function.update_same, hT]
          exact i4 a i (by omega) (le_refl _)
        · rw [Function.update_noteq hbi]
          exact i4 a b hab hb
    · have hbef : pclkSec (p i) + 1e-9 < pclkSec (sorted (m + 1)) := by
        rcases i3 (m + 1) (by omega) (by omega) with h | h
        · rw [← hpj] at h
          exact absurd h hnear
        · exact h
      have hs : ∃ q : Nat → pclk_t, combpclk_step E (i, p) (m + 1) = (i + 1, q) ∧
          q (i + 1) = sorted (m + 1) ∧ ∀ k, k ≠ i + 1 → q k = p k := by
        unfold combpclk_step
        simp only [if_neg (fun h => hnear (hcond.mp h))]
        by_cases hlt : i + 1 < m + 1
        · rw [if_pos hlt]
          exact ⟨_, rfl, by rw [Function.update_same, hpj],
            fun k hk => Function.update_noteq hk _ _⟩
        · rw [if_neg hlt]
          have : i + 1 = m + 1 := by omega
          exact ⟨_, rfl, by rw [this, hpj], fun k _ => rfl⟩
      obtain ⟨q, hq, hq1, hq2⟩ := hs
      rw [hq]
      refine ⟨by simp only; omega, ?_, ?_, ?_⟩
      · intro k hk
        simp only
        rw [hq2 k (by omega)]
        exact i2 k (by omega)
      · intro y hy hn
        simp only
        rw [hq1]
        exact hP (m + 1) y hy hn
      · intro a b hab hb
        simp only at hb ⊢
        rw [hq2 a (by omega)]
        by_cases hbi : b = i + 1
        · rw [hbi, hq1]
          by_cases hai : a = i
          · rw [hai]; exact hbef
          · have := i4 a i (by omega) (le_refl _)
            linarith
        · rw [hq2 b hbi]
          exact i4 a b hab (by omega)

theorem combpclk_order (E : Ext)
    (hE : ∀ t1 t2 : gtime_t, E.timediff t1 t2 = gtimeSec t1 - gtimeSec t2) (ok : Bool)
    (nav : pclkstore_t) (hn : 0 < nav.nc) (hcl : ClusteredTimes nav.pclk nav.nc.toNat) :
    (combpclk E ok nav).nc ≤ nav.nc ∧
    ∀ a b : Nat, a < b → (b : Int) < (combpclk E ok nav).nc →
      pclkSec ((combpclk E ok nav).pclk a) + 1e-9 < pclkSec ((combpclk E ok nav).pclk b) := by
  obtain ⟨n, hnn⟩ : ∃ n : Nat, nav.nc.toNat = n := ⟨_, rfl⟩
  have hn1 : 1 ≤ n := by omega
  have hnc : nav.nc = (n : Int) := by omega
  rw [hnn] at hcl
  obtain ⟨c1, c2⟩ := hcl
  have hS1 : ∀ x y : pclk_t, (∃ a, a < n ∧ nav.pclk a = x) → (∃ a, a < n ∧ nav.pclk a = y) →
      |pclkSec x - pclkSec y| ≠ 1e-9 := by
    rintro x y ⟨a, ha, rfl⟩ ⟨b, hb, rfl⟩
    exact c1 a b ha hb
  have hS2 : ∀ x y z : pclk_t, (∃ a, a < n ∧ nav.pclk a = x) → (∃ a, a < n ∧ nav.pclk a = y) →
      (∃ a, a < n ∧ nav.pclk a = z) → pclkNear x y → pclkNear y z → pclkNear x z := by
    rintro x y z ⟨a, ha, rfl⟩ ⟨b, hb, rfl⟩ ⟨c, hc, rfl⟩
    exact c2 a b c ha hb hc
  have hmem : ∀ x ∈ (List.range n).map nav.pclk, ∃ a, a < n ∧ nav.pclk a = x := by
    intro x hx
    obtain ⟨a, ha, rfl⟩ := List.mem_map.mp hx
    exact ⟨a, List.mem_range.mp ha, rfl⟩
  have hpw := insertionSort_before E hE _ hS1 hS2 _ hmem
  have hlen : (((List.range n).map nav.pclk).insertionSort
      (fun x y => cmppclk E x y ≤ 0)).length = n := by
    rw [List.length_insertionSort, List.length_map, List.length_range]
  have hP : ∀ x y, x < y → y < n →
      pclkBefore (qsort_pclk E nav.pclk n x) (qsort_pclk E nav.pclk n y) := by
    intro x y hxy hy
    unfold qsort_pclk
    rw [List.getD_eq_getElem _ _ (by rw [hlen]; omega),
      List.getD_eq_getElem _ _ (by rw [hlen]; exact hy)]
    exact List.pairwise_iff_getElem.mp hpw x y (by rw [hlen]; omega) (by rw [hlen]; exact hy) hxy
  obtain ⟨i1, -, -, i4⟩ := combpclk_loop_inv E hE n (qsort_pclk E nav.pclk n) hP (n - 1)
    (by omega)
  unfold combpclk
  rw [if_neg (by omega), hnn]
  simp only
  cases ok with
  | true =>
    simp only [if_true]
    refine ⟨by omega, ?_⟩
    intro a b hab hb
    exact i4 a b hab (by omega)
  | false =>
    simp only [Bool.false_eq_true, if_false]
    refine ⟨by omega, ?_⟩
    intro a b _ hb
    omega

theorem qsort_pclk_three (E : Ext) (a b c : pclk_t) (pclk : Nat → pclk_t) (h0 : pclk 0 = a)
    (h1 : pclk 1 = b) (h2 : pclk 2 = c) (hab : cmppclk E a b ≤ 0) (hbc : cmppclk E b c ≤ 0) :
    qsort_pclk E pclk 3 0 = a ∧ qsort_pclk E pclk 3 1 = b ∧ qsort_pclk E pclk 3 2 = c := by
  have hl : ((List.range 3).map pclk).insertionSort (fun x y => cmppclk E x y ≤ 0) =
      [a, b, c] := by
    have : (List.range 3).map pclk = [a, b, c] := by
      rw [← h0, ← h1, ← h2]; rfl
    rw [this]
    simp only [List.insertionSort, List.orderedInsert, hab, hbc, if_true]
  unfold qsort_pclk
  simp only [hl]
  exact ⟨rfl, rfl, rfl⟩

/-- Entries on whole seconds: two of them are less than 1e-9 s apart only when
their times are equal, so the store satisfies `ClusteredTimes`. -/
theorem clusteredTimes_whole (pclk : Nat → pclk_t) (n : Nat)
    (h : ∀ a, a < n → (pclk a).time.sec = 0) : ClusteredTimes pclk n := by
  have key : ∀ x y : Int, (|(x : ℚ) - y| ≠ 1e-9) ∧ (|(x : ℚ) - y| < 1e-9 → x = y) := by
    intro x y
    by_cases hxy : x = y
    · subst hxy
      refine ⟨?_, fun _ => rfl⟩
      rw [sub_self, abs_zero]
      norm_num
    · have h1 : (1 : ℚ) ≤ |(x : ℚ) - y| := by
        have : (1 : Int) ≤ |x - y| := Int.one_le_abs (sub_ne_zero.mpr hxy)
        have h2 : ((1 : Int) : ℚ) ≤ ((|x - y| : Int) : ℚ) := Int.cast_le.mpr this
        rw [Int.cast_abs, Int.cast_sub, Int.cast_one] at h2
        exact h2
      have hpos : (1e-9 : ℚ) < 1 := by norm_num
      refine ⟨fun he => ?_, fun hl => ?_⟩
      · rw [he] at h1; linarith
      · linarith
  have hs : ∀ a, a < n → pclkSec (pclk a) = ((pclk a).time.time : ℚ) := by
    intro a ha
    unfold pclkSec gtimeSec
    rw [h a ha, add_zero]
  refine ⟨?_, ?_⟩
  · intro a b ha hb
    rw [hs a ha, hs b hb]
    exact (key _ _).1
  · intro a b c ha hb hc hab hbc
    unfold pclkNear at *
    rw [hs a ha, hs b hb] at hab
    rw [hs b hb, hs c hc] at hbc
    rw [hs a ha, hs c hc]
    have e1 := (key _ _).2 hab
    have e2 := (key _ _).2 hbc
    rw [e1, e2, sub_self, abs_zero]
    norm_num

theorem pclkEdge_result : (combpclk sampleExt true pclkEdge).nc = 2 ∧
    (combpclk sampleExt true pclkEdge).pclk 0 = pclkLate ∧
    (combpclk sampleExt true pclkEdge).pclk 1 = pclkEarly := by
  have ht : sampleExt.timediff pclkLate.time pclkEarly.time = 1e-9 := by
    simp [sampleExt, pclkLate, pclkEarly]
  have hc : cmppclk sampleExt pclkLate pclkEarly ≤ 0 := by
    unfold cmppclk
    rw [ht]
    norm_num [pclkLate, pclkEarly]
  obtain ⟨q0, q1⟩ := qsort_pclk_two sampleExt pclkLate pclkEarly pclkEdge.pclk rfl rfl hc
  have hs : (List.range' 1 (pclkEdge.nc.toNat - 1)).foldl (combpclk_step sampleExt)
      (0, qsort_pclk sampleExt pclkEdge.pclk pclkEdge.nc.toNat) =
      combpclk_step sampleExt (0, qsort_pclk sampleExt pclkEdge.pclk 2) 1 := rfl
  have hstep : combpclk_step sampleExt (0, qsort_pclk sampleExt pclkEdge.pclk 2) 1 =
      (1, qsort_pclk sampleExt pclkEdge.pclk 2) := by
    unfold combpclk_step
    dsimp only
    rw [q0, q1, ht, if_neg (not_lt.mpr (le_abs_self _)), if_neg (by decide)]
  unfold combpclk
  rw [if_neg (show ¬ pclkEdge.nc ≤ 0 by decide)]
  simp only [hs, hstep, if_true]
  exact ⟨rfl, q0, q1⟩

theorem pclkChain_result : (combpclk sampleExt true pclkChain).nc = 2 ∧
    ((combpclk sampleExt true pclkChain).pclk 0).time = { time := 100, sec := 1.6e-9 } ∧
    ((combpclk sampleExt true pclkChain).pclk 1).time = { time := 100, sec := 0 } := by
  have t01 : sampleExt.timediff (pclkAt 1.6e-9 0).time (pclkAt 0.8e-9 1).time = 0.8e-9 := by
    simp [sampleExt, pclkAt]; norm_num
  have t12 : sampleExt.timediff (pclkAt 0.8e-9 1).time (pclkAt 0 2).time = 0.8e-9 := by
    simp [sampleExt, pclkAt]
  have t02 : sampleExt.timediff (pclkAt 1.6e-9 0).time (pclkAt 0 2).time = 1.6e-9 := by
    simp [sampleExt, pclkAt]
  have c01 : cmppclk sampleExt (pclkAt 1.6e-9 0) (pclkAt 0.8e-9 1) ≤ 0 := by
    unfold cmppclk
    rw [t01]
    norm_num [pclkAt]
  have c12 : cmppclk sampleExt (pclkAt 0.8e-9 1) (pclkAt 0 2) ≤ 0 := by
    unfold cmppclk
    rw [t12]
    norm_num [pclkAt]
  obtain ⟨q0, q1, q2⟩ := qsort_pclk_three sampleExt (pclkAt 1.6e-9 0) (pclkAt 0.8e-9 1)
    (pclkAt 0 2) pclkChain.pclk rfl rfl rfl c01 c12
  have hs : (List.range' 1 (pclkChain.nc.toNat - 1)).foldl (combpclk_step sampleExt)
      (0, qsort_pclk sampleExt pclkChain.pclk pclkChain.nc.toNat) =
      combpclk_step sampleExt
        (combpclk_step sampleExt (0, qsort_pclk sampleExt pclkChain.pclk 3) 1) 2 := rfl
  have h1 : combpclk_step sampleExt (0, qsort_pclk sampleExt pclkChain.pclk 3) 1 =
      (0, Function.update (qsort_pclk sampleExt pclkChain.pclk 3) 0
        (combpclk_merge sampleExt (pclkAt 1.6e-9 0) (pclkAt 0.8e-9 1))) := by
    unfold combpclk_step
    dsimp only
    rw [q0, q1, t01, if_pos (by rw [abs_of_pos (by norm_num)]; norm_num)]
  have h2 : combpclk_step sampleExt (0, Function.update (qsort_pclk sampleExt pclkChain.pclk 3) 0
        (combpclk_merge sampleExt (pclkAt 1.6e-9 0) (pclkAt 0.8e-9 1))) 2 =
      (1, Function.update (Function.update (qsort_pclk sampleExt pclkChain.pclk 3) 0
        (combpclk_merge sampleExt (pclkAt 1.6e-9 0) (pclkAt 0.8e-9 1))) 1 (pclkAt 0 2)) := by
    unfold combpclk_step
    dsimp only
    rw [Function.update_same, Function.update_noteq (show (2 : Nat) ≠ 0 by decide), q2]
    have hm : (combpclk_merge sampleExt (pclkAt 1.6e-9 0) (pclkAt 0.8e-9 1)).time =
        (pclkAt 1.6e-9 0).time := rfl
    rw [hm, t02, if_neg (by rw [abs_of_pos (by norm_num)]; norm_num), if_pos (by decide)]
  unfold combpclk
  rw [if_neg (show ¬ pclkChain.nc ≤ 0 by decide)]
  simp only [hs, h1, h2, if_true]
  refine ⟨rfl, ?_, ?_⟩
  · rw [Function.update_noteq (show (0 : Nat) ≠ 1 by decide), Function.update_same]
    rfl
  · rw [Function.update_same]
    rfl

/-- C35 (amended): on a non-empty store in which no two timestamps differ by
exactly 1e-9 s and "less than 1e-9 s apart" is transitive (as when any two
timestamps are equal or more than 1e-9 s apart), with `timediff` the exact
difference in seconds, `combpclk` leaves at most as many entries as before and
the entries left are in strictly increasing time order, any two of them more
than 1e-9 s apart. -/
theorem combpclk_sorted (E : Ext)
    (hE : ∀ t1 t2 : gtime_t, E.timediff t1 t2 = gtimeSec t1 - gtimeSec t2) (ok : Bool)
    (nav : pclkstore_t) (hn : 0 < nav.nc) (hcl : ClusteredTimes nav.pclk nav.nc.toNat) :
    (combpclk E ok nav).nc ≤ nav.nc ∧
    ∀ a b : Nat, a < b → (b : Int) < (combpclk E ok nav).nc →
      pclkSec ((combpclk E ok nav).pclk a) + 1e-9 < pclkSec ((combpclk E ok nav).pclk b) :=
  combpclk_order E hE ok nav hn hcl

/-- Witness for C35: the sample store `pclkWhole` (200 s, 100 s, 100 s). -/
theorem combpclk_sorted_witness :
    (∀ t1 t2 : gtime_t, sampleExt.timediff t1 t2 = gtimeSec t1 - gtimeSec t2) ∧
    0 < pclkWhole.nc ∧ ClusteredTimes pclkWhole.pclk pclkWhole.nc.toNat ∧
    (combpclk sampleExt true pclkWhole).nc ≤ pclkWhole.nc ∧
    ∀ a b : Nat, a < b → (b : Int) < (combpclk sampleExt true pclkWhole).nc →
      pclkSec ((combpclk sampleExt true pclkWhole).pclk a) + 1e-9 <
        pclkSec ((combpclk sampleExt true pclkWhole).pclk b) :=
  have hw : ClusteredTimes pclkWhole.pclk pclkWhole.nc.toNat :=
    clusteredTimes_whole _ _ (fun a _ => by
      unfold pclkWhole
      dsimp only
      split_ifs <;> rfl)
  ⟨sampleExt_exactTime.1, by decide, hw,
    combpclk_sorted sampleExt sampleExt_exactTime.1 true pclkWhole (by decide) hw⟩

/-- C35 (as stated) fails: in the sample store `pclkEdge` the entry inserted
first is exactly 1e-9 s later than the second; `cmppclk` takes the two times as
equal and orders by index, the merge test takes them as different, and both
entries are left in decreasing time order, 1e-9 s apart. In the sample store
`pclkChain` (1.6e-9 s, 0.8e-9 s and 0 s after 100 s, inserted in this order)
the second entry is merged into the first and the third is left after it, so
the two entries left are in decreasing time order. -/
theorem combpclk_sorted_counterexample :
    0 < pclkEdge.nc ∧ (combpclk sampleExt true pclkEdge).nc = 2 ∧
    pclkSec ((combpclk sampleExt true pclkEdge).pclk 1) + 1e-9 =
      pclkSec ((combpclk sampleExt true pclkEdge).pclk 0) ∧
    0 < pclkChain.nc ∧ (combpclk sampleExt true pclkChain).nc = 2 ∧
    pclkSec ((combpclk sampleExt true pclkChain).pclk 1) <
      pclkSec ((combpclk sampleExt true pclkChain).pclk 0) := by
  obtain ⟨e1, e2, e3⟩ := pclkEdge_result
  obtain ⟨c1, c2, c3⟩ := pclkChain_result
  refine ⟨by decide, e1, ?_, by decide, c1, ?_⟩
  · rw [e2, e3]
    norm_num [pclkSec, gtimeSec, pclkLate, pclkEarly]
  · unfold pclkSec
    rw [c2, c3]
    norm_num [gtimeSec]

/-! ### Fields read at a commit of `readrnxnavb` (C36) -/

/-- A continuation line leaves the fields above the new count as they were. -/
theorem navb_read_data_above (E : Ext) : ∀ (ls : List (List Char)) (st : navb_t) (k : Nat),
    st.i + 4 * ls.length ≤ k → (navb_read E ls st).data k = st.data k := by
  intro ls
  induction ls with
  | nil => intro st k _; rfl
  | cons l ls ih =>
    intro st k hk
    rw [List.length_cons] at hk
    show (navb_read E ls (readrnxnavb_cont E l st)).data k = _
    rw [ih (readrnxnavb_cont E l st) k (by show st.i + 4 + 4 * ls.length ≤ k; omega)]
    show (if st.i ≤ k ∧ k < st.i + 4 then _ else st.data k) = st.data k
    rw [if_neg (by omega)]

/-- No test of the chain applies to a plain GPS record of message type `CNV2`
while fewer than 35 fields are accumulated. -/
theorem readrnxnavb_dispatch_none_cnv2 (E : Ext) (ver : ℚ) (mask : Nat) (st : navb_t)
    (out : navret_t) (hd : SysDistinct E) (hrec : plainRec st.recType)
    (hsys : st.sys = E.SYS_GPS) (hcn : strstr st.megType "CN".toList = true)
    (hcnav : strstr st.megType "CNAV".toList = false) (hi : st.i < 35) :
    readrnxnavb_dispatch E ver mask st out = none := by
  obtain ⟨r1, r2, r3⟩ := hrec
  obtain ⟨a1, a2, a3, a4, a5, a6, b1, b2, b3, b4, b5, c1, c2, c3, c4, d1, d2, d3, e1, e2, f1⟩ :=
    SysDistinct_ne E hd
  have i35 : ¬ st.i ≥ 35 := by omega
  simp only [readrnxnavb_dispatch, r1, r2, r3, hsys, a1, a2, a3, a4, a5, a6, hcn, hcnav, i35,
    Bool.false_eq_true, false_and, and_false, if_false, not_true_eq_false]

/-- With at least 35 fields of a plain GPS record of message type `CNV2`, the
chain returns through `decode_eph_GPS_CNV` with message type 2. -/
theorem readrnxnavb_dispatch_cnv2 (E : Ext) (ver : ℚ) (mask : Nat) (st : navb_t)
    (out : navret_t) (hd : SysDistinct E) (hrec : plainRec st.recType)
    (hsys : st.sys = E.SYS_GPS) (hcn : strstr st.megType "CN".toList = true)
    (hcnav : strstr st.megType "CNAV".toList = false)
    (hcnv2 : strstr st.megType "CNV2".toList = true) (hi : 35 ≤ st.i) :
    readrnxnavb_dispatch E ver mask st out =
      some (navb_eph mask st out (decode_eph_GPS_CNV E st.sat st.toc st.data out.eph 2)) := by
  obtain ⟨r1, r2, r3⟩ := hrec
  obtain ⟨a1, a2, a3, a4, a5, a6, b1, b2, b3, b4, b5, c1, c2, c3, c4, d1, d2, d3, e1, e2, f1⟩ :=
    SysDistinct_ne E hd
  have i35 : st.i ≥ 35 := hi
  simp only [readrnxnavb_dispatch, r1, r2, r3, hsys, a1, a2, hcn, hcnav, hcnv2, i35,
    Bool.false_eq_true, false_and, and_false, if_false, not_true_eq_false, and_self, if_true]

/-- The loop reads on over the continuation lines of a plain GPS `CNV2` record
that leave fewer than 35 fields accumulated. -/
theorem readrnxnavb_loop_skip_cnv2 (E : Ext) (ver : ℚ) (mask : Nat) (fp : List (List Char))
    (out : navret_t) (hd : SysDistinct E) : ∀ (ls : List (List Char)) (st : navb_t),
    plainRec st.recType → st.sys = E.SYS_GPS → strstr st.megType "CN".toList = true →
    strstr st.megType "CNAV".toList = false → st.i + 4 * ls.length < 35 →
    readrnxnavb_loop E ver mask (ls ++ fp) st out =
      readrnxnavb_loop E ver mask fp (navb_read E ls st) out := by
  intro ls
  induction ls with
  | nil => intro st _ _ _ _ _; rfl
  | cons l ls ih =>
    intro st hrec h1 h2 h3 hi
    rw [List.length_cons] at hi
    rw [List.cons_append, readrnxnavb_loop_none E ver mask l (ls ++ fp) st out
      (readrnxnavb_dispatch_none_cnv2 E ver mask _ _ hd hrec h1 h2 h3
        (by show st.i + 4 < 35; omega))]
    exact ih (readrnxnavb_cont E l st) hrec h1 h2 h3
      (by show st.i + 4 + 4 * ls.length < 35; omega)

/-- A plain GPS record of message type `CNV2`: after the first line and eight
continuation lines, with 35 fields accumulated (`data[0..34]`), `readrnxnavb`
returns through `decode_eph_GPS_CNV` with message type 2; the field `data[35]`
still has the content `d0 35` that the array had before the call. -/
theorem readrnxnavb_head_cnv2 (E : Ext) (ver : ℚ) (mask : Nat) (buff : List Char)
    (ls rest : List (List Char)) (sat : Int) (sys sp : Nat) (recType megType : List Char)
    (d0 : Nat → ℚ) (out : navret_t) (toc : gtime_t) (hd : SysDistinct E)
    (htoc : E.str2time (buff.drop sp) 0 19 = some toc) (hlen : ls.length = 8)
    (hrec : plainRec recType) (hsys : sys = E.SYS_GPS)
    (hcn : strstr megType "CN".toList = true) (hcnav : strstr megType "CNAV".toList = false)
    (hcnv2 : strstr megType "CNV2".toList = true) :
    (navb_read E ls
      { i := 3, sat := sat, sp := sp, sys := sys, recType := recType, megType := megType,
        toc := toc, data := readrnxnavb_first E buff recType sp d0 }).i = 35 ∧
    (navb_read E ls
      { i := 3, sat := sat, sp := sp, sys := sys, recType := recType, megType := megType,
        toc := toc, data := readrnxnavb_first E buff recType sp d0 }).data 35 = d0 35 ∧
    readrnxnavb_head E ver mask buff (ls ++ rest) sat sys sp recType megType d0 out =
      if mask &&& sys = 0 then { out with ret := 0, fp := rest }
      else
        let data := (navb_read E ls
          { i := 3, sat := sat, sp := sp, sys := sys, recType := recType, megType := megType,
            toc := toc, data := readrnxnavb_first E buff recType sp d0 }).data
        { out with
          ret := (decode_eph_GPS_CNV E sat toc data out.eph 2).1, type := 0,
          eph := (decode_eph_GPS_CNV E sat toc data out.eph 2).2, fp := rest } := by
  have hne : ls ≠ [] := by
    intro h
    rw [h] at hlen
    exact absurd hlen (by decide)
  obtain ⟨ini, l, hl⟩ : ∃ ini l, ls = ini ++ [l] :=
    ⟨ls.dropLast, ls.getLast hne, (List.dropLast_append_getLast hne).symm⟩
  have hini : ini.length = 7 := by
    rw [hl, List.length_append, List.length_singleton] at hlen
    omega
  unfold readrnxnavb_head
  rw [htoc]
  simp only
  generalize hst : (⟨3, sat, sp, sys, recType, megType, toc,
    readrnxnavb_first E buff recType sp d0⟩ : navb_t) = st
  have hi : st.i = 3 := by rw [← hst]
  have hsy : st.sys = sys := by rw [← hst]
  have hrt : st.recType = recType := by rw [← hst]
  have hmt : st.megType = megType := by rw [← hst]
  have hsa : st.sat = sat := by rw [← hst]
  have htc : st.toc = toc := by rw [← hst]
  have hda : st.data 35 = d0 35 := by
    rw [← hst]
    show readrnxnavb_first E buff recType sp d0 35 = d0 35
    unfold readrnxnavb_first
    rw [if_neg (by decide)]
  obtain ⟨f1, f2, f3, f4, f5, f6, f7⟩ := navb_read_frame E ls st
  obtain ⟨g1, g2, g3, g4, g5, g6, g7⟩ := navb_read_frame E ini st
  have hi35 : (navb_read E ls st).i = 35 := by rw [f1, hi, hlen]
  refine ⟨hi35, ?_, ?_⟩
  · rw [navb_read_data_above E ls st 35 (by rw [hi, hlen]), hda]
  · have hskip := readrnxnavb_loop_skip_cnv2 E ver mask ([l] ++ rest) out hd ini st
      (by rw [hrt]; exact hrec) (by rw [hsy]; exact hsys) (by rw [hmt]; exact hcn)
      (by rw [hmt]; exact hcnav) (by rw [hi, hini]; decide)
    have hcat : readrnxnavb_cont E l (navb_read E ini st) = navb_read E ls st := by
      rw [hl, navb_read_concat]
    have hdis := readrnxnavb_dispatch_cnv2 E ver mask (navb_read E ls st) { out with fp := rest }
      hd (by rw [f5, hrt]; exact hrec) (by rw [f4, hsy]; exact hsys)
      (by rw [f6, hmt]; exact hcn) (by rw [f6, hmt]; exact hcnav)
      (by rw [f6, hmt]; exact hcnv2) (by rw [hi35])
    rw [hl, List.append_assoc, hskip]
    rw [← hl]
    have hsome := readrnxnavb_loop_some E ver mask l rest (navb_read E ini st) out _
      (by rw [hcat]; exact hdis)
    rw [show [l] ++ rest = l :: rest from rfl, hsome]
    simp only [navb_eph, f2, f4, f7, hsy, hsa, htc]

/-- Time of transmission set by `decode_eph_GPS_CNV` with message type 2 for a
GPS satellite: it is computed from `data[35]`. -/
theorem decode_eph_GPS_CNV_ttr2 (E : Ext) (sat : Int) (toc : gtime_t) (data : Nat → ℚ)
    (eph : eph_t) (hs : E.satsys sat.toNat &&& E.SYS_GPS ≠ 0) :
    (decode_eph_GPS_CNV E sat toc data eph 2).1 = 1 ∧
    (decode_eph_GPS_CNV E sat toc data eph 2).2.ttr =
      adjweek E (adjweek E (E.gpst2time (E.time2gpst toc).2 (data 35)) toc) toc := by
  unfold decode_eph_GPS_CNV
  rw [if_neg hs]
  dsimp only
  rw [if_neg (show ¬ (2 : Int) = 1 by decide)]
  exact ⟨rfl, rfl⟩

/-- The sample `CNV2` record: `readrnxnavb` returns after eight of the nine
continuation lines, through `decode_eph_GPS_CNV` on an array whose field 35 is
`d0 35`. -/
theorem sample_readrnxnavb_cnv2 (d0 : Nat → ℚ) :
    ∃ data : Nat → ℚ, data 35 = d0 35 ∧
    readrnxnavb navExt fileCNV2 [] 4 navExt.SYS_NONE d0 navret0 =
      { navret0 with
        ret := (decode_eph_GPS_CNV navExt 1 { time := 202, sec := 0 } data navret0.eph 2).1,
        type := 0,
        eph := (decode_eph_GPS_CNV navExt 1 { time := 202, sec := 0 } data navret0.eph 2).2,
        fp := [lineNavC] } := by
  have hv : (4 : ℚ) ≥ 4 := le_refl _
  have hscan : scanRec lineEphCNV2 [] [] [] = ("EPH".toList, "G01".toList, "CNV2".toList) := by
    decide
  have ht : navExt.str2time (lineNavG.drop 4) 0 19 = some { time := 202, sec := 0 } := rfl
  have e1 : navExt.satid2no "G01".toList = 1 := by decide
  have e2 : navExt.satid2sys "G01".toList = 1 := by decide
  obtain ⟨-, h35, hh⟩ := readrnxnavb_head_cnv2 navExt 4 (set_sysmask navExt []) lineNavG
    (List.replicate 8 lineNavC) [lineNavC] 1 1 4 "EPH".toList "CNV2".toList d0 navret0
    { time := 202, sec := 0 } navExt_distinct ht rfl (by unfold plainRec; decide) rfl
    (by decide) (by decide) (by decide)
  refine ⟨_, h35, ?_⟩
  unfold readrnxnavb fileCNV2
  simp only [if_pos hv, hscan]
  rw [e1, e2, hh, if_neg (by decide)]

/-! ### Fields read by the decoders (C36) -/

theorem vec3_below (data data2 : Nat → ℚ) (n k : Nat) (h : ∀ j, j < n → data j = data2 j)
    (hk : k + 8 < n) : vec3 data k = vec3 data2 k := by
  funext i
  unfold vec3
  by_cases hi : i < 3
  · rw [if_pos hi, if_pos hi, h (k + 4 * i) (by omega)]
  · rw [if_neg hi, if_neg hi]

/-- Function `decode_eph` reads no field above `data[28]`. -/
theorem decode_eph_below (E : Ext) (sat : Int) (toc : gtime_t) (data data2 : Nat → ℚ)
    (eph : eph_t) (h : ∀ k, k < 29 → data k = data2 k) :
    decode_eph E sat toc data eph = decode_eph E sat toc data2 eph := by
  simp only [decode_eph, eph_kepler, decode_eph_gps, decode_eph_gal, decode_eph_cmp,
    decode_eph_irn, h 0 (by decide), h 1 (by decide), h 2 (by decide), h 3 (by decide), h 4 (by decide), h 5 (by decide), h 6 (by decide), h 7 (by decide), h 8 (by decide), h 9 (by decide), h 10 (by decide), h 11 (by decide), h 12 (by decide), h 13 (by decide), h 14 (by decide), h 15 (by decide), h 16 (by decide), h 17 (by decide), h 18 (by decide), h 19 (by decide), h 20 (by decide), h 21 (by decide), h 22 (by decide), h 23 (by decide), h 24 (by decide), h 25 (by decide), h 26 (by decide), h 27 (by decide), h 28 (by decide)]

/-- Function `decode_eph_BDS_CNV` reads no field above `data[38]`. -/
theorem decode_eph_BDS_CNV_below (E : Ext) (sat : Int) (toc : gtime_t) (data data2 : Nat → ℚ)
    (eph : eph_t) (mesgType : Int) (h : ∀ k, k < 39 → data k = data2 k) :
    decode_eph_BDS_CNV E sat toc data eph mesgType =
      decode_eph_BDS_CNV E sat toc data2 eph mesgType := by
  simp only [decode_eph_BDS_CNV, eph_kepler, h 0 (by decide), h 1 (by decide), h 2 (by decide), h 3 (by decide), h 4 (by decide), h 5 (by decide), h 6 (by decide), h 7 (by decide), h 8 (by decide), h 9 (by decide), h 10 (by decide), h 11 (by decide), h 12 (by decide), h 13 (by decide), h 14 (by decide), h 15 (by decide), h 16 (by decide), h 17 (by decide), h 18 (by decide), h 19 (by decide), h 20 (by decide), h 21 (by decide), h 22 (by decide), h 23 (by decide), h 24 (by decide), h 25 (by decide), h 26 (by decide), h 27 (by decide), h 28 (by decide), h 29 (by decide), h 30 (by decide), h 31 (by decide), h 32 (by decide), h 33 (by decide), h 34 (by decide), h 35 (by decide), h 36 (by decide), h 37 (by decide), h 38 (by decide)]

/-- Function `decode_eph_BDS_CNV` with message type 3 reads no field above
`data[31]`. -/
theorem decode_eph_BDS_CNV3_below (E : Ext) (sat : Int) (toc : gtime_t)
    (data data2 : Nat → ℚ) (eph : eph_t) (h : ∀ k, k < 32 → data k = data2 k) :
    decode_eph_BDS_CNV E sat toc data eph 3 = decode_eph_BDS_CNV E sat toc data2 eph 3 := by
  have h1 : ¬ ((3 : Int) = 1 ∨ (3 : Int) = 2) := by decide
  have h2 : ¬ ((3 : Int) = 1) := by decide
  have h3 : ¬ ((3 : Int) = 2) := by decide
  simp only [decode_eph_BDS_CNV, eph_kepler, h1, h2, h3, or_self, if_false, if_true, h 0 (by decide), h 1 (by decide), h 2 (by decide), h 3 (by decide), h 4 (by decide), h 5 (by decide), h 6 (by decide), h 7 (by decide), h 8 (by decide), h 9 (by decide), h 10 (by decide), h 11 (by decide), h 12 (by decide), h 13 (by decide), h 14 (by decide), h 15 (by decide), h 16 (by decide), h 17 (by decide), h 18 (by decide), h 19 (by decide), h 20 (by decide), h 21 (by decide), h 22 (by decide), h 23 (by decide), h 24 (by decide), h 25 (by decide), h 26 (by decide), h 27 (by decide), h 28 (by decide), h 29 (by decide), h 30 (by decide), h 31 (by decide)]

/-- Function `decode_eph_GPS_CNV` with message type 1 reads no field above
`data[31]`. -/
theorem decode_eph_GPS_CNV1_below (E : Ext) (sat : Int) (toc : gtime_t)
    (data data2 : Nat → ℚ) (eph : eph_t) (h : ∀ k, k < 32 → data k = data2 k) :
    decode_eph_GPS_CNV E sat toc data eph 1 = decode_eph_GPS_CNV E sat toc data2 eph 1 := by
  simp only [decode_eph_GPS_CNV, eph_kepler, if_true, h 0 (by decide), h 1 (by decide), h 2 (by decide), h 3 (by decide), h 4 (by decide), h 5 (by decide), h 6 (by decide), h 7 (by decide), h 8 (by decide), h 9 (by decide), h 10 (by decide), h 11 (by decide), h 12 (by decide), h 13 (by decide), h 14 (by decide), h 15 (by decide), h 16 (by decide), h 17 (by decide), h 18 (by decide), h 19 (by decide), h 20 (by decide), h 21 (by decide), h 22 (by decide), h 23 (by decide), h 24 (by decide), h 25 (by decide), h 26 (by decide), h 27 (by decide), h 28 (by decide), h 29 (by decide), h 30 (by decide), h 31 (by decide)]

/-- Function `decode_eph_GPS_CNV` reads no field above `data[35]`. -/
theorem decode_eph_GPS_CNV_below (E : Ext) (sat : Int) (toc : gtime_t)
    (data data2 : Nat → ℚ) (eph : eph_t) (mesgType : Int)
    (h : ∀ k, k < 36 → data k = data2 k) :
    decode_eph_GPS_CNV E sat toc data eph mesgType =
      decode_eph_GPS_CNV E sat toc data2 eph mesgType := by
  simp only [decode_eph_GPS_CNV, eph_kepler, h 0 (by decide), h 1 (by decide), h 2 (by decide), h 3 (by decide), h 4 (by decide), h 5 (by decide), h 6 (by decide), h 7 (by decide), h 8 (by decide), h 9 (by decide), h 10 (by decide), h 11 (by decide), h 12 (by decide), h 13 (by decide), h 14 (by decide), h 15 (by decide), h 16 (by decide), h 17 (by decide), h 18 (by decide), h 19 (by decide), h 20 (by decide), h 21 (by decide), h 22 (by decide), h 23 (by decide), h 24 (by decide), h 25 (by decide), h 26 (by decide), h 27 (by decide), h 28 (by decide), h 29 (by decide), h 30 (by decide), h 31 (by decide), h 32 (by decide), h 33 (by decide), h 34 (by decide), h 35 (by decide)]

/-- Function `decode_ion_gal` reads no field above `data[2]`. -/
theorem decode_ion_gal_below (E : Ext) (sat : Int) (toc : gtime_t) (data data2 : Nat → ℚ)
    (ion : ion_t) (h : ∀ k, k < 3 → data k = data2 k) :
    decode_ion_gal E sat toc data ion = decode_ion_gal E sat toc data2 ion := by
  have hf : (fun i => if i < 3 then data i else ion0.ion i) =
      (fun i => if i < 3 then data2 i else ion0.ion i) := by
    funext i
    by_cases hi : i < 3
    · rw [if_pos hi, if_pos hi, h i hi]
    · rw [if_neg hi, if_neg hi]
  simp only [decode_ion_gal, hf]

/-- Function `decode_ion_k8` reads no field above `data[7]`. -/
theorem decode_ion_k8_below (E : Ext) (sat : Int) (toc : gtime_t) (data data2 : Nat → ℚ)
    (ion : ion_t) (h : ∀ k, k < 8 → data k = data2 k) :
    decode_ion_k8 E sat toc data ion = decode_ion_k8 E sat toc data2 ion := by
  have hf : (fun i => if i < 8 then data i else ion0.ion i) =
      (fun i => if i < 8 then data2 i else ion0.ion i) := by
    funext i
    by_cases hi : i < 8
    · rw [if_pos hi, if_pos hi, h i hi]
    · rw [if_neg hi, if_neg hi]
  simp only [decode_ion_k8, hf]

/-- Function `decode_ion_bdgim` reads no field above `data[8]`. -/
theorem decode_ion_bdgim_below (E : Ext) (sat : Int) (toc : gtime_t) (data data2 : Nat → ℚ)
    (ion : ion_t) (h : ∀ k, k < 9 → data k = data2 k) :
    decode_ion_bdgim E sat toc data ion = decode_ion_bdgim E sat toc data2 ion := by
  have hf : (fun i => if i < 9 then data i else ion0.ion i) =
      (fun i => if i < 9 then data2 i else ion0.ion i) := by
    funext i
    by_cases hi : i < 9
    · rw [if_pos hi, if_pos hi, h i hi]
    · rw [if_neg hi, if_neg hi]
  simp only [decode_ion_bdgim, hf]

theorem decode_geph_core_below (E : Ext) (ver : ℚ) (sat : Int) (toc : gtime_t)
    (data data2 : Nat → ℚ) (h : ∀ k, k < 15 → data k = data2 k) :
    decode_geph_core E ver sat toc data = decode_geph_core E ver sat toc data2 := by
  simp only [decode_geph_core, vec3_below data data2 15 3 h (by decide),
    vec3_below data data2 15 4 h (by decide), vec3_below data data2 15 5 h (by decide),
    h 0 (by decide), h 1 (by decide), h 2 (by decide), h 3 (by decide), h 4 (by decide), h 5 (by decide), h 6 (by decide), h 7 (by decide), h 8 (by decide), h 9 (by decide), h 10 (by decide), h 11 (by decide), h 12 (by decide), h 13 (by decide), h 14 (by decide)]

/-- Function `decode_geph` reads no field above `data[14]`. -/
theorem decode_geph_below (E : Ext) (ver : ℚ) (sat : Int) (toc : gtime_t)
    (data data2 : Nat → ℚ) (geph : geph_t) (h : ∀ k, k < 15 → data k = data2 k) :
    decode_geph E ver sat toc data geph = decode_geph E ver sat toc data2 geph := by
  simp only [decode_geph, decode_geph_core_below E ver sat toc data data2 h]

/-- Function `decode_geph4` reads no field above `data[18]`. -/
theorem decode_geph4_below (E : Ext) (ver : ℚ) (sat : Int) (toc : gtime_t)
    (data data2 : Nat → ℚ) (geph : geph_t) (h : ∀ k, k < 19 → data k = data2 k) :
    decode_geph4 E ver sat toc data geph = decode_geph4 E ver sat toc data2 geph := by
  simp only [decode_geph4,
    decode_geph_core_below E ver sat toc data data2 (fun k hk => h k (by omega)),
    h 15 (by decide), h 16 (by decide), h 17 (by decide), h 18 (by decide)]

/-- Function `decode_seph` reads no field above `data[13]`. -/
theorem decode_seph_below (E : Ext) (sat : Int) (toc : gtime_t) (data data2 : Nat → ℚ)
    (seph : seph_t) (h : ∀ k, k < 14 → data k = data2 k) :
    decode_seph E sat toc data seph = decode_seph E sat toc data2 seph := by
  simp only [decode_seph, vec3_below data data2 14 3 h (by decide),
    vec3_below data data2 14 4 h (by decide), vec3_below data data2 14 5 h (by decide),
    h 0 (by decide), h 1 (by decide), h 2 (by decide), h 3 (by decide), h 4 (by decide), h 5 (by decide), h 6 (by decide), h 7 (by decide), h 8 (by decide), h 9 (by decide), h 10 (by decide), h 11 (by decide), h 12 (by decide), h 13 (by decide)]

theorem ite_branch_congr {α : Type} (c : Prop) [Decidable c] (a a2 b b2 : α)
    (h1 : c → a = a2) (h2 : ¬ c → b = b2) :
    (if c then a else b) = (if c then a2 else b2) := by
  by_cases hc : c
  · rw [if_pos hc, if_pos hc, h1 hc]
  · rw [if_neg hc, if_neg hc, h2 hc]

/-- A commit of `readrnxnavb` with a number of accumulated fields of the form
`4 k + 3` (three fields of the first line, four of each continuation line)
depends on the fields below that number only, except for a GPS record of
message type `CNV2` committed with 35 fields: the chain of tests gives the
same result for every array `data2` that agrees with `data` below `i`. -/
theorem readrnxnavb_dispatch_below (E : Ext) (ver : ℚ) (mask : Nat) (st : navb_t)
    (out : navret_t) (data2 : Nat → ℚ) (hi : st.i % 4 = 3)
    (h : ∀ k, k < st.i → st.data k = data2 k)
    (hx : ¬ (st.sys = E.SYS_GPS ∧ strstr st.megType "CNV2".toList = true ∧ st.i = 35)) :
    readrnxnavb_dispatch E ver mask st out =
      readrnxnavb_dispatch E ver mask { st with data := data2 } out := by
  obtain ⟨i, sat, sp, sys, rt, mt, toc, data⟩ := st
  dsimp only at hi h hx
  unfold readrnxnavb_dispatch
  dsimp only
  refine ite_branch_congr _ _ _ _ _ (fun c => ?_) (fun c => ?_)
  · rfl
  refine ite_branch_congr _ _ _ _ _ (fun c => ?_) (fun c => ?_)
  · rfl
  refine ite_branch_congr _ _ _ _ _ (fun c => ?_) (fun c => ?_)
  · have hc := c.2.2
    rw [decode_ion_gal_below E sat toc data data2 out.ion
      (fun k hk => h k (by omega))]
    rfl
  refine ite_branch_congr _ _ _ _ _ (fun c => ?_) (fun c => ?_)
  · have hc := c.2.2.2
    rw [decode_ion_bdgim_below E sat toc data data2 out.ion
      (fun k hk => h k (by omega))]
    rfl
  refine ite_branch_congr _ _ _ _ _ (fun c => ?_) (fun c => ?_)
  · have hc := c.2
    rw [decode_ion_k8_below E sat toc data data2 out.ion
      (fun k hk => h k (by omega))]
    rfl
  refine ite_branch_congr _ _ _ _ _ (fun c => ?_) (fun c => ?_)
  · have hc := c.2
    rw [decode_seph_below E sat toc data data2 out.seph
      (fun k hk => h k (by omega))]
  refine ite_branch_congr _ _ _ _ _ (fun c => ?_) (fun c => ?_)
  · have hc := c.2.2
    rw [decode_geph_below E ver sat toc data data2 out.geph
      (fun k hk => h k (by omega))]
    rfl
  refine ite_branch_congr _ _ _ _ _ (fun c => ?_) (fun c => ?_)
  · have hc := c.2.2
    rw [decode_geph4_below E ver sat toc data data2 out.geph
      (fun k hk => h k (by omega))]
    rfl
  refine ite_branch_congr _ _ _ _ _ (fun c => ?_) (fun c => ?_)
  · have hc := c.2.2
    rw [decode_eph_below E sat toc data data2 out.eph
      (fun k hk => h k (by omega))]
    rfl
  refine ite_branch_congr _ _ _ _ _ (fun c => ?_) (fun c => ?_)
  · have hc := c.2.2
    rw [decode_eph_GPS_CNV1_below E sat toc data data2 out.eph
      (fun k hk => h k (by omega))]
    rfl
  refine ite_branch_congr _ _ _ _ _ (fun c => ?_) (fun c => ?_)
  · have hc := c.2.2
    have hne : i ≠ 35 := fun e => hx ⟨c.1, c.2.1, e⟩
    rw [decode_eph_GPS_CNV_below E sat toc data data2 out.eph 2
      (fun k hk => h k (by omega))]
    rfl
  refine ite_branch_congr _ _ _ _ _ (fun c => ?_) (fun c => ?_)
  · have hc := c.2
    rw [decode_eph_below E sat toc data data2 out.eph
      (fun k hk => h k (by omega))]
    rfl
  refine ite_branch_congr _ _ _ _ _ (fun c => ?_) (fun c => ?_)
  · have hc := c.2.2
    rw [decode_eph_below E sat toc data data2 out.eph
      (fun k hk => h k (by omega))]
    rfl
  refine ite_branch_congr _ _ _ _ _ (fun c => ?_) (fun c => ?_)
  · have hc := c.2.2
    rw [decode_eph_BDS_CNV_below E sat toc data data2 out.eph 1
      (fun k hk => h k (by omega))]
    rfl
  refine ite_branch_congr _ _ _ _ _ (fun c => ?_) (fun c => ?_)
  · have hc := c.2.2
    rw [decode_eph_BDS_CNV_below E sat toc data data2 out.eph 2
      (fun k hk => h k (by omega))]
    rfl
  refine ite_branch_congr _ _ _ _ _ (fun c => ?_) (fun c => ?_)
  · have hc := c.2.2
    rw [decode_eph_BDS_CNV3_below E sat toc data data2 out.eph
      (fun k hk => h k (by omega))]
    rfl
  refine ite_branch_congr _ _ _ _ _ (fun c => ?_) (fun c => ?_)
  · rfl
  refine ite_branch_congr _ _ _ _ _ (fun c => ?_) (fun c => ?_)
  · rfl
  refine ite_branch_congr _ _ _ _ _ (fun c => ?_) (fun c => ?_)
  · rfl
  refine ite_branch_congr _ _ _ _ _ (fun c => ?_) (fun c => ?_)
  · rfl
  refine ite_branch_congr _ _ _ _ _ (fun c => ?_) (fun c => ?_)
  · rfl
  refine ite_branch_congr _ _ _ _ _ (fun c => ?_) (fun c => ?_)
  · rfl
  rfl

theorem sample_cnv2_ttr (z : Int) (h0 : 0 ≤ z) (h1 : z ≤ 1) :
    adjweek navExt (adjweek navExt
      (navExt.gpst2time (navExt.time2gpst { time := 202, sec := 0 }).2 (z : ℚ))
      { time := 202, sec := 0 }) { time := 202, sec := 0 } =
      { time := 259200 + z, sec := 0 } := by
  have hw : (navExt.time2gpst { time := 202, sec := 0 }).2 = -523 := by decide
  have hg : navExt.gpst2time (-523) (z : ℚ) = { time := -345600 + z, sec := 0 } := by
    show ({ time := 315964800 + 604800 * (-523) + ⌊(z : ℚ)⌋, sec := (z : ℚ) - ⌊(z : ℚ)⌋ } :
      gtime_t) = _
    rw [Int.floor_intCast, sub_self]
    rfl
  have hd : ∀ t : gtime_t, navExt.timediff t { time := 202, sec := 0 } =
      ((t.time - 202 : Int) : ℚ) + (t.sec - 0) := fun _ => rfl
  have ha : ∀ (t : gtime_t) (s : ℚ), navExt.timeadd t s =
      { time := t.time + ⌊t.sec + s⌋, sec := t.sec + s - ⌊t.sec + s⌋ } := fun _ _ => rfl
  have hz : ((z : Int) : ℚ) ≤ 1 := by exact_mod_cast h1
  have hz0 : (0 : ℚ) ≤ ((z : Int) : ℚ) := by exact_mod_cast h0
  rw [hw, hg]
  have s1 : adjweek navExt { time := -345600 + z, sec := 0 } { time := 202, sec := 0 } =
      { time := 259200 + z, sec := 0 } := by
    unfold adjweek
    simp only [hd, ha]
    rw [if_pos (by push_cast; linarith)]
    have hf : ⌊(0 : ℚ) + 604800⌋ = 604800 := by
      rw [zero_add]
      exact Int.floor_ofNat 604800
    rw [hf]
    congr 1
    · omega
    · push_cast; ring
  rw [s1]
  unfold adjweek
  simp only [hd]
  rw [if_neg (by push_cast; linarith), if_neg (by push_cast; linarith)]

/-- C36 (code bug): the claim fails for GPS records of message type `CNV2`.
On the sample version 4 record of satellite G01 (record line, epoch line, nine
continuation lines) `readrnxnavb` commits after the eighth continuation line,
with 35 fields accumulated (`data[0..34]`), and leaves the ninth line in the
stream; `decode_eph_GPS_CNV` with message type 2 then reads `data[35]`, which
no line has written: the time of transmission of the record is computed from
the content `d0 35` that the local array had before the call, 259200 s for the
content 0 and 259201 s for the content 1. -/
theorem readrnxnavb_cnv2_field_35 :
    (∀ d0 : Nat → ℚ,
      (readrnxnavb navExt fileCNV2 [] 4 navExt.SYS_NONE d0 navret0).ret = 1 ∧
      (readrnxnavb navExt fileCNV2 [] 4 navExt.SYS_NONE d0 navret0).type = 0 ∧
      (readrnxnavb navExt fileCNV2 [] 4 navExt.SYS_NONE d0 navret0).fp = [lineNavC] ∧
      (readrnxnavb navExt fileCNV2 [] 4 navExt.SYS_NONE d0 navret0).eph.ttr =
        adjweek navExt (adjweek navExt
          (navExt.gpst2time (navExt.time2gpst { time := 202, sec := 0 }).2 (d0 35))
          { time := 202, sec := 0 }) { time := 202, sec := 0 }) ∧
    (readrnxnavb navExt fileCNV2 [] 4 navExt.SYS_NONE (fun _ => 0) navret0).eph.ttr =
      { time := 259200, sec := 0 } ∧
    (readrnxnavb navExt fileCNV2 [] 4 navExt.SYS_NONE (fun _ => 1) navret0).eph.ttr =
      { time := 259201, sec := 0 } := by
  have hs : navExt.satsys (1 : Int).toNat &&& navExt.SYS_GPS ≠ 0 := by decide
  have hall : ∀ d0 : Nat → ℚ,
      (readrnxnavb navExt fileCNV2 [] 4 navExt.SYS_NONE d0 navret0).ret = 1 ∧
      (readrnxnavb navExt fileCNV2 [] 4 navExt.SYS_NONE d0 navret0).type = 0 ∧
      (readrnxnavb navExt fileCNV2 [] 4 navExt.SYS_NONE d0 navret0).fp = [lineNavC] ∧
      (readrnxnavb navExt fileCNV2 [] 4 navExt.SYS_NONE d0 navret0).eph.ttr =
        adjweek navExt (adjweek navExt
          (navExt.gpst2time (navExt.time2gpst { time := 202, sec := 0 }).2 (d0 35))
          { time := 202, sec := 0 }) { time := 202, sec := 0 } := by
    intro d0
    obtain ⟨data, h35, hr⟩ := sample_readrnxnavb_cnv2 d0
    obtain ⟨k1, k2⟩ := decode_eph_GPS_CNV_ttr2 navExt 1 { time := 202, sec := 0 } data
      navret0.eph hs
    rw [hr]
    refine ⟨k1, rfl, rfl, ?_⟩
    show (decode_eph_GPS_CNV navExt 1 { time := 202, sec := 0 } data navret0.eph 2).2.ttr = _
    rw [k2, h35]
  refine ⟨hall, ?_, ?_⟩
  · rw [(hall (fun _ => 0)).2.2.2]
    have h := sample_cnv2_ttr 0 (le_refl _) (by decide)
    rw [Int.cast_zero] at h
    rw [h]
    rfl
  · rw [(hall (fun _ => 1)).2.2.2]
    have h := sample_cnv2_ttr 1 (by decide) (le_refl _)
    rw [Int.cast_one] at h
    rw [h]
    rfl

/-! ### Line-wrap thresholds of writers and readers (C34) -/

theorem count_nl_replicate_blank (n : Nat) : List.count '\n' (List.replicate n ' ') = 0 := by
  rw [List.count_eq_zero]
  intro h
  have := List.eq_of_mem_replicate h
  exact absurd this (by decide)

theorem count_nl_padLeft (w : Nat) (s : List Char) :
    List.count '\n' (padLeft w s) = List.count '\n' s := by
  unfold padLeft
  rw [List.count_append, count_nl_replicate_blank, Nat.zero_add]

theorem count_nl_padRight (w : Nat) (s : List Char) :
    List.count '\n' (padRight w s) = List.count '\n' s := by
  unfold padRight
  rw [List.count_append, count_nl_replicate_blank, Nat.add_zero]

theorem decDigits_no_nl (n : Nat) : List.count '\n' (decDigits n) = 0 := by
  rw [List.count_eq_zero]
  unfold decDigits
  by_cases h : n = 0
  · rw [if_pos h]
    decide
  · rw [if_neg h]
    intro hm
    obtain ⟨d, hd, he⟩ := List.mem_map.mp hm
    have hlt : d < 10 := Nat.digits_lt_base (by decide) (List.mem_reverse.mp hd)
    revert he
    interval_cases d <;> decide

theorem fmtInt_no_nl (w : Nat) (n : Int) : List.count '\n' (fmtInt w n) = 0 := by
  unfold fmtInt
  rw [count_nl_padLeft, List.count_append, decDigits_no_nl]
  split_ifs <;> rfl

theorem outobstype_ver2_loop_count (tobs : Nat → List Char)
    (ht : ∀ k, List.count '\n' (tobs k) = 0) : ∀ fuel i : Nat,
    List.count '\n' (outobstype_ver2_loop tobs fuel i) = (i + fuel) / 9 - i / 9 := by
  intro fuel
  induction fuel with
  | zero => intro i; simp [outobstype_ver2_loop]
  | succ fuel ih =>
    intro i
    have h1 : List.count '\n' (if i > 0 ∧ i % 9 = 0 then "      ".toList else []) = 0 := by
      split_ifs <;> decide
    have h2 : List.count '\n' (if i % 9 = 8 then padRight 20 labelObsV2 ++ ['\n'] else []) =
        if i % 9 = 8 then 1 else 0 := by
      split_ifs
      · decide
      · rfl
    rw [outobstype_ver2_loop]
    simp only [List.count_append, h1, h2, count_nl_padLeft, ht, ih (i + 1)]
    split_ifs <;> omega

/-- Number of lines written by `outobstype_ver2` for `nobs` types: one line for
no type, otherwise nine types to a line. -/
theorem outobstype_ver2_count (nobs : Int) (tobs : Nat → List Char)
    (ht : ∀ k, List.count '\n' (tobs k) = 0) :
    List.count '\n' (outobstype_ver2 nobs tobs) =
      if nobs = 0 then 1 else (nobs.toNat + 8) / 9 := by
  unfold outobstype_ver2
  have h3 : List.count '\n' (if nobs = 0 ∨ nobs.toNat % 9 > 0 then
      List.replicate ((9 - nobs.toNat % 9) * 6) ' ' ++ padRight 20 labelObsV2 ++ ['\n']
      else []) = if nobs = 0 ∨ nobs.toNat % 9 > 0 then 1 else 0 := by
    split_ifs
    · rw [List.count_append, List.count_append, count_nl_replicate_blank]
      decide
    · rfl
  simp only [List.count_append, fmtInt_no_nl, outobstype_ver2_loop_count tobs ht, h3]
  split_ifs <;> omega

theorem bdsType_count_nl (E : Ext) (rnxver : ℚ) (sys : Nat) (t : List Char)
    (h : List.count '\n' t = 0) : List.count '\n' (bdsType E rnxver sys t) = 0 := by
  rw [List.count_eq_zero] at h ⊢
  unfold bdsType
  split_ifs
  · split
    · rename_i a b r
      have ha : a ≠ '\n' := fun e => h (by rw [e]; exact List.mem_cons_self _ _)
      have hb : b ≠ '\n' := fun e => h (by rw [e]; simp)
      have hr : '\n' ∉ r := fun e => h (by simp [e])
      simp only [List.mem_cons, not_or]
      refine ⟨fun e => ha e.symm, ?_, hr⟩
      intro e
      split_ifs at e
      · exact absurd e (by decide)
      · exact absurd e (by decide)
      · exact absurd e (by decide)
      · exact hb e.symm
    · exact h
  · exact h

theorem outobstype_ver3_loop_count (E : Ext) (rnxver : ℚ) (sys : Nat) (tobs : Nat → List Char)
    (ht : ∀ k, List.count '\n' (tobs k) = 0) : ∀ fuel j : Nat,
    List.count '\n' (outobstype_ver3_loop E rnxver sys tobs fuel j) =
      (j + fuel) / 13 - j / 13 := by
  intro fuel
  induction fuel with
  | zero => intro j; simp [outobstype_ver3_loop]
  | succ fuel ih =>
    intro j
    have h1 : List.count '\n' (if j > 0 ∧ j % 13 = 0 then "      ".toList else []) = 0 := by
      split_ifs <;> decide
    have h2 : List.count '\n'
        (if j % 13 = 12 then "  ".toList ++ padRight 20 labelObsV3 ++ ['\n'] else []) =
        if j % 13 = 12 then 1 else 0 := by
      split_ifs
      · decide
      · rfl
    have h4 : List.count '\n' [' '] = 0 := by decide
    rw [outobstype_ver3_loop]
    simp only [List.count_append, h1, h2, h4, count_nl_padLeft,
      bdsType_count_nl E rnxver sys _ (ht _), ih (j + 1)]
    split_ifs <;> omega

/-- Number of lines written by `outobstype_ver3` for a system: none when the
system is left out, otherwise thirteen types to a line. -/
theorem outobstype_ver3_sys_count (E : Ext) (opt : rnxopt_t) (sys : Nat) (c : Char) (i : Nat)
    (hc : c ≠ '\n') (ht : ∀ k, List.count '\n' (opt.tobs i k) = 0) :
    List.count '\n' (outobstype_ver3_sys E opt sys c i) =
      if sys &&& opt.navsys = 0 ∨ opt.nobs i = 0 then 0 else ((opt.nobs i).toNat + 12) / 13 := by
  unfold outobstype_ver3_sys
  by_cases hskip : sys &&& opt.navsys = 0 ∨ opt.nobs i = 0
  · rw [if_pos hskip, if_pos hskip]
    rfl
  · rw [if_neg hskip, if_neg hskip]
    have h3 : List.count '\n' (if (opt.nobs i).toNat % 13 > 0 then
        List.replicate ((13 - (opt.nobs i).toNat % 13) * 4) ' ' ++ "  ".toList ++
          padRight 20 labelObsV3 ++ ['\n']
        else []) = if (opt.nobs i).toNat % 13 > 0 then 1 else 0 := by
      split_ifs
      · rw [List.count_append, List.count_append, List.count_append, count_nl_replicate_blank]
        decide
      · rfl
    have h5 : List.count '\n' [c] = 0 := by
      rw [List.count_eq_zero, List.mem_singleton]
      exact fun e => hc e.symm
    have h6 : List.count '\n' "  ".toList = 0 := by decide
    simp only [List.count_append, fmtInt_no_nl, h5, h6,
      outobstype_ver3_loop_count E opt.rnxver sys (opt.tobs i) ht, h3]
    split_ifs <;> omega

/-- Number of line breaks written in the satellite list of a ver.2 epoch by
`outrnxobsb`: twelve satellites to a line. -/
theorem outrnxobsb_sats_count (sats : Nat → List Char)
    (hs : ∀ k, List.count '\n' (sats k) = 0) : ∀ fuel i : Nat,
    List.count '\n' (outrnxobsb_sats sats fuel i) = (i + fuel - 1) / 12 - (i - 1) / 12 := by
  intro fuel
  induction fuel with
  | zero => intro i; simp [outrnxobsb_sats]
  | succ fuel ih =>
    intro i
    rw [outrnxobsb_sats]
    by_cases hc : i > 0 ∧ i % 12 = 0
    · rw [if_pos hc]
      have h1 : List.count '\n' (['\n'] ++ padLeft 32 []) = 1 := by decide
      simp only [List.count_append, h1, count_nl_padRight, hs, ih (i + 1)]
      omega
    · rw [if_neg hc]
      simp only [List.count_append, List.count_nil, count_nl_padRight, hs, ih (i + 1)]
      omega

/-- Lines taken from the stream by the type loop of the branch
`SYS / # / OBS TYPES` of `decode_obsh`, started with `r` types already read from
the current line and `fuel` types to go: one line after every thirteenth type. -/
theorem decode_obsh_sys_loop_fp (E : Ext) : ∀ (fuel r nt : Nat) (buff : List Char)
    (fp : List (List Char)) (tobs : Nat → List Char), r ≤ 13 →
    (decode_obsh_sys_loop E fuel (7 + 4 * r) nt buff fp tobs).2.1 =
      fp.drop ((r + fuel - 1) / 13) := by
  intro fuel
  induction fuel with
  | zero =>
    intro r nt buff fp tobs hr
    have h0 : (r + 0 - 1) / 13 = 0 := by omega
    rw [h0]
    rfl
  | succ fuel ih =>
    intro r nt buff fp tobs hr
    unfold decode_obsh_sys_loop
    by_cases hk : 7 + 4 * r > 58
    · have hr13 : r = 13 := by omega
      rw [if_pos hk]
      cases fp with
      | nil => simp
      | cons line rest =>
        have hd : (r + (fuel + 1) - 1) / 13 = (1 + fuel - 1) / 13 + 1 := by omega
        have e1 := ih 1 (nt + 1) line rest (Function.update tobs nt (setstr (line.drop 7) 3))
          (by decide)
        have e2 := ih 1 nt line rest tobs (by decide)
        rw [hd, List.drop_succ_cons]
        dsimp only
        split_ifs
        · exact e1
        · exact e2
    · rw [if_neg hk]
      have hd : (r + (fuel + 1) - 1) / 13 = (r + 1 + fuel - 1) / 13 := by
        congr 1
        omega
      have hk4 : 7 + 4 * r + 4 = 7 + 4 * (r + 1) := by ring
      have e1 := ih (r + 1) (nt + 1) buff fp
        (Function.update tobs nt (setstr (buff.drop (7 + 4 * r)) 3)) (by omega)
      have e2 := ih (r + 1) nt buff fp tobs (by omega)
      rw [hd, hk4]
      split_ifs
      · exact e1
      · exact e2

/-- Lines taken from the stream by the type loop of the branch
`# / TYPES OF OBSERV` of `decode_obsh`: one line after every ninth type. -/
theorem decode_obsh_v2_loop_fp (E : Ext) (ver : ℚ) : ∀ (fuel r nt : Nat) (buff : List Char)
    (fp : List (List Char)) (tobs : Nat → Nat → List Char), r ≤ 9 →
    (decode_obsh_v2_loop E ver fuel (10 + 6 * r) nt buff fp tobs).2.1 =
      fp.drop ((r + fuel - 1) / 9) := by
  intro fuel
  induction fuel with
  | zero =>
    intro r nt buff fp tobs hr
    have h0 : (r + 0 - 1) / 9 = 0 := by omega
    rw [h0]
    rfl
  | succ fuel ih =>
    intro r nt buff fp tobs hr
    unfold decode_obsh_v2_loop
    by_cases hk : 10 + 6 * r > 58
    · have hr9 : r = 9 := by omega
      rw [if_pos hk]
      cases fp with
      | nil => simp
      | cons line rest =>
        have hd : (r + (fuel + 1) - 1) / 9 = (1 + fuel - 1) / 9 + 1 := by omega
        rw [hd, List.drop_succ_cons]
        dsimp only
        split_ifs
        · exact ih 1 nt line rest tobs (by decide)
        · exact ih 1 (nt + 1) line rest _ (by decide)
        · exact ih 1 (nt + 1) line rest _ (by decide)
    · rw [if_neg hk]
      have hd : (r + (fuel + 1) - 1) / 9 = (r + 1 + fuel - 1) / 9 := by
        congr 1
        omega
      have hk6 : 10 + 6 * r + 6 = 10 + 6 * (r + 1) := by ring
      rw [hd, hk6]
      split_ifs
      · exact ih (r + 1) nt buff fp tobs (by omega)
      · exact ih (r + 1) (nt + 1) buff fp _ (by omega)
      · exact ih (r + 1) (nt + 1) buff fp _ (by omega)

/-- Lines taken from the stream by the satellite loop of `decode_obsepoch` for
ver.2: one line after every twelfth satellite. -/
theorem decode_obsepoch_sats_fp (E : Ext) : ∀ (fuel i r : Nat) (buff : List Char)
    (fp : List (List Char)) (sats : Nat → Int), r ≤ 12 →
    (decode_obsepoch_sats E fuel i (32 + 3 * r) buff fp sats).2.1 =
      fp.drop ((r + fuel - 1) / 12) := by
  intro fuel
  induction fuel with
  | zero =>
    intro i r buff fp sats hr
    have h0 : (r + 0 - 1) / 12 = 0 := by omega
    rw [h0]
    rfl
  | succ fuel ih =>
    intro i r buff fp sats hr
    unfold decode_obsepoch_sats
    by_cases hk : 32 + 3 * r ≥ 68
    · have hr12 : r = 12 := by omega
      rw [if_pos hk]
      cases fp with
      | nil => simp
      | cons line rest =>
        have hd : (r + (fuel + 1) - 1) / 12 = (1 + fuel - 1) / 12 + 1 := by omega
        rw [hd, List.drop_succ_cons]
        exact ih (i + 1) 1 line rest _ (by decide)
    · rw [if_neg hk]
      have hd : (r + (fuel + 1) - 1) / 12 = (r + 1 + fuel - 1) / 12 := by
        congr 1
        omega
      have hk3 : 32 + 3 * r + 3 = 32 + 3 * (r + 1) := by ring
      rw [hd, hk3]
      exact ih (i + 1) (r + 1) buff fp _ (by omega)

/-- The sample lines `lineTypes2` and `lineTypes2b` are the two lines that
`outobstype_ver2` writes for ten types `C1`. -/
theorem sample_types2_written :
    outobstype_ver2 10 (fun _ => "C1".toList) =
      lineTypes2 ++ '\n' :: (lineTypes2b ++ ['\n']) := by
  have hd : decDigits 10 = ['1', '0'] := by
    unfold decDigits
    rw [if_neg (by norm_num)]
    norm_num
  have hf : fmtInt 6 10 = "    10".toList := by
    unfold fmtInt
    rw [if_neg (by decide)]
    show padLeft 6 ([] ++ decDigits 10) = _
    rw [hd]
    rfl
  unfold outobstype_ver2
  rw [hf]
  rfl

/-- The sample lines `lineTypes3` and `lineTypes3b` are the two lines that
`outobstype_ver3` writes for the fourteen GPS types of `optObs14`. -/
theorem sample_types3_written :
    outobstype_ver3_sys sampleExt optObs14 1 'G' 0 =
      lineTypes3 ++ '\n' :: (lineTypes3b ++ ['\n']) := by
  have hd : decDigits 14 = ['1', '4'] := by
    unfold decDigits
    rw [if_neg (by norm_num)]
    norm_num
  have hf : fmtInt 3 14 = " 14".toList := by
    unfold fmtInt
    rw [if_neg (by decide)]
    show padLeft 3 ([] ++ decDigits 14) = _
    rw [hd]
    rfl
  unfold outobstype_ver3_sys
  rw [if_neg (by decide)]
  have hn : optObs14.nobs 0 = 14 := rfl
  rw [hn, hf]
  rfl

/-- C34: the writers and the readers wrap lines at the same places.
`outobstype_ver2` writes nine types to a line (one line when there is no type)
and `decode_obsh`, on a line `# / TYPES OF OBSERV` whose count field reads
`nobs`, takes from the stream exactly the lines written after the first;
`outobstype_ver3` writes thirteen types to a line for a selected system and
`decode_obsh`, on a line `SYS / # / OBS TYPES` whose count field reads
`nobs[i]`, takes exactly the lines written after the first; `outrnxobsb` breaks
the satellite list of a ver.2 epoch after every twelfth of `ns` satellites and
`decode_obsepoch`, on an epoch line with a valid time, a flag outside 3..5 and
the count `ns`, takes one line for each of these breaks. When the stream `fp`
holds fewer lines, all of them are taken. -/
theorem linewrap_thresholds (E : Ext) (ver : ℚ) (fp : List (List Char))
    (nobs : Int) (tobsW : Nat → List Char) (buff2 : List Char) (tobs : Nat → Nat → List Char)
    (opt : rnxopt_t) (sys : Nat) (c : Char) (i : Nat) (buff3 : List Char)
    (ids : Nat → List Char) (ns : Nat) (buffE : List Char) (time t : gtime_t) (flag : Int)
    (sats : Nat → Int)
    (ht2 : ∀ k, List.count '\n' (tobsW k) = 0)
    (hb2 : obshBranch buff2 = 16) (hn2 : toInt (E.str2num buff2 0 6) = nobs)
    (hc : c ≠ '\n') (ht3 : ∀ k, List.count '\n' (opt.tobs i k) = 0)
    (hw3 : sys &&& opt.navsys ≠ 0)
    (hb3 : obshBranch buff3 = 14) (hf3 : obshSysFound buff3 = true)
    (hn3 : toInt (E.str2num buff3 3 3) = opt.nobs i)
    (hid : ∀ k, List.count '\n' (ids k) = 0)
    (hver : ver ≤ 2.99) (hnE : toInt (E.str2num buffE 29 3) = (ns : Int))
    (hflag : ¬ (3 ≤ toInt (E.str2num buffE 28 1) ∧ toInt (E.str2num buffE 28 1) ≤ 5))
    (htime : E.str2time buffE 0 26 = some t) :
    List.count '\n' (outobstype_ver2 nobs tobsW) =
      (if nobs = 0 then 1 else (nobs.toNat + 8) / 9) ∧
    decode_obsh_fp E ver buff2 fp tobs =
      fp.drop (List.count '\n' (outobstype_ver2 nobs tobsW) - 1) ∧
    List.count '\n' (outobstype_ver3_sys E opt sys c i) = ((opt.nobs i).toNat + 12) / 13 ∧
    decode_obsh_fp E ver buff3 fp tobs =
      fp.drop (List.count '\n' (outobstype_ver3_sys E opt sys c i) - 1) ∧
    List.count '\n' (outrnxobsb_sats ids ns 0) = (ns - 1) / 12 ∧
    (decode_obsepoch E fp buffE ver time flag sats).fp =
      fp.drop (List.count '\n' (outrnxobsb_sats ids ns 0)) := by
  have c2 := outobstype_ver2_count nobs tobsW ht2
  have c3 : List.count '\n' (outobstype_ver3_sys E opt sys c i) =
      ((opt.nobs i).toNat + 12) / 13 := by
    rw [outobstype_ver3_sys_count E opt sys c i hc ht3]
    by_cases h0 : opt.nobs i = 0
    · rw [if_pos (Or.inr h0), h0]
      rfl
    · rw [if_neg (by rintro (h | h); exact hw3 h; exact h0 h)]
  have cE : List.count '\n' (outrnxobsb_sats ids ns 0) = (ns - 1) / 12 := by
    rw [outrnxobsb_sats_count ids hid ns 0]
    omega
  refine ⟨c2, ?_, c3, ?_, cE, ?_⟩
  · unfold decode_obsh_fp
    rw [if_neg (by rw [hb2]; decide), if_pos hb2, hn2, c2]
    have h := decode_obsh_v2_loop_fp E ver nobs.toNat 0 0 buff2 fp tobs (by decide)
    rw [show 10 + 6 * 0 = 10 from rfl] at h
    rw [h]
    congr 1
    split_ifs <;> omega
  · unfold decode_obsh_fp
    rw [if_pos hb3, if_pos hf3, hn3, c3]
    have h := decode_obsh_sys_loop_fp E (opt.nobs i).toNat 0 0 buff3 fp (fun _ => [])
      (by decide)
    rw [show 7 + 4 * 0 = 7 from rfl] at h
    rw [h]
    congr 1
    omega
  · rw [cE]
    unfold decode_obsepoch
    rw [if_pos hver]
    simp only [hnE, htime]
    by_cases h0 : ns = 0
    · subst h0
      rw [if_pos (by decide)]
      rfl
    · rw [if_neg (by omega), if_neg hflag]
      have h := decode_obsepoch_sats_fp E ns 0 0 buffE fp sats (by decide)
      rw [show 32 + 3 * 0 = 32 from rfl] at h
      show (decode_obsepoch_sats E ((ns : Int).toNat) 0 32 buffE fp sats).2.1 = _
      rw [Int.toNat_natCast, h]
      congr 1
      omega

/-- Witness for C34: ten types `C1` (two lines), fourteen GPS types `C1C` (two
lines) and an epoch of thirteen satellites (one break); each reader takes the
one continuation line and leaves the line after it. -/
theorem linewrap_thresholds_witness :
    obshBranch lineTypes2 = 16 ∧ toInt (sampleExt.str2num lineTypes2 0 6) = 10 ∧
    obshBranch lineTypes3 = 14 ∧ toInt (sampleExt.str2num lineTypes3 3 3) = optObs14.nobs 0 ∧
    toInt (sampleExt.str2num lineEpoch13 29 3) = ((13 : Nat) : Int) ∧
    List.count '\n' (outobstype_ver2 10 (fun _ => "C1".toList)) = 2 ∧
    decode_obsh_fp sampleExt 2.11 lineTypes2 [lineTypes2b, lineEpoch13] (fun _ _ => []) =
      [lineEpoch13] ∧
    List.count '\n' (outobstype_ver3_sys sampleExt optObs14 1 'G' 0) = 2 ∧
    decode_obsh_fp sampleExt 2.11 lineTypes3 [lineTypes3b, lineEpoch13] (fun _ _ => []) =
      [lineEpoch13] ∧
    List.count '\n' (outrnxobsb_sats (fun _ => "G01".toList) 13 0) = 1 ∧
    (decode_obsepoch sampleExt [lineEpoch13b, lineObs1] lineEpoch13 2.11 time0 0
      (fun _ => 0)).fp = [lineObs1] := by
  have hb2 : obshBranch lineTypes2 = 16 := by decide
  have hn2 : toInt (sampleExt.str2num lineTypes2 0 6) = 10 := sample_toInt _ _ _ 10 (by decide)
  have hb3 : obshBranch lineTypes3 = 14 := by decide
  have hn3 : toInt (sampleExt.str2num lineTypes3 3 3) = optObs14.nobs 0 :=
    sample_toInt _ _ _ 14 (by decide)
  have hnE : toInt (sampleExt.str2num lineEpoch13 29 3) = ((13 : Nat) : Int) :=
    sample_toInt _ _ _ 13 (by decide)
  have hfl : toInt (sampleExt.str2num lineEpoch13 28 1) = 0 := sample_toInt _ _ _ 0 (by decide)
  have h1 := linewrap_thresholds sampleExt 2.11 [lineTypes2b, lineEpoch13] 10
    (fun _ => "C1".toList) lineTypes2 (fun _ _ => []) optObs14 1 'G' 0 lineTypes3
    (fun _ => "G01".toList) 13 lineEpoch13 time0 { time := 5, sec := 0 } 0 (fun _ => 0)
    (fun _ => show List.count '\n' "C1".toList = 0 by decide) hb2 hn2 (by decide)
    (fun _ => show List.count '\n' "C1C".toList = 0 by decide) (by decide) hb3 (by decide)
    hn3 (fun _ => show List.count '\n' "G01".toList = 0 by decide) (by norm_num) hnE
    (by rw [hfl]; decide) rfl
  have h2 := linewrap_thresholds sampleExt 2.11 [lineEpoch13b, lineObs1] 10
    (fun _ => "C1".toList) lineTypes2 (fun _ _ => []) optObs14 1 'G' 0 lineTypes3
    (fun _ => "G01".toList) 13 lineEpoch13 time0 { time := 5, sec := 0 } 0 (fun _ => 0)
    (fun _ => show List.count '\n' "C1".toList = 0 by decide) hb2 hn2 (by decide)
    (fun _ => show List.count '\n' "C1C".toList = 0 by decide) (by decide) hb3 (by decide)
    hn3 (fun _ => show List.count '\n' "G01".toList = 0 by decide) (by norm_num) hnE
    (by rw [hfl]; decide) rfl
  have h3 := linewrap_thresholds sampleExt 2.11 [lineTypes3b, lineEpoch13] 10
    (fun _ => "C1".toList) lineTypes2 (fun _ _ => []) optObs14 1 'G' 0 lineTypes3
    (fun _ => "G01".toList) 13 lineEpoch13 time0 { time := 5, sec := 0 } 0 (fun _ => 0)
    (fun _ => show List.count '\n' "C1".toList = 0 by decide) hb2 hn2 (by decide)
    (fun _ => show List.count '\n' "C1C".toList = 0 by decide) (by decide) hb3 (by decide)
    hn3 (fun _ => show List.count '\n' "G01".toList = 0 by decide) (by norm_num) hnE
    (by rw [hfl]; decide) rfl
  obtain ⟨a1, a2, a3, -, a5, -⟩ := h1
  obtain ⟨-, -, -, -, -, b6⟩ := h2
  obtain ⟨-, -, -, c4, -, -⟩ := h3
  have e1 : List.count '\n' (outobstype_ver2 10 (fun _ => "C1".toList)) = 2 := by
    rw [a1]; decide
  have e3 : List.count '\n' (outobstype_ver3_sys sampleExt optObs14 1 'G' 0) = 2 := by
    rw [a3]; decide
  have e5 : List.count '\n' (outrnxobsb_sats (fun _ => "G01".toList) 13 0) = 1 := by
    rw [a5]
  refine ⟨hb2, hn2, hb3, hn3, hnE, e1, ?_, e3, ?_, e5, ?_⟩
  · rw [a2, e1]; rfl
  · rw [c4, e3]; rfl
  · rw [b6, e5]; rfl

/-! ### GLONASS slot lines written and read back (C40) -/

theorem decDigits_lt10 (n : Nat) (h : n < 10) : decDigits n = [Char.ofNat (48 + n)] := by
  unfold decDigits
  by_cases h0 : n = 0
  · rw [if_pos h0, h0]
  · rw [if_neg h0, Nat.digits_of_lt 10 n h0 h]
    rfl

theorem decDigits_lt100 (n : Nat) (h1 : 10 ≤ n) (h2 : n < 100) :
    decDigits n = [Char.ofNat (48 + n / 10), Char.ofNat (48 + n % 10)] := by
  unfold decDigits
  rw [if_neg (by omega), Nat.digits_def' (by decide) (by omega),
    Nat.digits_of_lt 10 (n / 10) (by omega) (by omega)]
  rfl

theorem zeroPad2_length (p : Nat) (h : p ≤ 99) : (zeroPad 2 (decDigits p)).length = 2 := by
  rw [zeroPad_length, decDigits_length]
  have := log10_lt p 2 (by decide) (by omega)
  omega

theorem fmtInt2_length (v : Int) (h1 : -9 ≤ v) (h2 : v ≤ 99) : (fmtInt 2 v).length = 2 := by
  by_cases h0 : 0 ≤ v
  · exact fmtInt_length 2 v (by decide) h0 (by omega)
  · unfold fmtInt
    apply padLeft_length
    rw [if_pos (by omega), List.length_append, decDigits_length]
    have := log10_lt v.natAbs 1 (by decide) (by omega)
    simp only [List.length_singleton]
    omega

/-- Members of the list of used slot numbers. -/
theorem mem_gloSlots (E : Ext) (fcn : Nat → Int) (p : Nat) :
    p ∈ gloSlots E fcn ↔ 1 ≤ p ∧ p ≤ E.MAXPRNGLO ∧ 1 ≤ fcn (p - 1) := by
  unfold gloSlots
  rw [List.mem_map]
  constructor
  · rintro ⟨i, hi, rfl⟩
    rw [List.mem_filter, List.mem_range, decide_eq_true_eq] at hi
    exact ⟨by omega, by omega, by rw [Nat.add_sub_cancel]; exact hi.2⟩
  · rintro ⟨h1, h2, h3⟩
    refine ⟨p - 1, ?_, by omega⟩
    rw [List.mem_filter, List.mem_range, decide_eq_true_eq]
    exact ⟨by omega, h3⟩

theorem gloSlots_length (E : Ext) (fcn : Nat → Int) : (gloSlots E fcn).length ≤ E.MAXPRNGLO := by
  unfold gloSlots
  rw [List.length_map]
  calc ((List.range E.MAXPRNGLO).filter _).length ≤ (List.range E.MAXPRNGLO).length :=
        List.length_filter_le _ _
    _ = E.MAXPRNGLO := List.length_range _

theorem outGloSlot_length (E : Ext) (fcn : Nat → Int) (hmax : E.MAXPRNGLO ≤ 99)
    (hr : ∀ i, i < E.MAXPRNGLO → 1 ≤ fcn i → fcn i ≤ 21) (j : Nat) :
    (outGloSlot fcn (gloSlots E fcn) j).length = 7 := by
  unfold outGloSlot
  by_cases hj : j < (gloSlots E fcn).length
  · rw [if_pos hj]
    have hm : (gloSlots E fcn).getD j 0 ∈ gloSlots E fcn := by
      rw [List.getD_eq_getElem _ _ hj]
      exact List.getElem_mem _
    obtain ⟨m1, m2, m3⟩ := (mem_gloSlots E fcn _).mp hm
    have hv := hr ((gloSlots E fcn).getD j 0 - 1) (by omega) m3
    simp only [List.length_append, zeroPad2_length _ (by omega : (gloSlots E fcn).getD j 0 ≤ 99),
      fmtInt2_length _ (by omega : -9 ≤ fcn ((gloSlots E fcn).getD j 0 - 1) - 8) (by omega)]
    rfl
  · rw [if_neg hj]
    rfl

theorem outGloSlot_head (fcn : Nat → Int) (prn : List Nat) (j : Nat) :
    ∃ r, outGloSlot fcn prn j = ' ' :: r := by
  unfold outGloSlot
  split_ifs
  · exact ⟨_, rfl⟩
  · exact ⟨_, rfl⟩

theorem flatten_blocks_drop (tail : List Char) : ∀ (bs : List (List Char)) (k : Nat),
    (∀ b ∈ bs, b.length = 7) → k ≤ bs.length →
    (bs.flatten ++ tail).drop (7 * k) = (bs.drop k).flatten ++ tail := by
  intro bs
  induction bs with
  | nil =>
    intro k _ hk
    have : k = 0 := by simpa using hk
    subst this
    rfl
  | cons b bs ih =>
    intro k hb hk
    cases k with
    | zero => rfl
    | succ k =>
      have h7 : b.length = 7 := hb b (List.mem_cons_self _ _)
      rw [List.flatten_cons, List.append_assoc, List.drop_succ_cons,
        show 7 * (k + 1) = b.length + 7 * k by rw [h7]; ring, List.drop_append]
      exact ih k (fun x hx => hb x (List.mem_cons_of_mem _ hx)) (by simpa using hk)

theorem outGloLine_blocks (fcn : Nat → Int) (prn : List Nat) (i : Nat) :
    outGloLine fcn prn i =
      (if i = 0 then fmtInt 3 prn.length else "   ".toList) ++
      (((List.range 8).map (fun k => outGloSlot fcn prn (8 * i + k))).flatten ++
        ' ' :: (padRight 20 "GLONASS SLOT / FRQ #".toList ++ ['\n'])) := by
  unfold outGloLine
  have hr : List.range 8 = [0, 1, 2, 3, 4, 5, 6, 7] := rfl
  rw [hr]
  simp only [List.map_cons, List.map_nil, List.flatten_cons, List.flatten_nil, List.append_nil,
    List.append_assoc, List.singleton_append, Nat.add_zero, List.cons_append, List.nil_append]

theorem outGloLine_head_length (E : Ext) (fcn : Nat → Int) (hmax : E.MAXPRNGLO ≤ 99) (i : Nat) :
    (if i = 0 then fmtInt 3 (gloSlots E fcn).length else "   ".toList).length = 3 := by
  split_ifs
  · have := gloSlots_length E fcn
    exact fmtInt_length 3 _ (by decide) (by omega) (by norm_num; omega)
  · rfl

theorem drop_head3 (h l : List Char) (n : Nat) (hl : h.length = 3) :
    (h ++ l).drop (3 + n) = l.drop n := by
  rw [← hl, List.drop_append]

theorem flatten_blank_head (tail : List Char) : ∀ bs : List (List Char),
    (∀ b ∈ bs, ∃ r, b = ' ' :: r) → ∃ r, bs.flatten ++ ' ' :: tail = ' ' :: r := by
  intro bs hb
  cases bs with
  | nil => exact ⟨tail, rfl⟩
  | cons b bs =>
    obtain ⟨r, hr⟩ := hb b (List.mem_cons_self _ _)
    rw [List.flatten_cons, hr]
    exact ⟨_, rfl⟩

/-- Text at the place `buff+4+7k` of a line written by `outrnxobsh`, where
`decode_obsh` reads slot `k`: for a used slot the letter `R`, the slot number
in two digits, a blank, the frequency number less 8 in two columns and a blank;
for an unused slot a blank. -/
theorem outGloLine_slot (E : Ext) (fcn : Nat → Int) (hmax : E.MAXPRNGLO ≤ 99)
    (hr : ∀ i, i < E.MAXPRNGLO → 1 ≤ fcn i → fcn i ≤ 21) (i k : Nat) (hk : k < 8) :
    ∃ rest, (outGloLine fcn (gloSlots E fcn) i).drop (4 + 7 * k) =
      if 8 * i + k < (gloSlots E fcn).length then
        'R' :: (zeroPad 2 (decDigits ((gloSlots E fcn).getD (8 * i + k) 0)) ++ [' '] ++
          fmtInt 2 (fcn ((gloSlots E fcn).getD (8 * i + k) 0 - 1) - 8) ++ ' ' :: rest)
      else ' ' :: rest := by
  have hlen : ((List.range 8).map
      (fun k => outGloSlot fcn (gloSlots E fcn) (8 * i + k))).length = 8 := by
    rw [List.length_map, List.length_range]
  have hall : ∀ b ∈ (List.range 8).map (fun k => outGloSlot fcn (gloSlots E fcn) (8 * i + k)),
      b.length = 7 := by
    intro b hb
    obtain ⟨x, -, rfl⟩ := List.mem_map.mp hb
    exact outGloSlot_length E fcn hmax hr _
  have hhead : ∀ b ∈ ((List.range 8).map
      (fun k => outGloSlot fcn (gloSlots E fcn) (8 * i + k))).drop (k + 1),
      ∃ r, b = ' ' :: r := by
    intro b hb
    obtain ⟨x, -, rfl⟩ := List.mem_map.mp (List.mem_of_mem_drop hb)
    exact outGloSlot_head fcn _ _
  obtain ⟨r1, hr1⟩ := flatten_blank_head
    (padRight 20 "GLONASS SLOT / FRQ #".toList ++ ['\n']) _ hhead
  have hdrop : (outGloLine fcn (gloSlots E fcn) i).drop (3 + 7 * k) =
      outGloSlot fcn (gloSlots E fcn) (8 * i + k) ++ ' ' :: r1 := by
    rw [outGloLine_blocks, drop_head3 _ _ _ (outGloLine_head_length E fcn hmax i),
      flatten_blocks_drop _ _ k hall (by rw [hlen]; omega),
      List.drop_eq_getElem_cons (by rw [hlen]; exact hk), List.flatten_cons, List.append_assoc,
      hr1, List.getElem_map, List.getElem_range]
  have h4 : 4 + 7 * k = (3 + 7 * k) + 1 := by ring
  rw [h4, ← List.drop_drop, hdrop]
  unfold outGloSlot
  by_cases hj : 8 * i + k < (gloSlots E fcn).length
  · refine ⟨r1, ?_⟩
    rw [if_pos hj, if_pos hj]
    simp only [List.append_assoc]
    rfl
  · refine ⟨padLeft 5 [] ++ ' ' :: r1, ?_⟩
    rw [if_neg hj, if_neg hj]
    rfl

/-- A line written by `outrnxobsh` for the slot table takes the branch
`GLONASS SLOT / FRQ #` of `decode_obsh`. -/
theorem outGloLine_branch (E : Ext) (fcn : Nat → Int) (hmax : E.MAXPRNGLO ≤ 99)
    (hr : ∀ i, i < E.MAXPRNGLO → 1 ≤ fcn i → fcn i ≤ 21) (i : Nat) :
    obshBranch (outGloLine fcn (gloSlots E fcn) i) = 26 := by
  have hlen : ((List.range 8).map
      (fun k => outGloSlot fcn (gloSlots E fcn) (8 * i + k))).length = 8 := by
    rw [List.length_map, List.length_range]
  have hall : ∀ b ∈ (List.range 8).map (fun k => outGloSlot fcn (gloSlots E fcn) (8 * i + k)),
      b.length = 7 := by
    intro b hb
    obtain ⟨x, -, rfl⟩ := List.mem_map.mp hb
    exact outGloSlot_length E fcn hmax hr _
  have h59 : (outGloLine fcn (gloSlots E fcn) i).drop (3 + 7 * 8) =
      ' ' :: (padRight 20 "GLONASS SLOT / FRQ #".toList ++ ['\n']) := by
    have hnil : ((List.range 8).map
        (fun k => outGloSlot fcn (gloSlots E fcn) (8 * i + k))).drop 8 = [] :=
      List.drop_of_length_le (by rw [hlen])
    rw [outGloLine_blocks, drop_head3 _ _ _ (outGloLine_head_length E fcn hmax i),
      flatten_blocks_drop _ _ 8 hall (by rw [hlen]), hnil]
    rfl
  have hdrop : (outGloLine fcn (gloSlots E fcn) i).drop 60 =
      padRight 20 "GLONASS SLOT / FRQ #".toList ++ ['\n'] := by
    rw [show 60 = (3 + 7 * 8) + 1 from rfl, ← List.drop_drop, h59]
    rfl
  unfold obshBranch
  rw [hdrop]
  decide

/-- Reading slot `k` of line `i` written by `outrnxobsh`: the table entry of
the slot number takes the value of the table that was written. -/
theorem decode_glo_slot (E : Ext) (fcn : Nat → Int) (hmax : E.MAXPRNGLO ≤ 99)
    (hr : ∀ i, i < E.MAXPRNGLO → 1 ≤ fcn i → fcn i ≤ 21)
    (hscan : ∀ (prn : Nat) (v : Int) (rest : List Char), 1 ≤ prn → prn ≤ E.MAXPRNGLO →
      -7 ≤ v → v ≤ 13 →
      E.scanSlot ('R' :: (zeroPad 2 (decDigits prn) ++ [' '] ++ fmtInt 2 v ++ ' ' :: rest)) =
        some ((prn : Int), v))
    (hblank : ∀ rest, E.scanSlot (' ' :: rest) = none) (i k : Nat) (hk : k < 8)
    (t : Nat → Int) :
    (match E.scanSlot ((outGloLine fcn (gloSlots E fcn) i).drop (4 + 7 * k)) with
     | some (prn, v) =>
       if 1 ≤ prn ∧ prn ≤ (E.MAXPRNGLO : Int) then Function.update t (prn - 1).toNat (v + 8)
       else t
     | none => t) = gloApply fcn (gloSlots E fcn) (8 * i + k) t := by
  obtain ⟨rest, hrest⟩ := outGloLine_slot E fcn hmax hr i k hk
  rw [hrest]
  unfold gloApply
  by_cases hj : 8 * i + k < (gloSlots E fcn).length
  · rw [if_pos hj, if_pos hj]
    have hm : (gloSlots E fcn).getD (8 * i + k) 0 ∈ gloSlots E fcn := by
      rw [List.getD_eq_getElem _ _ hj]
      exact List.getElem_mem _
    obtain ⟨m1, m2, m3⟩ := (mem_gloSlots E fcn _).mp hm
    have hv := hr ((gloSlots E fcn).getD (8 * i + k) 0 - 1) (by omega) m3
    rw [hscan _ _ rest m1 m2 (by omega) (by omega)]
    dsimp only
    rw [if_pos ⟨by omega, by exact_mod_cast m2⟩]
    have e1 : (((gloSlots E fcn).getD (8 * i + k) 0 : Nat) - 1 : Int).toNat =
        (gloSlots E fcn).getD (8 * i + k) 0 - 1 := by omega
    have e2 : fcn ((gloSlots E fcn).getD (8 * i + k) 0 - 1) - 8 + 8 =
        fcn ((gloSlots E fcn).getD (8 * i + k) 0 - 1) := by ring
    rw [e1, e2]
  · rw [if_neg hj, if_neg hj, hblank]

theorem decode_obsh_glo_loop_line (E : Ext) (fcn : Nat → Int) (hmax : E.MAXPRNGLO ≤ 99)
    (hr : ∀ i, i < E.MAXPRNGLO → 1 ≤ fcn i → fcn i ≤ 21)
    (hscan : ∀ (prn : Nat) (v : Int) (rest : List Char), 1 ≤ prn → prn ≤ E.MAXPRNGLO →
      -7 ≤ v → v ≤ 13 →
      E.scanSlot ('R' :: (zeroPad 2 (decDigits prn) ++ [' '] ++ fmtInt 2 v ++ ' ' :: rest)) =
        some ((prn : Int), v))
    (hblank : ∀ rest, E.scanSlot (' ' :: rest) = none) (i : Nat) :
    ∀ (fuel k : Nat) (t : Nat → Int), k + fuel ≤ 8 →
    decode_obsh_glo_loop E (outGloLine fcn (gloSlots E fcn) i) fuel k t =
      (List.range' k fuel).foldl (fun t k => gloApply fcn (gloSlots E fcn) (8 * i + k) t) t := by
  intro fuel
  induction fuel with
  | zero => intro k t _; rfl
  | succ fuel ih =>
    intro k t hk
    unfold decode_obsh_glo_loop
    rw [decode_glo_slot E fcn hmax hr hscan hblank i k (by omega) t,
      ih (k + 1) _ (by omega)]
    rfl

/-- Pointwise value of a table after the slots `js` have been applied. -/
theorem gloApply_foldl (fcn : Nat → Int) (prn : List Nat) (x : Nat) :
    ∀ (js : List Nat) (t : Nat → Int),
    (js.foldl (fun t j => gloApply fcn prn j t) t) x =
      if ∃ j ∈ js, j < prn.length ∧ prn.getD j 0 - 1 = x then fcn x else t x := by
  intro js
  induction js with
  | nil =>
    intro t
    rw [if_neg (by rintro ⟨j, hj, -⟩; exact absurd hj (List.not_mem_nil j))]
    rfl
  | cons j js ih =>
    intro t
    rw [List.foldl_cons, ih]
    by_cases h1 : ∃ j2 ∈ js, j2 < prn.length ∧ prn.getD j2 0 - 1 = x
    · obtain ⟨j2, hj2, hc⟩ := h1
      rw [if_pos ⟨j2, hj2, hc⟩, if_pos ⟨j2, List.mem_cons_of_mem _ hj2, hc⟩]
    · rw [if_neg h1]
      unfold gloApply
      by_cases h2 : j < prn.length ∧ prn.getD j 0 - 1 = x
      · rw [if_pos h2.1, if_pos ⟨j, List.mem_cons_self _ _, h2⟩, ← h2.2, Function.update_same]
      · have h3 : ¬ ∃ j2 ∈ j :: js, j2 < prn.length ∧ prn.getD j2 0 - 1 = x := by
          rintro ⟨j2, hj2, hc⟩
          rcases List.mem_cons.mp hj2 with rfl | hm
          · exact h2 hc
          · exact h1 ⟨j2, hm, hc⟩
        rw [if_neg h3]
        by_cases h4 : j < prn.length
        · rw [if_pos h4, Function.update_noteq (fun e => h2 ⟨h4, e.symm⟩)]
        · rw [if_neg h4]

theorem decode_obsh_glo_line (E : Ext) (fcn : Nat → Int) (hmax : E.MAXPRNGLO ≤ 99)
    (hr : ∀ i, i < E.MAXPRNGLO → 1 ≤ fcn i → fcn i ≤ 21)
    (hscan : ∀ (prn : Nat) (v : Int) (rest : List Char), 1 ≤ prn → prn ≤ E.MAXPRNGLO →
      -7 ≤ v → v ≤ 13 →
      E.scanSlot ('R' :: (zeroPad 2 (decDigits prn) ++ [' '] ++ fmtInt 2 v ++ ' ' :: rest)) =
        some ((prn : Int), v))
    (hblank : ∀ rest, E.scanSlot (' ' :: rest) = none) (i : Nat) (t : Nat → Int) :
    decode_obsh_glo E (outGloLine fcn (gloSlots E fcn) i) t =
      ((List.range' 0 8).map (fun k => 8 * i + k)).foldl
        (fun t j => gloApply fcn (gloSlots E fcn) j t) t := by
  unfold decode_obsh_glo
  rw [if_pos (outGloLine_branch E fcn hmax hr i),
    decode_obsh_glo_loop_line E fcn hmax hr hscan hblank i 8 0 t (by decide), List.foldl_map]

theorem decode_obsh_glo_lines (E : Ext) (fcn : Nat → Int) (hmax : E.MAXPRNGLO ≤ 99)
    (hr : ∀ i, i < E.MAXPRNGLO → 1 ≤ fcn i → fcn i ≤ 21)
    (hscan : ∀ (prn : Nat) (v : Int) (rest : List Char), 1 ≤ prn → prn ≤ E.MAXPRNGLO →
      -7 ≤ v → v ≤ 13 →
      E.scanSlot ('R' :: (zeroPad 2 (decDigits prn) ++ [' '] ++ fmtInt 2 v ++ ' ' :: rest)) =
        some ((prn : Int), v))
    (hblank : ∀ rest, E.scanSlot (' ' :: rest) = none) :
    ∀ (is : List Nat) (g : Nat → Int),
    (is.map (outGloLine fcn (gloSlots E fcn))).foldl (fun t line => decode_obsh_glo E line t) g =
      ((is.map (fun i => (List.range' 0 8).map (fun k => 8 * i + k))).flatten).foldl
        (fun t j => gloApply fcn (gloSlots E fcn) j t) g := by
  intro is
  induction is with
  | nil => intro g; rfl
  | cons i is ih =>
    intro g
    rw [List.map_cons, List.foldl_cons, List.map_cons, List.flatten_cons, List.foldl_append,
      decode_obsh_glo_line E fcn hmax hr hscan hblank i g, ih]

/-- The slots of the lines written cover every used slot number. -/
theorem gloSlots_covered (E : Ext) (fcn : Nat → Int) (x : Nat) :
    (∃ j ∈ ((List.range (if (gloSlots E fcn).length ≤ 0 then 1
        else ((gloSlots E fcn).length - 1) / 8 + 1)).map
        (fun i => (List.range' 0 8).map (fun k => 8 * i + k))).flatten,
      j < (gloSlots E fcn).length ∧ (gloSlots E fcn).getD j 0 - 1 = x) ↔
    (x < E.MAXPRNGLO ∧ 1 ≤ fcn x) := by
  constructor
  · rintro ⟨j, -, hj, hx⟩
    have hm : (gloSlots E fcn).getD j 0 ∈ gloSlots E fcn := by
      rw [List.getD_eq_getElem _ _ hj]
      exact List.getElem_mem _
    obtain ⟨m1, m2, m3⟩ := (mem_gloSlots E fcn _).mp hm
    rw [hx] at m3
    exact ⟨by omega, m3⟩
  · rintro ⟨h1, h2⟩
    have hm : x + 1 ∈ gloSlots E fcn :=
      (mem_gloSlots E fcn (x + 1)).mpr ⟨by omega, by omega, by rw [Nat.add_sub_cancel]; exact h2⟩
    obtain ⟨j, hj, he⟩ := List.getElem_of_mem hm
    refine ⟨j, ?_, hj, ?_⟩
    · rw [List.mem_flatten]
      refine ⟨(List.range' 0 8).map (fun k => 8 * (j / 8) + k), ?_, ?_⟩
      · rw [List.mem_map]
        refine ⟨j / 8, ?_, rfl⟩
        rw [List.mem_range]
        split_ifs <;> omega
      · rw [List.mem_map]
        refine ⟨j % 8, ?_, by omega⟩
        rw [List.mem_range']
        exact ⟨j % 8, by omega, by omega⟩
    · rw [List.getD_eq_getElem _ _ hj, he, Nat.add_sub_cancel]

/-- C40: for a slot table whose used entries (`glo_fcn[prn-1] >= 1`) are at
most 21, with at most 99 slots and a `sscanf` that reads back a slot written
as `R`, two digits, a blank and a number of two columns, and reads nothing
from a blank slot: every line `GLONASS SLOT / FRQ #` that `outrnxobsh` writes
takes the branch of that label in `decode_obsh`, and after decoding all the
lines, starting from any table `g`, the entry of every used slot is the value
of the table written and every other entry is as it was in `g`. -/
theorem glo_slot_round_trip (E : Ext) (fcn g : Nat → Int) (hmax : E.MAXPRNGLO ≤ 99)
    (hr : ∀ i, i < E.MAXPRNGLO → 1 ≤ fcn i → fcn i ≤ 21)
    (hscan : ∀ (prn : Nat) (v : Int) (rest : List Char), 1 ≤ prn → prn ≤ E.MAXPRNGLO →
      -7 ≤ v → v ≤ 13 →
      E.scanSlot ('R' :: (zeroPad 2 (decDigits prn) ++ [' '] ++ fmtInt 2 v ++ ' ' :: rest)) =
        some ((prn : Int), v))
    (hblank : ∀ rest, E.scanSlot (' ' :: rest) = none) :
    (∀ line ∈ outrnxobsh_glo E fcn, obshBranch line = 26) ∧
    ∀ x, ((outrnxobsh_glo E fcn).foldl (fun t line => decode_obsh_glo E line t) g) x =
      if x < E.MAXPRNGLO ∧ 1 ≤ fcn x then fcn x else g x := by
  constructor
  · intro line hl
    unfold outrnxobsh_glo at hl
    obtain ⟨i, -, rfl⟩ := List.mem_map.mp hl
    exact outGloLine_branch E fcn hmax hr i
  · intro x
    unfold outrnxobsh_glo
    rw [decode_obsh_glo_lines E fcn hmax hr hscan hblank, gloApply_foldl]
    by_cases hx : x < E.MAXPRNGLO ∧ 1 ≤ fcn x
    · rw [if_pos ((gloSlots_covered E fcn x).mpr hx), if_pos hx]
    · rw [if_neg (fun h => hx ((gloSlots_covered E fcn x).mp h)), if_neg hx]

theorem sampleScanInt2_prn (prn : Nat) (h1 : 1 ≤ prn) (h2 : prn ≤ 27) (tail : List Char) :
    sampleScanInt2 (zeroPad 2 (decDigits prn) ++ tail) = some ((prn : Int), tail) := by
  by_cases h : prn < 10
  · rw [decDigits_lt10 prn h]
    interval_cases prn <;> rfl
  · rw [decDigits_lt100 prn (by omega) (by omega)]
    interval_cases prn <;> rfl

theorem sampleScanInt2_fcn (v : Int) (h1 : -7 ≤ v) (h2 : v ≤ 13) (rest : List Char) :
    ∃ r, sampleScanInt2 ([' '] ++ (fmtInt 2 v ++ ' ' :: rest)) = some (v, r) := by
  unfold fmtInt
  by_cases h0 : v < 0
  · rw [if_pos h0]
    have hn : v.natAbs < 10 := by omega
    rw [decDigits_lt10 _ hn]
    interval_cases v <;> exact ⟨_, rfl⟩
  · rw [if_neg h0]
    by_cases h : v.natAbs < 10
    · rw [decDigits_lt10 _ h]
      interval_cases v <;> first
        | exact ⟨_, rfl⟩
        | exact absurd h (by decide)
    · rw [decDigits_lt100 _ (by omega) (by omega)]
      interval_cases v <;> exact ⟨_, rfl⟩

theorem sampleScanSlot_written (prn : Nat) (v : Int) (rest : List Char) (h1 : 1 ≤ prn)
    (h2 : prn ≤ sampleExt.MAXPRNGLO) (h3 : -7 ≤ v) (h4 : v ≤ 13) :
    sampleExt.scanSlot
      ('R' :: (zeroPad 2 (decDigits prn) ++ [' '] ++ fmtInt 2 v ++ ' ' :: rest)) =
      some ((prn : Int), v) := by
  have e : sampleExt.scanSlot = sampleScanSlot := rfl
  have h27 : prn ≤ 27 := h2
  rw [e]
  unfold sampleScanSlot
  obtain ⟨r, hr⟩ := sampleScanInt2_fcn v h3 h4 rest
  simp only [List.append_assoc]
  rw [sampleScanInt2_prn prn h1 h27]
  simp only [hr]

/-- Witness for C40: the sample table (slots 1 to 9 and 21 used, two lines
written) is restored over a table that held 5 everywhere; the unused entries
stay 5. -/
theorem glo_slot_round_trip_witness :
    sampleExt.MAXPRNGLO ≤ 99 ∧
    (∀ i, i < sampleExt.MAXPRNGLO → 1 ≤ sampleGloFcn i → sampleGloFcn i ≤ 21) ∧
    (outrnxobsh_glo sampleExt sampleGloFcn).length = 2 ∧
    (∀ line ∈ outrnxobsh_glo sampleExt sampleGloFcn, obshBranch line = 26) ∧
    ∀ x, ((outrnxobsh_glo sampleExt sampleGloFcn).foldl
        (fun t line => decode_obsh_glo sampleExt line t) (fun _ => 5)) x =
      if x < sampleExt.MAXPRNGLO ∧ 1 ≤ sampleGloFcn x then sampleGloFcn x else 5 :=
  have hmax : sampleExt.MAXPRNGLO ≤ 99 := by decide
  have hr : ∀ i, i < sampleExt.MAXPRNGLO → 1 ≤ sampleGloFcn i → sampleGloFcn i ≤ 21 := by
    intro i _ _
    unfold sampleGloFcn
    split_ifs <;> omega
  have hlen : (outrnxobsh_glo sampleExt sampleGloFcn).length = 2 := by decide
  have h := glo_slot_round_trip sampleExt sampleGloFcn (fun _ => 5) hmax hr
    sampleScanSlot_written (fun _ => rfl)
  ⟨hmax, hr, hlen, h.1, h.2⟩

end Rinex
